import Mathlib

/-!
# t7xx WWAN host driver: descriptor rings and exception handshake

A shallow embedding of the transport core of the MediaTek t7xx modem driver
(`drivers/net/wwan/t7xx`):

* the CLDMA control-channel queues of `t7xx_hif_cldma.c` (GPD rings), with the
  receive callback `t7xx_port_proxy_recv_skb` of `t7xx_port_proxy.c`,
* the DPMAIF transmit ring of `t7xx_hif_dpmaif_tx.c` (DRB ring),
* the exception handshake of `t7xx_modem_ops.c`.

Conventions of the embedding.

* A ring of `struct cldma_request` linked through `entry` is the list of its
  requests in list order; a pointer to a request is its position in that list,
  `none` is the NULL pointer.
* Everything the driver cannot decide by itself (register reads, results of
  kernel services, the verdict of a callback) is read from an environment
  `cldma_env`; the `n`-th question asked during a run is answered by the value
  of the matching field at `n`, and `tick` counts the questions asked so far.
* Calls that leave the driver (register writes, kernel services) are appended
  to `log` in program order.
* A function returns `none` when the C function does not return: it follows a
  NULL or dangling request pointer, or it waits for ever.
-/

namespace T7xx

/-! ## Kernel constants -/

/-- Value of errno EAGAIN. -/
def EAGAIN : Int := 11
/-- Value of errno ENOMEM. -/
def ENOMEM : Int := 12
/-- Value of errno EACCES. -/
def EACCES : Int := 13
/-- Value of errno EFAULT. -/
def EFAULT : Int := 14
/-- Value of errno EBUSY. -/
def EBUSY : Int := 16
/-- Value of errno ENODEV. -/
def ENODEV : Int := 19
/-- Value of errno EINVAL. -/
def EINVAL : Int := 22
/-- Value of errno ENODATA. -/
def ENODATA : Int := 61
/-- Value of errno ETIMEDOUT. -/
def ETIMEDOUT : Int := 110
/-- Value of the kernel-internal ERESTARTSYS. -/
def ERESTARTSYS : Int := 512

/-- Kernel macro `BIT(n)`. -/
def BIT (n : Nat) : Nat := 1 <<< n

/-- Kernel constant `DMA_MAPPING_ERROR`, the all-ones bus address. -/
def DMA_MAPPING_ERROR : Nat := 2 ^ 64 - 1

/-- Kernel helper `dma_mapping_error`. -/
def dma_mapping_error (addr : Nat) : Bool := addr == DMA_MAPPING_ERROR

/-- Clearing the bits of `mask` in a 16-bit field, `x &= ~mask`. The status
fields `txq_active` and `rxq_active` are declared in `t7xx_hif_cldma.h`, which
is not among the sources; they are taken to be 16 bits wide, enough for the
eight bits of `TXRX_STATUS_BITMASK`. -/
def clear_bits16 (x mask : Nat) : Nat := x &&& (0xFFFF ^^^ (mask &&& 0xFFFF))

/-! ## CLDMA data model (`t7xx_hif_cldma.c`) -/

/-- Modelled from the spec: the macro `CLDMA_TXQ_NUM` is declared in
`t7xx_cldma.h`, which is not among the sources, and the spec gives no number
for it. Eight transmit queues are taken: `t7xx_hif_cldma.c` indexes its
per-queue tables up to entry 7. -/
def CLDMA_TXQ_NUM : Nat := 8
/-- Modelled from the spec: the macro `CLDMA_RXQ_NUM` is declared in
`t7xx_cldma.h`, which is not among the sources; eight receive queues are
taken, as for `CLDMA_TXQ_NUM`. -/
def CLDMA_RXQ_NUM : Nat := 8
/-- Modelled from the spec: the macro `CLDMA_ALL_Q`, the queue number that
stands for all queues, is declared in `t7xx_cldma.h`, which is not among the
sources. The largest `unsigned char` is taken; any value that is not the
number of a queue serves. -/
def CLDMA_ALL_Q : Nat := 0xff
/-- Modelled from the spec: the macro `TXRX_STATUS_BITMASK` is declared in
`t7xx_cldma.h`, which is not among the sources. One status bit for each of the
eight queues of a direction is taken. -/
def TXRX_STATUS_BITMASK : Nat := 0xff
/-- Ring length given to every transmit ring by `t7xx_cldma_late_init`. -/
def MAX_TX_BUDGET : Nat := 16
/-- Ring length given to every receive ring by `t7xx_cldma_late_init`. -/
def MAX_RX_BUDGET : Nat := 16

/-- Direction of a queue, `enum mtk_txrx`. -/
inductive mtk_txrx where
  | MTK_TX
  | MTK_RX
deriving DecidableEq, Repr

/-- The two CLDMA controllers, `enum cldma_id` (declared in
`t7xx_hif_cldma.h`, which is not among the sources; the sources use these two
values). -/
inductive cldma_id where
  | ID_CLDMA0
  | ID_CLDMA1
deriving DecidableEq, Repr

/-- A packet buffer, `struct sk_buff`: its identity, the total length of its
data, the length of the linear part, the sizes of its page fragments, and the
control-block entries the DPMAIF code keeps in it. -/
structure sk_buff where
  id : Nat
  len : Nat
  headlen : Nat := len
  frags : List Nat := []
  frag_list : Bool := false
  cb_qtype : Nat := 0
  cb_netif_idx : Nat := 0
  cb_drb_cnt : Nat := 0
deriving DecidableEq, Repr

/-- The flag byte of a GPD. The driver uses two of its bits, `GPD_FLAGS_HWO`
(the descriptor belongs to the hardware) and `GPD_FLAGS_IOC`. -/
structure gpd_flags where
  hwo : Bool
  ioc : Bool
deriving DecidableEq, Repr

/-- A generic packet descriptor in device-visible memory (`struct cldma_tgpd`,
`struct cldma_rgpd`); the two halves of each address are kept as one number.
The structures are declared in `t7xx_cldma.h`, which is not among the sources;
the fields are those `t7xx_hif_cldma.c` reads and writes. -/
structure cldma_gpd where
  flags : gpd_flags
  data_buff_bd_ptr : Nat
  data_buff_len : Nat
  data_allow_len : Nat
  next_gpd_ptr : Nat
deriving DecidableEq, Repr

/-- Host-side record of one ring entry, `struct cldma_request`. This structure
and the three that follow are declared in `t7xx_hif_cldma.h`, which is not
among the sources; their fields are those `t7xx_hif_cldma.c` reads and writes. -/
structure cldma_request where
  gpd : cldma_gpd
  gpd_addr : Nat
  skb : Option sk_buff
  mapped_buff : Nat
deriving DecidableEq, Repr

/-- Ring of requests, `struct cldma_ring`. -/
structure cldma_ring where
  gpd_ring : List cldma_request
  length : Nat
  pkt_size : Nat
deriving DecidableEq, Repr

/-- One queue, `struct cldma_queue`. `tr_ring` points to the ring of the same
index in the controller; the ring is kept with its queue. In C the pointer is
NULL from `md_cd_queue_struct_reset` until `t7xx_cldma_late_init` has bound the
rings; the model holds queues whose ring is bound, so whatever is stated of a
function that follows `tr_ring` is stated of controllers after late
initialisation. -/
structure cldma_queue where
  dir : mtk_txrx
  index : Nat
  tr_ring : cldma_ring
  tr_done : Option Nat
  tx_xmit : Option Nat
  rx_refill : Option Nat
  budget : Int
deriving DecidableEq, Repr

/-- Calls that leave the CLDMA code, in the order they are made. -/
inductive cldma_event where
  | hw_stop_queue (qno : Nat) (tx_rx : mtk_txrx)
  | hw_start_queue (qno : Nat) (tx_rx : mtk_txrx)
  | hw_resume_queue (qno : Nat) (tx_rx : mtk_txrx)
  | hw_set_start_addr (qno : Nat) (addr : Nat) (tx_rx : mtk_txrx)
  | hw_init
  | hw_start
  | hw_stop (tx_rx : mtk_txrx)
  | hw_reset
  | hw_tx_done (bitmask : Nat)
  | hw_rx_done (bitmask : Nat)
  | hw_tx_done_all
  | hw_rx_done_all
  | hw_irq_dis_eq (qno : Nat) (tx_rx : mtk_txrx)
  | hw_irq_dis_txrx (qno : Nat) (tx_rx : mtk_txrx)
  | hw_irq_en_eq (qno : Nat) (tx_rx : mtk_txrx)
  | hw_irq_en_txrx (qno : Nat) (tx_rx : mtk_txrx)
  | clear_ip_busy
  | enable_irq
  | disable_irq
  | dev_err_dma_mapping_failed
  | dev_err_link_disconnected
  | dev_err_queue_not_empty (qno : Nat)
  | dev_err_could_not_stop
  | dma_unmap_single (addr : Nat) (len : Nat) (tx_rx : mtk_txrx)
  | dev_kfree_skb_any (skb : Option sk_buff)
  | wake_up_nr (nr : Nat)
  | pci_disable_sleep
  | pci_enable_sleep
  | pm_runtime_mark_last_busy
  | pm_runtime_put_autosuspend
  | queue_work (tx_rx : mtk_txrx) (qno : Nat)
  | flush_work (tx_rx : mtk_txrx) (qno : Nat)
  | recv_skb (qno : Nat) (skb : sk_buff)
  | udelay
  | dma_pool_free (addr : Nat)
  | kfree
  | kfree_sensitive
deriving DecidableEq, Repr

/-- CLDMA controller, `struct cldma_ctrl`, with the log of outgoing calls and
the count of questions asked to the environment. -/
structure cldma_ctrl where
  hif_id : cldma_id
  txq : List cldma_queue
  rxq : List cldma_queue
  txq_active : Nat
  rxq_active : Nat
  txq_started : Nat
  is_late_init : Bool
  log : List cldma_event
  tick : Nat
deriving DecidableEq, Repr

/-- Answers of everything outside the caller, indexed by the number of the
question (`cldma_ctrl.tick`): the kernel, the hardware, the callback of the
port layer, and, in `flush_work`, the work item of a queue that runs on a
worker thread beside the caller. -/
structure cldma_env where
  pm_runtime_resume_and_get : Nat → Int
  sleep_disable_complete : Nat → Bool
  dma_map_single : Nat → Nat
  dev_alloc_skb : Nat → Option sk_buff
  tx_addr_is_set : Nat → Bool
  hw_queue_status : Nat → Nat
  hw_int_status : Nat → Nat
  ioread64 : Nat → Nat
  pci_device_is_present : Nat → Bool
  kthread_should_stop : Nat → Bool
  need_resched : Nat → Bool
  recv_skb : Nat → Nat → sk_buff → Int
  signal_pending : Nat → Bool
  ktime_after_deadline : Nat → Bool
  kzalloc : Nat → Bool
  dma_pool_zalloc : Nat → Option Nat
  flush_work : Nat → mtk_txrx → Nat → Option cldma_queue

/-- Append an outgoing call to the log. -/
def cldma_ctrl.emit (md : cldma_ctrl) (e : cldma_event) : cldma_ctrl :=
  { md with log := md.log ++ [e] }

/-- Count one question asked to the environment. -/
def cldma_ctrl.asked (md : cldma_ctrl) : cldma_ctrl :=
  { md with tick := md.tick + 1 }

/-- Store a transmit queue back into the controller. -/
def cldma_ctrl.set_txq (md : cldma_ctrl) (qno : Nat) (q : cldma_queue) : cldma_ctrl :=
  { md with txq := md.txq.set qno q }

/-- Store a receive queue back into the controller. -/
def cldma_ctrl.set_rxq (md : cldma_ctrl) (qno : Nat) (q : cldma_queue) : cldma_ctrl :=
  { md with rxq := md.rxq.set qno q }

/-- Overwrite one request of the queue's ring. -/
def cldma_queue.set_req (q : cldma_queue) (i : Nat) (r : cldma_request) : cldma_queue :=
  { q with tr_ring := { q.tr_ring with gpd_ring := q.tr_ring.gpd_ring.set i r } }

/-- The function `t7xx_cldma_ring_step_forward`: the request after `req`, the
first one after the last. -/
def t7xx_cldma_ring_step_forward (ring : cldma_ring) (req : Nat) : Nat :=
  if req + 1 = ring.gpd_ring.length then 0 else req + 1

/-- The function `t7xx_cldma_ring_step_backward`: the request before `req`,
the last one before the first. -/
def t7xx_cldma_ring_step_backward (ring : cldma_ring) (req : Nat) : Nat :=
  if req = 0 then ring.gpd_ring.length - 1 else req - 1

/-- The function `t7xx_cldma_queue_reset`: both cursors go back to the first
request and the budget to the ring length. The function follows
`queue->tr_ring`; on a queue whose ring is not bound yet the C code faults, a
case the model does not hold (see `cldma_queue`). -/
def t7xx_cldma_queue_reset (queue : cldma_queue) : cldma_queue :=
  let queue := { queue with tr_done := some 0, budget := (queue.tr_ring.length : Int) }
  if queue.dir = mtk_txrx.MTK_TX then { queue with tx_xmit := some 0 }
  else { queue with rx_refill := some 0 }

/-- The function `t7xx_cldma_tx_queue_init` (the queue type table is left out). -/
def t7xx_cldma_tx_queue_init (queue : cldma_queue) : cldma_queue :=
  t7xx_cldma_queue_reset { queue with dir := mtk_txrx.MTK_TX }

/-- The function `t7xx_cldma_rx_queue_init` (the queue type table is left out). -/
def t7xx_cldma_rx_queue_init (queue : cldma_queue) : cldma_queue :=
  t7xx_cldma_queue_reset { queue with dir := mtk_txrx.MTK_RX }

/-! ### Transmit path -/

/-- The function `t7xx_cldma_gpd_handle_tx_request` on request `x` of transmit
queue `qno`: map the packet, fill the descriptor, hand it to the hardware when
the queue is active, and record the packet in the request. -/
def t7xx_cldma_gpd_handle_tx_request (env : cldma_env) (md : cldma_ctrl) (qno x : Nat)
    (skb : sk_buff) : Option (Int × cldma_ctrl) :=
  match md.txq[qno]? with
  | none => none
  | some queue =>
    match queue.tr_ring.gpd_ring[x]? with
    | none => none
    | some tx_req =>
      let mapped := env.dma_map_single md.tick
      let md := md.asked
      let tx_req := { tx_req with mapped_buff := mapped }
      if dma_mapping_error mapped then
        some (-ENOMEM,
          (md.set_txq qno (queue.set_req x tx_req)).emit cldma_event.dev_err_dma_mapping_failed)
      else
        let tgpd := { tx_req.gpd with data_buff_bd_ptr := mapped, data_buff_len := skb.len % 65536 }
        let tgpd := if md.txq_active &&& BIT queue.index ≠ 0
          then { tgpd with flags := { tgpd.flags with hwo := true } } else tgpd
        let tx_req := { tx_req with gpd := tgpd, skb := some skb }
        some (0, md.set_txq qno (queue.set_req x tx_req))

/-- The function `t7xx_cldma_hw_start_send`. -/
def t7xx_cldma_hw_start_send (env : cldma_env) (md : cldma_ctrl) (qno : Nat) :
    Option cldma_ctrl :=
  let addr_set := env.tx_addr_is_set md.tick
  let md := md.asked
  let md1 : Option cldma_ctrl :=
    if !addr_set then
      match md.txq[qno]? with
      | none => none
      | some queue =>
        match queue.tx_xmit with
        | none => none
        | some x =>
          match queue.tr_ring.gpd_ring[t7xx_cldma_ring_step_backward queue.tr_ring x]? with
          | none => none
          | some req =>
            let md := md.emit cldma_event.hw_init
            let md := md.emit (cldma_event.hw_set_start_addr qno req.gpd_addr mtk_txrx.MTK_TX)
            some { md with txq_started := clear_bits16 md.txq_started (BIT qno) }
    else some md
  match md1 with
  | none => none
  | some md =>
    let status := env.hw_queue_status md.tick
    let md := md.asked
    if status = 0 then
      let md := if md.txq_started &&& BIT qno ≠ 0
        then md.emit (cldma_event.hw_resume_queue qno mtk_txrx.MTK_TX)
        else md.emit (cldma_event.hw_start_queue qno mtk_txrx.MTK_TX)
      some { md with txq_started := (md.txq_started ||| BIT qno) &&& 0xFFFF }
    else some md

/-- The tail of `t7xx_cldma_send_skb` after the label `allow_sleep`. -/
def t7xx_cldma_send_skb_allow_sleep (md : cldma_ctrl) (ret : Int) : Int × cldma_ctrl :=
  let md := md.emit cldma_event.pci_enable_sleep
  let md := md.emit cldma_event.pm_runtime_mark_last_busy
  let md := md.emit cldma_event.pm_runtime_put_autosuspend
  (ret, md)

/-- The `do ... while (!ret)` loop of `t7xx_cldma_send_skb`; `ret` is the value
the variable holds on entry to the iteration. With nobody else running, the
wait for `budget > 0` ends at once when the budget is positive, ends with
`-ERESTARTSYS` when a signal is pending, and does not end otherwise. -/
def t7xx_cldma_send_skb_loop (env : cldma_env) (qno : Nat) (skb : sk_buff) (blocking : Bool) :
    Nat → Int → cldma_ctrl → Option (Int × cldma_ctrl)
  | 0, _, _ => none
  | fuel + 1, ret, md =>
    match md.txq[qno]? with
    | none => none
    | some queue =>
      match queue.tx_xmit with
      | none => none
      | some x =>
        match queue.tr_ring.gpd_ring[x]? with
        | none => none
        | some tx_req =>
          if 0 < queue.budget ∧ tx_req.skb = none then
            let md := md.set_txq qno { queue with budget := queue.budget - 1 }
            match t7xx_cldma_gpd_handle_tx_request env md qno x skb with
            | none => none
            | some (_, md) =>
              match md.txq[qno]? with
              | none => none
              | some queue =>
                let md := md.set_txq qno
                  { queue with tx_xmit := some (t7xx_cldma_ring_step_forward queue.tr_ring x) }
                let complete := env.sleep_disable_complete md.tick
                let md := md.asked
                if !complete then some (-EBUSY, md)
                else
                  match t7xx_cldma_hw_start_send env md qno with
                  | none => none
                  | some md => some (ret, md)
          else
            let complete := env.sleep_disable_complete md.tick
            let md := md.asked
            if !complete then some (-EBUSY, md)
            else
              let status := env.hw_queue_status md.tick
              let md := md.asked
              let md := if status = 0
                then md.emit (cldma_event.hw_resume_queue qno mtk_txrx.MTK_TX) else md
              if !blocking then some (-EBUSY, md)
              else if 0 < queue.budget then
                t7xx_cldma_send_skb_loop env qno skb blocking fuel 0 md
              else
                let sig := env.signal_pending md.tick
                let md := md.asked
                if sig then some (-ERESTARTSYS, md) else none

/-- The function `t7xx_cldma_send_skb`; `fuel` bounds the number of loop
iterations that are followed. -/
def t7xx_cldma_send_skb (fuel : Nat) (env : cldma_env) (md : cldma_ctrl) (qno : Nat)
    (skb : sk_buff) (blocking : Bool) : Option (Int × cldma_ctrl) :=
  if CLDMA_TXQ_NUM ≤ qno then some (-EINVAL, md)
  else
    let ret := env.pm_runtime_resume_and_get md.tick
    let md := md.asked
    if ret < 0 ∧ ret ≠ -EACCES then some (ret, md)
    else
      let md := md.emit cldma_event.pci_disable_sleep
      if md.txq_active &&& BIT qno = 0 then
        some (t7xx_cldma_send_skb_allow_sleep md (-EBUSY))
      else
        match t7xx_cldma_send_skb_loop env qno skb blocking fuel ret md with
        | none => none
        | some (ret, md) => some (t7xx_cldma_send_skb_allow_sleep md ret)

/-- The `while (!kthread_should_stop())` loop of `t7xx_cldma_gpd_tx_collect`;
`count` is the number of descriptors reclaimed so far. -/
def t7xx_cldma_gpd_tx_collect_loop (env : cldma_env) (qno : Nat) :
    Nat → Nat → cldma_ctrl → Option (Nat × cldma_ctrl)
  | 0, _, _ => none
  | fuel + 1, count, md =>
    let stop := env.kthread_should_stop md.tick
    let md := md.asked
    if stop then some (count, md)
    else
      match md.txq[qno]? with
      | none => none
      | some queue =>
        match queue.tr_done with
        | none => some (count, md)
        | some d =>
          match queue.tr_ring.gpd_ring[d]? with
          | none => none
          | some req =>
            if req.gpd.flags.hwo ∨ req.skb = none then some (count, md)
            else
              let queue := { queue with budget := queue.budget + 1 }
              let queue := queue.set_req d { req with skb := none }
              let queue :=
                { queue with tr_done := some (t7xx_cldma_ring_step_forward queue.tr_ring d) }
              let md := md.set_txq qno queue
              let md := md.emit
                (cldma_event.dma_unmap_single req.mapped_buff req.gpd.data_buff_len mtk_txrx.MTK_TX)
              let md := md.emit (cldma_event.dev_kfree_skb_any req.skb)
              t7xx_cldma_gpd_tx_collect_loop env qno fuel (count + 1) md

/-- The function `t7xx_cldma_gpd_tx_collect` on transmit queue `qno`; it
returns the number of descriptors reclaimed. The loop is followed for one
iteration more than the ring has requests. -/
def t7xx_cldma_gpd_tx_collect (env : cldma_env) (md : cldma_ctrl) (qno : Nat) :
    Option (Nat × cldma_ctrl) :=
  match md.txq[qno]? with
  | none => none
  | some queue =>
    match t7xx_cldma_gpd_tx_collect_loop env qno (queue.tr_ring.gpd_ring.length + 1) 0 md with
    | none => none
    | some (count, md) =>
      some (count, if count ≠ 0 then md.emit (cldma_event.wake_up_nr count) else md)

/-- Hardware side: the device has sent the packet of descriptor `i` of transmit
queue `qno` and cleared the ownership bit of the descriptor. -/
def cldma_hw_tx_complete (md : cldma_ctrl) (qno i : Nat) : cldma_ctrl :=
  match md.txq[qno]? with
  | none => md
  | some queue =>
    match queue.tr_ring.gpd_ring[i]? with
    | none => md
    | some req =>
      md.set_txq qno
        (queue.set_req i { req with gpd := { req.gpd with flags := { req.gpd.flags with hwo := false } } })

/-- Ring invariant of a transmit queue: the length field is the number of
requests; both cursors are set, `tr_done` at a position `d` of the ring and
`tx_xmit` at the position `length - budget` steps after `d` in ring order,
where `0 ≤ budget ≤ length`; and every request that holds a packet lies among
the `length - budget` requests from `d` on. -/
def cldma_txq_inv (q : cldma_queue) : Prop :=
  q.tr_ring.length = q.tr_ring.gpd_ring.length ∧
  ∃ d x b : Nat, q.tr_done = some d ∧ q.tx_xmit = some x ∧ q.budget = (b : Int) ∧
    d < q.tr_ring.gpd_ring.length ∧ b ≤ q.tr_ring.gpd_ring.length ∧
    x = (if d + (q.tr_ring.gpd_ring.length - b) < q.tr_ring.gpd_ring.length
          then d + (q.tr_ring.gpd_ring.length - b)
          else d + (q.tr_ring.gpd_ring.length - b) - q.tr_ring.gpd_ring.length) ∧
    ∀ i r, q.tr_ring.gpd_ring[i]? = some r → r.skb ≠ none →
      (if d ≤ i then i - d else i + q.tr_ring.gpd_ring.length - d) < q.tr_ring.gpd_ring.length - b

/-- The ring invariant holds for transmit queue `qno` of the controller. -/
def cldma_txq_ok (md : cldma_ctrl) (qno : Nat) : Prop :=
  ∃ q, md.txq[qno]? = some q ∧ cldma_txq_inv q

/-- States of a controller in which transmit queue `qno` has been reset on a
ring without packets (as `t7xx_cldma_tx_queue_init` and `t7xx_cldma_clear_txq`
do) and which are then reached by calls of `t7xx_cldma_send_skb` and
`t7xx_cldma_gpd_tx_collect` on any queue, with the hardware completing
descriptors in between. -/
inductive cldma_txq_reachable (qno : Nat) : cldma_ctrl → Prop where
  | reset (md : cldma_ctrl) (q0 : cldma_queue) :
      q0.dir = mtk_txrx.MTK_TX →
      q0.tr_ring.length = q0.tr_ring.gpd_ring.length →
      0 < q0.tr_ring.gpd_ring.length →
      (∀ r ∈ q0.tr_ring.gpd_ring, r.skb = none) →
      md.txq[qno]? = some (t7xx_cldma_queue_reset q0) →
      cldma_txq_reachable qno md
  | submit (fuel : Nat) (env : cldma_env) (md : cldma_ctrl) (k : Nat) (skb : sk_buff)
      (blocking : Bool) (ret : Int) (md' : cldma_ctrl) :
      cldma_txq_reachable qno md →
      t7xx_cldma_send_skb fuel env md k skb blocking = some (ret, md') →
      cldma_txq_reachable qno md'
  | reclaim (env : cldma_env) (md : cldma_ctrl) (k : Nat) (count : Nat) (md' : cldma_ctrl) :
      cldma_txq_reachable qno md →
      t7xx_cldma_gpd_tx_collect env md k = some (count, md') →
      cldma_txq_reachable qno md'
  | hw_done (md : cldma_ctrl) (k i : Nat) :
      cldma_txq_reachable qno md →
      cldma_txq_reachable qno (cldma_hw_tx_complete md k i)

/-- An environment in which every service succeeds: runtime PM and the sleep
lock are granted, mappings and allocations succeed, the hardware queue is
running, no interrupt is pending and the callback accepts every packet. -/
def cldma_env_ok : cldma_env where
  pm_runtime_resume_and_get := fun _ => 0
  sleep_disable_complete := fun _ => true
  dma_map_single := fun n => 0x100000 + 0x1000 * n
  dev_alloc_skb := fun n => some { id := 0x1000 + n, len := 0 }
  tx_addr_is_set := fun _ => true
  hw_queue_status := fun _ => 1
  hw_int_status := fun _ => 0
  ioread64 := fun _ => 0
  pci_device_is_present := fun _ => true
  kthread_should_stop := fun _ => false
  need_resched := fun _ => false
  recv_skb := fun _ _ _ => 0
  signal_pending := fun _ => false
  ktime_after_deadline := fun _ => false
  kzalloc := fun _ => true
  dma_pool_zalloc := fun n => some (0x10000 + 0x40 * n)
  flush_work := fun _ _ _ => none

/-- Entry `i` of `n` of the transmit ring of queue `qno` as
`t7xx_cldma_tx_ring_init` builds it: flags IOC, no packet, next pointer to the
following descriptor and from the last to the first. -/
def cldma_fresh_tx_req (qno n i : Nat) : cldma_request :=
  { gpd := { flags := { hwo := false, ioc := true }, data_buff_bd_ptr := 0, data_buff_len := 0,
             data_allow_len := 0,
             next_gpd_ptr := 0x10000 + 0x1000 * qno + 0x40 * (if i + 1 = n then 0 else i + 1) },
    gpd_addr := 0x10000 + 0x1000 * qno + 0x40 * i,
    skb := none,
    mapped_buff := 0 }

/-- Entry `i` of `n` of the receive ring of queue `qno` as
`t7xx_cldma_rx_ring_init` builds it: flags IOC and HWO, a mapped buffer. -/
def cldma_fresh_rx_req (qno n pkt_size i : Nat) : cldma_request :=
  { gpd := { flags := { hwo := true, ioc := true }, data_buff_bd_ptr := 0x800000 + 0x10000 * (n * qno + i),
             data_buff_len := 0, data_allow_len := pkt_size % 65536,
             next_gpd_ptr := 0x20000 + 0x1000 * qno + 0x40 * (if i + 1 = n then 0 else i + 1) },
    gpd_addr := 0x20000 + 0x1000 * qno + 0x40 * i,
    skb := some { id := 0x100 * (qno + 1) + i, len := 0 },
    mapped_buff := 0x800000 + 0x10000 * (n * qno + i) }

/-- Transmit queue `qno` on a ring of `n` descriptors after `t7xx_cldma_tx_queue_init`. -/
def cldma_fresh_txq (n qno : Nat) : cldma_queue :=
  t7xx_cldma_tx_queue_init
    { dir := mtk_txrx.MTK_TX, index := qno,
      tr_ring := { gpd_ring := (List.range n).map (cldma_fresh_tx_req qno n), length := n, pkt_size := 0 },
      tr_done := none, tx_xmit := none, rx_refill := none, budget := 0 }

/-- Receive queue `qno` on a ring of `n` descriptors after `t7xx_cldma_rx_queue_init`. -/
def cldma_fresh_rxq (n qno : Nat) : cldma_queue :=
  t7xx_cldma_rx_queue_init
    { dir := mtk_txrx.MTK_RX, index := qno,
      tr_ring := { gpd_ring := (List.range n).map (cldma_fresh_rx_req qno n 3584), length := n,
                   pkt_size := 3584 },
      tr_done := none, tx_xmit := none, rx_refill := none, budget := 0 }

/-- A controller after `t7xx_cldma_late_init` and `t7xx_cldma_start`: eight
transmit and eight receive queues on rings of 16, all queues active. -/
def cldma_fresh_ctrl : cldma_ctrl :=
  { hif_id := cldma_id.ID_CLDMA1,
    txq := (List.range CLDMA_TXQ_NUM).map (cldma_fresh_txq MAX_TX_BUDGET),
    rxq := (List.range CLDMA_RXQ_NUM).map (cldma_fresh_rxq MAX_RX_BUDGET),
    txq_active := TXRX_STATUS_BITMASK, rxq_active := TXRX_STATUS_BITMASK, txq_started := 0,
    is_late_init := true, log := [], tick := 0 }

/-- Run `n` non-blocking calls of `t7xx_cldma_send_skb` on queue `qno`, one
after the other, with packets `first`, `first + 1`, ...; the result lists the
return values in call order. -/
def cldma_submit_n (env : cldma_env) (qno : Nat) : Nat → Nat → cldma_ctrl → Option (List Int × cldma_ctrl)
  | 0, _, md => some ([], md)
  | n + 1, first, md =>
    match t7xx_cldma_send_skb 1 env md qno { id := first, len := 64 } false with
    | none => none
    | some (ret, md) =>
      match cldma_submit_n env qno n (first + 1) md with
      | none => none
      | some (rets, md) => some (ret :: rets, md)

/-- The hardware completes the descriptors at the listed positions of transmit queue `qno`. -/
def cldma_hw_tx_complete_all (md : cldma_ctrl) (qno : Nat) (positions : List Nat) : cldma_ctrl :=
  positions.foldl (fun md i => cldma_hw_tx_complete md qno i) md

/-- The controller `cldma_fresh_ctrl` after `n` non-blocking submits on queue 0
in the all-success environment. -/
def cldma_after_submits (n : Nat) : cldma_ctrl :=
  match cldma_submit_n cldma_env_ok 0 n 0 cldma_fresh_ctrl with
  | some (_, md) => md
  | none => cldma_fresh_ctrl

/-- The all-success environment, except that every DMA mapping fails. -/
def cldma_env_dma_fail : cldma_env :=
  { cldma_env_ok with dma_map_single := fun _ => DMA_MAPPING_ERROR }

/-- The all-success environment, except that runtime PM is disabled for the
device: `pm_runtime_resume_and_get` returns `-EACCES`. -/
def cldma_env_pm_eacces : cldma_env :=
  { cldma_env_ok with pm_runtime_resume_and_get := fun _ => -EACCES }

/-! ## DPMAIF transmit ring (`t7xx_hif_dpmaif_tx.c`) -/

/-- Number of DPMAIF transmit queues. -/
def DPMAIF_TXQ_NUM : Nat := 5
/-- Number of descriptors of a DRB ring. -/
def DPMAIF_DRB_ENTRY_SIZE : Nat := 6144
/-- Number of 32-bit words of one DRB. -/
def DPMAIF_UL_DRB_ENTRY_WORD : Nat := 4
/-- Largest number of packets moved into the ring by one burst. -/
def DPMAIF_SKB_TX_BURST_CNT : Nat := 5
/-- Descriptor type of a payload DRB. -/
def DES_DTYP_PD : Nat := 0
/-- Descriptor type of a message DRB. -/
def DES_DTYP_MSG : Nat := 1

/-- Power state of the DPMAIF block, `enum dpmaif_state`. -/
inductive dpmaif_state where
  | DPMAIF_STATE_MIN
  | DPMAIF_STATE_PWROFF
  | DPMAIF_STATE_PWRON
  | DPMAIF_STATE_EXCEPTION
  | DPMAIF_STATE_MAX
deriving DecidableEq, Repr

/-- Queue state reported through `state_notify`, `enum dpmaif_txq_state`. -/
inductive dpmaif_txq_state where
  | DMPAIF_TXQ_STATE_IRQ
  | DMPAIF_TXQ_STATE_FULL
deriving DecidableEq, Repr

/-- One transmit descriptor (`struct dpmaif_drb_pd` and `struct dpmaif_drb_msg`
laid over the same memory). The bit-fields of the first word (`dtyp`, `cont`,
and `len`, which is the data length of a payload DRB and the packet length of
a message DRB) are shared by both views; `data_addr` is the payload view of
the following words, `count_l`, `channel_id` and `l4_chk` the message view.
The field masks are declared in `t7xx_hif_dpmaif_tx.h`; every bit-field is a
record field holding the value given to `FIELD_PREP`. -/
structure dpmaif_drb where
  dtyp : Nat
  cont : Bool
  len : Nat
  data_addr : Nat
  count_l : Nat
  channel_id : Nat
  l4_chk : Bool
deriving DecidableEq, Repr

/-- Host-side shadow entry of a descriptor, `struct dpmaif_drb_skb`; the
bit-fields of `config` are record fields. -/
structure dpmaif_drb_skb where
  skb : Option sk_buff
  bus_addr : Nat
  data_len : Nat
  drb_idx : Nat
  is_msg : Bool
  is_frag : Bool
  is_last : Bool
deriving DecidableEq, Repr

/-- One transmit queue, `struct dpmaif_tx_queue`. -/
structure dpmaif_tx_queue where
  index : Nat
  que_started : Bool
  tx_budget : Int
  drb_base : List dpmaif_drb
  drb_size_cnt : Nat
  drb_wr_idx : Nat
  drb_rd_idx : Nat
  drb_release_rd_idx : Nat
  last_ch_id : Nat
  drb_skb_base : List dpmaif_drb_skb
  tx_processing : Int
  tx_skb_queue : List sk_buff
  tx_submit_skb_cnt : Nat
  tx_list_max_len : Nat
  tx_skb_stat : Nat
  drb_lack : Bool
deriving DecidableEq, Repr

/-- Calls that leave the DPMAIF transmit code, in the order they are made. -/
inductive dpmaif_event where
  | dev_err_out_of_range_read_index (idx : Nat)
  | dev_err_invalid_skb (q_num : Nat)
  | dev_err_not_marked_last (q_num : Nat)
  | dev_err_dma_mapping_fail
  | dev_err_add_skb_failed (ret : Int)
  | dev_warn_frag_list
  | dma_unmap_single (bus_addr : Nat) (len : Nat)
  | dev_kfree_skb_any (skb : sk_buff)
  | state_notify (state : dpmaif_txq_state) (txqt : Nat)
  | ul_update_hw_drb_cnt (q_num : Nat) (drb_entry_cnt : Nat)
  | wake_up_tx_thread
  | dev_err_update_drb_cnt_failed (txq_id : Nat)
  | usleep_range
  | cancel_work_sync (q_num : Nat)
  | flush_work (q_num : Nat)
  | kfree_skb (skb : sk_buff)
deriving DecidableEq, Repr

/-- DPMAIF controller, `struct dpmaif_ctrl`, as far as the transmit path uses
it, with the log of outgoing calls and the count of questions asked to the
environment. -/
structure dpmaif_ctrl where
  state : dpmaif_state
  txq : List dpmaif_tx_queue
  txq_select_times : Nat
  log : List dpmaif_event
  tick : Nat
deriving DecidableEq, Repr

/-- Answers of everything outside the DPMAIF transmit code, indexed by the
number of the question (`dpmaif_ctrl.tick`). -/
structure dpmaif_env where
  dma_map_single : Nat → Nat
  ul_get_ridx : Nat → Nat
  sleep_disable_complete : Nat → Bool
  ul_clr_done : Nat → Bool
  ul_update_hw_drb_cnt : Nat → Int
  kthread_should_stop : Nat → Bool

/-- Append an outgoing call to the log. -/
def dpmaif_ctrl.emit (c : dpmaif_ctrl) (e : dpmaif_event) : dpmaif_ctrl :=
  { c with log := c.log ++ [e] }

/-- Count one question asked to the environment. -/
def dpmaif_ctrl.asked (c : dpmaif_ctrl) : dpmaif_ctrl :=
  { c with tick := c.tick + 1 }

/-- Store a transmit queue back into the controller. -/
def dpmaif_ctrl.set_txq (c : dpmaif_ctrl) (q_num : Nat) (q : dpmaif_tx_queue) : dpmaif_ctrl :=
  { c with txq := c.txq.set q_num q }

/-- Modelled from the spec: `t7xx_ring_buf_get_next_wrdx` is defined in
`t7xx_hif_dpmaif.c`, which is not among the sources. The spec describes it as
`advance(cursor)`, which returns the next index with wraparound. -/
def t7xx_ring_buf_get_next_wrdx (buf_len buf_idx : Nat) : Nat :=
  if buf_idx + 1 < buf_len then buf_idx + 1 else 0

/-- Direction argument of `t7xx_ring_buf_rd_wr_count`, `enum dpmaif_rdwr`. -/
inductive dpmaif_rdwr where
  | DPMAIF_READ
  | DPMAIF_WRITE
deriving DecidableEq, Repr

/-- Modelled from the spec: `t7xx_ring_buf_rd_wr_count` is defined in
`t7xx_hif_dpmaif.c`, which is not among the sources. The spec describes it as
`count_between(a,b,total,direction)`, which computes the pending count (read
direction: the entries from the read index up to the write index) or the free
space (write direction: the entries the writer may fill without catching up
with the reader), always against the given total; equal indices mean an empty
ring. -/
def t7xx_ring_buf_rd_wr_count (total_cnt rd_idx wrt_idx : Nat) (rd_wr : dpmaif_rdwr) : Nat :=
  if rd_wr = dpmaif_rdwr.DPMAIF_READ then
    if rd_idx ≤ wrt_idx then wrt_idx - rd_idx else total_cnt + wrt_idx - rd_idx
  else
    if wrt_idx < rd_idx then rd_idx - wrt_idx - 1 else total_cnt + rd_idx - wrt_idx - 1

/-- A signed `int` read as an `unsigned int`. -/
def u32_of_int (x : Int) : Nat := (x % 2 ^ 32).toNat

/-- Kernel macro `min_not_zero`: the smaller of two values, where a zero
value does not count. -/
def min_not_zero (x y : Nat) : Nat :=
  if x = 0 then y else if y = 0 then x else min x y

/-- The function `t7xx_dpmaif_update_drb_rd_idx`: take the read index from
the hardware register; the result is the number of descriptors the hardware
has consumed since the last update. The new index is held in an
`unsigned short`. -/
def t7xx_dpmaif_update_drb_rd_idx (env : dpmaif_env) (c : dpmaif_ctrl) (q_num : Nat) :
    Option (Nat × dpmaif_ctrl) :=
  match c.txq[q_num]? with
  | none => none
  | some txq =>
    if !txq.que_started then some (0, c)
    else
      let old_sw_rd_idx := txq.drb_rd_idx
      let hw_read_idx := env.ul_get_ridx c.tick
      let c := c.asked
      let new_hw_rd_idx := (hw_read_idx / DPMAIF_UL_DRB_ENTRY_WORD) % 65536
      if DPMAIF_DRB_ENTRY_SIZE ≤ new_hw_rd_idx then
        some (0, c.emit (dpmaif_event.dev_err_out_of_range_read_index new_hw_rd_idx))
      else
        let drb_cnt :=
          if old_sw_rd_idx ≤ new_hw_rd_idx then new_hw_rd_idx - old_sw_rd_idx
          else (txq.drb_size_cnt + 2 ^ 32 - old_sw_rd_idx + new_hw_rd_idx) % 2 ^ 32
        some (drb_cnt, c.set_txq q_num { txq with drb_rd_idx := new_hw_rd_idx })

/-- One pass through the body of the `for` loop of
`t7xx_dpmaif_release_tx_buffer` at position `cur_idx`: the position for the
next pass, the descriptor examined, and the new state. A payload descriptor
that ends a packet but has no packet recorded is reported and the pass ends
there (`continue`), with the position and the cursor unchanged. -/
def t7xx_dpmaif_release_tx_buffer_iter (q_num drb_cnt cur_idx : Nat) (c : dpmaif_ctrl) :
    Option (Nat × dpmaif_drb × dpmaif_ctrl) :=
  match c.txq[q_num]? with
  | none => none
  | some txq =>
    match txq.drb_base.get? cur_idx, txq.drb_skb_base.get? cur_idx with
    | some cur_drb, some cur_drb_skb =>
      let advance (c : dpmaif_ctrl) (txq : dpmaif_tx_queue) : Option (Nat × dpmaif_drb × dpmaif_ctrl) :=
        let cur_idx := t7xx_ring_buf_get_next_wrdx drb_cnt cur_idx % 65536
        let txq := { txq with drb_release_rd_idx := cur_idx, tx_budget := txq.tx_budget + 1 }
        let c := c.set_txq q_num txq
        let c := if txq.drb_size_cnt / 8 < u32_of_int txq.tx_budget
          then c.emit (dpmaif_event.state_notify dpmaif_txq_state.DMPAIF_TXQ_STATE_IRQ txq.index)
          else c
        some (cur_idx, cur_drb, c)
      if cur_drb.dtyp = DES_DTYP_PD then
        let c := if !cur_drb_skb.is_msg
          then c.emit (dpmaif_event.dma_unmap_single cur_drb_skb.bus_addr cur_drb_skb.data_len)
          else c
        if !cur_drb.cont then
          match cur_drb_skb.skb with
          | none => some (cur_idx, cur_drb, c.emit (dpmaif_event.dev_err_invalid_skb q_num))
          | some skb =>
            advance (c.emit (dpmaif_event.dev_kfree_skb_any skb))
              { txq with drb_skb_base := txq.drb_skb_base.set cur_idx { cur_drb_skb with skb := none } }
        else
          advance c
            { txq with drb_skb_base := txq.drb_skb_base.set cur_idx { cur_drb_skb with skb := none } }
      else
        advance c { txq with last_ch_id := cur_drb.channel_id }
    | _, _ => none

/-- The `for` loop of `t7xx_dpmaif_release_tx_buffer`: `todo` passes are
left, `i` are done, `cur_idx` is the position looked at and `last` the
descriptor examined by the previous pass. The result is the final value of
`i`, of `cur_idx` and of `cur_drb`, and the new state. -/
def t7xx_dpmaif_release_tx_buffer_loop (q_num drb_cnt : Nat) :
    Nat → Nat → Nat → Option dpmaif_drb → dpmaif_ctrl →
      Option (Nat × Nat × Option dpmaif_drb × dpmaif_ctrl)
  | 0, i, cur_idx, last, c => some (i, cur_idx, last, c)
  | todo + 1, i, cur_idx, _, c =>
    match t7xx_dpmaif_release_tx_buffer_iter q_num drb_cnt cur_idx c with
    | none => none
    | some (cur_idx, cur_drb, c) =>
      t7xx_dpmaif_release_tx_buffer_loop q_num drb_cnt todo (i + 1) cur_idx (some cur_drb) c

/-- The function `t7xx_dpmaif_release_tx_buffer`, starting at the release
cursor; it returns the loop counter `i` as an `unsigned short`. -/
def t7xx_dpmaif_release_tx_buffer (c : dpmaif_ctrl) (q_num release_cnt : Nat) :
    Option (Nat × dpmaif_ctrl) :=
  match c.txq[q_num]? with
  | none => none
  | some txq =>
    match t7xx_dpmaif_release_tx_buffer_loop q_num txq.drb_size_cnt release_cnt 0
        txq.drb_release_rd_idx none c with
    | none => none
    | some (i, _, last, c) =>
      let c := match last with
        | some cur_drb =>
          if cur_drb.cont then c.emit (dpmaif_event.dev_err_not_marked_last q_num) else c
        | none => c
      some (i % 65536, c)

/-- The function `t7xx_dpmaif_tx_release`: release what the hardware has
consumed, at most `budget` descriptors. -/
def t7xx_dpmaif_tx_release (env : dpmaif_env) (c : dpmaif_ctrl) (q_num budget : Nat) :
    Option (Int × dpmaif_ctrl) :=
  match t7xx_dpmaif_update_drb_rd_idx env c q_num with
  | none => none
  | some (_, c) =>
    match c.txq[q_num]? with
    | none => none
    | some txq =>
      let rel_cnt := t7xx_ring_buf_rd_wr_count txq.drb_size_cnt txq.drb_release_rd_idx
        txq.drb_rd_idx dpmaif_rdwr.DPMAIF_READ
      let real_rel_cnt := min_not_zero budget rel_cnt
      let released : Option (Nat × dpmaif_ctrl) :=
        if real_rel_cnt ≠ 0 then t7xx_dpmaif_release_tx_buffer c q_num real_rel_cnt
        else some (real_rel_cnt, c)
      match released with
      | none => none
      | some (real_rel_cnt, c) => some (if real_rel_cnt < rel_cnt then -EAGAIN else 0, c)

/-- The function `t7xx_setup_msg_drb`: both header words are assigned. -/
def t7xx_setup_msg_drb (txq : dpmaif_tx_queue) (cur_idx pkt_len count_l channel_id : Nat) :
    dpmaif_tx_queue :=
  match txq.drb_base.get? cur_idx with
  | none => txq
  | some drb =>
    { txq with
      drb_base := txq.drb_base.set cur_idx
        { drb with dtyp := DES_DTYP_MSG, cont := true, len := pkt_len, count_l := count_l,
                   channel_id := channel_id, l4_chk := true } }

/-- The function `t7xx_setup_payload_drb`: type, continuation flag, data
length and data address are replaced, the rest of the descriptor is kept. -/
def t7xx_setup_payload_drb (txq : dpmaif_tx_queue) (cur_idx data_addr pkt_size : Nat)
    (last_one : Bool) : dpmaif_tx_queue :=
  match txq.drb_base.get? cur_idx with
  | none => txq
  | some drb =>
    { txq with
      drb_base := txq.drb_base.set cur_idx
        { drb with dtyp := DES_DTYP_PD, cont := !last_one, len := pkt_size, data_addr := data_addr } }

/-- The function `t7xx_record_drb_skb`. -/
def t7xx_record_drb_skb (txq : dpmaif_tx_queue) (cur_idx : Nat) (skb : sk_buff)
    (is_msg is_frag is_last_one : Bool) (bus_addr data_len : Nat) : dpmaif_tx_queue :=
  { txq with
    drb_skb_base := txq.drb_skb_base.set cur_idx
      { skb := some skb, bus_addr := bus_addr, data_len := data_len, drb_idx := cur_idx,
        is_msg := is_msg, is_frag := is_frag, is_last := is_last_one } }

/-- The payload loop of `t7xx_dpmaif_add_skb_to_ring` over the pieces not yet
written (data length and whether the piece is a page fragment); `wr_cnt`
pieces are done, `cur_idx` is the position to write and `is_last_one` the
value the variable holds. The result is the value of `ret`. -/
def t7xx_dpmaif_add_skb_payloads (env : dpmaif_env) (qtype : Nat) (skb : sk_buff)
    (payload_cnt : Nat) :
    List (Nat × Bool) → Nat → Nat → Bool → dpmaif_ctrl → Option (Int × dpmaif_ctrl)
  | [], _, _, _, c => some (0, c)
  | (data_len, is_frag) :: rest, wr_cnt, cur_idx, is_last_one, c =>
    let is_last_one := if wr_cnt = payload_cnt - 1 then true else is_last_one
    let bus_addr := env.dma_map_single c.tick
    let c := c.asked
    if dma_mapping_error bus_addr then
      some (-ENOMEM, c.emit dpmaif_event.dev_err_dma_mapping_fail)
    else
      match c.txq[qtype]? with
      | none => none
      | some txq =>
        let txq := t7xx_setup_payload_drb txq cur_idx bus_addr data_len is_last_one
        let txq := t7xx_record_drb_skb txq cur_idx skb false is_frag is_last_one bus_addr data_len
        let c := c.set_txq qtype txq
        let cur_idx := t7xx_ring_buf_get_next_wrdx txq.drb_size_cnt cur_idx % 65536
        t7xx_dpmaif_add_skb_payloads env qtype skb payload_cnt rest (wr_cnt + 1) cur_idx
          is_last_one c

/-- The function `t7xx_dpmaif_add_skb_to_ring`: one message descriptor and
one payload descriptor for the linear part and for each page fragment. -/
def t7xx_dpmaif_add_skb_to_ring (env : dpmaif_env) (c : dpmaif_ctrl) (skb : sk_buff) :
    Option (Int × dpmaif_ctrl) :=
  let qtype := skb.cb_qtype
  match c.txq[qtype]? with
  | none => none
  | some txq =>
    if !txq.que_started ∨ c.state ≠ dpmaif_state.DPMAIF_STATE_PWRON then some (-ENODEV, c)
    else
      let txq := { txq with tx_processing := 1 }
      let c := if skb.frag_list then c.emit dpmaif_event.dev_warn_frag_list else c
      let payload_cnt := skb.frags.length + 1
      let send_cnt := payload_cnt + 1
      let cur_idx := txq.drb_wr_idx
      let drb_wr_idx_backup := cur_idx
      let wr := (txq.drb_wr_idx + send_cnt) % 65536
      let wr := if txq.drb_size_cnt ≤ wr then (wr + 65536 - txq.drb_size_cnt % 65536) % 65536 else wr
      let txq := { txq with drb_wr_idx := wr }
      let txq := t7xx_setup_msg_drb txq cur_idx skb.len 0 skb.cb_netif_idx
      let txq := t7xx_record_drb_skb txq cur_idx skb true false false 0 0
      let c := c.set_txq qtype txq
      let cur_idx := t7xx_ring_buf_get_next_wrdx txq.drb_size_cnt cur_idx % 65536
      match t7xx_dpmaif_add_skb_payloads env qtype skb payload_cnt
          ((skb.headlen, false) :: skb.frags.map (fun size => (size, true))) 0 cur_idx false c with
      | none => none
      | some (ret, c) =>
        match c.txq[qtype]? with
        | none => none
        | some txq =>
          if ret < 0 then
            some (ret, c.set_txq qtype
              { txq with tx_processing := 0, drb_wr_idx := drb_wr_idx_backup })
          else
            some (ret, c.set_txq qtype
              { txq with tx_budget := txq.tx_budget - send_cnt, tx_processing := 0 })

/-- Position reached from `cur` by `j` single-step advances in a ring of `n`
entries (for `cur < n` and `j ≤ n`). -/
def drb_pos (n cur j : Nat) : Nat := if cur + j < n then cur + j else cur + j - n

/-- Number of packets handed to `dev_kfree_skb_any` in a log. -/
def dpmaif_free_count (log : List dpmaif_event) : Nat :=
  (log.filter (fun e => match e with
    | dpmaif_event.dev_kfree_skb_any _ => true
    | _ => false)).length

/-- An all-zero descriptor, as `dma_alloc_coherent` leaves the ring. -/
def dpmaif_zero_drb : dpmaif_drb :=
  { dtyp := 0, cont := false, len := 0, data_addr := 0, count_l := 0, channel_id := 0, l4_chk := false }

/-- An all-zero shadow entry, as `devm_kzalloc` leaves the array. -/
def dpmaif_zero_drb_skb : dpmaif_drb_skb :=
  { skb := none, bus_addr := 0, data_len := 0, drb_idx := 0, is_msg := false, is_frag := false,
    is_last := false }

/-- Transmit queue `index` after `t7xx_dpmaif_txq_init`, started. -/
def dpmaif_fresh_txq (index : Nat) : dpmaif_tx_queue :=
  { index := index, que_started := true, tx_budget := (DPMAIF_DRB_ENTRY_SIZE : Int),
    drb_base := List.replicate DPMAIF_DRB_ENTRY_SIZE dpmaif_zero_drb,
    drb_size_cnt := DPMAIF_DRB_ENTRY_SIZE, drb_wr_idx := 0, drb_rd_idx := 0,
    drb_release_rd_idx := 0, last_ch_id := 0,
    drb_skb_base := List.replicate DPMAIF_DRB_ENTRY_SIZE dpmaif_zero_drb_skb,
    tx_processing := 0, tx_skb_queue := [], tx_submit_skb_cnt := 0,
    tx_list_max_len := DPMAIF_DRB_ENTRY_SIZE / 2, tx_skb_stat := 0, drb_lack := false }

/-- A powered-on DPMAIF controller whose five transmit queues are fresh. -/
def dpmaif_fresh_ctrl : dpmaif_ctrl :=
  { state := dpmaif_state.DPMAIF_STATE_PWRON,
    txq := (List.range DPMAIF_TXQ_NUM).map dpmaif_fresh_txq,
    txq_select_times := 0, log := [], tick := 0 }

/-- An environment in which every mapping succeeds and the hardware read
index register of the transmit ring holds `ridx`. -/
def dpmaif_env_ok (ridx : Nat) : dpmaif_env :=
  { dma_map_single := fun n => 0x1000 * (n + 1),
    ul_get_ridx := fun _ => ridx,
    sleep_disable_complete := fun _ => true,
    ul_clr_done := fun _ => true,
    ul_update_hw_drb_cnt := fun _ => 0,
    kthread_should_stop := fun _ => false }

/-- The state of the controller, or the fresh controller when the call did
not return. -/
def dpmaif_state_of (r : Option (Int × dpmaif_ctrl)) : dpmaif_ctrl :=
  match r with
  | some (_, c) => c
  | none => dpmaif_fresh_ctrl

/-- A first packet has been written to queue 0, consumed by the hardware
(read index register at 2 descriptors, 8 words) and released, and a second
packet has been written that the hardware has not consumed yet. -/
def dpmaif_second_packet_pending : dpmaif_ctrl :=
  dpmaif_state_of (t7xx_dpmaif_add_skb_to_ring (dpmaif_env_ok 8)
    (dpmaif_state_of (t7xx_dpmaif_tx_release (dpmaif_env_ok 8)
      (dpmaif_state_of (t7xx_dpmaif_add_skb_to_ring (dpmaif_env_ok 0) dpmaif_fresh_ctrl
        { id := 1, len := 100 }))
      0 DPMAIF_DRB_ENTRY_SIZE))
    { id := 2, len := 100 })

/-- Queue 0 of `dpmaif_second_packet_pending`. -/
def dpmaif_second_packet_txq : dpmaif_tx_queue :=
  (dpmaif_second_packet_pending.txq[0]?).getD (dpmaif_fresh_txq 0)

/-! ### Receive path -/

/-- The function `t7xx_cldma_alloc_and_map_skb` on request `x` of receive queue
`qno`: a new buffer is allocated and mapped; on failure the request holds no
buffer and no mapping. -/
def t7xx_cldma_alloc_and_map_skb (env : cldma_env) (md : cldma_ctrl) (qno x : Nat) :
    Option (Int × cldma_ctrl) :=
  match md.rxq[qno]? with
  | none => none
  | some queue =>
    match queue.tr_ring.gpd_ring[x]? with
    | none => none
    | some req =>
      let skb := env.dev_alloc_skb md.tick
      let md := md.asked
      match skb with
      | none => some (-ENOMEM, md.set_rxq qno (queue.set_req x { req with skb := none }))
      | some skb =>
        let mapped := env.dma_map_single md.tick
        let md := md.asked
        if dma_mapping_error mapped then
          let md := md.emit cldma_event.dev_err_dma_mapping_failed
          let md := md.emit (cldma_event.dev_kfree_skb_any (some skb))
          some (-ENOMEM, md.set_rxq qno (queue.set_req x { req with skb := none, mapped_buff := 0 }))
        else
          some (0, md.set_rxq qno
            (queue.set_req x { req with skb := some skb, mapped_buff := mapped }))

/-- The `do ... while (rx_not_done)` loop of `t7xx_cldma_gpd_rx_from_queue` on
receive queue `qno`, with the values of `hwo_polling_count` and `count` on
entry to the iteration. The result is the return value, the value left in
`*over_budget` and the new state. -/
def t7xx_cldma_gpd_rx_from_queue_loop (env : cldma_env) (qno : Nat) (budget : Int) :
    Nat → Nat → Int → Bool → cldma_ctrl → Option (Int × Bool × cldma_ctrl)
  | 0, _, _, _, _ => none
  | fuel + 1, hwo_polling_count, count, over_budget, md =>
    match md.rxq[qno]? with
    | none => none
    | some queue =>
      match queue.tr_done with
      | none => some (-ENODATA, over_budget, md)
      | some d =>
        match queue.tr_ring.gpd_ring[d]? with
        | none => none
        | some req =>
          if req.gpd.flags.hwo ∨ req.skb = none then
            let present := env.pci_device_is_present md.tick
            let md := md.asked
            if !present then
              some (-ENODEV, over_budget, md.emit cldma_event.dev_err_link_disconnected)
            else
              let gpd_addr := env.ioread64 md.tick
              let md := md.asked
              if req.gpd_addr = gpd_addr ∨ 100 ≤ hwo_polling_count then some (0, over_budget, md)
              else
                t7xx_cldma_gpd_rx_from_queue_loop env qno budget fuel
                  ((hwo_polling_count + 1) % 256) count over_budget (md.emit cldma_event.udelay)
          else
            match req.skb with
            | none => none
            | some skb =>
              let md := if req.mapped_buff ≠ 0
                then md.emit (cldma_event.dma_unmap_single req.mapped_buff 0 mtk_txrx.MTK_RX)
                else md
              let req := { req with mapped_buff := 0 }
              let skb := { skb with len := req.gpd.data_buff_len, headlen := req.gpd.data_buff_len }
              let req := { req with skb := some skb }
              let md := md.set_rxq qno (queue.set_req d req)
              let md := md.emit (cldma_event.recv_skb qno skb)
              let ret := env.recv_skb md.tick qno skb
              let md := md.asked
              if ret < 0 then some (ret, over_budget, md)
              else
                let req := { req with skb := none, gpd := { req.gpd with data_buff_bd_ptr := 0 } }
                match md.rxq[qno]? with
                | none => none
                | some queue =>
                  let queue := queue.set_req d req
                  let queue :=
                    { queue with tr_done := some (t7xx_cldma_ring_step_forward queue.tr_ring d) }
                  let md := md.set_rxq qno queue
                  match queue.rx_refill with
                  | none => none
                  | some f =>
                    match t7xx_cldma_alloc_and_map_skb env md qno f with
                    | none => none
                    | some (ret, md) =>
                      if ret ≠ 0 then some (ret, over_budget, md)
                      else
                        match md.rxq[qno]? with
                        | none => none
                        | some queue =>
                          match queue.tr_ring.gpd_ring[f]? with
                          | none => none
                          | some req =>
                            let rgpd := { req.gpd with
                              data_buff_bd_ptr := req.mapped_buff, data_buff_len := 0,
                              flags := { hwo := true, ioc := true } }
                            let queue := queue.set_req f { req with gpd := rgpd }
                            let queue := { queue with
                              rx_refill := some (t7xx_cldma_ring_step_forward queue.tr_ring f) }
                            let md := md.set_rxq qno queue
                            let count := count + 1
                            if count < budget then
                              t7xx_cldma_gpd_rx_from_queue_loop env qno budget fuel 0 count
                                over_budget md
                            else
                              let resched := env.need_resched md.tick
                              let md := md.asked
                              if !resched then
                                t7xx_cldma_gpd_rx_from_queue_loop env qno budget fuel 0 count
                                  over_budget md
                              else some (0, true, md)

/-- The function `t7xx_cldma_gpd_rx_from_queue`; `fuel` bounds the number of
loop iterations that are followed, `over_budget` is the value `*over_budget`
holds at the call. -/
def t7xx_cldma_gpd_rx_from_queue (fuel : Nat) (env : cldma_env) (md : cldma_ctrl) (qno : Nat)
    (budget : Int) (over_budget : Bool) : Option (Int × Bool × cldma_ctrl) :=
  t7xx_cldma_gpd_rx_from_queue_loop env qno budget fuel 0 0 over_budget md

/-- Hardware side: the device has filled the buffer of descriptor `i` of
receive queue `qno` with `len` bytes and cleared the ownership bit. -/
def cldma_hw_rx_complete (md : cldma_ctrl) (qno i len : Nat) : cldma_ctrl :=
  match md.rxq[qno]? with
  | none => md
  | some queue =>
    match queue.tr_ring.gpd_ring[i]? with
    | none => md
    | some req =>
      md.set_rxq qno
        (queue.set_req i { req with gpd := { req.gpd with
          data_buff_len := len, flags := { req.gpd.flags with hwo := false } } })

/-- Error number `ENOBUFS`. -/
def ENOBUFS : Int := 105
/-- Error number `ENETDOWN`. -/
def ENETDOWN : Int := 100

/-- The two kinds of CLDMA queue, `enum cldma_queue_type`. -/
inductive cldma_queue_type where
  | CLDMA_SHARED_Q
  | CLDMA_DEDICATED_Q
deriving DecidableEq, Repr

/-- The function `t7xx_port_proxy_recv_skb`, the callback the port layer
registers with both CLDMA controllers. `dispatch` is what
`t7xx_port_proxy_dispatch_recv_skb` returns and leaves in `drop_skb_on_err`,
`from_q` what `port_proxy_recv_skb_from_q` returns. The result is the return
value and whether the buffer was freed by this function. -/
def t7xx_port_proxy_recv_skb (q_type : cldma_queue_type) (skb : Option sk_buff)
    (dispatch : Int × Bool) (from_q : Int) : Int × Bool :=
  match skb with
  | none => (-EINVAL, false)
  | some _ =>
    if q_type = cldma_queue_type.CLDMA_SHARED_Q then
      if dispatch.1 < 0 ∧ dispatch.2 then (0, true) else (dispatch.1, false)
    else (from_q, false)

/-- Hardware side: the device has filled the first `k` buffers of receive
queue `qno`, each with `len` bytes. -/
def cldma_hw_rx_complete_first (qno len : Nat) : Nat → cldma_ctrl → cldma_ctrl
  | 0, md => md
  | k + 1, md => cldma_hw_rx_complete (cldma_hw_rx_complete_first qno len k md) qno k len

/-- A controller after late initialisation whose receive queue 0 runs on a ring
of eight buffers, all of which the device has filled with 100 bytes. -/
def cldma_eight_received : cldma_ctrl :=
  cldma_hw_rx_complete_first 0 100 8 (cldma_fresh_ctrl.set_rxq 0 (cldma_fresh_rxq 8 0))

/-- The all-success environment in which the device reports descriptor 0 of
receive queue 0 as its current one and the registered callback
`t7xx_port_proxy_recv_skb`, on a shared queue, is handed the outcome `outcome`
of the dispatch for the buffer `victim` and success for every other buffer. -/
def cldma_env_rx (victim : Nat) (outcome : Int × Bool) : cldma_env :=
  { cldma_env_ok with
    ioread64 := fun _ => 0x20000
    recv_skb := fun _ _ skb =>
      (t7xx_port_proxy_recv_skb cldma_queue_type.CLDMA_SHARED_Q (some skb)
        (if skb.id = victim then outcome else (0, false)) 0).1 }

/-- The buffers handed to the receive callback, oldest first. -/
def cldma_delivered (md : cldma_ctrl) : List Nat :=
  (md.log.filterMap fun e =>
    match e with
    | cldma_event.recv_skb _ skb => some skb.id
    | _ => none)

/-! ### Stopping, starting and clearing the queues -/

/-- Modelled from the spec: the macro `CLDMA_INVALID_STATUS` is declared in
`t7xx_cldma.h`, which is not among the sources, and the spec gives no value
for it. It is the value a status read yields when the device is gone; all 32
bits set is taken. -/
def CLDMA_INVALID_STATUS : Nat := 0xFFFFFFFF
/-- Total time `t7xx_cldma_stop` waits for the queues to stop, in microseconds. -/
def CHECK_Q_STOP_TIMEOUT_US : Nat := 1000000
/-- Sleep between two status reads of `t7xx_cldma_stop`, in microseconds. -/
def CHECK_Q_STOP_STEP_US : Nat := 10000

/-- The function `t7xx_cldma_queues_active`: both status registers are read;
the queues count as stopped when either read is invalid. -/
def t7xx_cldma_queues_active (env : cldma_env) (md : cldma_ctrl) : Bool × cldma_ctrl :=
  let tx_active := env.hw_queue_status md.tick
  let md := md.asked
  let rx_active := env.hw_queue_status md.tick
  let md := md.asked
  if tx_active = CLDMA_INVALID_STATUS ∨ rx_active = CLDMA_INVALID_STATUS then (false, md)
  else (tx_active ≠ 0 ∨ rx_active ≠ 0, md)

/-- The loop of the kernel macro `read_poll_timeout` as `t7xx_cldma_stop` uses
it: read, leave when the queues are not active, read once more and leave when
the deadline has passed, sleep otherwise. Every sleep lasts longer than a
quarter of the step, so the deadline has passed after `sleeps` of them at the
latest; before that the clock is an answer of the environment. The result is
the last value read. -/
def t7xx_cldma_stop_poll (env : cldma_env) : Nat → cldma_ctrl → Bool × cldma_ctrl
  | 0, md =>
    let (active, md) := t7xx_cldma_queues_active env md
    if !active then (active, md) else t7xx_cldma_queues_active env md
  | sleeps + 1, md =>
    let (active, md) := t7xx_cldma_queues_active env md
    if !active then (active, md)
    else
      let late := env.ktime_after_deadline md.tick
      let md := md.asked
      if late then t7xx_cldma_queues_active env md
      else t7xx_cldma_stop_poll env sleeps md

/-- The calls `flush_work(&md_ctrl->txq[i].cldma_work)` (or `rxq`) for `i` from
`i` on, `n` of them. The call returns when the work item of the queue,
`t7xx_cldma_tx_done` or `t7xx_cldma_rx_done`, is neither queued nor running.
The item runs on a worker thread of the kernel, beside the caller: when one
was queued or running, the environment answers with the queue as the item has
left it (`t7xx_cldma_gpd_tx_collect`, for one, moves `tr_done`, `budget` and
packet pointers), and with `none` when there was nothing to wait for. -/
def t7xx_cldma_stop_flush (env : cldma_env) (tx_rx : mtk_txrx) :
    Nat → Nat → cldma_ctrl → cldma_ctrl
  | 0, _, md => md
  | n + 1, i, md =>
    let md := md.emit (cldma_event.flush_work tx_rx i)
    let done := env.flush_work md.tick tx_rx i
    let md := md.asked
    let md :=
      match done with
      | none => md
      | some queue => if tx_rx = mtk_txrx.MTK_TX then md.set_txq i queue else md.set_rxq i queue
    t7xx_cldma_stop_flush env tx_rx n (i + 1) md

/-- The part of `t7xx_cldma_stop` before the wait: the status fields are
zeroed, the hardware is stopped, and after late initialisation the work item
of every queue is flushed. -/
def t7xx_cldma_stop_quiesce (env : cldma_env) (md : cldma_ctrl) : cldma_ctrl :=
  let md := { md with rxq_active := 0 }
  let md := md.emit (cldma_event.hw_stop_queue CLDMA_ALL_Q mtk_txrx.MTK_RX)
  let md := { md with txq_active := 0 }
  let md := md.emit (cldma_event.hw_stop_queue CLDMA_ALL_Q mtk_txrx.MTK_TX)
  let md := { md with txq_started := 0 }
  let md := md.emit cldma_event.disable_irq
  let md := md.emit (cldma_event.hw_stop mtk_txrx.MTK_RX)
  let md := md.emit (cldma_event.hw_stop mtk_txrx.MTK_TX)
  let md := md.emit cldma_event.hw_tx_done_all
  let md := md.emit cldma_event.hw_rx_done_all
  if md.is_late_init then
    t7xx_cldma_stop_flush env mtk_txrx.MTK_RX CLDMA_RXQ_NUM 0
      (t7xx_cldma_stop_flush env mtk_txrx.MTK_TX CLDMA_TXQ_NUM 0 md)
  else md

/-- The function `t7xx_cldma_stop`: after the part before the wait, the queue
status is polled; a timeout is reported and returned. -/
def t7xx_cldma_stop (env : cldma_env) (md : cldma_ctrl) : Int × cldma_ctrl :=
  let polled := t7xx_cldma_stop_poll env
    (CHECK_Q_STOP_TIMEOUT_US / (CHECK_Q_STOP_STEP_US / 4 + 1) + 1)
    (t7xx_cldma_stop_quiesce env md)
  let ret : Int := if !polled.1 then 0 else -ETIMEDOUT
  if ret ≠ 0 then (ret, polled.2.emit cldma_event.dev_err_could_not_stop) else (ret, polled.2)

/-- The two loops of `t7xx_cldma_start` that program the start address of every
queue whose `tr_done` is set: queues `i`, `i + 1`, ..., `n` of them. -/
def t7xx_cldma_start_addrs (tx_rx : mtk_txrx) : Nat → Nat → cldma_ctrl → Option cldma_ctrl
  | 0, _, md => some md
  | n + 1, i, md =>
    match (if tx_rx = mtk_txrx.MTK_TX then md.txq else md.rxq)[i]? with
    | none => none
    | some queue =>
      match queue.tr_done with
      | none => t7xx_cldma_start_addrs tx_rx n (i + 1) md
      | some d =>
        match queue.tr_ring.gpd_ring[d]? with
        | none => none
        | some req =>
          t7xx_cldma_start_addrs tx_rx n (i + 1)
            (md.emit (cldma_event.hw_set_start_addr i req.gpd_addr tx_rx))

/-- The function `t7xx_cldma_start`. -/
def t7xx_cldma_start (md : cldma_ctrl) : Option cldma_ctrl :=
  if md.is_late_init then
    let md := md.emit cldma_event.enable_irq
    match t7xx_cldma_start_addrs mtk_txrx.MTK_TX CLDMA_TXQ_NUM 0 md with
    | none => none
    | some md =>
      match t7xx_cldma_start_addrs mtk_txrx.MTK_RX CLDMA_RXQ_NUM 0 md with
      | none => none
      | some md =>
        let md := md.emit (cldma_event.hw_start_queue CLDMA_ALL_Q mtk_txrx.MTK_RX)
        let md := md.emit cldma_event.hw_start
        let md := { md with txq_started := 0 }
        let md := { md with txq_active := (md.txq_active ||| TXRX_STATUS_BITMASK) % 65536 }
        some { md with rxq_active := (md.rxq_active ||| TXRX_STATUS_BITMASK) % 65536 }
  else some md

/-- What `t7xx_cldma_clear_txq` does to one request: the ownership bit is
cleared, the data pointer and length are zeroed, the packet pointer is dropped. -/
def t7xx_cldma_clear_tx_req (req : cldma_request) : cldma_request :=
  { req with
    gpd := { req.gpd with
      flags := { req.gpd.flags with hwo := false }, data_buff_bd_ptr := 0, data_buff_len := 0 }
    skb := none }

/-- What `t7xx_cldma_clear_txq` does to the queue: it is reset and every request
of its ring is cleared. -/
def t7xx_cldma_clear_txq_queue (txq : cldma_queue) : cldma_queue :=
  let txq := t7xx_cldma_queue_reset txq
  { txq with
    tr_ring := { txq.tr_ring with gpd_ring := txq.tr_ring.gpd_ring.map t7xx_cldma_clear_tx_req } }

/-- The function `t7xx_cldma_clear_txq`: the queue is reset and every request
of its ring is cleared, its packet freed. -/
def t7xx_cldma_clear_txq (md : cldma_ctrl) (qnum : Nat) : Option cldma_ctrl :=
  match md.txq[qnum]? with
  | none => none
  | some txq =>
    let md := { md with
      log := md.log ++
        txq.tr_ring.gpd_ring.map fun (req : cldma_request) => cldma_event.dev_kfree_skb_any req.skb }
    some (md.set_txq qnum (t7xx_cldma_clear_txq_queue txq))

/-- What the first loop of `t7xx_cldma_clear_rxq` does to one request: flags
IOC and HWO, length zero, the buffer emptied. -/
def t7xx_cldma_clear_rx_req (req : cldma_request) : cldma_request :=
  { req with
    gpd := { req.gpd with flags := { hwo := true, ioc := true }, data_buff_len := 0 }
    skb := req.skb.map fun skb => { skb with len := 0, headlen := 0 } }

/-- The second loop of `t7xx_cldma_clear_rxq` over the requests `x`, `x + 1`,
..., `n` of them: a request without a buffer gets a new one. -/
def t7xx_cldma_clear_rxq_refill (env : cldma_env) (qnum : Nat) :
    Nat → Nat → cldma_ctrl → Option (Int × cldma_ctrl)
  | 0, _, md => some (0, md)
  | n + 1, x, md =>
    match md.rxq[qnum]? with
    | none => none
    | some rxq =>
      match rxq.tr_ring.gpd_ring[x]? with
      | none => none
      | some req =>
        if req.skb ≠ none then t7xx_cldma_clear_rxq_refill env qnum n (x + 1) md
        else
          match t7xx_cldma_alloc_and_map_skb env md qnum x with
          | none => none
          | some (ret, md) =>
            if ret ≠ 0 then some (ret, md)
            else
              match md.rxq[qnum]? with
              | none => none
              | some rxq =>
                match rxq.tr_ring.gpd_ring[x]? with
                | none => none
                | some req =>
                  t7xx_cldma_clear_rxq_refill env qnum n (x + 1)
                    (md.set_rxq qnum (rxq.set_req x
                      { req with gpd := { req.gpd with data_buff_bd_ptr := req.mapped_buff } }))

/-- What the first loop of `t7xx_cldma_clear_rxq` does to the queue, after the
reset. -/
def t7xx_cldma_clear_rxq_queue (rxq : cldma_queue) : cldma_queue :=
  let rxq := t7xx_cldma_queue_reset rxq
  { rxq with
    tr_ring := { rxq.tr_ring with gpd_ring := rxq.tr_ring.gpd_ring.map t7xx_cldma_clear_rx_req } }

/-- The function `t7xx_cldma_clear_rxq`. -/
def t7xx_cldma_clear_rxq (env : cldma_env) (md : cldma_ctrl) (qnum : Nat) :
    Option (Int × cldma_ctrl) :=
  match md.rxq[qnum]? with
  | none => none
  | some rxq =>
    let rxq := t7xx_cldma_clear_rxq_queue rxq
    t7xx_cldma_clear_rxq_refill env qnum rxq.tr_ring.gpd_ring.length 0 (md.set_rxq qnum rxq)

/-- The loop of `t7xx_cldma_clear_all_queue` for `MTK_TX`. -/
def t7xx_cldma_clear_all_txq : Nat → Nat → cldma_ctrl → Option cldma_ctrl
  | 0, _, md => some md
  | n + 1, i, md =>
    match t7xx_cldma_clear_txq md i with
    | none => none
    | some md => t7xx_cldma_clear_all_txq n (i + 1) md

/-- The loop of `t7xx_cldma_clear_all_queue` for `MTK_RX`; the value returned
by `t7xx_cldma_clear_rxq` is not looked at. -/
def t7xx_cldma_clear_all_rxq (env : cldma_env) : Nat → Nat → cldma_ctrl → Option cldma_ctrl
  | 0, _, md => some md
  | n + 1, i, md =>
    match t7xx_cldma_clear_rxq env md i with
    | none => none
    | some (_, md) => t7xx_cldma_clear_all_rxq env n (i + 1) md

/-- The function `t7xx_cldma_clear_all_queue`. -/
def t7xx_cldma_clear_all_queue (env : cldma_env) (md : cldma_ctrl) (tx_rx : mtk_txrx) :
    Option cldma_ctrl :=
  if tx_rx = mtk_txrx.MTK_TX then t7xx_cldma_clear_all_txq CLDMA_TXQ_NUM 0 md
  else t7xx_cldma_clear_all_rxq env CLDMA_RXQ_NUM 0 md

/-- The function `t7xx_cldma_stop_queue`; `qno` is an `unsigned char`. -/
def t7xx_cldma_stop_queue (md : cldma_ctrl) (qno : Nat) (tx_rx : mtk_txrx) : cldma_ctrl :=
  let md := md.emit (cldma_event.hw_irq_dis_eq qno tx_rx)
  let md := md.emit (cldma_event.hw_irq_dis_txrx qno tx_rx)
  let mask := if qno = CLDMA_ALL_Q then TXRX_STATUS_BITMASK else TXRX_STATUS_BITMASK &&& BIT qno
  let md :=
    if tx_rx = mtk_txrx.MTK_RX then { md with rxq_active := clear_bits16 md.rxq_active mask }
    else { md with txq_active := clear_bits16 md.txq_active mask }
  md.emit (cldma_event.hw_stop_queue qno tx_rx)

/-! ## Exception handling (`t7xx_hif_cldma.c`, `t7xx_modem_ops.c`) -/

/-- Stages of the exception handshake, `enum hif_ex_stage` (declared in
`t7xx_modem_ops.h`, which is not among the sources; the sources use these four
values). -/
inductive hif_ex_stage where
  | HIF_EX_INIT
  | HIF_EX_INIT_DONE
  | HIF_EX_CLEARQ_DONE
  | HIF_EX_ALLQ_RESET
deriving DecidableEq, Repr

/-- The function `t7xx_cldma_exception`. -/
def t7xx_cldma_exception (env : cldma_env) (md : cldma_ctrl) (stage : hif_ex_stage) :
    Option cldma_ctrl :=
  match stage with
  | hif_ex_stage.HIF_EX_INIT =>
    t7xx_cldma_clear_all_queue env (t7xx_cldma_stop_queue md CLDMA_ALL_Q mtk_txrx.MTK_TX)
      mtk_txrx.MTK_TX
  | hif_ex_stage.HIF_EX_CLEARQ_DONE =>
    let md := t7xx_cldma_stop_queue md CLDMA_ALL_Q mtk_txrx.MTK_RX
    let md := (t7xx_cldma_stop env md).2
    let md := if md.hif_id = cldma_id.ID_CLDMA1 then md.emit cldma_event.hw_reset else md
    t7xx_cldma_clear_all_queue env md mtk_txrx.MTK_RX
  | hif_ex_stage.HIF_EX_ALLQ_RESET => t7xx_cldma_start (md.emit cldma_event.hw_init)
  | hif_ex_stage.HIF_EX_INIT_DONE => some md

/-- Delay before the ports are reset, in milliseconds. -/
def PORT_RESET_DELAY_MS : Nat := 2000
/-- Longest wait for one acknowledgement of the device, in milliseconds. -/
def EX_HS_TIMEOUT_MS : Nat := 5000
/-- Time between two looks at the acknowledgement bits, in milliseconds. -/
def EX_HS_POLL_DELAY_MS : Nat := 10

/-- Host-to-device interrupt channels used by the exception handshake and by
the sleep lock. -/
inductive h2d_channel where
  | H2D_CH_EXCEPTION_ACK
  | H2D_CH_EXCEPTION_CLEARQ_ACK
  | H2D_CH_DS_LOCK
deriving DecidableEq, Repr

/-- What the modem code of `t7xx_modem_ops.c` does, in order: the entries into
`t7xx_md_exception` and the calls that leave the file. -/
inductive modem_event where
  | md_exception (stage : hif_ex_stage)
  | msleep (ms : Nat)
  | port_proxy_reset
  | cldma_exception (hif_id : cldma_id) (stage : hif_ex_stage)
  | h2d_swint_trigger (channel : h2d_channel)
  | dev_err_hs_timeout (event_id : Nat)
deriving DecidableEq, Repr

/-- The modem, `struct t7xx_modem`, as far as the exception handshake uses it:
its two CLDMA controllers `md_ctrl[ID_CLDMA0]` and `md_ctrl[ID_CLDMA1]`, with
the log of what was done and the count of reads of `exp_id`. -/
structure t7xx_modem where
  md_ctrl0 : cldma_ctrl
  md_ctrl1 : cldma_ctrl
  log : List modem_event
  tick : Nat
deriving DecidableEq, Repr

/-- Everything outside the modem code: the value the interrupt handler has
left in `md->exp_id` at each read, the environments of the two controllers,
and the three acknowledgement bits of the device, whose macros are declared in
`t7xx_mhccif.h`, which is not among the sources. -/
structure modem_env where
  exp_id : Nat → Nat
  cldma0 : cldma_env
  cldma1 : cldma_env
  D2H_INT_EXCEPTION_INIT_DONE : Nat
  D2H_INT_EXCEPTION_CLEARQ_DONE : Nat
  D2H_INT_EXCEPTION_ALLQ_RESET : Nat

/-- Append an entry to the modem log. -/
def t7xx_modem.emit (md : t7xx_modem) (e : modem_event) : t7xx_modem :=
  { md with log := md.log ++ [e] }

/-- The function `t7xx_md_exception`. -/
def t7xx_md_exception (env : modem_env) (md : t7xx_modem) (stage : hif_ex_stage) :
    Option t7xx_modem :=
  let md := md.emit (modem_event.md_exception stage)
  let md :=
    if stage = hif_ex_stage.HIF_EX_CLEARQ_DONE then
      (md.emit (modem_event.msleep PORT_RESET_DELAY_MS)).emit modem_event.port_proxy_reset
    else md
  let md := md.emit (modem_event.cldma_exception cldma_id.ID_CLDMA1 stage)
  match t7xx_cldma_exception env.cldma1 md.md_ctrl1 stage with
  | none => none
  | some md_ctrl1 =>
    let md := { md with md_ctrl1 := md_ctrl1 }
    let md := md.emit (modem_event.cldma_exception cldma_id.ID_CLDMA0 stage)
    match t7xx_cldma_exception env.cldma0 md.md_ctrl0 stage with
    | none => none
    | some md_ctrl0 =>
      let md := { md with md_ctrl0 := md_ctrl0 }
      if stage = hif_ex_stage.HIF_EX_INIT then
        some (md.emit (modem_event.h2d_swint_trigger h2d_channel.H2D_CH_EXCEPTION_ACK))
      else if stage = hif_ex_stage.HIF_EX_CLEARQ_DONE then
        some (md.emit (modem_event.h2d_swint_trigger h2d_channel.H2D_CH_EXCEPTION_CLEARQ_ACK))
      else some md

/-- The `do ... while` loop of `t7xx_wait_hif_ex_hk_event`, entered with the
value `waited_time_ms`; `fuel` bounds the number of passes that are followed. -/
def t7xx_wait_hif_ex_hk_event_loop (env : modem_env) (event_id : Nat) :
    Nat → Nat → t7xx_modem → Option (Int × t7xx_modem)
  | 0, _, _ => none
  | fuel + 1, waited_time_ms, md =>
    let exp_id := env.exp_id md.tick
    let md := { md with tick := md.tick + 1 }
    if exp_id &&& event_id ≠ 0 then some (0, md)
    else
      let waited_time_ms := (waited_time_ms + EX_HS_POLL_DELAY_MS) % 4294967296
      let md := md.emit (modem_event.msleep EX_HS_POLL_DELAY_MS)
      if waited_time_ms < EX_HS_TIMEOUT_MS then
        t7xx_wait_hif_ex_hk_event_loop env event_id fuel waited_time_ms md
      else some (-EFAULT, md)

/-- The function `t7xx_wait_hif_ex_hk_event`; the loop ends after at most
`EX_HS_TIMEOUT_MS / EX_HS_POLL_DELAY_MS` passes. -/
def t7xx_wait_hif_ex_hk_event (env : modem_env) (md : t7xx_modem) (event_id : Nat) :
    Option (Int × t7xx_modem) :=
  t7xx_wait_hif_ex_hk_event_loop env event_id (EX_HS_TIMEOUT_MS / EX_HS_POLL_DELAY_MS) 0 md

/-- One wait of `t7xx_md_exception_handshake` with the error message that
follows a timeout. -/
def t7xx_md_exception_handshake_wait (env : modem_env) (md : t7xx_modem) (event_id : Nat) :
    Option t7xx_modem :=
  match t7xx_wait_hif_ex_hk_event env md event_id with
  | none => none
  | some (ret, md) =>
    if ret ≠ 0 then some (md.emit (modem_event.dev_err_hs_timeout event_id)) else some md

/-- The function `t7xx_md_exception_handshake`. -/
def t7xx_md_exception_handshake (env : modem_env) (md : t7xx_modem) : Option t7xx_modem :=
  match t7xx_md_exception env md hif_ex_stage.HIF_EX_INIT with
  | none => none
  | some md =>
    match t7xx_md_exception_handshake_wait env md env.D2H_INT_EXCEPTION_INIT_DONE with
    | none => none
    | some md =>
      match t7xx_md_exception env md hif_ex_stage.HIF_EX_INIT_DONE with
      | none => none
      | some md =>
        match t7xx_md_exception_handshake_wait env md env.D2H_INT_EXCEPTION_CLEARQ_DONE with
        | none => none
        | some md =>
          match t7xx_md_exception env md hif_ex_stage.HIF_EX_CLEARQ_DONE with
          | none => none
          | some md =>
            match t7xx_md_exception_handshake_wait env md env.D2H_INT_EXCEPTION_ALLQ_RESET with
            | none => none
            | some md => t7xx_md_exception env md hif_ex_stage.HIF_EX_ALLQ_RESET

/-- The stages with which `t7xx_md_exception` was entered, in order. -/
def md_exception_stages (md : t7xx_modem) : List hif_ex_stage :=
  md.log.filterMap fun e =>
    match e with
    | modem_event.md_exception stage => some stage
    | _ => none

/-- A controller after late initialisation: `is_late_init` is set, there are
`CLDMA_TXQ_NUM` transmit and `CLDMA_RXQ_NUM` receive queues, each bound to its
ring, and no ring is empty. -/
def cldma_ctrl_wf (md : cldma_ctrl) : Prop :=
  md.is_late_init = true ∧
  md.txq.length = CLDMA_TXQ_NUM ∧ md.rxq.length = CLDMA_RXQ_NUM ∧
  (∀ q ∈ md.txq, q.tr_ring.gpd_ring ≠ []) ∧ (∀ q ∈ md.rxq, q.tr_ring.gpd_ring ≠ [])

/-- No work item of the controller is queued or running whenever
`t7xx_cldma_stop` flushes one: every `flush_work` returns at once. -/
def cldma_no_work_pending (env : cldma_env) : Prop :=
  ∀ (n : Nat) (tx_rx : mtk_txrx) (i : Nat), env.flush_work n tx_rx i = none

/-- A modem whose controllers are both after late initialisation and start. -/
def t7xx_fresh_modem : t7xx_modem :=
  { md_ctrl0 := { cldma_fresh_ctrl with hif_id := cldma_id.ID_CLDMA0 }
    md_ctrl1 := cldma_fresh_ctrl
    log := []
    tick := 0 }

/-- An environment of the modem in which every call of the controllers
succeeds and the device sets the acknowledgement bits `acks` (bits 2, 3 and 4
stand for the three acknowledgements) from the first read on. -/
def modem_env_acks (acks : Nat) : modem_env :=
  { exp_id := fun _ => acks
    cldma0 := cldma_env_ok
    cldma1 := cldma_env_ok
    D2H_INT_EXCEPTION_INIT_DONE := BIT 2
    D2H_INT_EXCEPTION_CLEARQ_DONE := BIT 3
    D2H_INT_EXCEPTION_ALLQ_RESET := BIT 4 }

/-- Every `tr_done` pointer of the controller points to a request of the ring
of its queue, and the controller has its eight queues in each direction. -/
def cldma_tr_done_valid (md : cldma_ctrl) : Prop :=
  md.txq.length = CLDMA_TXQ_NUM ∧ md.rxq.length = CLDMA_RXQ_NUM ∧
  (∀ q ∈ md.txq, ∀ d ∈ q.tr_done, d < q.tr_ring.gpd_ring.length) ∧
  (∀ q ∈ md.rxq, ∀ d ∈ q.tr_done, d < q.tr_ring.gpd_ring.length)

/-- The controller `b` has the identity, the queues and the initialisation flag
of `a`: the two differ at most in the status fields, the log and the count of
questions. -/
def cldma_same_queues (a b : cldma_ctrl) : Prop :=
  b.hif_id = a.hif_id ∧ b.txq = a.txq ∧ b.rxq = a.rxq ∧ b.is_late_init = a.is_late_init

/-- The predicate `cldma_tr_done_valid` can be computed. -/
instance (md : cldma_ctrl) : Decidable (cldma_tr_done_valid md) := by
  unfold cldma_tr_done_valid
  infer_instance

/-- The queue `b` has the cursors, the budget and the ring length of `a`; the
contents of the ring entries may differ. -/
def cldma_same_cursors (a b : cldma_queue) : Prop :=
  b.dir = a.dir ∧ b.index = a.index ∧ b.tr_done = a.tr_done ∧ b.tx_xmit = a.tx_xmit ∧
  b.rx_refill = a.rx_refill ∧ b.budget = a.budget ∧
  b.tr_ring.gpd_ring.length = a.tr_ring.gpd_ring.length ∧ b.tr_ring.length = a.tr_ring.length

/-- Both controllers of the modem are after late initialisation. -/
def t7xx_modem_wf (md : t7xx_modem) : Prop :=
  cldma_ctrl_wf md.md_ctrl0 ∧ cldma_ctrl_wf md.md_ctrl1

/-- No work item of either controller is queued or running whenever the
exception handshake stops a controller. -/
def modem_no_work_pending (env : modem_env) : Prop :=
  cldma_no_work_pending env.cldma0 ∧ cldma_no_work_pending env.cldma1

/-- Every transmit queue of the controller is stopped and cleared: no transmit
bit of `txq_active` is set, both cursors are at the first request, the budget
is the ring length, and no request is owned by the hardware or holds a packet. -/
def cldma_tx_cleared (md : cldma_ctrl) : Prop :=
  md.txq_active &&& TXRX_STATUS_BITMASK = 0 ∧
  ∀ q ∈ md.txq, q.tr_done = some 0 ∧ (q.dir = mtk_txrx.MTK_TX → q.tx_xmit = some 0) ∧
    q.budget = (q.tr_ring.length : Int) ∧
    ∀ req ∈ q.tr_ring.gpd_ring, req.gpd.flags.hwo = false ∧ req.skb = none

/-- Every receive queue of the controller is stopped and reset: `rxq_active` is
0, the cursors are at the first request and the budget is the ring length. -/
def cldma_rx_reset (md : cldma_ctrl) : Prop :=
  md.rxq_active = 0 ∧
  ∀ q ∈ md.rxq, q.tr_done = some 0 ∧ (q.dir = mtk_txrx.MTK_RX → q.rx_refill = some 0) ∧
    q.budget = (q.tr_ring.length : Int)

/-- The predicate `cldma_ctrl_wf` can be computed. -/
instance (md : cldma_ctrl) : Decidable (cldma_ctrl_wf md) := by
  unfold cldma_ctrl_wf
  infer_instance

/-- The predicate `t7xx_modem_wf` can be computed. -/
instance (md : t7xx_modem) : Decidable (t7xx_modem_wf md) := by
  unfold t7xx_modem_wf
  infer_instance

/-- A modem after start whose controller `ID_CLDMA1` holds three submitted
packets on transmit queue 0. -/
def t7xx_busy_modem : t7xx_modem :=
  { t7xx_fresh_modem with md_ctrl1 := cldma_after_submits 3 }

/-! ### DPMAIF transmit path: pending list, burst submission, queue flush -/

/-- The function `t7xx_get_drb_cnt_per_skb`: one descriptor for the linear
data and for each page fragment, and the message descriptor. The result is an
`unsigned char`. -/
def t7xx_get_drb_cnt_per_skb (skb : sk_buff) : Nat :=
  (skb.frags.length + 2) % 256

/-- The function `t7xx_check_tx_queue_drb_available`. -/
def t7xx_check_tx_queue_drb_available (txq : dpmaif_tx_queue) (send_drb_cnt : Nat) : Bool :=
  let drb_remain_cnt := t7xx_ring_buf_rd_wr_count txq.drb_size_cnt txq.drb_release_rd_idx
    txq.drb_wr_idx dpmaif_rdwr.DPMAIF_WRITE
  decide (send_drb_cnt ≤ drb_remain_cnt)

/-- The function `t7xx_dpmaif_tx_send_skb`: the packet is appended to the
pending list of queue `txqt`, or refused with `-EBUSY`. The counters are
`unsigned int`; the control-block entries are bytes. -/
def t7xx_dpmaif_tx_send_skb (c : dpmaif_ctrl) (txqt : Nat) (skb : sk_buff) :
    Option (Int × dpmaif_ctrl) :=
  let send_drb_cnt := t7xx_get_drb_cnt_per_skb skb
  match c.txq[txqt]? with
  | none => none
  | some txq =>
    let stat := txq.tx_skb_stat
    let txq := { txq with tx_skb_stat := (txq.tx_skb_stat + 1) % 2 ^ 32 }
    let tx_drb_available :=
      if stat % DPMAIF_SKB_TX_BURST_CNT = 0 then t7xx_check_tx_queue_drb_available txq send_drb_cnt
      else true
    let c := c.set_txq txqt txq
    if tx_drb_available = false ∨ txq.tx_list_max_len ≤ txq.tx_submit_skb_cnt then
      some (-EBUSY,
        c.emit (dpmaif_event.state_notify dpmaif_txq_state.DMPAIF_TXQ_STATE_FULL txqt))
    else
      let skb := { skb with cb_qtype := txqt % 256, cb_drb_cnt := send_drb_cnt }
      let txq := { txq with tx_skb_queue := txq.tx_skb_queue ++ [skb],
                            tx_submit_skb_cnt := (txq.tx_submit_skb_cnt + 1) % 2 ^ 32 }
      some (0, (c.set_txq txqt txq).emit dpmaif_event.wake_up_tx_thread)

/-- The `for` loop of `t7xx_txq_burst_send_skb` on queue `q_num` with `i`
passes left; `drb_remain_cnt`, `drb_cnt` and `ret` are the values of the
variables on entry to the pass. The result is `drb_cnt`, `ret` and the state. -/
def t7xx_txq_burst_send_skb_loop (env : dpmaif_env) (q_num : Nat) :
    Nat → Int → Int → Int → dpmaif_ctrl → Option (Int × Int × dpmaif_ctrl)
  | 0, _, drb_cnt, ret, c => some (drb_cnt, ret, c)
  | i + 1, drb_remain_cnt, drb_cnt, ret, c =>
    match c.txq[q_num]? with
    | none => none
    | some txq =>
      match txq.tx_skb_queue with
      | [] => some (drb_cnt, ret, c)
      | skb :: _ =>
        if drb_remain_cnt < (skb.cb_drb_cnt : Int) then
          let drb_remain_cnt := t7xx_ring_buf_rd_wr_count txq.drb_size_cnt txq.drb_release_rd_idx
            txq.drb_wr_idx dpmaif_rdwr.DPMAIF_WRITE
          t7xx_txq_burst_send_skb_loop env q_num i drb_remain_cnt drb_cnt ret c
        else
          let drb_remain_cnt := drb_remain_cnt - (skb.cb_drb_cnt : Int)
          match t7xx_dpmaif_add_skb_to_ring env c skb with
          | none => none
          | some (ret, c) =>
            if ret < 0 then some (drb_cnt, ret, c.emit (dpmaif_event.dev_err_add_skb_failed ret))
            else
              let drb_cnt := drb_cnt + (skb.cb_drb_cnt : Int)
              match c.txq[q_num]? with
              | none => none
              | some txq =>
                let txq := { txq with tx_skb_queue := txq.tx_skb_queue.tail,
                                      tx_submit_skb_cnt := (txq.tx_submit_skb_cnt + 2 ^ 32 - 1) % 2 ^ 32 }
                t7xx_txq_burst_send_skb_loop env q_num i drb_remain_cnt drb_cnt ret
                  (c.set_txq q_num txq)

/-- The function `t7xx_txq_burst_send_skb` on queue `q_num`: up to
`DPMAIF_SKB_TX_BURST_CNT` packets go from the pending list to the ring. The
result is the number of descriptors submitted when there are any, otherwise
the last error or 0. -/
def t7xx_txq_burst_send_skb (env : dpmaif_env) (c : dpmaif_ctrl) (q_num : Nat) :
    Option (Int × dpmaif_ctrl) :=
  match c.txq[q_num]? with
  | none => none
  | some txq =>
    let drb_remain_cnt := t7xx_ring_buf_rd_wr_count txq.drb_size_cnt txq.drb_release_rd_idx
      txq.drb_wr_idx dpmaif_rdwr.DPMAIF_WRITE
    match t7xx_txq_burst_send_skb_loop env q_num DPMAIF_SKB_TX_BURST_CNT drb_remain_cnt 0 0 c with
    | none => none
    | some (drb_cnt, ret, c) =>
      match c.txq[q_num]? with
      | none => none
      | some txq =>
        if 0 < drb_cnt then some (drb_cnt, c.set_txq q_num { txq with drb_lack := false })
        else if ret = -ENOMEM then some (ret, c.set_txq q_num { txq with drb_lack := true })
        else some (ret, c)

/-- The function `t7xx_tx_lists_are_all_empty`. -/
def t7xx_tx_lists_are_all_empty (c : dpmaif_ctrl) : Bool :=
  (c.txq.take DPMAIF_TXQ_NUM).all (fun txq => txq.tx_skb_queue.isEmpty)

/-- The function `t7xx_check_all_txq_drb_lack`. -/
def t7xx_check_all_txq_drb_lack (c : dpmaif_ctrl) : Bool :=
  (c.txq.take DPMAIF_TXQ_NUM).all (fun txq => txq.tx_skb_queue.isEmpty || txq.drb_lack)

/-- The function `t7xx_select_tx_queue`: only the default queue is used. -/
def t7xx_select_tx_queue (_c : dpmaif_ctrl) : Nat := 0

/-- The `do ... while` loop of `t7xx_do_tx_hw_push`, followed for at most
`fuel` passes; `first_time` is the value of the variable on entry to the
pass. -/
def t7xx_do_tx_hw_push_loop (env : dpmaif_env) : Nat → Bool → dpmaif_ctrl → Option dpmaif_ctrl
  | 0, _, _ => none
  | fuel + 1, first_time, c =>
    let txq_id := t7xx_select_tx_queue c
    match t7xx_txq_burst_send_skb env c txq_id with
    | none => none
    | some (ret, c) =>
      let locked := if first_time ∧ 0 < ret then env.sleep_disable_complete c.tick else true
      let c := if first_time ∧ 0 < ret then c.asked else c
      if locked = false then some c
      else
        let c :=
          if 0 < ret then
            let drb_send_cnt := ret
            let c := c.emit (dpmaif_event.ul_update_hw_drb_cnt txq_id
              (u32_of_int (drb_send_cnt * (DPMAIF_UL_DRB_ENTRY_WORD : Int))))
            let ret := env.ul_update_hw_drb_cnt c.tick
            let c := c.asked
            if ret < 0 then c.emit (dpmaif_event.dev_err_update_drb_cnt_failed txq_id) else c
          else if t7xx_check_all_txq_drb_lack c then c.emit dpmaif_event.usleep_range
          else c
        if t7xx_tx_lists_are_all_empty c then some c
        else
          let stop := env.kthread_should_stop c.tick
          let c := c.asked
          if stop = false ∧ c.state = dpmaif_state.DPMAIF_STATE_PWRON then
            t7xx_do_tx_hw_push_loop env fuel false c
          else some c

/-- The function `t7xx_do_tx_hw_push`, its loop followed for at most `fuel`
passes. -/
def t7xx_do_tx_hw_push (fuel : Nat) (env : dpmaif_env) (c : dpmaif_ctrl) : Option dpmaif_ctrl :=
  t7xx_do_tx_hw_push_loop env fuel true { c with txq_select_times := 0 }

/-- The loop of `t7xx_dpmaif_tx_free_drb_skb` over the shadow entries from
position `i` on, `n` entries left. -/
def t7xx_dpmaif_tx_free_drb_skb_loop (q_num : Nat) : Nat → Nat → dpmaif_ctrl → Option dpmaif_ctrl
  | 0, _, c => some c
  | n + 1, i, c =>
    match c.txq[q_num]? with
    | none => none
    | some txq =>
      match txq.drb_skb_base.get? i with
      | none => none
      | some drb_skb =>
        match drb_skb.skb with
        | none => t7xx_dpmaif_tx_free_drb_skb_loop q_num n (i + 1) c
        | some skb =>
          let c :=
            if drb_skb.is_msg = false then
              c.emit (dpmaif_event.dma_unmap_single drb_skb.bus_addr drb_skb.data_len)
            else c
          let c :=
            if drb_skb.is_last then
              (c.emit (dpmaif_event.kfree_skb skb)).set_txq q_num
                { txq with drb_skb_base := txq.drb_skb_base.set i { drb_skb with skb := none } }
            else c
          t7xx_dpmaif_tx_free_drb_skb_loop q_num n (i + 1) c

/-- The function `t7xx_dpmaif_tx_free_drb_skb` on queue `q_num`. -/
def t7xx_dpmaif_tx_free_drb_skb (c : dpmaif_ctrl) (q_num : Nat) : Option dpmaif_ctrl :=
  match c.txq[q_num]? with
  | none => none
  | some txq => t7xx_dpmaif_tx_free_drb_skb_loop q_num txq.drb_size_cnt 0 c

/-- The function `t7xx_dpmaif_txq_flush_rel` on queue `q_num`. -/
def t7xx_dpmaif_txq_flush_rel (c : dpmaif_ctrl) (q_num : Nat) : Option dpmaif_ctrl :=
  match c.txq[q_num]? with
  | none => none
  | some txq =>
    let c := c.set_txq q_num { txq with que_started := false }
    let c := c.emit (dpmaif_event.cancel_work_sync q_num)
    let c := c.emit (dpmaif_event.flush_work q_num)
    match t7xx_dpmaif_tx_free_drb_skb c q_num with
    | none => none
    | some c =>
      match c.txq[q_num]? with
      | none => none
      | some txq =>
        some (c.set_txq q_num { txq with drb_rd_idx := 0, drb_wr_idx := 0, drb_release_rd_idx := 0 })

/-- The loop of `t7xx_dpmaif_tx_clear` over the queues from `i` on, `n`
queues left. -/
def t7xx_dpmaif_tx_clear_loop : Nat → Nat → dpmaif_ctrl → Option dpmaif_ctrl
  | 0, _, c => some c
  | n + 1, i, c =>
    match t7xx_dpmaif_txq_flush_rel c i with
    | none => none
    | some c => t7xx_dpmaif_tx_clear_loop n (i + 1) c

/-- The function `t7xx_dpmaif_tx_clear`. -/
def t7xx_dpmaif_tx_clear (c : dpmaif_ctrl) : Option dpmaif_ctrl :=
  t7xx_dpmaif_tx_clear_loop DPMAIF_TXQ_NUM 0 c

/-- Sum of the counts passed to `t7xx_dpmaif_ul_update_hw_drb_cnt` in a log. -/
def dpmaif_announced : List dpmaif_event → Nat
  | [] => 0
  | dpmaif_event.ul_update_hw_drb_cnt _ cnt :: rest => cnt + dpmaif_announced rest
  | _ :: rest => dpmaif_announced rest

/-- The pending list of a queue holds packets as `t7xx_dpmaif_tx_send_skb`
leaves them on queue `q_num`: the control block names the queue and the
number of descriptors the packet takes, which fits the byte it is kept in. -/
def dpmaif_pending_ok (q_num : Nat) (txq : dpmaif_tx_queue) : Prop :=
  ∀ skb ∈ txq.tx_skb_queue,
    skb.cb_qtype = q_num ∧ skb.cb_drb_cnt = skb.frags.length + 2 ∧ skb.frags.length + 2 < 256

instance (q_num : Nat) (txq : dpmaif_tx_queue) : Decidable (dpmaif_pending_ok q_num txq) := by
  unfold dpmaif_pending_ok; infer_instance

/-- An environment as `dpmaif_env_ok 0` in which the wait for the PCIe sleep
lock, `t7xx_pci_sleep_disable_complete`, times out. -/
def dpmaif_env_locked : dpmaif_env :=
  { dpmaif_env_ok 0 with sleep_disable_complete := fun _ => false }

/-- The fresh controller after `t7xx_dpmaif_tx_send_skb` has put one packet
without fragments on the pending list of queue 0. -/
def dpmaif_one_pending : dpmaif_ctrl :=
  dpmaif_state_of (t7xx_dpmaif_tx_send_skb dpmaif_fresh_ctrl 0 { id := 1, len := 100 })

/-- Queue 0 of `dpmaif_one_pending`. -/
def dpmaif_one_pending_txq : dpmaif_tx_queue :=
  (dpmaif_one_pending.txq[0]?).getD (dpmaif_fresh_txq 0)

/-! ### CLDMA transmit reclaim and ring set-up -/

/-- The controller `cldma_fresh_ctrl` after one packet has been submitted on
transmit queue 0 and the hardware has sent it: descriptor 0 holds the packet
and its ownership bit is clear. -/
def cldma_one_sent : cldma_ctrl :=
  cldma_hw_tx_complete (cldma_after_submits 1) 0 0

/-- Transmit queue 0 of `cldma_one_sent`. -/
def cldma_one_sent_txq : cldma_queue :=
  (cldma_one_sent.txq[0]?).getD (cldma_fresh_txq MAX_TX_BUDGET 0)

/-- The function `t7xx_cldma_alloc_and_map_skb` on a request that is not
linked into a ring yet, as `t7xx_alloc_rx_request` calls it. -/
def t7xx_cldma_alloc_and_map_skb_req (env : cldma_env) (md : cldma_ctrl) (req : cldma_request) :
    Int × cldma_request × cldma_ctrl :=
  let skb := env.dev_alloc_skb md.tick
  let md := md.asked
  match skb with
  | none => (-ENOMEM, { req with skb := none }, md)
  | some skb =>
    let mapped := env.dma_map_single md.tick
    let md := md.asked
    if dma_mapping_error mapped then
      let md := md.emit cldma_event.dev_err_dma_mapping_failed
      let md := md.emit (cldma_event.dev_kfree_skb_any (some skb))
      (-ENOMEM, { req with skb := none, mapped_buff := 0 }, md)
    else
      (0, { req with skb := some skb, mapped_buff := mapped }, md)

/-- A request as `kzalloc` and `dma_pool_zalloc` leave it: everything zero but
the bus address of its descriptor. -/
def cldma_zero_request (gpd_addr : Nat) : cldma_request :=
  { gpd := { flags := { hwo := false, ioc := false }, data_buff_bd_ptr := 0, data_buff_len := 0,
             data_allow_len := 0, next_gpd_ptr := 0 },
    gpd_addr := gpd_addr, skb := none, mapped_buff := 0 }

/-- The function `t7xx_cldma_ring_free`: every request of the ring is
released and unlinked. The length given to `dma_unmap_single` is the size of
the buffer, which the model does not keep; it is logged as 0. -/
def t7xx_cldma_ring_free (md : cldma_ctrl) (ring : cldma_ring) (tx_rx : mtk_txrx) :
    cldma_ring × cldma_ctrl :=
  let md := ring.gpd_ring.foldl (fun (md : cldma_ctrl) (req_cur : cldma_request) =>
    let md :=
      if req_cur.mapped_buff ≠ 0 ∧ req_cur.skb ≠ none then
        md.emit (cldma_event.dma_unmap_single req_cur.mapped_buff 0 tx_rx)
      else md
    let md := md.emit (cldma_event.dev_kfree_skb_any req_cur.skb)
    let md := md.emit (cldma_event.dma_pool_free req_cur.gpd_addr)
    md.emit cldma_event.kfree_sensitive) md
  ({ ring with gpd_ring := [] }, md)

/-- The function `t7xx_alloc_rx_request`: a request with a descriptor from the
pool and a mapped packet buffer, or nothing. -/
def t7xx_alloc_rx_request (env : cldma_env) (md : cldma_ctrl) (_pkt_size : Nat) :
    Option cldma_request × cldma_ctrl :=
  let item := env.kzalloc md.tick
  let md := md.asked
  if item = false then (none, md)
  else
    let gpd := env.dma_pool_zalloc md.tick
    let md := md.asked
    match gpd with
    | none => (none, md.emit cldma_event.kfree)
    | some gpd_addr =>
      match t7xx_cldma_alloc_and_map_skb_req env md (cldma_zero_request gpd_addr) with
      | (val, item, md) =>
        if val ≠ 0 then
          (none, (md.emit (cldma_event.dma_pool_free gpd_addr)).emit cldma_event.kfree)
        else (some item, md)

/-- The function `t7xx_alloc_tx_request`: a request with a descriptor from the
pool, or nothing. -/
def t7xx_alloc_tx_request (env : cldma_env) (md : cldma_ctrl) : Option cldma_request × cldma_ctrl :=
  let item := env.kzalloc md.tick
  let md := md.asked
  if item = false then (none, md)
  else
    let gpd := env.dma_pool_zalloc md.tick
    let md := md.asked
    match gpd with
    | none => (none, md.emit cldma_event.kfree)
    | some gpd_addr => (some (cldma_zero_request gpd_addr), md)

/-- The functions `t7xx_cldma_tgpd_set_next_ptr` and
`t7xx_cldma_rgpd_set_next_ptr` on the descriptor of the last request of a
list, which is where `prev_gpd` and, after the loop, `gpd` point. -/
def cldma_set_next_ptr_of_last (gpd_ring : List cldma_request) (next_ptr : Nat) :
    List cldma_request :=
  match gpd_ring.getLast? with
  | none => gpd_ring
  | some req =>
    gpd_ring.set (gpd_ring.length - 1) { req with gpd := { req.gpd with next_gpd_ptr := next_ptr } }

/-- The `for` loop of `t7xx_cldma_rx_ring_init` from pass `i` on, `n` passes
left; `first_item` is the bus address of the descriptor of the first request
made, when there is one. The result is the return value when the loop ends
the function, `first_item`, the ring and the controller. -/
def t7xx_cldma_rx_ring_init_loop (env : cldma_env) :
    Nat → Nat → Option Nat → cldma_ring → cldma_ctrl →
      Option Int × Option Nat × cldma_ring × cldma_ctrl
  | 0, _, first_item, ring, md => (none, first_item, ring, md)
  | n + 1, i, first_item, ring, md =>
    match t7xx_alloc_rx_request env md ring.pkt_size with
    | (none, md) =>
      match t7xx_cldma_ring_free md ring mtk_txrx.MTK_RX with
      | (ring, md) => (some (-ENOMEM), first_item, ring, md)
    | (some item, md) =>
      let item := { item with gpd := { item.gpd with
        data_buff_bd_ptr := item.mapped_buff, data_allow_len := ring.pkt_size % 65536,
        flags := { hwo := true, ioc := true } } }
      let gpd_ring :=
        if i ≠ 0 then cldma_set_next_ptr_of_last ring.gpd_ring item.gpd_addr else ring.gpd_ring
      let first_item := if i ≠ 0 then first_item else some item.gpd_addr
      t7xx_cldma_rx_ring_init_loop env n (i + 1) first_item
        { ring with gpd_ring := gpd_ring ++ [item] } md

/-- The function `t7xx_cldma_rx_ring_init`. -/
def t7xx_cldma_rx_ring_init (env : cldma_env) (md : cldma_ctrl) (ring : cldma_ring) :
    Int × cldma_ring × cldma_ctrl :=
  match t7xx_cldma_rx_ring_init_loop env ring.length 0 none ring md with
  | (some ret, _, ring, md) => (ret, ring, md)
  | (none, first_item, ring, md) =>
    match first_item with
    | none => (0, ring, md)
    | some addr => (0, { ring with gpd_ring := cldma_set_next_ptr_of_last ring.gpd_ring addr }, md)

/-- The `for` loop of `t7xx_cldma_tx_ring_init`, `n` passes left; the result
is as for `t7xx_cldma_rx_ring_init_loop`. -/
def t7xx_cldma_tx_ring_init_loop (env : cldma_env) :
    Nat → Option Nat → cldma_ring → cldma_ctrl →
      Option Int × Option Nat × cldma_ring × cldma_ctrl
  | 0, first_item, ring, md => (none, first_item, ring, md)
  | n + 1, first_item, ring, md =>
    match t7xx_alloc_tx_request env md with
    | (none, md) =>
      match t7xx_cldma_ring_free md ring mtk_txrx.MTK_TX with
      | (ring, md) => (some (-ENOMEM), first_item, ring, md)
    | (some item, md) =>
      let item := { item with gpd := { item.gpd with flags := { hwo := false, ioc := true } } }
      let gpd_ring :=
        if first_item = none then ring.gpd_ring
        else cldma_set_next_ptr_of_last ring.gpd_ring item.gpd_addr
      let first_item := if first_item = none then some item.gpd_addr else first_item
      t7xx_cldma_tx_ring_init_loop env n first_item { ring with gpd_ring := gpd_ring ++ [item] } md

/-- The function `t7xx_cldma_tx_ring_init`. -/
def t7xx_cldma_tx_ring_init (env : cldma_env) (md : cldma_ctrl) (ring : cldma_ring) :
    Int × cldma_ring × cldma_ctrl :=
  match t7xx_cldma_tx_ring_init_loop env ring.length none ring md with
  | (some ret, _, ring, md) => (ret, ring, md)
  | (none, first_item, ring, md) =>
    match first_item with
    | none => (0, ring, md)
    | some addr => (0, { ring with gpd_ring := cldma_set_next_ptr_of_last ring.gpd_ring addr }, md)

/-- An empty ring of the given length and buffer size, as
`t7xx_cldma_late_init` hands it to the ring set-up. -/
def cldma_empty_ring (length pkt_size : Nat) : cldma_ring :=
  { gpd_ring := [], length := length, pkt_size := pkt_size }

/-- A receive request as the ring set-up leaves it: a packet buffer is
attached and mapped, the descriptor points to the mapping, allows `pkt_size`
bytes and carries the flags IOC and HWO. -/
def cldma_rx_request_ready (pkt_size : Nat) (r : cldma_request) : Prop :=
  r.skb ≠ none ∧ dma_mapping_error r.mapped_buff = false ∧
  r.gpd.data_buff_bd_ptr = r.mapped_buff ∧ r.gpd.data_allow_len = pkt_size % 65536 ∧
  r.gpd.flags = { hwo := true, ioc := true }

/-- A transmit request as the ring set-up leaves it: no packet buffer, no
mapping, and a descriptor with the flag IOC only. -/
def cldma_tx_request_ready (r : cldma_request) : Prop :=
  r.skb = none ∧ r.mapped_buff = 0 ∧ r.gpd.data_buff_bd_ptr = 0 ∧
  r.gpd.flags = { hwo := false, ioc := true }

/-! ## Sleep lock of the PCIe device (`t7xx_pci.c`) -/

/-- Power-management state of the device, `enum t7xx_pm_state`. -/
inductive t7xx_pm_state where
  | MTK_PM_EXCEPTION
  | MTK_PM_INIT
  | MTK_PM_SUSPENDED
  | MTK_PM_RESUMED
deriving DecidableEq, Repr

/-- The value of an enumerator of `enum t7xx_pm_state`. -/
def t7xx_pm_state.val : t7xx_pm_state → Nat
  | MTK_PM_EXCEPTION => 0
  | MTK_PM_INIT => 1
  | MTK_PM_SUSPENDED => 2
  | MTK_PM_RESUMED => 3

/-- Calls that leave the sleep-lock code, in the order they are made. -/
inductive pci_event where
  | iowrite32_misc_ctrl (value : Nat)
  | complete_all_sleep_lock_acquire
  | reinit_completion_sleep_lock_acquire
  | h2d_swint_trigger (channel : h2d_channel)
deriving DecidableEq, Repr

/-- The device, `struct t7xx_pci_dev`, as far as the sleep lock uses it: the
PM state, the reference count `sleep_disable_count` (an `atomic_t`), the
register `PCIE_MISC_CTRL`, the log of outgoing calls and the count of
questions asked to the environment. -/
structure t7xx_pci_dev where
  md_pm_state : t7xx_pm_state
  sleep_disable_count : Int
  misc_ctrl : Nat
  log : List pci_event
  tick : Nat
deriving DecidableEq, Repr

/-- What the sleep-lock code takes from outside: the two register masks, whose
macros are declared in `t7xx_reg.h`, which is not among the sources, and the
value read from the register `PCIE_RESOURCE_STATUS` at each read. -/
structure pci_env where
  PCIE_MISC_MAC_SLEEP_DIS : Nat
  PCIE_RESOURCE_STATUS_MSK : Nat
  resource_status : Nat → Nat

/-- Append an outgoing call to the log. -/
def t7xx_pci_dev.emit (dev : t7xx_pci_dev) (e : pci_event) : t7xx_pci_dev :=
  { dev with log := dev.log ++ [e] }

/-- A value brought into the range of the 32-bit signed counter of an
`atomic_t`. -/
def atomic_wrap (x : Int) : Int := (x + 2 ^ 31) % 2 ^ 32 - 2 ^ 31

/-- The function `t7xx_dev_set_sleep_capability`: the bit
`PCIE_MISC_MAC_SLEEP_DIS` of `PCIE_MISC_CTRL` is cleared when `enable` is set
and set otherwise. -/
def t7xx_dev_set_sleep_capability (env : pci_env) (dev : t7xx_pci_dev) (enable : Bool) :
    t7xx_pci_dev :=
  let value := dev.misc_ctrl % 2 ^ 32
  let value :=
    if enable then value &&& (0xFFFFFFFF ^^^ (env.PCIE_MISC_MAC_SLEEP_DIS % 2 ^ 32))
    else value ||| (env.PCIE_MISC_MAC_SLEEP_DIS % 2 ^ 32)
  { dev with misc_ctrl := value }.emit (pci_event.iowrite32_misc_ctrl value)

/-- The function `t7xx_pci_disable_sleep`. -/
def t7xx_pci_disable_sleep (env : pci_env) (dev : t7xx_pci_dev) : t7xx_pci_dev :=
  if dev.md_pm_state.val < t7xx_pm_state.MTK_PM_RESUMED.val then
    let dev := { dev with sleep_disable_count := atomic_wrap (dev.sleep_disable_count + 1) }
    dev.emit pci_event.complete_all_sleep_lock_acquire
  else
    let dev := { dev with sleep_disable_count := atomic_wrap (dev.sleep_disable_count + 1) }
    if dev.sleep_disable_count = 1 then
      let dev := dev.emit pci_event.reinit_completion_sleep_lock_acquire
      let dev := t7xx_dev_set_sleep_capability env dev false
      let deep_sleep_enabled := env.resource_status dev.tick % 2 ^ 32
      let dev := { dev with tick := dev.tick + 1 }
      let deep_sleep_enabled := deep_sleep_enabled &&& (env.PCIE_RESOURCE_STATUS_MSK % 2 ^ 32)
      if deep_sleep_enabled ≠ 0 then dev.emit pci_event.complete_all_sleep_lock_acquire
      else dev.emit (pci_event.h2d_swint_trigger h2d_channel.H2D_CH_DS_LOCK)
    else dev

/-- The function `t7xx_pci_enable_sleep`. -/
def t7xx_pci_enable_sleep (env : pci_env) (dev : t7xx_pci_dev) : t7xx_pci_dev :=
  if dev.md_pm_state.val < t7xx_pm_state.MTK_PM_RESUMED.val then
    { dev with sleep_disable_count := atomic_wrap (dev.sleep_disable_count - 1) }
  else
    let dev := { dev with sleep_disable_count := atomic_wrap (dev.sleep_disable_count - 1) }
    if dev.sleep_disable_count = 0 then t7xx_dev_set_sleep_capability env dev true
    else dev

/-- One call of the sleep lock together with the PM state the device is in
when the call is made. -/
inductive pci_sleep_call where
  | disable_sleep (pm : t7xx_pm_state)
  | enable_sleep (pm : t7xx_pm_state)
deriving DecidableEq, Repr

/-- A sequence of calls of `t7xx_pci_disable_sleep` and
`t7xx_pci_enable_sleep`, each in the PM state given with it. -/
def t7xx_pci_sleep_calls (env : pci_env) : List pci_sleep_call → t7xx_pci_dev → t7xx_pci_dev
  | [], dev => dev
  | pci_sleep_call.disable_sleep pm :: rest, dev =>
    t7xx_pci_sleep_calls env rest (t7xx_pci_disable_sleep env { dev with md_pm_state := pm })
  | pci_sleep_call.enable_sleep pm :: rest, dev =>
    t7xx_pci_sleep_calls env rest (t7xx_pci_enable_sleep env { dev with md_pm_state := pm })

/-- Number of `disable_sleep` calls in a sequence. -/
def pci_disable_calls (calls : List pci_sleep_call) : Nat :=
  (calls.filter (fun c => match c with
    | pci_sleep_call.disable_sleep _ => true
    | pci_sleep_call.enable_sleep _ => false)).length

/-- Number of `enable_sleep` calls in a sequence. -/
def pci_enable_calls (calls : List pci_sleep_call) : Nat :=
  (calls.filter (fun c => match c with
    | pci_sleep_call.disable_sleep _ => false
    | pci_sleep_call.enable_sleep _ => true)).length

/-- The device after `t7xx_pci_pm_init` and a resume: the count is 0. -/
def t7xx_pci_dev_resumed : t7xx_pci_dev :=
  { md_pm_state := t7xx_pm_state.MTK_PM_RESUMED, sleep_disable_count := 0, misc_ctrl := 0,
    log := [], tick := 0 }

/-- An environment with the masks `BIT(7)` and `GENMASK(4, 0)` in which the
register `PCIE_RESOURCE_STATUS` reads as `status`. -/
def pci_env_status (status : Nat) : pci_env :=
  { PCIE_MISC_MAC_SLEEP_DIS := 0x80, PCIE_RESOURCE_STATUS_MSK := 0x1f,
    resource_status := fun _ => status }

/-! ## Interrupt handler and handshake of the modem (`t7xx_modem_ops.c`) -/

/-- State of the modem, `enum md_state`. -/
inductive md_state where
  | MD_STATE_INVALID
  | MD_STATE_GATED
  | MD_STATE_WAITING_FOR_HS1
  | MD_STATE_WAITING_FOR_HS2
  | MD_STATE_READY
  | MD_STATE_EXCEPTION
  | MD_STATE_RESET
  | MD_STATE_WAITING_TO_STOP
  | MD_STATE_STOPPED
deriving DecidableEq, Repr

/-- State of the state machine, `enum t7xx_fsm_state`. The enumeration is
declared in `t7xx_state_monitor.h`, which is not among the sources; the three
states `t7xx_pci_mhccif_isr` names are kept apart and every other state is
`FSM_STATE_OTHER`. -/
inductive t7xx_fsm_state where
  | FSM_STATE_INIT
  | FSM_STATE_PRE_START
  | FSM_STATE_STOPPED
  | FSM_STATE_OTHER
deriving DecidableEq, Repr

/-- Interrupts handed to the state machine, `enum t7xx_md_irq_type`; the two
enumerators `t7xx_modem_ops.c` uses. -/
inductive t7xx_md_irq_type where
  | MD_IRQ_PORT_ENUM
  | MD_IRQ_CCIF_EX
deriving DecidableEq, Repr

/-- Events of the state machine, `enum t7xx_fsm_event_state`; the two
enumerators the modem handshake uses and one for every other event. -/
inductive t7xx_fsm_event_state where
  | FSM_EVENT_MD_HS2
  | FSM_EVENT_MD_HS2_EXIT
  | FSM_EVENT_OTHER
deriving DecidableEq, Repr

/-- An event in the queue of the state machine, `struct t7xx_fsm_event`, with
the bytes of its payload. -/
structure t7xx_fsm_event where
  event_id : t7xx_fsm_event_state
  length : Nat
  data : List Nat
deriving DecidableEq, Repr

/-- The state machine, `struct t7xx_fsm_ctl`, as far as `t7xx_modem_ops.c`
reads it. -/
structure t7xx_fsm_ctl where
  curr_state : t7xx_fsm_state
  md_state : md_state
  exp_flg : Bool
  event_queue : List t7xx_fsm_event
deriving DecidableEq, Repr

/-- Handshake bookkeeping of one core, `struct t7xx_sys_info`. -/
structure t7xx_sys_info where
  ready : Bool
  handshake_ongoing : Bool
  feature_set : List Nat
deriving DecidableEq, Repr

/-- A control message handed to `t7xx_port_proxy_send_skb`: the message id and
`data_length` of the control header, `packet_len` of the CCCI header and the
bytes that follow the two headers. -/
structure t7xx_ctrl_msg where
  ctrl_msg_id : Nat
  data_length : Nat
  packet_len : Nat
  body : List Nat
deriving DecidableEq, Repr

/-- Calls that leave the interrupt handler and the handshake handler, in the
order they are made, and the reads of runtime-feature entries. -/
inductive md_core_event where
  | dev_err_isr_before_init
  | fsm_recv_md_intr (type : t7xx_md_irq_type)
  | queue_work_handshake
  | port_proxy_send_skb (msg : t7xx_ctrl_msg)
  | rt_feature_read (i : Nat) (offset : Int)
  | port_proxy_node_control (offset : Int)
  | dev_err_handshake_error_event
  | dev_err_host_parse_failed (ret : Int)
  | dev_err_device_parse_failed (ret : Int)
  | dev_err_invalid_feature_pattern (head tail : Nat)
  | wake_up_async_hk
  | kfree_event
deriving DecidableEq, Repr

/-- The modem, `struct t7xx_modem`, as far as the MHCCIF interrupt handler and
the handshake handler use it, with the log of outgoing calls and the count of
questions asked to the environment. -/
structure t7xx_modem_core where
  exp_id : Nat
  fsm_ctl : Option t7xx_fsm_ctl
  core_md : t7xx_sys_info
  log : List md_core_event
  tick : Nat
deriving DecidableEq, Repr

/-- Everything outside the two handlers: the interrupt status and mask
registers, the four interrupt masks, whose macros are declared in
`t7xx_mhccif.h`, which is not among the sources, the allocator, the stop flag
of the thread and the events that reach the queue of the state machine while
the handler waits. -/
structure md_core_env where
  read_sw_int_sts : Nat → Nat
  mask_get : Nat → Nat
  D2H_SW_INT_MASK : Nat
  D2H_INT_PORT_ENUM : Nat
  D2H_INT_EXCEPTION_INIT : Nat
  D2H_INT_ASYNC_MD_HK : Nat
  dev_alloc_skb : Nat → Bool
  kthread_should_stop : Nat → Bool
  fsm_append_event : Nat → List t7xx_fsm_event

/-- Append an outgoing call to the log. -/
def t7xx_modem_core.emit (md : t7xx_modem_core) (e : md_core_event) : t7xx_modem_core :=
  { md with log := md.log ++ [e] }

/-- Count one question asked to the environment. -/
def t7xx_modem_core.asked (md : t7xx_modem_core) : t7xx_modem_core :=
  { md with tick := md.tick + 1 }

/-- The bits of `mask` taken out of the 32-bit value `x`: `x & ~mask`. -/
def clear_bits32 (x mask : Nat) : Nat := x &&& (0xFFFFFFFF ^^^ (mask % 2 ^ 32))

/-- The function `t7xx_get_interrupt_status`. -/
def t7xx_get_interrupt_status (env : md_core_env) (md : t7xx_modem_core) : Nat :=
  env.read_sw_int_sts md.tick % 2 ^ 32 &&& env.D2H_SW_INT_MASK % 2 ^ 32

/-- The part of `t7xx_pci_mhccif_isr` that deals with the port-enumeration
interrupt. -/
def t7xx_pci_mhccif_isr_port_enum (env : md_core_env) (ctl : t7xx_fsm_ctl)
    (md : t7xx_modem_core) : t7xx_modem_core :=
  if md.exp_id &&& env.D2H_INT_PORT_ENUM % 2 ^ 32 ≠ 0 then
    let md := { md with exp_id := clear_bits32 md.exp_id env.D2H_INT_PORT_ENUM }
    if ctl.curr_state = t7xx_fsm_state.FSM_STATE_INIT ∨
        ctl.curr_state = t7xx_fsm_state.FSM_STATE_PRE_START ∨
        ctl.curr_state = t7xx_fsm_state.FSM_STATE_STOPPED then
      md.emit (md_core_event.fsm_recv_md_intr t7xx_md_irq_type.MD_IRQ_PORT_ENUM)
    else md
  else md

/-- The part of `t7xx_pci_mhccif_isr` that deals with the exception interrupt
and with the asynchronous handshake interrupt. -/
def t7xx_pci_mhccif_isr_exception (env : md_core_env) (ctl : t7xx_fsm_ctl)
    (md : t7xx_modem_core) : t7xx_modem_core :=
  if md.exp_id &&& env.D2H_INT_EXCEPTION_INIT % 2 ^ 32 ≠ 0 then
    if ctl.md_state = md_state.MD_STATE_INVALID ∨
        ctl.md_state = md_state.MD_STATE_WAITING_FOR_HS1 ∨
        ctl.md_state = md_state.MD_STATE_WAITING_FOR_HS2 ∨
        ctl.md_state = md_state.MD_STATE_READY then
      let md := { md with exp_id := clear_bits32 md.exp_id env.D2H_INT_EXCEPTION_INIT }
      md.emit (md_core_event.fsm_recv_md_intr t7xx_md_irq_type.MD_IRQ_CCIF_EX)
    else md
  else if ctl.md_state = md_state.MD_STATE_WAITING_FOR_HS1 then
    let mask := env.mask_get md.tick % 2 ^ 32
    let md := md.asked
    if md.exp_id &&& env.D2H_INT_ASYNC_MD_HK % 2 ^ 32 ≠ 0 ∧
        ¬ (mask &&& env.D2H_INT_ASYNC_MD_HK % 2 ^ 32 ≠ 0) then
      let md := { md with exp_id := clear_bits32 md.exp_id env.D2H_INT_ASYNC_MD_HK }
      md.emit md_core_event.queue_work_handshake
    else md
  else md

/-- The function `t7xx_pci_mhccif_isr`. -/
def t7xx_pci_mhccif_isr (env : md_core_env) (md : t7xx_modem_core) : Int × t7xx_modem_core :=
  match md.fsm_ctl with
  | none => (-EINVAL, md.emit md_core_event.dev_err_isr_before_init)
  | some ctl =>
    let int_sta := t7xx_get_interrupt_status env md
    let md := md.asked
    let md := { md with exp_id := md.exp_id ||| int_sta }
    let md := t7xx_pci_mhccif_isr_port_enum env ctl md
    let md := t7xx_pci_mhccif_isr_exception env ctl md
    (0, md)

/-- An environment with the masks `D2H_INT_EXCEPTION_INIT = BIT(1)`,
`D2H_INT_PORT_ENUM = BIT(5)` and `D2H_INT_ASYNC_MD_HK = BIT(16)`, in which the
interrupt status register reads as `status`, no interrupt is masked, every
allocation succeeds, the thread is not asked to stop and the events `arriving`
reach the queue whenever the handler waits. -/
def md_core_env_of (status : Nat) (arriving : List t7xx_fsm_event) : md_core_env :=
  { read_sw_int_sts := fun _ => status, mask_get := fun _ => 0,
    D2H_SW_INT_MASK := 0xFFFFFFFF, D2H_INT_PORT_ENUM := 0x20, D2H_INT_EXCEPTION_INIT := 0x2,
    D2H_INT_ASYNC_MD_HK := 0x10000,
    dev_alloc_skb := fun _ => true, kthread_should_stop := fun _ => false,
    fsm_append_event := fun _ => arriving }

/-- A modem whose state machine is in modem state `st`, with nothing pending
in `exp_id` and an empty event queue; the host asks for feature 0. -/
def t7xx_modem_core_in ( st : md_state) : t7xx_modem_core :=
  { exp_id := 0,
    fsm_ctl := some { curr_state := t7xx_fsm_state.FSM_STATE_OTHER, md_state := st,
                      exp_flg := false, event_queue := [] },
    core_md := { ready := false, handshake_ongoing := true,
                 feature_set := 2 :: List.replicate 63 0 },
    log := [], tick := 0 }

/-- Number of feature ids of the handshake. The macro is declared in
`t7xx_modem_ops.h`, which is not among the sources; its value is the one the
driver is built with. -/
def FEATURE_COUNT : Nat := 64

/-- Modem feature query identification code, "ICCC". -/
def MD_FEATURE_QUERY_ID : Nat := 0x49434343

/-- The mask `FEATURE_MSK`, `GENMASK(3, 0)`. -/
def FEATURE_MSK : Nat := 0xF

/-- Feature id of the modem port enumeration. -/
def RT_ID_MD_PORT_ENUM : Nat := 0

/-- Feature id of the sAP port enumeration. -/
def RT_ID_SAP_PORT_ENUM : Nat := 1

/-- First enumerator of `enum mtk_feature_support_type`. -/
def MTK_FEATURE_DOES_NOT_EXIST : Nat := 0

/-- Second enumerator of `enum mtk_feature_support_type`. -/
def MTK_FEATURE_NOT_SUPPORTED : Nat := 1

/-- Third enumerator of `enum mtk_feature_support_type`. -/
def MTK_FEATURE_MUST_BE_SUPPORTED : Nat := 2

/-- Control message id of the first handshake message. -/
def CTL_ID_HS1_MSG : Nat := 0

/-- Control message id of the third handshake message. -/
def CTL_ID_HS3_MSG : Nat := 2

/-- Size of `struct ccci_header`: four 32-bit words. -/
def sizeof_ccci_header : Nat := 16

/-- Size of `struct ctrl_msg_header`: three 32-bit words. -/
def sizeof_ctrl_msg_header : Nat := 12

/-- Size of `struct feature_query`: the head pattern, one byte per feature id
and the tail pattern. -/
def sizeof_feature_query : Nat := 4 + FEATURE_COUNT + 4

/-- Size of `struct mtk_runtime_feature`. The structure is declared in
`t7xx_modem_ops.h`, which is not among the sources; the code uses its fields
`feature_id` and `support_info` (bytes) and `data_len` (a little-endian 32-bit
word), laid out as byte 0, byte 1, two reserved bytes and bytes 4 to 7. -/
def sizeof_mtk_runtime_feature : Nat := 8

/-- A value brought into the range of a 32-bit `int`. -/
def s32_wrap (x : Int) : Int := (x + 2 ^ 31) % 2 ^ 32 - 2 ^ 31

/-- The byte at offset `off` of a buffer; a read outside the buffer gives 0 in
the model. -/
def byte_at (data : List Nat) (off : Int) : Nat :=
  if off < 0 then 0 else data.getD off.toNat 0 % 256

/-- The little-endian 32-bit word at offset `off` of a buffer. -/
def le32_at (data : List Nat) (off : Int) : Nat :=
  byte_at data off + 256 * byte_at data (off + 1) + 65536 * byte_at data (off + 2) +
    16777216 * byte_at data (off + 3)

/-- The bytes of a 32-bit word in little-endian order. -/
def le32_bytes (x : Nat) : List Nat :=
  [x % 256, x / 256 % 256, x / 65536 % 256, x / 16777216 % 256]

/-- The function `t7xx_prepare_host_rt_data_query`: the HS1 message with the
feature set of the host between the two patterns. -/
def t7xx_prepare_host_rt_data_query (env : md_core_env) (core : t7xx_sys_info)
    (md : t7xx_modem_core) : t7xx_modem_core :=
  let packet_size := sizeof_ccci_header + sizeof_ctrl_msg_header + sizeof_feature_query
  let skb := env.dev_alloc_skb md.tick
  let md := md.asked
  if skb = false then md
  else
    md.emit (md_core_event.port_proxy_send_skb
      { ctrl_msg_id := CTL_ID_HS1_MSG, data_length := sizeof_feature_query,
        packet_len := packet_size,
        body := le32_bytes MD_FEATURE_QUERY_ID ++
          (core.feature_set ++ List.replicate FEATURE_COUNT 0).take FEATURE_COUNT ++
          le32_bytes MD_FEATURE_QUERY_ID })

/-- The loop of `t7xx_prepare_device_rt_data` over the feature ids from `i`
on, `n` ids left; `rt_data` holds the bytes written to the message body so
far. The result is the body and `packet_size`. -/
def t7xx_prepare_device_rt_data_loop (data : List Nat) :
    Nat → Nat → List Nat → Nat → List Nat × Nat
  | 0, _, rt_data, packet_size => (rt_data, packet_size)
  | n + 1, i, rt_data, packet_size =>
    let feature := byte_at data (4 + (i : Int))
    let md_feature_mask := feature &&& FEATURE_MSK
    let support_info :=
      if md_feature_mask = MTK_FEATURE_DOES_NOT_EXIST ∨
          md_feature_mask = MTK_FEATURE_MUST_BE_SUPPORTED then feature
      else 0
    let rt_data :=
      if support_info &&& FEATURE_MSK ≠ MTK_FEATURE_MUST_BE_SUPPORTED then
        rt_data ++ [i % 256, support_info, 0, 0, 0, 0, 0, 0]
      else rt_data
    t7xx_prepare_device_rt_data_loop data n (i + 1) rt_data
      (packet_size + sizeof_mtk_runtime_feature)

/-- The function `t7xx_prepare_device_rt_data`: the feature query of the
device is checked against the two patterns and answered with the HS3
message. -/
def t7xx_prepare_device_rt_data (env : md_core_env) (md : t7xx_modem_core) (data : List Nat)
    (_data_length : Int) : Int × t7xx_modem_core :=
  let skb := env.dev_alloc_skb md.tick
  let md := md.asked
  if skb = false then (-EFAULT, md)
  else
    let head_pattern := le32_at data 0
    let tail_pattern := le32_at data (4 + (FEATURE_COUNT : Int))
    if head_pattern ≠ MD_FEATURE_QUERY_ID ∨ tail_pattern ≠ MD_FEATURE_QUERY_ID then
      (-EINVAL, md.emit (md_core_event.dev_err_invalid_feature_pattern head_pattern tail_pattern))
    else
      match t7xx_prepare_device_rt_data_loop data FEATURE_COUNT 0 [] 0 with
      | (rt_data, packet_size) =>
        let total_data_len := (packet_size + sizeof_ctrl_msg_header + sizeof_ccci_header) % 2 ^ 32
        (0, md.emit (md_core_event.port_proxy_send_skb
          { ctrl_msg_id := CTL_ID_HS3_MSG, data_length := packet_size % 2 ^ 32,
            packet_len := total_data_len, body := rt_data }))

/-- The loop of `t7xx_parse_host_rt_data` from feature id `i` on, `n` ids
left, with `offset` as on entry to the pass. Each entry that is looked at is
logged with its offset: `support_info` is the byte at `offset + 1` and
`data_len` the word at `offset + 4`. The new offset is an `int`. -/
def t7xx_parse_host_rt_data_loop (core : t7xx_sys_info) (data : List Nat) (data_length : Int) :
    Nat → Nat → Int → t7xx_modem_core → Int × t7xx_modem_core
  | 0, _, _, md => (0, md)
  | n + 1, i, offset, md =>
    if ¬ offset < data_length then (0, md)
    else
      let md := md.emit (md_core_event.rt_feature_read i offset)
      let ft_spt_st := byte_at data (offset + 1) &&& FEATURE_MSK
      let next := s32_wrap (offset + (sizeof_mtk_runtime_feature : Int) +
        (le32_at data (offset + 4) : Int))
      let ft_spt_cfg := core.feature_set.getD i 0 &&& FEATURE_MSK
      if ft_spt_cfg ≠ MTK_FEATURE_MUST_BE_SUPPORTED then
        t7xx_parse_host_rt_data_loop core data data_length n (i + 1) next md
      else if ft_spt_st ≠ MTK_FEATURE_MUST_BE_SUPPORTED then (-EINVAL, md)
      else
        let md :=
          if i = RT_ID_MD_PORT_ENUM ∨ i = RT_ID_SAP_PORT_ENUM then
            md.emit (md_core_event.port_proxy_node_control
              (offset + (sizeof_mtk_runtime_feature : Int)))
          else md
        t7xx_parse_host_rt_data_loop core data data_length n (i + 1) next md

/-- The function `t7xx_parse_host_rt_data`. -/
def t7xx_parse_host_rt_data (core : t7xx_sys_info) (md : t7xx_modem_core) (data : List Nat)
    (data_length : Int) : Int × t7xx_modem_core :=
  t7xx_parse_host_rt_data_loop core data data_length FEATURE_COUNT 0 (sizeof_feature_query : Int) md

/-- The walk of `t7xx_core_hk_handler` over the event queue: the first event
whose id is `err_detect` or `event_id` is taken out of the queue. The result
tells whether it was the error event, and gives the event and the queue that
is left. -/
def t7xx_core_hk_scan (event_id err_detect : t7xx_fsm_event_state) :
    List t7xx_fsm_event → Option (Bool × t7xx_fsm_event × List t7xx_fsm_event)
  | [] => none
  | event :: rest =>
    if event.event_id = err_detect then some (true, event, rest)
    else if event.event_id = event_id then some (false, event, rest)
    else
      match t7xx_core_hk_scan event_id err_detect rest with
      | none => none
      | some (err, found, rest) => some (err, found, event :: rest)

/-- The `while (!kthread_should_stop())` loop of `t7xx_core_hk_handler`,
followed for at most `fuel` passes. The result tells whether the error event
was found and gives the event taken from the queue. When the thread is asked
to stop the handler goes on with an `event` pointer that is not an event of
the queue; the model does not follow it there and gives no result. -/
def t7xx_core_hk_wait (env : md_core_env) (event_id err_detect : t7xx_fsm_event_state) :
    Nat → t7xx_modem_core → Option (Bool × t7xx_fsm_event × t7xx_modem_core)
  | 0, _ => none
  | fuel + 1, md =>
    let stop := env.kthread_should_stop md.tick
    let md := md.asked
    if stop then none
    else
      match md.fsm_ctl with
      | none => none
      | some ctl =>
        match t7xx_core_hk_scan event_id err_detect ctl.event_queue with
        | some (err, event, rest) =>
          let md := { md with fsm_ctl := some { ctl with event_queue := rest } }
          some (err, event,
            if err then md.emit md_core_event.dev_err_handshake_error_event else md)
        | none =>
          let arriving := env.fsm_append_event md.tick
          let md := md.asked
          let md := { md with fsm_ctl := some { ctl with event_queue := ctl.event_queue ++ arriving } }
          let stop := env.kthread_should_stop md.tick
          let md := md.asked
          if stop then none
          else t7xx_core_hk_wait env event_id err_detect fuel md

/-- The function `t7xx_core_hk_handler` for the modem core (`core_info` is
`md->core_md`), its wait followed for at most `fuel` passes. -/
def t7xx_core_hk_handler (fuel : Nat) (env : md_core_env) (md : t7xx_modem_core)
    (event_id err_detect : t7xx_fsm_event_state) : Option t7xx_modem_core :=
  let md := t7xx_prepare_host_rt_data_query env md.core_md md
  match t7xx_core_hk_wait env event_id err_detect fuel md with
  | none => none
  | some (err, event, md) =>
    if err then some (md.emit md_core_event.kfree_event)
    else
      match md.fsm_ctl with
      | none => none
      | some ctl =>
        if ctl.exp_flg then some (md.emit md_core_event.kfree_event)
        else
          match t7xx_parse_host_rt_data md.core_md md event.data (s32_wrap event.length) with
          | (ret, md) =>
            if ret ≠ 0 then
              some ((md.emit (md_core_event.dev_err_host_parse_failed ret)).emit
                md_core_event.kfree_event)
            else if ctl.exp_flg then some (md.emit md_core_event.kfree_event)
            else
              match t7xx_prepare_device_rt_data env md event.data (s32_wrap event.length) with
              | (ret, md) =>
                if ret ≠ 0 then
                  some ((md.emit (md_core_event.dev_err_device_parse_failed ret)).emit
                    md_core_event.kfree_event)
                else
                  let md := { md with core_md := { md.core_md with ready := true,
                                                                   handshake_ongoing := false } }
                  some ((md.emit md_core_event.wake_up_async_hk).emit md_core_event.kfree_event)

/-- A feature query of the device with the given head pattern: the pattern,
the feature set of the device (feature 0 is a must, the others do not exist)
and the tail pattern "ICCC", followed by one runtime-feature entry for feature
0 with support `MTK_FEATURE_MUST_BE_SUPPORTED` and a port message of 12
bytes. -/
def hs2_payload (head_pattern : Nat) : List Nat :=
  le32_bytes head_pattern ++ (2 :: List.replicate 63 0) ++ le32_bytes MD_FEATURE_QUERY_ID ++
    [0, 2, 0, 0] ++ le32_bytes 12 ++ List.replicate 12 0

/-- The HS2 event that carries `hs2_payload head_pattern`. -/
def hs2_event (head_pattern : Nat) : t7xx_fsm_event :=
  { event_id := t7xx_fsm_event_state.FSM_EVENT_MD_HS2,
    length := (hs2_payload head_pattern).length, data := hs2_payload head_pattern }

/-! ## Fixtures and measures for the second pass over the transmit paths -/

/-- Number of requests of the ring of a queue that hold a packet. -/
def cldma_ring_held (q : cldma_queue) : Nat :=
  (q.tr_ring.gpd_ring.filter (fun r => r.skb.isSome)).length

/-- The first 73 bytes of `hs2_payload MD_FEATURE_QUERY_ID`: the whole feature
query and the first byte of a runtime-feature entry. -/
def hs2_short_payload : List Nat := (hs2_payload MD_FEATURE_QUERY_ID).take 73

/-- The controller `dpmaif_fresh_ctrl` with the three cursors of queue 0 at
position `n`, as after `n` descriptors have been written, consumed and
released. -/
def dpmaif_cursors_at (n : Nat) : dpmaif_ctrl :=
  dpmaif_fresh_ctrl.set_txq 0
    { dpmaif_fresh_txq 0 with drb_wr_idx := n, drb_rd_idx := n, drb_release_rd_idx := n }

/-- A controller on which late initialisation has not run: no ring has been
allocated, the queue arrays are empty and `is_late_init` is false. -/
def cldma_early_ctrl : cldma_ctrl :=
  { hif_id := cldma_id.ID_CLDMA1, txq := [], rxq := [], txq_active := 0, rxq_active := 0,
    txq_started := 0, is_late_init := false, log := [], tick := 0 }

/-- The calls `t7xx_cldma_stop` makes before it flushes work items. -/
def cldma_stop_calls : List cldma_event :=
  [cldma_event.hw_stop_queue CLDMA_ALL_Q mtk_txrx.MTK_RX,
   cldma_event.hw_stop_queue CLDMA_ALL_Q mtk_txrx.MTK_TX,
   cldma_event.disable_irq,
   cldma_event.hw_stop mtk_txrx.MTK_RX,
   cldma_event.hw_stop mtk_txrx.MTK_TX,
   cldma_event.hw_tx_done_all,
   cldma_event.hw_rx_done_all]

/-- An environment in which the second DMA mapping asked for fails and every
other service succeeds. -/
def dpmaif_env_second_map_fails : dpmaif_env :=
  { dpmaif_env_ok 0 with
    dma_map_single := fun n => if n = 1 then DMA_MAPPING_ERROR else 0x1000 * (n + 1) }

/-- A packet for queue 0 with a linear part and one page fragment, which
takes three descriptors. -/
def dpmaif_two_piece_skb : sk_buff :=
  { id := 7, len := 300, headlen := 100, frags := [200], cb_qtype := 0, cb_drb_cnt := 3 }

/-- The controller `dpmaif_fresh_ctrl` with `dpmaif_two_piece_skb` pending on
queue 0. -/
def dpmaif_two_piece_pending : dpmaif_ctrl :=
  dpmaif_fresh_ctrl.set_txq 0
    { dpmaif_fresh_txq 0 with tx_skb_queue := [dpmaif_two_piece_skb], tx_submit_skb_cnt := 1 }

/-- A ring of four descriptors for queue 0 whose release cursor stands on a
payload descriptor that ends a packet (`cont` clear) but has no packet
recorded in its shadow entry; the hardware read index is at 3. -/
def dpmaif_null_skb_ring : dpmaif_ctrl :=
  { state := dpmaif_state.DPMAIF_STATE_PWRON,
    txq := [{ dpmaif_fresh_txq 0 with
              tx_budget := 1, drb_size_cnt := 4, drb_wr_idx := 3, drb_rd_idx := 3,
              drb_release_rd_idx := 0,
              drb_base := List.replicate 4 dpmaif_zero_drb,
              drb_skb_base := List.replicate 4 dpmaif_zero_drb_skb }],
    txq_select_times := 0, log := [], tick := 0 }

/-- Queue 0 on a ring of four descriptors that holds one packet, written as a
message descriptor at position 0 and a payload descriptor at position 1, both
consumed by the hardware and not yet released. -/
def dpmaif_small_txq : dpmaif_tx_queue :=
  { dpmaif_fresh_txq 0 with
    tx_budget := 2, drb_size_cnt := 4, drb_wr_idx := 2, drb_rd_idx := 2,
    drb_release_rd_idx := 0,
    drb_base := [{ dpmaif_zero_drb with dtyp := DES_DTYP_MSG, cont := true, len := 100 },
                 { dpmaif_zero_drb with dtyp := DES_DTYP_PD, len := 100, data_addr := 0x1000 },
                 dpmaif_zero_drb, dpmaif_zero_drb],
    drb_skb_base := [{ dpmaif_zero_drb_skb with skb := some { id := 1, len := 100 }, is_msg := true },
                     { dpmaif_zero_drb_skb with skb := some { id := 1, len := 100 },
                                                bus_addr := 0x1000, data_len := 100, drb_idx := 1,
                                                is_last := true },
                     dpmaif_zero_drb_skb, dpmaif_zero_drb_skb] }

/-- A controller whose only queue is `dpmaif_small_txq`. -/
def dpmaif_small_ring : dpmaif_ctrl :=
  { state := dpmaif_state.DPMAIF_STATE_PWRON, txq := [dpmaif_small_txq],
    txq_select_times := 0, log := [], tick := 0 }

/-- The all-success environment, except that the sleep lock is never reported
as acquired: `t7xx_pci_sleep_disable_complete` returns false. -/
def cldma_env_no_sleep_lock : cldma_env :=
  { cldma_env_ok with sleep_disable_complete := fun _ => false }

/-- Transmit queue 0 of `cldma_one_sent` as `t7xx_cldma_gpd_tx_collect` leaves
it: the sent descriptor is reclaimed. -/
def cldma_one_sent_collected : cldma_queue :=
  match t7xx_cldma_gpd_tx_collect cldma_env_ok cldma_one_sent 0 with
  | some (_, md) => (md.txq[0]?).getD cldma_one_sent_txq
  | none => cldma_one_sent_txq

/-- An environment for `cldma_one_sent` in which the hardware queues have
stopped and the work item `t7xx_cldma_tx_done` of transmit queue 0 is queued
when it is flushed: the item runs `t7xx_cldma_gpd_tx_collect` on the queue and
leaves it as `cldma_one_sent_collected`. No other work item is pending. -/
def cldma_env_tx_work_pending : cldma_env :=
  { cldma_env_ok with
    hw_queue_status := fun _ => 0
    flush_work := fun _ tx_rx i =>
      if tx_rx = mtk_txrx.MTK_TX ∧ i = 0 then some cldma_one_sent_collected else none }

/-! ## Orientation of an output image (`mtk-mdp3-regs.c`) -/

/-- The two fields of `struct img_output` that `mdp_set_orientation` writes.
The structure is declared in `mtk-img-ipi.h`, which is not among the sources;
`rotation` holds the value assigned to it and `flags` is an unsigned bit
field. -/
structure img_output where
  rotation : Int
  flags : Nat
deriving DecidableEq, Repr

/-- The function `mdp_set_orientation`. The flag mask `IMG_CTRL_FLAG_HFLIP` is
declared in `mtk-img-ipi.h`, which is not among the sources, and is a
parameter, taken to fit the width of `flags`; `flags & ~mask` is written as the
bits of `flags` without those it shares with the mask. `rotation` is an `s32`
and `%` is the remainder of C, which truncates towards zero. -/
def mdp_set_orientation (IMG_CTRL_FLAG_HFLIP : Nat) (out : img_output) (rotation : Int)
    (hflip vflip : Bool) : img_output :=
  let flip : Nat := 0
  let flip := if hflip then flip ^^^ 1 else flip
  let rotation := if vflip then s32_wrap (rotation + 180) else rotation
  let flip := if vflip then flip ^^^ 1 else flip
  let out := { out with rotation := Int.tmod rotation 360 }
  if flip ≠ 0 then { out with flags := out.flags ||| IMG_CTRL_FLAG_HFLIP }
  else { out with flags := out.flags ^^^ (out.flags &&& IMG_CTRL_FLAG_HFLIP) }

/-! ## Dispatch of received packets to the ports (`t7xx_port_proxy.c`) -/

/-- The mask `PORT_CH_ID_MASK`. It is declared in `t7xx_port.h`, which is not
among the sources; the low eight bits of a channel number are taken, which is
what the `u8 ch_id` of the code can hold. -/
def PORT_CH_ID_MASK : Nat := 0xFF

/-- The mask `HDR_FLD_CHN`, `GENMASK(15, 0)`. -/
def HDR_FLD_CHN : Nat := 0xFFFF

/-- The mask `CHECK_RX_SEQ_MASK`, `GENMASK(14, 0)`. -/
def CHECK_RX_SEQ_MASK : Nat := 0x7FFF

/-- The fields of `struct t7xx_port_static` that the dispatch reads. The
structure is declared in `t7xx_port.h`, which is not among the sources;
`has_recv_skb` tells whether `ops->recv_skb` is set. -/
structure t7xx_port_static where
  path_id : cldma_id
  rx_ch : Nat
  has_recv_skb : Bool
deriving DecidableEq, Repr

/-- The fields of `struct t7xx_port` that the dispatch uses; `seq_nums_rx` is
`seq_nums[MTK_RX]`. -/
structure t7xx_port where
  port_static : t7xx_port_static
  flags : Nat
  seq_nums_rx : Int
deriving DecidableEq, Repr

/-- Calls that leave the dispatch, in the order they are made. -/
inductive port_event where
  | dev_warn_seq_out_of_order (seq_num : Nat) (last : Int)
  | recv_skb (rx_ch : Nat) (skb : sk_buff)
  | dev_err_rx_full_drop (rx_ch : Nat)
deriving DecidableEq, Repr

/-- The port proxy as far as the dispatch uses it: the modem state that
`t7xx_fsm_get_md_state` reports, the port lists `rx_ch_ports`, the log of
outgoing calls and the count of questions asked to the environment. -/
structure port_proxy where
  md_state : md_state
  rx_ch_ports : List (List t7xx_port)
  log : List port_event
  tick : Nat
deriving DecidableEq, Repr

/-- Everything outside the dispatch: the callback `ops->recv_skb`, which gives
its return value and the value of `port->flags` it leaves behind, and the flag
`PORT_F_RX_ALLOW_DROP`, which is declared in `t7xx_port.h`. -/
structure port_env where
  recv_skb : Nat → t7xx_port → sk_buff → Int × Nat
  PORT_F_RX_ALLOW_DROP : Nat

/-- The function `t7xx_port_check_rx_seq_num` on the `status` word of the CCCI
header: the sequence number of the packet, and the warning when the assert bit
is set and the number does not follow the last one. -/
def t7xx_port_check_rx_seq_num (port : t7xx_port) (status : Nat) (log : List port_event) :
    Nat × List port_event :=
  let seq_num : Nat := status % 2 ^ 32 / 2 ^ 16 % 2 ^ 15
  let assert_bit : Nat := status % 2 ^ 32 / 2 ^ 31
  if assert_bit ≠ 0 ∧ port.seq_nums_rx ≠ 0 ∧
      ((seq_num : Int) - port.seq_nums_rx) % ((CHECK_RX_SEQ_MASK : Int) + 1) ≠ 1 then
    (seq_num, log ++ [port_event.dev_warn_seq_out_of_order seq_num port.seq_nums_rx])
  else (seq_num, log)

/-- The walk of `list_for_each_entry` in `t7xx_port_proxy_dispatch_recv_skb`:
the position of the first port of the list on path `hif_id` with receive
channel `channel`, counted from `k`. -/
def t7xx_port_proxy_dispatch_find (hif_id : cldma_id) (channel : Nat) :
    List t7xx_port → Nat → Option Nat
  | [], _ => none
  | port :: rest, k =>
    if hif_id ≠ port.port_static.path_id ∨ channel ≠ port.port_static.rx_ch then
      t7xx_port_proxy_dispatch_find hif_id channel rest (k + 1)
    else some k

/-- The function `t7xx_port_proxy_dispatch_recv_skb` for a packet whose CCCI
header has the given `status` word, on a queue of controller `hif_id`. The
argument `drop_skb_on_err` is a pointer to a `bool`: `none` is the null
pointer and `some b` a pointer to the value `b`; the result gives the value it
points to after the call. A store through the null pointer gives no result. -/
def t7xx_port_proxy_dispatch_recv_skb (env : port_env) (port_prox : port_proxy)
    (hif_id : cldma_id) (status : Nat) (skb : sk_buff) (drop_skb_on_err : Option Bool) :
    Option (Int × Option Bool × port_proxy) :=
  let channel := status % 2 ^ 32 &&& HDR_FLD_CHN
  let ch_id := (channel &&& PORT_CH_ID_MASK) % 256
  if port_prox.md_state = md_state.MD_STATE_INVALID then
    match drop_skb_on_err with
    | none => none
    | some _ => some (-EINVAL, some true, port_prox)
  else
    match port_prox.rx_ch_ports[ch_id]? with
    | none => none
    | some port_list =>
      match t7xx_port_proxy_dispatch_find hif_id channel port_list 0 with
      | none => some (0, drop_skb_on_err, port_prox)
      | some k =>
        match port_list[k]? with
        | none => none
        | some port =>
          if port.port_static.has_recv_skb then
            let (seq_num, log) := t7xx_port_check_rx_seq_num port status port_prox.log
            let answer := env.recv_skb port_prox.tick port skb
            let ret := answer.1
            let port := { port with flags := answer.2 }
            let log := log ++ [port_event.recv_skb port.port_static.rx_ch skb]
            let port_prox := { port_prox with log := log, tick := port_prox.tick + 1 }
            let drop := ret = -ENETDOWN ∨ (ret < 0 ∧ port.flags &&& env.PORT_F_RX_ALLOW_DROP ≠ 0)
            if drop ∧ drop_skb_on_err = none then none
            else
              let pointee := if drop then some true else drop_skb_on_err
              let port_prox :=
                if drop then
                  { port_prox with
                    log := port_prox.log ++ [port_event.dev_err_rx_full_drop port.port_static.rx_ch] }
                else port_prox
              let port :=
                if ret = 0 ∨ drop_skb_on_err ≠ none then { port with seq_nums_rx := (seq_num : Int) }
                else port
              some (ret, pointee,
                { port_prox with
                  rx_ch_ports := port_prox.rx_ch_ports.set ch_id (port_list.set k port) })
          else some (0, drop_skb_on_err, port_prox)

/-- A port on path `ID_CLDMA1` with receive channel `0x100A`, without any flag
set, whose last received sequence number is 5. -/
def port_fixture : t7xx_port :=
  { port_static := { path_id := cldma_id.ID_CLDMA1, rx_ch := 0x100A, has_recv_skb := true },
    flags := 0, seq_nums_rx := 5 }

/-- A port proxy in modem state ready whose only port is `port_fixture`, in
the list of channel id `0x0A`. -/
def port_proxy_fixture : port_proxy :=
  { md_state := md_state.MD_STATE_READY,
    rx_ch_ports := List.replicate 10 [] ++ [[port_fixture]], log := [], tick := 0 }

/-- An environment in which `recv_skb` fails with `-ENOBUFS` and leaves the
flags of the port as they are; `PORT_F_RX_ALLOW_DROP` is taken as `BIT(0)`. -/
def port_env_full : port_env :=
  { recv_skb := fun _ port _ => (-ENOBUFS, port.flags), PORT_F_RX_ALLOW_DROP := 1 }
theorem asked_txq (md : cldma_ctrl) : md.asked.txq = md.txq := rfl

theorem emit_txq (md : cldma_ctrl) (e : cldma_event) : (md.emit e).txq = md.txq := rfl

theorem set_txq_txq (md : cldma_ctrl) (n : Nat) (q : cldma_queue) :
    (md.set_txq n q).txq = md.txq.set n q := rfl

theorem hw_start_send_txq (env : cldma_env) (md md' : cldma_ctrl) (qno : Nat)
    (h : t7xx_cldma_hw_start_send env md qno = some md') : md'.txq = md.txq := by
  unfold t7xx_cldma_hw_start_send at h
  simp only at h
  split at h
  · cases h
  · rename_i md1 hmd1
    have h1 : md1.txq = md.txq := by
      split at hmd1
      · split at hmd1
        · cases hmd1
        · split at hmd1
          · cases hmd1
          · split at hmd1
            · cases hmd1
            · cases hmd1; rfl
      · cases hmd1; rfl
    split at h
    · split at h <;> (cases h; exact h1)
    · cases h; exact h1

theorem handle_tx_request_txq (env : cldma_env) (md md' : cldma_ctrl) (qno x : Nat) (skb : sk_buff)
    (r : Int) (queue : cldma_queue) 
    (hq : md.txq[qno]? = some queue) 
    (h : t7xx_cldma_gpd_handle_tx_request env md qno x skb = some (r, md')) :
    ∃ r', md'.txq = md.txq.set qno (queue.set_req x r') := by
  unfold t7xx_cldma_gpd_handle_tx_request at h
  simp only [hq] at h
  split at h
  · cases h
  · split at h
    · cases h; exact ⟨_, rfl⟩
    · cases h; exact ⟨_, rfl⟩

theorem send_skb_loop_txq (env : cldma_env) (qno : Nat) (skb : sk_buff) (blocking : Bool) :
    ∀ (fuel : Nat) (ret : Int) (md : cldma_ctrl) (r : Int) (md' : cldma_ctrl),
      t7xx_cldma_send_skb_loop env qno skb blocking fuel ret md = some (r, md') →
      md'.txq = md.txq ∨
      ∃ queue x tx_req q', md.txq[qno]? = some queue ∧ queue.tx_xmit = some x ∧
        queue.tr_ring.gpd_ring[x]? = some tx_req ∧ 0 < queue.budget ∧ tx_req.skb = none ∧
        md'.txq = md.txq.set qno q' ∧ q'.budget = queue.budget - 1 ∧
        q'.tr_done = queue.tr_done ∧ q'.tr_ring.length = queue.tr_ring.length ∧
        q'.tx_xmit = some (if x + 1 = queue.tr_ring.gpd_ring.length then 0 else x + 1) ∧
        ∃ r', q'.tr_ring.gpd_ring = queue.tr_ring.gpd_ring.set x r' := by
  intro fuel
  induction fuel with
  | zero => intro ret md r md' h; simp [t7xx_cldma_send_skb_loop] at h
  | succ fuel ih =>
    intro ret md r md' h
    unfold t7xx_cldma_send_skb_loop at h
    split at h
    · cases h
    · rename_i queue hq
      split at h
      · cases h
      · rename_i x hx
        split at h
        · cases h
        · rename_i tx_req hreq
          split at h
          · rename_i hcond
            simp only at h
            split at h
            · cases h
            · rename_i r1 md1 hh
              have hlt : qno < md.txq.length := by
                rcases List.getElem?_eq_some_iff.1 hq with ⟨hl, _⟩; exact hl
              have hq1 : (md.set_txq qno { queue with budget := queue.budget - 1 }).txq[qno]? =
                  some { queue with budget := queue.budget - 1 } := by
                simp [cldma_ctrl.set_txq, hlt]
              obtain ⟨r', hr'⟩ := handle_tx_request_txq env _ _ qno x skb r1 _ hq1 hh
              have hq2 : md1.txq[qno]? =
                  some (({ queue with budget := queue.budget - 1 } : cldma_queue).set_req x r') := by
                rw [hr']; simp [cldma_ctrl.set_txq, hlt]
              rw [hq2] at h
              simp only at h
              have key : ∀ mdf : cldma_ctrl, mdf.txq = (md1.set_txq qno
                  { (({ queue with budget := queue.budget - 1 } : cldma_queue).set_req x r') with
                    tx_xmit := some (t7xx_cldma_ring_step_forward
                      (({ queue with budget := queue.budget - 1 } : cldma_queue).set_req x r').tr_ring x) }).txq →
                  (mdf.txq = md.txq ∨
                    ∃ queue x tx_req q', md.txq[qno]? = some queue ∧ queue.tx_xmit = some x ∧
                    queue.tr_ring.gpd_ring[x]? = some tx_req ∧ 0 < queue.budget ∧ tx_req.skb = none ∧
                    mdf.txq = md.txq.set qno q' ∧ q'.budget = queue.budget - 1 ∧
                    q'.tr_done = queue.tr_done ∧ q'.tr_ring.length = queue.tr_ring.length ∧
                    q'.tx_xmit = some (if x + 1 = queue.tr_ring.gpd_ring.length then 0 else x + 1) ∧
                    ∃ r', q'.tr_ring.gpd_ring = queue.tr_ring.gpd_ring.set x r') := by
                intro mdf hmdf
                right
                refine ⟨queue, x, tx_req,
                  { (({ queue with budget := queue.budget - 1 } : cldma_queue).set_req x r') with
                    tx_xmit := some (t7xx_cldma_ring_step_forward
                      (({ queue with budget := queue.budget - 1 } : cldma_queue).set_req x r').tr_ring x) },
                  hq, hx, hreq, hcond.1, hcond.2, ?_, ?_, ?_, ?_, ?_, r', ?_⟩
                · rw [hmdf, set_txq_txq, hr', set_txq_txq]; simp
                · rfl
                · rfl
                · rfl
                · simp [t7xx_cldma_ring_step_forward, cldma_queue.set_req]
                · rfl
              split at h
              · cases h; exact key _ rfl
              · split at h
                · cases h
                · rename_i mdf hmdf
                  cases h
                  exact key _ (by rw [hw_start_send_txq env _ _ qno hmdf]; rfl)
          · simp only at h
            split_ifs at h with c1 c2 c3 c4 c5
            all_goals first
              | (cases h; left; rfl)
              | (rcases ih _ _ _ _ h with h1 | h1
                 · left; rw [h1]; rfl
                 · right; exact h1)

theorem txq_inv_after_submit (queue q' : cldma_queue) (x : Nat) (r' : cldma_request)
    (hinv : cldma_txq_inv queue) (hx : queue.tx_xmit = some x) (hb : 0 < queue.budget)
    (hb' : q'.budget = queue.budget - 1) (hd : q'.tr_done = queue.tr_done)
    (hl : q'.tr_ring.length = queue.tr_ring.length)
    (hx' : q'.tx_xmit = some (if x + 1 = queue.tr_ring.gpd_ring.length then 0 else x + 1))
    (hr : q'.tr_ring.gpd_ring = queue.tr_ring.gpd_ring.set x r') : cldma_txq_inv q' := by
  obtain ⟨hlen, d, x0, b, h1, h2, h3, h4, h5, h6, h7⟩ := hinv
  have hxx : x0 = x := by rw [h2] at hx; exact Option.some.inj hx
  subst hxx
  have hN : q'.tr_ring.gpd_ring.length = queue.tr_ring.gpd_ring.length := by
    rw [hr, List.length_set]
  have hbpos : 0 < b := by rw [h3] at hb; exact_mod_cast hb
  refine ⟨by rw [hl, hN, hlen], d, _, b - 1, by rw [hd, h1], hx', ?_, by rw [hN]; exact h4,
    by rw [hN]; omega, ?_, ?_⟩
  · rw [hb', h3]; omega
  · rw [hN]
    generalize queue.tr_ring.gpd_ring.length = N at *
    split_ifs at h6 ⊢ <;> omega
  · intro i r hi hs
    rw [hN]
    rw [hr] at hi
    by_cases hix : x0 = i
    · subst hix
      generalize queue.tr_ring.gpd_ring.length = N at *
      split_ifs at h6 ⊢ <;> omega
    · rw [List.getElem?_set_ne hix] at hi
      have := h7 i r hi hs
      generalize queue.tr_ring.gpd_ring.length = N at *
      split_ifs at this ⊢ <;> omega

theorem txq_inv_after_reclaim (queue : cldma_queue) (d : Nat) (req : cldma_request)
    (hinv : cldma_txq_inv queue) (hd : queue.tr_done = some d)
    (hreq : queue.tr_ring.gpd_ring[d]? = some req) (hskb : req.skb ≠ none) :
    cldma_txq_inv
      { ({ queue with budget := queue.budget + 1 } : cldma_queue).set_req d { req with skb := none } with
        tr_done := some (t7xx_cldma_ring_step_forward
          (({ queue with budget := queue.budget + 1 } : cldma_queue).set_req d
            { req with skb := none }).tr_ring d) } := by
  obtain ⟨hlen, d0, x, b, h1, h2, h3, h4, h5, h6, h7⟩ := hinv
  have hdd : d0 = d := by rw [h1] at hd; exact Option.some.inj hd
  subst hdd
  have hw := h7 d0 req hreq hskb
  simp only [le_refl, if_true, Nat.sub_self] at hw
  simp only [cldma_txq_inv, cldma_queue.set_req, t7xx_cldma_ring_step_forward, List.length_set]
  refine ⟨hlen, _, x, b + 1, rfl, h2, ?_, ?_, by omega, ?_, ?_⟩
  · rw [h3]; push_cast; ring
  · split_ifs <;> omega
  · generalize queue.tr_ring.gpd_ring.length = N at *
    split_ifs at h6 ⊢ <;> omega
  · intro i r hi hs
    by_cases hid : d0 = i
    · subst hid
      rw [List.getElem?_set_eq_of_lt] at hi
      · cases hi; exact absurd rfl hs
      · exact h4
    · rw [List.getElem?_set_ne hid] at hi
      have := h7 i r hi hs
      have hiN : i < queue.tr_ring.gpd_ring.length := (List.getElem?_eq_some_iff.1 hi).1
      generalize queue.tr_ring.gpd_ring.length = N at *
      split_ifs at this ⊢ <;> omega

/-- Helper: a queue of the controller satisfies the ring invariant. -/
theorem txq_ok_set_ne (l : List cldma_queue) (k qt : Nat) (q' : cldma_queue) (h : k ≠ qt) :
    (l.set k q')[qt]? = l[qt]? := List.getElem?_set_ne h

theorem tx_collect_loop_inv (env : cldma_env) (qno qt : Nat) :
    ∀ (fuel count : Nat) (md : cldma_ctrl) (n : Nat) (md' : cldma_ctrl),
      cldma_txq_ok md qt →
      t7xx_cldma_gpd_tx_collect_loop env qno fuel count md = some (n, md') →
      cldma_txq_ok md' qt := by
  intro fuel
  induction fuel with
  | zero => intro count md n md' _ h; simp [t7xx_cldma_gpd_tx_collect_loop] at h
  | succ fuel ih =>
    intro count md n md' hok h
    unfold t7xx_cldma_gpd_tx_collect_loop at h
    simp only at h
    split at h
    · cases h; exact hok
    · split at h
      · cases h
      · rename_i queue hq
        split at h
        · cases h; exact hok
        · rename_i d hd
          split at h
          · cases h
          · rename_i req hreq
            split at h
            · cases h; exact hok
            · rename_i hc
              refine ih _ _ _ _ ?_ h
              have hq0 : md.txq[qno]? = some queue := hq
              have hlt : qno < md.txq.length := (List.getElem?_eq_some_iff.1 hq0).1
              obtain ⟨q, hqt, hinv⟩ := hok
              by_cases hk : qno = qt
              · subst hk
                rw [hq0] at hqt
                cases hqt
                refine ⟨_, ?_, txq_inv_after_reclaim queue d req hinv hd hreq ?_⟩
                · simp [cldma_ctrl.emit, cldma_ctrl.set_txq, cldma_ctrl.asked, hlt]
                · intro hn; exact hc (Or.inr hn)
              · refine ⟨q, ?_, hinv⟩
                simp only [cldma_ctrl.emit, cldma_ctrl.set_txq, cldma_ctrl.asked]
                rw [List.getElem?_set_ne hk]; exact hqt

theorem hw_tx_complete_inv (md : cldma_ctrl) (k i qt : Nat) (hok : cldma_txq_ok md qt) :
    cldma_txq_ok (cldma_hw_tx_complete md k i) qt := by
  unfold cldma_hw_tx_complete
  split
  · exact hok
  · rename_i queue hq
    split
    · exact hok
    · rename_i req hreq
      have hq0 : md.txq[k]? = some queue := hq
      have hlt : k < md.txq.length := (List.getElem?_eq_some_iff.1 hq0).1
      obtain ⟨q, hqt, hinv⟩ := hok
      by_cases hk : k = qt
      · subst hk
        rw [hq0] at hqt
        cases hqt
        refine ⟨_, List.getElem?_set_eq_of_lt _ hlt, ?_⟩
        obtain ⟨hlen, d, x, b, h1, h2, h3, h4, h5, h6, h7⟩ := hinv
        simp only [cldma_txq_inv, cldma_queue.set_req, List.length_set]
        refine ⟨hlen, d, x, b, h1, h2, h3, h4, h5, h6, ?_⟩
        intro j r hj hs
        by_cases hij : i = j
        · subst hij
          have hiN : i < queue.tr_ring.gpd_ring.length := (List.getElem?_eq_some_iff.1 hreq).1
          rw [List.getElem?_set_eq_of_lt _ hiN] at hj
          cases hj
          exact h7 i req hreq hs
        · rw [List.getElem?_set_ne hij] at hj
          exact h7 j r hj hs
      · refine ⟨q, ?_, hinv⟩
        simp only [cldma_ctrl.set_txq]
        rw [List.getElem?_set_ne hk]; exact hqt

theorem queue_reset_inv (q0 : cldma_queue) (hdir : q0.dir = mtk_txrx.MTK_TX)
    (hlen : q0.tr_ring.length = q0.tr_ring.gpd_ring.length)
    (hpos : 0 < q0.tr_ring.gpd_ring.length)
    (hskb : ∀ r ∈ q0.tr_ring.gpd_ring, r.skb = none) :
    cldma_txq_inv (t7xx_cldma_queue_reset q0) := by
  simp only [t7xx_cldma_queue_reset, hdir, if_true, cldma_txq_inv]
  refine ⟨hlen, 0, 0, q0.tr_ring.gpd_ring.length, rfl, rfl, by rw [hlen], hpos, le_refl _, by simp, ?_⟩
  intro i r hi hs
  exact absurd (hskb r (List.getElem?_mem hi)) hs

theorem send_skb_inv (fuel : Nat) (env : cldma_env) (md : cldma_ctrl) (k : Nat) (skb : sk_buff)
    (blocking : Bool) (ret : Int) (md' : cldma_ctrl) (qt : Nat) (hok : cldma_txq_ok md qt)
    (h : t7xx_cldma_send_skb fuel env md k skb blocking = some (ret, md')) :
    cldma_txq_ok md' qt := by
  unfold t7xx_cldma_send_skb at h
  split at h
  · cases h; exact hok
  simp only at h
  split at h
  · cases h; exact hok
  split at h
  · cases h; exact hok
  · split at h
    · cases h
    · rename_i r1 md1 hl
      cases h
      show cldma_txq_ok md1 qt
      rcases send_skb_loop_txq env k skb blocking _ _ _ _ _ hl with h1 | h1
      · obtain ⟨q, hq, hinv⟩ := hok
        exact ⟨q, by rw [h1]; exact hq, hinv⟩
      · obtain ⟨queue, x, tx_req, q', hq, hx, hreq, hb, hs, hmd, hb', hd', hl', hx', r', hr'⟩ := h1
        have hq0 : md.txq[k]? = some queue := hq
        have hlt : k < md.txq.length := (List.getElem?_eq_some_iff.1 hq0).1
        obtain ⟨q, hqt, hinv⟩ := hok
        by_cases hk : k = qt
        · subst hk
          rw [hq0] at hqt
          cases hqt
          refine ⟨q', ?_, txq_inv_after_submit queue q' x r' hinv hx hb hb' hd' hl' hx' hr'⟩
          rw [hmd]; exact List.getElem?_set_eq_of_lt _ hlt
        · refine ⟨q, ?_, hinv⟩
          rw [hmd]
          have : (md.emit cldma_event.pci_disable_sleep).asked.txq = md.txq := rfl
          rw [List.getElem?_set_ne hk]; exact hqt

theorem tx_collect_inv (env : cldma_env) (md : cldma_ctrl) (k : Nat) (count : Nat)
    (md' : cldma_ctrl) (qt : Nat) (hok : cldma_txq_ok md qt)
    (h : t7xx_cldma_gpd_tx_collect env md k = some (count, md')) : cldma_txq_ok md' qt := by
  unfold t7xx_cldma_gpd_tx_collect at h
  split at h
  · cases h
  · split at h
    · cases h
    · rename_i c md1 hl
      cases h
      have := tx_collect_loop_inv env k qt _ _ _ _ _ hok hl
      split
      · exact this
      · exact this

theorem txq_reachable_inv (qno : Nat) (md : cldma_ctrl) (h : cldma_txq_reachable qno md) :
    cldma_txq_ok md qno := by
  induction h with
  | reset md q0 hdir hlen hpos hskb hq => exact ⟨_, hq, queue_reset_inv q0 hdir hlen hpos hskb⟩
  | submit fuel env md k skb blocking ret md' _ hs ih => exact send_skb_inv _ _ _ _ _ _ _ _ _ ih hs
  | reclaim env md k count md' _ hc ih => exact tx_collect_inv _ _ _ _ _ _ ih hc
  | hw_done md k i _ ih => exact hw_tx_complete_inv _ _ _ _ ih

theorem submit_n_reachable (env : cldma_env) (qno qt : Nat) :
    ∀ (n first : Nat) (md : cldma_ctrl) (rets : List Int) (md' : cldma_ctrl),
      cldma_txq_reachable qt md →
      cldma_submit_n env qno n first md = some (rets, md') → cldma_txq_reachable qt md' := by
  intro n
  induction n with
  | zero => intro first md rets md' hr h; simp [cldma_submit_n] at h; rw [← h.2]; exact hr
  | succ n ih =>
    intro first md rets md' hr h
    unfold cldma_submit_n at h
    split at h
    · cases h
    · rename_i ret md1 hs
      split at h
      · cases h
      · rename_i rets1 md2 hn
        cases h
        exact ih _ _ _ _ (cldma_txq_reachable.submit _ _ _ _ _ _ _ _ hr hs) hn

theorem fresh_ctrl_reachable : cldma_txq_reachable 0 cldma_fresh_ctrl :=
  cldma_txq_reachable.reset cldma_fresh_ctrl
    { dir := mtk_txrx.MTK_TX, index := 0,
      tr_ring := { gpd_ring := (List.range 16).map (cldma_fresh_tx_req 0 16), length := 16, pkt_size := 0 },
      tr_done := none, tx_xmit := none, rx_refill := none, budget := 0 }
    rfl rfl (by decide) (by decide) rfl

theorem after_submits_eq (n : Nat) (rets : List Int) (md : cldma_ctrl)
    (h : cldma_submit_n cldma_env_ok 0 n 0 cldma_fresh_ctrl = some (rets, md)) :
    cldma_after_submits n = md := by
  unfold cldma_after_submits; rw [h]

theorem after_16_submits_reachable : cldma_txq_reachable 0 (cldma_after_submits 16) :=
  submit_n_reachable cldma_env_ok 0 0 16 0 cldma_fresh_ctrl (List.replicate 16 0) _
    fresh_ctrl_reachable (by rfl)

/-- C1 (counterexample): the budget formula of the claim does not hold in every
reachable state. After sixteen submits on the ring of sixteen descriptors the
queue is full: `tx_xmit` is back at `tr_done` and `budget` is 0, while the
formula gives 16. -/
theorem cldma_tx_budget_formula_fails_on_full_ring :
    ¬ ∀ (qno : Nat) (md : cldma_ctrl) (q : cldma_queue) (d x : Nat),
        cldma_txq_reachable qno md → md.txq[qno]? = some q →
        q.tr_done = some d → q.tx_xmit = some x →
        q.budget = (q.tr_ring.length : Int) - ((x : Int) - (d : Int)) % (q.tr_ring.length : Int) := by
  intro h
  have h16 := h 0 (cldma_after_submits 16) _ 0 0 after_16_submits_reachable rfl rfl rfl
  revert h16
  decide

/-- C1 (amended): in every state of a transmit queue reachable from
`t7xx_cldma_queue_reset` by submits, reclaims and the hardware clearing
ownership bits, both cursors are set and lie inside the ring, `budget` lies
between 0 and the ring length, `budget` equals the ring length minus
`(tx_xmit - tr_done) mod length` whenever it is positive, and when `budget` is
0 the ring is full and `tx_xmit` is back at `tr_done`. -/
theorem cldma_tx_budget_tracks_cursors (qno : Nat) (md : cldma_ctrl)
    (h : cldma_txq_reachable qno md) :
    ∃ (q : cldma_queue) (d x : Nat), md.txq[qno]? = some q ∧ q.tr_done = some d ∧
      q.tx_xmit = some x ∧ d < q.tr_ring.length ∧ x < q.tr_ring.length ∧
      0 ≤ q.budget ∧ q.budget ≤ (q.tr_ring.length : Int) ∧
      (0 < q.budget →
        q.budget = (q.tr_ring.length : Int) - ((x : Int) - (d : Int)) % (q.tr_ring.length : Int)) ∧
      (q.budget = 0 → x = d) := by
  obtain ⟨q, hq, hlen, d, x, b, h1, h2, h3, h4, h5, h6, _⟩ := txq_reachable_inv qno md h
  refine ⟨q, d, x, hq, h1, h2, ?_, ?_, ?_, ?_, ?_, ?_⟩
  · rw [hlen]; exact h4
  · rw [hlen]; generalize q.tr_ring.gpd_ring.length = N at *; split_ifs at h6 <;> omega
  · rw [h3]; exact Int.natCast_nonneg b
  · rw [h3, hlen]; exact_mod_cast h5
  · intro hpos
    rw [h3] at hpos ⊢
    rw [hlen]
    generalize q.tr_ring.gpd_ring.length = N at *
    have hb : 0 < b := by exact_mod_cast hpos
    split_ifs at h6 with hc
    · have e : ((x : Int) - (d : Int)) = ((N - b : Nat) : Int) := by omega
      rw [e, Int.emod_eq_of_lt (by omega) (by omega)]; omega
    · have e : ((x : Int) - (d : Int)) % (N : Int) = ((N - b : Nat) : Int) := by
        have := (Int.ediv_emod_unique (a := (x : Int) - d) (b := (N : Int)) (r := ((N - b : Nat) : Int))
          (q := -1) (by omega)).2 ⟨by omega, by omega, by omega⟩
        exact this.2
      rw [e]; omega
  · intro h0
    rw [h3] at h0
    have hb : b = 0 := by exact_mod_cast h0
    subst hb
    generalize q.tr_ring.gpd_ring.length = N at *
    split_ifs at h6 <;> omega

/-- C1 (witness): the amended claim at the full ring reached by sixteen submits
on queue 0 of a controller after late initialisation. -/
theorem cldma_tx_budget_tracks_cursors_witness :
    cldma_txq_reachable 0 (cldma_after_submits 16) ∧
    ∃ (q : cldma_queue) (d x : Nat), (cldma_after_submits 16).txq[0]? = some q ∧ q.tr_done = some d ∧
      q.tx_xmit = some x ∧ d < q.tr_ring.length ∧ x < q.tr_ring.length ∧
      0 ≤ q.budget ∧ q.budget ≤ (q.tr_ring.length : Int) ∧
      (0 < q.budget →
        q.budget = (q.tr_ring.length : Int) - ((x : Int) - (d : Int)) % (q.tr_ring.length : Int)) ∧
      (q.budget = 0 → x = d) :=
  ⟨after_16_submits_reachable,
    cldma_tx_budget_tracks_cursors 0 (cldma_after_submits 16) after_16_submits_reachable⟩

theorem step_backward_forward (ring : cldma_ring) (x : Nat) :
    t7xx_cldma_ring_step_backward ring (t7xx_cldma_ring_step_forward ring x) = x := by
  unfold t7xx_cldma_ring_step_backward t7xx_cldma_ring_step_forward
  by_cases h : x + 1 = ring.gpd_ring.length
  · simp only [h, if_true]; omega
  · simp only [h, if_false, Nat.succ_ne_zero]; omega

theorem hw_start_send_returns (env : cldma_env) (md : cldma_ctrl) (qno x : Nat) (queue : cldma_queue)
    (hq : md.txq[qno]? = some queue) (hx : queue.tx_xmit = some x)
    (hb : t7xx_cldma_ring_step_backward queue.tr_ring x < queue.tr_ring.gpd_ring.length) :
    ∃ md', t7xx_cldma_hw_start_send env md qno = some md' ∧ md'.txq = md.txq := by
  obtain ⟨req, hreq⟩ : ∃ req, queue.tr_ring.gpd_ring[t7xx_cldma_ring_step_backward queue.tr_ring x]? = some req :=
    ⟨_, List.getElem?_eq_getElem hb⟩
  have hq' : md.asked.txq[qno]? = some queue := hq
  cases hfn : t7xx_cldma_hw_start_send env md qno with
  | some md' => exact ⟨md', rfl, hw_start_send_txq env md md' qno hfn⟩
  | none =>
    exfalso
    unfold t7xx_cldma_hw_start_send at hfn
    simp only [hq', hx, hreq] at hfn
    split at hfn
    · rename_i h1
      split_ifs at h1
    · split_ifs at hfn

theorem handle_tx_request_mapped (env : cldma_env) (md : cldma_ctrl) (qno x : Nat) (skb : sk_buff)
    (queue : cldma_queue) (tx_req : cldma_request)
    (hq : md.txq[qno]? = some queue) (hreq : queue.tr_ring.gpd_ring[x]? = some tx_req)
    (hmap : dma_mapping_error (env.dma_map_single md.tick) = false) :
    ∃ (r' : cldma_request) (mdh : cldma_ctrl),
      t7xx_cldma_gpd_handle_tx_request env md qno x skb = some (0, mdh) ∧
      mdh.txq = md.txq.set qno (queue.set_req x r') ∧ r'.skb = some skb ∧
      r'.gpd.flags.hwo = (tx_req.gpd.flags.hwo || decide (md.txq_active &&& BIT queue.index ≠ 0)) := by
  unfold t7xx_cldma_gpd_handle_tx_request
  simp only [hq, hreq, hmap]
  refine ⟨_, _, rfl, rfl, rfl, ?_⟩
  by_cases h : md.txq_active &&& BIT queue.index = 0
  · simp [cldma_ctrl.asked, h]
  · simp [cldma_ctrl.asked, h]

theorem send_skb_loop_nonblocking (fuel : Nat) (env : cldma_env) (md : cldma_ctrl) (qno : Nat)
    (skb : sk_buff) (ret : Int) (queue : cldma_queue) (x : Nat) (tx_req : cldma_request)
    (hq : md.txq[qno]? = some queue) (hx : queue.tx_xmit = some x)
    (hreq : queue.tr_ring.gpd_ring[x]? = some tx_req)
    (hmap : dma_mapping_error (env.dma_map_single md.tick) = false)
    (hsl : ∀ n, env.sleep_disable_complete n = true) :
    ∃ (ret' : Int) (md' : cldma_ctrl),
      t7xx_cldma_send_skb_loop env qno skb false (fuel + 1) ret md = some (ret', md') ∧
      ((0 < queue.budget ∧ tx_req.skb = none) →
        ret' = ret ∧ ∃ (q' : cldma_queue) (r' : cldma_request), md'.txq[qno]? = some q' ∧
          q'.budget = queue.budget - 1 ∧
          q'.tx_xmit = some (t7xx_cldma_ring_step_forward queue.tr_ring x) ∧
          q'.tr_done = queue.tr_done ∧
          q'.tr_ring.gpd_ring[x]? = some r' ∧ r'.skb = some skb) ∧
      (¬ (0 < queue.budget ∧ tx_req.skb = none) → ret' = -EBUSY ∧ md'.txq = md.txq) := by
  have hlt : qno < md.txq.length := (List.getElem?_eq_some_iff.1 hq).1
  have hxN : x < queue.tr_ring.gpd_ring.length := (List.getElem?_eq_some_iff.1 hreq).1
  obtain ⟨dir, index, tr_ring, tr_done, tx_xmit, rx_refill, budget⟩ := queue
  simp only at hx hreq hxN
  subst hx
  unfold t7xx_cldma_send_skb_loop
  simp only [hq, hreq]
  by_cases hc : 0 < budget ∧ tx_req.skb = none
  · simp only [hc, and_self, if_true, not_true, false_implies, and_true, true_implies]
    have hq1 : (md.set_txq qno ⟨dir, index, tr_ring, tr_done, some x, rx_refill, budget - 1⟩).txq[qno]? =
        some ⟨dir, index, tr_ring, tr_done, some x, rx_refill, budget - 1⟩ :=
      List.getElem?_set_eq_of_lt _ hlt
    obtain ⟨r', mdh, hh, hmdh, hskb, -⟩ := handle_tx_request_mapped env
      (md.set_txq qno ⟨dir, index, tr_ring, tr_done, some x, rx_refill, budget - 1⟩) qno x skb _
      tx_req hq1 hreq hmap
    rw [hh]
    have hq2 : mdh.txq[qno]? =
        some ((⟨dir, index, tr_ring, tr_done, some x, rx_refill, budget - 1⟩ : cldma_queue).set_req x r') := by
      rw [hmdh]; simp [cldma_ctrl.set_txq, hlt]
    simp only [hq2, hsl, Bool.not_true, Bool.false_eq_true, if_false]
    obtain ⟨mdf, hf, hft⟩ := hw_start_send_returns env
      ((mdh.set_txq qno
        { ((⟨dir, index, tr_ring, tr_done, some x, rx_refill, budget - 1⟩ : cldma_queue).set_req x r') with
          tx_xmit := some (t7xx_cldma_ring_step_forward
            ((⟨dir, index, tr_ring, tr_done, some x, rx_refill, budget - 1⟩ : cldma_queue).set_req x r').tr_ring x) }).asked)
      qno (t7xx_cldma_ring_step_forward
            ((⟨dir, index, tr_ring, tr_done, some x, rx_refill, budget - 1⟩ : cldma_queue).set_req x r').tr_ring x) _
      (by simp only [cldma_ctrl.asked, cldma_ctrl.set_txq, hmdh]; simp [hlt]; rfl) rfl
      (by rw [step_backward_forward]; simpa [cldma_queue.set_req] using hxN)
    erw [hf]
    refine ⟨ret, mdf, rfl, rfl,
      { ((⟨dir, index, tr_ring, tr_done, some x, rx_refill, budget - 1⟩ : cldma_queue).set_req x r') with
          tx_xmit := some (t7xx_cldma_ring_step_forward
            ((⟨dir, index, tr_ring, tr_done, some x, rx_refill, budget - 1⟩ : cldma_queue).set_req x r').tr_ring x) },
      r', ?_, rfl, ?_, rfl, ?_, hskb⟩
    · rw [hft]; simp only [cldma_ctrl.asked, cldma_ctrl.set_txq, hmdh]; simp [hlt]
    · simp [t7xx_cldma_ring_step_forward, cldma_queue.set_req]
    · simp [cldma_queue.set_req, hxN]
  · simp only [hc, if_false, hsl, Bool.not_true, Bool.false_eq_true, not_false_eq_true,
      true_implies, false_implies, true_and]
    refine ⟨_, _, rfl, rfl, ?_⟩
    split <;> rfl

/-- C2: on an active transmit queue, with the runtime-PM call, every DMA
mapping and the sleep-lock wait succeeding, a non-blocking
`t7xx_cldma_send_skb` returns; it returns 0 with `budget` lowered by one,
`tx_xmit` moved one step and the packet stored at the old `tx_xmit` when
`budget > 0` and the descriptor at `tx_xmit` holds no packet, and `-EBUSY`
with all transmit queues unchanged otherwise. On a fresh ring of 16, of 20
submits the first 16 return 0 and the last 4 `-EBUSY`; after the hardware
released 4 descriptors the reclaim returns 4, the budget is 4, and of 8
further submits exactly the first 4 succeed. -/
theorem cldma_send_skb_nonblocking_succeeds_iff_room :
    (∀ (fuel : Nat) (env : cldma_env) (md : cldma_ctrl) (qno : Nat) (skb : sk_buff)
      (queue : cldma_queue) (x : Nat) (tx_req : cldma_request),
      qno < CLDMA_TXQ_NUM →
      md.txq[qno]? = some queue → queue.tx_xmit = some x →
      queue.tr_ring.gpd_ring[x]? = some tx_req →
      md.txq_active &&& BIT qno ≠ 0 →
      env.pm_runtime_resume_and_get md.tick = 0 →
      (∀ n, dma_mapping_error (env.dma_map_single n) = false) →
      (∀ n, env.sleep_disable_complete n = true) →
      ∃ (ret : Int) (md' : cldma_ctrl),
        t7xx_cldma_send_skb (fuel + 1) env md qno skb false = some (ret, md') ∧
        ((0 < queue.budget ∧ tx_req.skb = none) →
          ret = 0 ∧ ∃ (q' : cldma_queue) (r' : cldma_request), md'.txq[qno]? = some q' ∧
            q'.budget = queue.budget - 1 ∧
            q'.tx_xmit = some (t7xx_cldma_ring_step_forward queue.tr_ring x) ∧
            q'.tr_done = queue.tr_done ∧
            q'.tr_ring.gpd_ring[x]? = some r' ∧ r'.skb = some skb) ∧
        (¬ (0 < queue.budget ∧ tx_req.skb = none) → ret = -EBUSY ∧ md'.txq = md.txq)) ∧
    (∃ (md1 md2 md3 : cldma_ctrl),
      cldma_submit_n cldma_env_ok 0 20 0 cldma_fresh_ctrl =
        some (List.replicate 16 0 ++ List.replicate 4 (-EBUSY), md1) ∧
      md1.txq[0]?.map (fun q => q.budget) = some 0 ∧
      t7xx_cldma_gpd_tx_collect cldma_env_ok (cldma_hw_tx_complete_all md1 0 [0, 1, 2, 3]) 0 =
        some (4, md2) ∧
      md2.txq[0]?.map (fun q => q.budget) = some 4 ∧
      cldma_submit_n cldma_env_ok 0 8 20 md2 =
        some (List.replicate 4 0 ++ List.replicate 4 (-EBUSY), md3)) := by
  refine ⟨?_, ?_⟩
  · intro fuel env md qno skb queue x tx_req hqno hq hx hreq hact hpm hmap hsl
    have hq8 : ¬ CLDMA_TXQ_NUM ≤ qno := by omega
    obtain ⟨ret', md', hl, h1, h2⟩ := send_skb_loop_nonblocking fuel env
      (md.asked.emit cldma_event.pci_disable_sleep) qno skb 0 queue x tx_req hq hx hreq
      (hmap _) hsl
    refine ⟨ret', (t7xx_cldma_send_skb_allow_sleep md' ret').2, ?_, h1, h2⟩
    unfold t7xx_cldma_send_skb
    simp only [hq8, if_false, hpm]
    have hact' : ¬ (md.asked.emit cldma_event.pci_disable_sleep).txq_active &&& BIT qno = 0 := hact
    simp only [hact', if_false]
    have : ¬ ((0 : Int) < 0 ∧ (0 : Int) ≠ -EACCES) := by decide
    simp only [this, if_false, hl]
    rfl
  · exact ⟨_, _, _, rfl, rfl, rfl, rfl, rfl⟩

theorem cldma_env_ok_maps (n : Nat) : dma_mapping_error (cldma_env_ok.dma_map_single n) = false := by
  simp only [dma_mapping_error, cldma_env_ok, DMA_MAPPING_ERROR, beq_eq_false_iff_ne, ne_eq]
  omega

/-- C2 (witness): the general part of the claim at queue 0 of a controller
after late initialisation, whose ring is empty. -/
theorem cldma_send_skb_nonblocking_succeeds_iff_room_witness :
    ∃ (ret : Int) (md' : cldma_ctrl),
      t7xx_cldma_send_skb 1 cldma_env_ok cldma_fresh_ctrl 0 { id := 7, len := 64 } false = some (ret, md') ∧
      ((0 < (cldma_fresh_txq 16 0).budget ∧ (cldma_fresh_tx_req 0 16 0).skb = none) →
        ret = 0 ∧ ∃ (q' : cldma_queue) (r' : cldma_request), md'.txq[0]? = some q' ∧
          q'.budget = (cldma_fresh_txq 16 0).budget - 1 ∧
          q'.tx_xmit = some (t7xx_cldma_ring_step_forward (cldma_fresh_txq 16 0).tr_ring 0) ∧
          q'.tr_done = (cldma_fresh_txq 16 0).tr_done ∧
          q'.tr_ring.gpd_ring[0]? = some r' ∧ r'.skb = some { id := 7, len := 64 }) ∧
      (¬ (0 < (cldma_fresh_txq 16 0).budget ∧ (cldma_fresh_tx_req 0 16 0).skb = none) →
        ret = -EBUSY ∧ md'.txq = cldma_fresh_ctrl.txq) :=
  cldma_send_skb_nonblocking_succeeds_iff_room.1 0 cldma_env_ok cldma_fresh_ctrl 0 { id := 7, len := 64 }
    (cldma_fresh_txq 16 0) 0 (cldma_fresh_tx_req 0 16 0) (by decide) rfl rfl rfl (by decide) rfl
    cldma_env_ok_maps (fun _ => rfl)

/-- C9 (evaluation at the failing input): with a DMA mapping that fails, a
non-blocking `t7xx_cldma_send_skb` on the empty queue 0 returns 0, not
`-ENOMEM`; the mapping error is logged, `budget` has gone down to 15 and
`tx_xmit` has moved to descriptor 1 although descriptor 0 holds no packet. -/
theorem cldma_send_skb_returns_zero_on_mapping_failure :
    dma_mapping_error (cldma_env_dma_fail.dma_map_single 1) = true ∧
    ∃ (md' : cldma_ctrl) (q' : cldma_queue) (r' : cldma_request),
      t7xx_cldma_send_skb 1 cldma_env_dma_fail cldma_fresh_ctrl 0 { id := 7, len := 64 } false = some (0, md') ∧
      md'.txq[0]? = some q' ∧ q'.budget = 15 ∧ q'.tx_xmit = some 1 ∧
      q'.tr_ring.gpd_ring[0]? = some r' ∧ r'.skb = none ∧
      cldma_event.dev_err_dma_mapping_failed ∈ md'.log :=
  ⟨rfl, _, _, _, rfl, rfl, rfl, rfl, rfl, rfl, by decide⟩

/-- C10 (evaluation at the failing input): when `pm_runtime_resume_and_get`
returns `-EACCES`, a non-blocking `t7xx_cldma_send_skb` on the empty queue 0
stores the packet in descriptor 0, gives the descriptor to the hardware, lowers
`budget` to 15, moves `tx_xmit` to descriptor 1, and returns `-EACCES`, not 0. -/
theorem cldma_send_skb_returns_eacces_after_queueing :
    ∃ (md' : cldma_ctrl) (q' : cldma_queue) (r' : cldma_request),
      t7xx_cldma_send_skb 1 cldma_env_pm_eacces cldma_fresh_ctrl 0 { id := 7, len := 64 } false =
        some (-EACCES, md') ∧
      md'.txq[0]? = some q' ∧ q'.budget = 15 ∧ q'.tx_xmit = some 1 ∧
      q'.tr_ring.gpd_ring[0]? = some r' ∧ r'.skb = some { id := 7, len := 64 } ∧ r'.gpd.flags.hwo = true :=
  ⟨_, _, _, rfl, rfl, rfl, rfl, rfl, rfl, rfl⟩

theorem drb_pos_eq_mod (n cur j : Nat) (hcur : cur < n) (hj : j ≤ n) :
    drb_pos n cur j = (cur + j) % n := by
  unfold drb_pos
  split_ifs with h
  · exact (Nat.mod_eq_of_lt h).symm
  · rw [Nat.mod_eq_sub_mod (by omega)]
    exact (Nat.mod_eq_of_lt (by omega)).symm

theorem next_wrdx_pos (n cur j : Nat) (hcur : cur < n) (hj : j < n) (hn : n ≤ 32768) :
    t7xx_ring_buf_get_next_wrdx n (drb_pos n cur j) % 65536 = drb_pos n cur (j + 1) := by
  unfold t7xx_ring_buf_get_next_wrdx drb_pos
  split_ifs <;> omega

theorem drb_pos_zero (n cur : Nat) (hcur : cur < n) : drb_pos n cur 0 = cur := by
  unfold drb_pos; split_ifs <;> omega

theorem drb_pos_lt (n cur j : Nat) (hcur : cur < n) (hj : j ≤ n) : drb_pos n cur j < n := by
  unfold drb_pos; split_ifs <;> omega

theorem drb_pos_next (n cur j : Nat) (_hcur : cur < n) (hj : j < n) :
    drb_pos n (drb_pos n cur 1) j = drb_pos n cur (j + 1) := by
  unfold drb_pos; split_ifs <;> omega

theorem drb_pos_inj (n cur i j : Nat) (_hcur : cur < n) (hi : i < n) (hj : j < n)
    (h : drb_pos n cur i = drb_pos n cur j) : i = j := by
  unfold drb_pos at h; split_ifs at h <;> omega

theorem dpmaif_set_txq_get (c : dpmaif_ctrl) (q : Nat) (txq : dpmaif_tx_queue)
    (h : q < c.txq.length) : (c.set_txq q txq).txq[q]? = some txq := by
  simp [dpmaif_ctrl.set_txq, h]

theorem add_skb_payloads_spec (env : dpmaif_env) (q : Nat) (skb : sk_buff) (pc : Nat)
    (hmap : ∀ k, dma_mapping_error (env.dma_map_single k) = false) :
    ∀ (ps : List (Nat × Bool)) (wr_cnt cur : Nat) (last : Bool) (c : dpmaif_ctrl)
      (txq : dpmaif_tx_queue),
      c.txq[q]? = some txq →
      txq.drb_base.length = txq.drb_size_cnt → txq.drb_skb_base.length = txq.drb_size_cnt →
      txq.drb_size_cnt ≤ 32768 → cur < txq.drb_size_cnt → ps.length ≤ txq.drb_size_cnt →
      wr_cnt + ps.length = pc → (last = true → ps = []) →
      ∃ (c' : dpmaif_ctrl) (txq' : dpmaif_tx_queue),
        t7xx_dpmaif_add_skb_payloads env q skb pc ps wr_cnt cur last c = some (0, c') ∧
        c'.txq[q]? = some txq' ∧ c'.state = c.state ∧ c'.log = c.log ∧
        txq' = { txq with drb_base := txq'.drb_base, drb_skb_base := txq'.drb_skb_base } ∧
        txq'.drb_base.length = txq.drb_size_cnt ∧ txq'.drb_skb_base.length = txq.drb_size_cnt ∧
        (∀ j, j < ps.length → ∃ d s,
          txq'.drb_base[drb_pos txq.drb_size_cnt cur j]? = some d ∧ d.dtyp = DES_DTYP_PD ∧
          d.cont = !decide (wr_cnt + j + 1 = pc) ∧
          txq'.drb_skb_base[drb_pos txq.drb_size_cnt cur j]? = some s ∧ s.skb = some skb ∧
          s.is_msg = false) ∧
        (∀ p, (∀ j, j < ps.length → p ≠ drb_pos txq.drb_size_cnt cur j) →
          txq'.drb_base[p]? = txq.drb_base[p]? ∧ txq'.drb_skb_base[p]? = txq.drb_skb_base[p]?) := by
  intro ps
  induction ps with
  | nil =>
    intro wr_cnt cur last c txq hq h1 h2 _ _ _ _ _
    refine ⟨c, txq, rfl, hq, rfl, rfl, rfl, h1, h2, ?_, ?_⟩
    · intro j hj; simp at hj
    · intro p _; exact ⟨rfl, rfl⟩
  | cons piece rest ih =>
    intro wr_cnt cur last c txq hq h1 h2 hn hcur hlen hpc hlast
    obtain ⟨data_len, is_frag⟩ := piece
    have hl : last = false := by
      cases last with
      | false => rfl
      | true => exact absurd (hlast rfl) (by simp)
    subst hl
    have hqlt : q < c.txq.length := (List.getElem?_eq_some_iff.1 hq).1
    simp only [List.length_cons] at hlen hpc
    obtain ⟨d0, hd0⟩ : ∃ d0, txq.drb_base[cur]? = some d0 :=
      ⟨_, List.getElem?_eq_getElem (by omega)⟩
    -- the queue after this piece has been written
    have hq1 : (c.asked.set_txq q
        (t7xx_record_drb_skb
          (t7xx_setup_payload_drb txq cur (env.dma_map_single c.tick) data_len
            (if wr_cnt = pc - 1 then true else false))
          cur skb false is_frag (if wr_cnt = pc - 1 then true else false)
          (env.dma_map_single c.tick) data_len)).txq[q]? = some
        (t7xx_record_drb_skb
          (t7xx_setup_payload_drb txq cur (env.dma_map_single c.tick) data_len
            (if wr_cnt = pc - 1 then true else false))
          cur skb false is_frag (if wr_cnt = pc - 1 then true else false)
          (env.dma_map_single c.tick) data_len) :=
      dpmaif_set_txq_get _ _ _ hqlt
    have hsetup : t7xx_setup_payload_drb txq cur (env.dma_map_single c.tick) data_len
        (if wr_cnt = pc - 1 then true else false) =
        { txq with
          drb_base := (txq.drb_base.set cur
            { d0 with dtyp := DES_DTYP_PD, cont := !(if wr_cnt = pc - 1 then true else false),
                      len := data_len, data_addr := env.dma_map_single c.tick }) } := by
      unfold t7xx_setup_payload_drb
      simp only [List.get?_eq_getElem?, hd0]
    rw [hsetup] at hq1
    obtain ⟨c', txq', hrun, hq', hst, hlog, heq, hl1, hl2, hwritten, hframe⟩ :=
      ih (wr_cnt + 1) (t7xx_ring_buf_get_next_wrdx txq.drb_size_cnt cur % 65536)
        (if wr_cnt = pc - 1 then true else false) _ _ hq1
        (by simp [t7xx_record_drb_skb, h1]) (by simp [t7xx_record_drb_skb, h2])
        (by simpa [t7xx_record_drb_skb] using hn)
        (by
          have := next_wrdx_pos txq.drb_size_cnt cur 0 hcur (by omega) hn
          rw [drb_pos_zero _ _ hcur] at this
          simp only [t7xx_record_drb_skb]
          rw [this]; exact drb_pos_lt _ _ _ hcur (by omega))
        (by simp only [t7xx_record_drb_skb]; omega) (by omega)
        (by
          intro hh
          have : wr_cnt = pc - 1 := by
            by_contra hne; simp [hne] at hh
          have : rest.length = 0 := by omega
          exact List.length_eq_zero.1 this)
    simp only [t7xx_record_drb_skb] at hrun hq' heq hl1 hl2 hwritten hframe
    have hnext : t7xx_ring_buf_get_next_wrdx txq.drb_size_cnt cur % 65536 =
        drb_pos txq.drb_size_cnt cur 1 := by
      have := next_wrdx_pos txq.drb_size_cnt cur 0 hcur (by omega) hn
      rw [drb_pos_zero _ _ hcur] at this
      exact this
    rw [hnext] at hrun hwritten hframe
    refine ⟨c', txq', ?_, hq', hst, hlog, ?_, hl1, hl2, ?_, ?_⟩
    · unfold t7xx_dpmaif_add_skb_payloads
      simp only [hmap, Bool.false_eq_true, if_false]
      have hqa : c.asked.txq[q]? = some txq := hq
      simp only [hqa, hsetup, t7xx_record_drb_skb, hnext, ite_self]
      exact hrun
    · rw [heq]
    · intro j hj
      cases j with
      | zero =>
        have hne : ∀ j, j < rest.length →
            cur ≠ drb_pos txq.drb_size_cnt (drb_pos txq.drb_size_cnt cur 1) j := by
          intro j hj hc
          rw [drb_pos_next _ _ _ hcur (by omega)] at hc
          have h0 : drb_pos txq.drb_size_cnt cur 0 = drb_pos txq.drb_size_cnt cur (j + 1) := by
            rw [drb_pos_zero _ _ hcur]; exact hc
          have := drb_pos_inj _ _ _ _ hcur (by omega) (by omega) h0
          omega
        obtain ⟨hf1, hf2⟩ := hframe cur hne
        rw [drb_pos_zero _ _ hcur, hf1, hf2]
        refine ⟨_, _, List.getElem?_set_eq_of_lt _ (by omega), rfl, ?_,
          List.getElem?_set_eq_of_lt _ (by omega), rfl, rfl⟩
        by_cases hw : wr_cnt = pc - 1
        · have : wr_cnt + 0 + 1 = pc := by omega
          rw [if_pos hw]; simp [this]
        · have : ¬ wr_cnt + 0 + 1 = pc := by omega
          rw [if_neg hw]; simp [this]
      | succ j =>
        obtain ⟨d, s, hd, hdt, hdc, hs, hss, hsm⟩ := hwritten j (by simpa using hj)
        rw [drb_pos_next _ _ _ hcur (by simp at hj; omega)] at hd hs
        refine ⟨d, s, hd, hdt, ?_, hs, hss, hsm⟩
        rw [hdc]
        have : (wr_cnt + 1 + j + 1 = pc) ↔ (wr_cnt + (j + 1) + 1 = pc) := by omega
        simp [this]
    · intro p hp
      have hpc0 : p ≠ cur := by
        have := hp 0 (by simp)
        rwa [drb_pos_zero _ _ hcur] at this
      obtain ⟨hf1, hf2⟩ := hframe p (by
        intro j hj
        rw [drb_pos_next _ _ _ hcur (by omega)]
        exact hp (j + 1) (by simpa using hj))
      rw [hf1, hf2]
      exact ⟨List.getElem?_set_ne (Ne.symm hpc0), List.getElem?_set_ne (Ne.symm hpc0)⟩

theorem add_skb_to_ring_spec (env : dpmaif_env) (c : dpmaif_ctrl) (skb : sk_buff)
    (txq : dpmaif_tx_queue)
    (hq : c.txq[skb.cb_qtype]? = some txq) (hstart : txq.que_started = true)
    (hstate : c.state = dpmaif_state.DPMAIF_STATE_PWRON)
    (h1 : txq.drb_base.length = txq.drb_size_cnt)
    (h2 : txq.drb_skb_base.length = txq.drb_size_cnt)
    (hn : txq.drb_size_cnt ≤ 32768) (hwr : txq.drb_wr_idx < txq.drb_size_cnt)
    (hK : skb.frags.length + 2 ≤ txq.drb_size_cnt)
    (hmap : ∀ k, dma_mapping_error (env.dma_map_single k) = false) :
    ∃ (c1 : dpmaif_ctrl) (txq1 : dpmaif_tx_queue),
      t7xx_dpmaif_add_skb_to_ring env c skb = some (0, c1) ∧
      c1.txq[skb.cb_qtype]? = some txq1 ∧
      dpmaif_free_count c1.log = dpmaif_free_count c.log ∧
      txq1 = { txq with drb_base := txq1.drb_base, drb_skb_base := txq1.drb_skb_base,
                        drb_wr_idx := drb_pos txq.drb_size_cnt txq.drb_wr_idx (skb.frags.length + 2),
                        tx_budget := txq.tx_budget - ((skb.frags.length + 2 : Nat) : Int),
                        tx_processing := 0 } ∧
      txq1.drb_base.length = txq.drb_size_cnt ∧ txq1.drb_skb_base.length = txq.drb_size_cnt ∧
      (∃ d s, txq1.drb_base[txq.drb_wr_idx]? = some d ∧ d.dtyp = DES_DTYP_MSG ∧ d.cont = true ∧
        txq1.drb_skb_base[txq.drb_wr_idx]? = some s ∧ s.skb = some skb ∧ s.is_msg = true) ∧
      (∀ j, j < skb.frags.length + 1 → ∃ d s,
        txq1.drb_base[drb_pos txq.drb_size_cnt txq.drb_wr_idx (j + 1)]? = some d ∧
        d.dtyp = DES_DTYP_PD ∧ d.cont = !decide (j = skb.frags.length) ∧
        txq1.drb_skb_base[drb_pos txq.drb_size_cnt txq.drb_wr_idx (j + 1)]? = some s ∧
        s.skb = some skb ∧ s.is_msg = false) ∧
      (∀ p, (∀ j, j < skb.frags.length + 2 → p ≠ drb_pos txq.drb_size_cnt txq.drb_wr_idx j) →
        txq1.drb_base[p]? = txq.drb_base[p]? ∧ txq1.drb_skb_base[p]? = txq.drb_skb_base[p]?) := by
  have hqlt : skb.cb_qtype < c.txq.length := (List.getElem?_eq_some_iff.1 hq).1
  obtain ⟨d0, hd0⟩ : ∃ d0, txq.drb_base[txq.drb_wr_idx]? = some d0 :=
    ⟨_, List.getElem?_eq_getElem (by omega)⟩
  have hwrnew : (if txq.drb_size_cnt ≤ (txq.drb_wr_idx + (skb.frags.length + 1 + 1)) % 65536 then
      ((txq.drb_wr_idx + (skb.frags.length + 1 + 1)) % 65536 + 65536 - txq.drb_size_cnt % 65536) % 65536
      else (txq.drb_wr_idx + (skb.frags.length + 1 + 1)) % 65536) =
      drb_pos txq.drb_size_cnt txq.drb_wr_idx (skb.frags.length + 2) := by
    unfold drb_pos; split_ifs <;> omega
  have hnext : t7xx_ring_buf_get_next_wrdx txq.drb_size_cnt txq.drb_wr_idx % 65536 =
      drb_pos txq.drb_size_cnt txq.drb_wr_idx 1 := by
    have := next_wrdx_pos txq.drb_size_cnt txq.drb_wr_idx 0 hwr (by omega) hn
    rw [drb_pos_zero _ _ hwr] at this
    exact this
  -- the controller after the message descriptor has been written
  obtain ⟨cm, hcm⟩ : ∃ cm : dpmaif_ctrl, cm =
      (if skb.frag_list = true then c.emit dpmaif_event.dev_warn_frag_list else c).set_txq skb.cb_qtype
        { txq with
          tx_processing := 1,
          drb_wr_idx := drb_pos txq.drb_size_cnt txq.drb_wr_idx (skb.frags.length + 2),
          drb_base := (txq.drb_base.set txq.drb_wr_idx
            { d0 with dtyp := DES_DTYP_MSG, cont := true, len := skb.len, count_l := 0,
                      channel_id := skb.cb_netif_idx, l4_chk := true }),
          drb_skb_base := (txq.drb_skb_base.set txq.drb_wr_idx
            { skb := some skb, bus_addr := 0, data_len := 0, drb_idx := txq.drb_wr_idx,
              is_msg := true, is_frag := false, is_last := false }) } := ⟨_, rfl⟩
  have hcmlen : skb.cb_qtype < (if skb.frag_list = true then c.emit dpmaif_event.dev_warn_frag_list else c).txq.length := by
    split <;> exact hqlt
  have hqm := dpmaif_set_txq_get (if skb.frag_list = true then c.emit dpmaif_event.dev_warn_frag_list else c)
    skb.cb_qtype
        { txq with
          tx_processing := 1,
          drb_wr_idx := drb_pos txq.drb_size_cnt txq.drb_wr_idx (skb.frags.length + 2),
          drb_base := (txq.drb_base.set txq.drb_wr_idx
            { d0 with dtyp := DES_DTYP_MSG, cont := true, len := skb.len, count_l := 0,
                      channel_id := skb.cb_netif_idx, l4_chk := true }),
          drb_skb_base := (txq.drb_skb_base.set txq.drb_wr_idx
            { skb := some skb, bus_addr := 0, data_len := 0, drb_idx := txq.drb_wr_idx,
              is_msg := true, is_frag := false, is_last := false }) } hcmlen
  rw [← hcm] at hqm
  obtain ⟨c', txq', hrun, hq', hst, hlog, heq, hl1, hl2, hwritten, hframe⟩ :=
    add_skb_payloads_spec env skb.cb_qtype skb (skb.frags.length + 1) hmap
      ((skb.headlen, false) :: skb.frags.map (fun size => (size, true))) 0
      (drb_pos txq.drb_size_cnt txq.drb_wr_idx 1) false cm _ hqm
      (by simp [h1]) (by simp [h2]) hn (drb_pos_lt _ _ _ hwr (by omega))
      (by simp; omega) (by simp) (by simp)
  simp only [List.length_cons, List.length_map] at hwritten hframe
  have hq'lt : skb.cb_qtype < c'.txq.length := (List.getElem?_eq_some_iff.1 hq').1
  refine ⟨_, _, ?_, dpmaif_set_txq_get c' skb.cb_qtype
      { txq' with tx_budget := txq'.tx_budget - ((skb.frags.length + 1 + 1 : Nat) : Int),
                  tx_processing := 0 } hq'lt, ?_, ?_, hl1, hl2, ?_, ?_, ?_⟩
  · unfold t7xx_dpmaif_add_skb_to_ring
    have hguard : ¬ ((!txq.que_started) = true ∨ c.state ≠ dpmaif_state.DPMAIF_STATE_PWRON) := by
      simp [hstart, hstate]
    simp only [hq, hguard, if_false, t7xx_setup_msg_drb, t7xx_record_drb_skb,
      List.get?_eq_getElem?, hd0, hwrnew, hnext]
    erw [← hcm, hrun]
    simp only [hq']
    simp
  · show dpmaif_free_count c'.log = dpmaif_free_count c.log
    rw [hlog, hcm]
    by_cases hf : skb.frag_list = true
    · simp [hf, dpmaif_ctrl.set_txq, dpmaif_ctrl.emit, dpmaif_free_count]
    · simp [hf, dpmaif_ctrl.set_txq]
  · rw [heq]
  · have hne : ∀ j, j < skb.frags.length + 1 →
        txq.drb_wr_idx ≠ drb_pos txq.drb_size_cnt (drb_pos txq.drb_size_cnt txq.drb_wr_idx 1) j := by
      intro j hj hc
      rw [drb_pos_next _ _ _ hwr (by omega)] at hc
      have h0 : drb_pos txq.drb_size_cnt txq.drb_wr_idx 0 =
          drb_pos txq.drb_size_cnt txq.drb_wr_idx (j + 1) := by
        rw [drb_pos_zero _ _ hwr]; exact hc
      have := drb_pos_inj _ _ _ _ hwr (by omega) (by omega) h0
      omega
    obtain ⟨hf1, hf2⟩ := hframe txq.drb_wr_idx hne
    refine ⟨{ d0 with dtyp := DES_DTYP_MSG, cont := true, len := skb.len, count_l := 0,
                      channel_id := skb.cb_netif_idx, l4_chk := true },
            { skb := some skb, bus_addr := 0, data_len := 0, drb_idx := txq.drb_wr_idx,
              is_msg := true, is_frag := false, is_last := false }, ?_, rfl, rfl, ?_, rfl, rfl⟩
    · show txq'.drb_base[txq.drb_wr_idx]? = _
      rw [hf1]; exact List.getElem?_set_eq_of_lt _ (by omega)
    · show txq'.drb_skb_base[txq.drb_wr_idx]? = _
      rw [hf2]; exact List.getElem?_set_eq_of_lt _ (by omega)
  · intro j hj
    obtain ⟨d, s, hd, hdt, hdc, hs, hss, hsm⟩ := hwritten j hj
    rw [drb_pos_next _ _ _ hwr (by omega)] at hd hs
    refine ⟨d, s, hd, hdt, ?_, hs, hss, hsm⟩
    rw [hdc]
    have : (0 + j + 1 = skb.frags.length + 1) ↔ (j = skb.frags.length) := by omega
    simp [this]
  · intro p hp
    have hp0 : p ≠ txq.drb_wr_idx := by
      have := hp 0 (by omega)
      rwa [drb_pos_zero _ _ hwr] at this
    obtain ⟨hf1, hf2⟩ := hframe p (by
      intro j hj
      rw [drb_pos_next _ _ _ hwr (by omega)]
      exact hp (j + 1) (by omega))
    refine ⟨?_, ?_⟩
    · show txq'.drb_base[p]? = _
      rw [hf1]; exact List.getElem?_set_ne (Ne.symm hp0)
    · show txq'.drb_skb_base[p]? = _
      rw [hf2]; exact List.getElem?_set_ne (Ne.symm hp0)

theorem free_count_append (l1 l2 : List dpmaif_event) :
    dpmaif_free_count (l1 ++ l2) = dpmaif_free_count l1 + dpmaif_free_count l2 := by
  simp [dpmaif_free_count]

theorem release_iter_spec (q n cur : Nat) (c : dpmaif_ctrl) (txq : dpmaif_tx_queue)
    (d : dpmaif_drb) (s : dpmaif_drb_skb) (skb : sk_buff)
    (hq : c.txq[q]? = some txq) (hd : txq.drb_base[cur]? = some d)
    (hs : txq.drb_skb_base[cur]? = some s)
    (hok : d.dtyp = DES_DTYP_PD → d.cont = false → s.skb = some skb) :
    ∃ (c' : dpmaif_ctrl) (txq' : dpmaif_tx_queue),
      t7xx_dpmaif_release_tx_buffer_iter q n cur c =
        some (t7xx_ring_buf_get_next_wrdx n cur % 65536, d, c') ∧
      c'.txq[q]? = some txq' ∧
      txq'.drb_release_rd_idx = t7xx_ring_buf_get_next_wrdx n cur % 65536 ∧
      txq'.tx_budget = txq.tx_budget + 1 ∧
      txq'.drb_size_cnt = txq.drb_size_cnt ∧ txq'.drb_wr_idx = txq.drb_wr_idx ∧
      txq'.drb_rd_idx = txq.drb_rd_idx ∧ txq'.drb_base = txq.drb_base ∧
      (txq'.drb_skb_base = txq.drb_skb_base ∨
        txq'.drb_skb_base = txq.drb_skb_base.set cur { s with skb := none }) ∧
      dpmaif_free_count c'.log =
        dpmaif_free_count c.log + (if d.dtyp = DES_DTYP_PD ∧ d.cont = false then 1 else 0) ∧
      c'.log.count (dpmaif_event.dev_kfree_skb_any skb) =
        c.log.count (dpmaif_event.dev_kfree_skb_any skb) +
          (if d.dtyp = DES_DTYP_PD ∧ d.cont = false then 1 else 0) := by
  have hqlt : q < c.txq.length := (List.getElem?_eq_some_iff.1 hq).1
  unfold t7xx_dpmaif_release_tx_buffer_iter
  simp only [hq, List.get?_eq_getElem?, hd, hs]
  by_cases hpd : d.dtyp = DES_DTYP_PD
  · by_cases hcont : d.cont = false
    · have hskb := hok hpd hcont
      simp only [hpd, hcont, hskb, if_true, Bool.not_false, and_self]
      by_cases hm : s.is_msg = true <;> split_ifs <;>
        first
        | (exfalso; simp_all; done)
        | (refine ⟨_, _, rfl, dpmaif_set_txq_get _ _ _ hqlt, rfl, rfl, rfl, rfl, rfl, rfl, Or.inr rfl,
            ?_, ?_⟩
           · simp [dpmaif_ctrl.emit, dpmaif_ctrl.set_txq, dpmaif_free_count, hm]
           · simp [dpmaif_ctrl.emit, dpmaif_ctrl.set_txq, hm, List.count_singleton])
    · have hcont' : d.cont = true := by simpa using hcont
      simp only [hpd, hcont', if_true, Bool.not_true, Bool.false_eq_true, if_false,
        and_false, true_and, Nat.add_zero]
      by_cases hm : s.is_msg = true <;> split_ifs <;>
        first
        | (exfalso; assumption)
        | (exfalso; simp_all; done)
        | (refine ⟨_, _, rfl, dpmaif_set_txq_get _ _ _ hqlt, rfl, rfl, rfl, rfl, rfl, rfl, Or.inr rfl,
            ?_, ?_⟩
           · simp [dpmaif_ctrl.emit, dpmaif_ctrl.set_txq, dpmaif_free_count, hm]
           · simp [dpmaif_ctrl.emit, dpmaif_ctrl.set_txq, hm, List.count_singleton])
  · simp only [hpd, if_false, false_and, Nat.add_zero]
    split_ifs <;>
      first
      | (refine ⟨_, _, rfl, dpmaif_set_txq_get _ _ _ hqlt, rfl, rfl, rfl, rfl, rfl, rfl, Or.inl rfl,
          ?_, ?_⟩
         · simp [dpmaif_ctrl.emit, dpmaif_ctrl.set_txq, dpmaif_free_count]
         · simp [dpmaif_ctrl.emit, dpmaif_ctrl.set_txq, List.count_singleton])

theorem release_loop_walk (q n wr K : Nat) (skb : sk_buff)
    (hn : n ≤ 32768) (hwr : wr < n) (hKn : K + 1 ≤ n) :
    ∀ (m j0 i : Nat) (last : Option dpmaif_drb) (c : dpmaif_ctrl) (txq : dpmaif_tx_queue),
      j0 + m ≤ K + 1 →
      c.txq[q]? = some txq →
      (∀ j, j0 ≤ j → j ≤ K → ∃ d s,
        txq.drb_base[drb_pos n wr j]? = some d ∧ txq.drb_skb_base[drb_pos n wr j]? = some s ∧
        (d.dtyp = DES_DTYP_PD ∧ d.cont = false ↔ j = K) ∧ (j = K → s.skb = some skb)) →
      ∃ (last' : Option dpmaif_drb) (c' : dpmaif_ctrl) (txq' : dpmaif_tx_queue),
        t7xx_dpmaif_release_tx_buffer_loop q n m i (drb_pos n wr j0) last c =
          some (i + m, drb_pos n wr (j0 + m), last', c') ∧
        c'.txq[q]? = some txq' ∧
        txq'.drb_release_rd_idx = (if m = 0 then txq.drb_release_rd_idx else drb_pos n wr (j0 + m)) ∧
        txq'.tx_budget = txq.tx_budget + (m : Int) ∧
        txq'.drb_size_cnt = txq.drb_size_cnt ∧ txq'.drb_wr_idx = txq.drb_wr_idx ∧
        txq'.drb_rd_idx = txq.drb_rd_idx ∧ txq'.drb_base = txq.drb_base ∧
        (∀ p, (∀ j, j0 ≤ j → j < j0 + m → p ≠ drb_pos n wr j) →
          txq'.drb_skb_base[p]? = txq.drb_skb_base[p]?) ∧
        (last' = if m = 0 then last else txq.drb_base[drb_pos n wr (j0 + m - 1)]?) ∧
        dpmaif_free_count c'.log =
          dpmaif_free_count c.log + (if m ≠ 0 ∧ j0 + m = K + 1 then 1 else 0) ∧
        c'.log.count (dpmaif_event.dev_kfree_skb_any skb) =
          c.log.count (dpmaif_event.dev_kfree_skb_any skb) +
            (if m ≠ 0 ∧ j0 + m = K + 1 then 1 else 0) := by
  intro m
  induction m with
  | zero =>
    intro j0 i last c txq _ hq _
    exact ⟨last, c, txq, rfl, hq, rfl, by simp, rfl, rfl, rfl, rfl, fun _ _ => rfl, rfl, by simp,
      by simp⟩
  | succ m ih =>
    intro j0 i last c txq hjm hq hdesc
    obtain ⟨d, s, hd, hs, hlastiff, hskb⟩ := hdesc j0 (le_refl _) (by omega)
    have hnext : t7xx_ring_buf_get_next_wrdx n (drb_pos n wr j0) % 65536 = drb_pos n wr (j0 + 1) :=
      next_wrdx_pos n wr j0 hwr (by omega) hn
    obtain ⟨c1, txq1, hiter, hq1, hrel1, hbud1, hsz1, hwr1, hrd1, hbase1, hskb1, hfc1, hcnt1⟩ :=
      release_iter_spec q n (drb_pos n wr j0) c txq d s skb hq hd hs
        (fun h1 h2 => hskb (hlastiff.1 ⟨h1, h2⟩))
    rw [hnext] at hiter hrel1
    obtain ⟨last', c', txq', hrun, hq', hrel, hbud, hsz, hwri, hrdi, hbase, hfr, hlast', hfc, hcnt⟩ :=
      ih (j0 + 1) (i + 1) (some d) c1 txq1 (by omega) hq1 (by
        intro j hj1 hj2
        obtain ⟨d', s', hd', hs', hiff', hskb'⟩ := hdesc j (by omega) hj2
        refine ⟨d', s', by rw [hbase1]; exact hd', ?_, hiff', hskb'⟩
        rcases hskb1 with h | h
        · rw [h]; exact hs'
        · rw [h, List.getElem?_set_ne]
          · exact hs'
          · intro hc
            have := drb_pos_inj n wr j0 j hwr (by omega) (by omega) hc
            omega)
    have hdK : (d.dtyp = DES_DTYP_PD ∧ d.cont = false) ↔ j0 = K := hlastiff
    refine ⟨last', c', txq', ?_, hq', ?_, ?_, by rw [hsz, hsz1], by rw [hwri, hwr1],
      by rw [hrdi, hrd1], by rw [hbase, hbase1], ?_, ?_, ?_, ?_⟩
    · unfold t7xx_dpmaif_release_tx_buffer_loop
      simp only [hiter]
      rw [hrun]
      have e1 : i + 1 + m = i + (m + 1) := by omega
      have e2 : j0 + 1 + m = j0 + (m + 1) := by omega
      rw [e1, e2]
    · rw [hrel]
      simp only [Nat.succ_ne_zero, if_false]
      split_ifs with h0
      · subst h0; rw [hrel1]
      · congr 1; omega
    · rw [hbud, hbud1]; push_cast; ring
    · intro p hp
      rw [hfr p (fun j hj1 hj2 => hp j (by omega) (by omega))]
      rcases hskb1 with h | h
      · rw [h]
      · rw [h, List.getElem?_set_ne]
        exact Ne.symm (hp j0 (le_refl _) (by omega))
    · rw [hlast']
      simp only [Nat.succ_ne_zero, if_false]
      split_ifs with h0
      · subst h0; simp [hd]
      · rw [hbase1]; congr 2; omega
    · rw [hfc, hfc1]
      by_cases hjK : j0 = K
      · have hm0 : m = 0 := by omega
        subst hm0
        simp [hdK.2 hjK, hjK]
      · have h1 : ¬ (d.dtyp = DES_DTYP_PD ∧ d.cont = false) := fun h => hjK (hdK.1 h)
        have h2 : (m ≠ 0 ∧ j0 + 1 + m = K + 1) ↔ (m + 1 ≠ 0 ∧ j0 + (m + 1) = K + 1) := by omega
        simp only [h1, if_false, Nat.add_zero, h2]
    · rw [hcnt, hcnt1]
      by_cases hjK : j0 = K
      · have hm0 : m = 0 := by omega
        subst hm0
        simp [hdK.2 hjK, hjK]
      · have h1 : ¬ (d.dtyp = DES_DTYP_PD ∧ d.cont = false) := fun h => hjK (hdK.1 h)
        have h2 : (m ≠ 0 ∧ j0 + 1 + m = K + 1) ↔ (m + 1 ≠ 0 ∧ j0 + (m + 1) = K + 1) := by omega
        simp only [h1, if_false, Nat.add_zero, h2]

theorem release_tx_buffer_walk (q wr K : Nat) (skb : sk_buff) (c : dpmaif_ctrl)
    (txq : dpmaif_tx_queue) (m : Nat)
    (hn : txq.drb_size_cnt ≤ 32768) (hwr : wr < txq.drb_size_cnt) (hKn : K + 1 ≤ txq.drb_size_cnt)
    (hm : m ≤ K + 1) (hq : c.txq[q]? = some txq) (hrel : txq.drb_release_rd_idx = wr)
    (hdesc : ∀ j, j ≤ K → ∃ d s,
        txq.drb_base[drb_pos txq.drb_size_cnt wr j]? = some d ∧
        txq.drb_skb_base[drb_pos txq.drb_size_cnt wr j]? = some s ∧
        (d.dtyp = DES_DTYP_PD ∧ d.cont = false ↔ j = K) ∧ (j = K → s.skb = some skb)) :
    ∃ (c' : dpmaif_ctrl) (txq' : dpmaif_tx_queue),
      t7xx_dpmaif_release_tx_buffer c q m = some (m, c') ∧
      c'.txq[q]? = some txq' ∧
      txq'.drb_release_rd_idx = drb_pos txq.drb_size_cnt wr m ∧
      txq'.tx_budget = txq.tx_budget + (m : Int) ∧
      txq'.drb_size_cnt = txq.drb_size_cnt ∧ txq'.drb_wr_idx = txq.drb_wr_idx ∧
      txq'.drb_rd_idx = txq.drb_rd_idx ∧
      dpmaif_free_count c'.log = dpmaif_free_count c.log + (if m = K + 1 then 1 else 0) ∧
      c'.log.count (dpmaif_event.dev_kfree_skb_any skb) =
        c.log.count (dpmaif_event.dev_kfree_skb_any skb) + (if m = K + 1 then 1 else 0) := by
  obtain ⟨last', c', txq', hrun, hq', hrel', hbud, hsz, hwri, hrdi, -, -, -, hfc, hcnt⟩ :=
    release_loop_walk q txq.drb_size_cnt wr K skb hn hwr hKn m 0 0 none c txq (by omega) hq
      (fun j _ hj => hdesc j hj)
  rw [drb_pos_zero _ _ hwr, ← hrel, Nat.zero_add] at hrun
  have hmod : m % 65536 = m := Nat.mod_eq_of_lt (by omega)
  have hrel'' : txq'.drb_release_rd_idx = drb_pos txq.drb_size_cnt wr m := by
    rw [hrel']
    split_ifs with h0
    · subst h0; rw [drb_pos_zero _ _ hwr]; exact hrel
    · simp
  have hiff : (m ≠ 0 ∧ 0 + m = K + 1) ↔ m = K + 1 := by omega
  simp only [hiff] at hfc hcnt
  unfold t7xx_dpmaif_release_tx_buffer
  simp only [hq, hrun, hmod]
  cases last' with
  | none => exact ⟨_, txq', rfl, hq', hrel'', hbud, hsz, hwri, hrdi, hfc, hcnt⟩
  | some d =>
    by_cases hc : d.cont = true
    · simp only [hc, if_true]
      refine ⟨_, txq', rfl, hq', hrel'', hbud, hsz, hwri, hrdi, ?_, ?_⟩
      · rw [← hfc]; simp [dpmaif_ctrl.emit, dpmaif_free_count]
      · rw [← hcnt]; simp [dpmaif_ctrl.emit, List.count_singleton]
    · simp only [hc, if_false]
      exact ⟨_, txq', rfl, hq', hrel'', hbud, hsz, hwri, hrdi, hfc, hcnt⟩

/-- C3: for a packet with `K = frags.length + 1` payload parts on a started
queue whose ring has room and whose mappings succeed,
`t7xx_dpmaif_add_skb_to_ring` returns 0, moves `drb_wr_idx` forward by `K + 1`
modulo the ring size and lowers `tx_budget` by `K + 1`; it writes a message
descriptor at the old write index and `K` payload descriptors after it, of
which exactly the last has the continuation flag clear. In any later state
that still holds those descriptors, with the release cursor at the message
descriptor, `t7xx_dpmaif_release_tx_buffer` for `m` of the `K + 1` descriptors
returns `m`, moves `drb_release_rd_idx` forward by `m` and raises `tx_budget`
by `m`; the packet is freed once when `m = K + 1`, which is when the payload
descriptor with the clear continuation flag is reached, and not before. -/
theorem dpmaif_add_then_release_roundtrip (env : dpmaif_env) (c : dpmaif_ctrl) (skb : sk_buff)
    (txq : dpmaif_tx_queue)
    (hq : c.txq[skb.cb_qtype]? = some txq) (hstart : txq.que_started = true)
    (hstate : c.state = dpmaif_state.DPMAIF_STATE_PWRON)
    (h1 : txq.drb_base.length = txq.drb_size_cnt)
    (h2 : txq.drb_skb_base.length = txq.drb_size_cnt)
    (hn : txq.drb_size_cnt ≤ 32768) (hwr : txq.drb_wr_idx < txq.drb_size_cnt)
    (hK : skb.frags.length + 2 ≤ txq.drb_size_cnt)
    (hmap : ∀ k, dma_mapping_error (env.dma_map_single k) = false) :
    ∃ (c1 : dpmaif_ctrl) (txq1 : dpmaif_tx_queue),
      t7xx_dpmaif_add_skb_to_ring env c skb = some (0, c1) ∧
      c1.txq[skb.cb_qtype]? = some txq1 ∧
      txq1.drb_wr_idx = (txq.drb_wr_idx + (skb.frags.length + 1 + 1)) % txq.drb_size_cnt ∧
      txq1.tx_budget = txq.tx_budget - ((skb.frags.length + 1 + 1 : Nat) : Int) ∧
      txq1.drb_release_rd_idx = txq.drb_release_rd_idx ∧
      txq1.drb_size_cnt = txq.drb_size_cnt ∧
      dpmaif_free_count c1.log = dpmaif_free_count c.log ∧
      (∃ d, txq1.drb_base[txq.drb_wr_idx]? = some d ∧ d.dtyp = DES_DTYP_MSG) ∧
      (∀ j, j < skb.frags.length + 1 → ∃ d,
        txq1.drb_base[(txq.drb_wr_idx + 1 + j) % txq.drb_size_cnt]? = some d ∧
        d.dtyp = DES_DTYP_PD ∧ (d.cont = false ↔ j = skb.frags.length)) ∧
      (∀ (c2 : dpmaif_ctrl) (txq2 : dpmaif_tx_queue) (m : Nat),
        c2.txq[skb.cb_qtype]? = some txq2 →
        txq2.drb_size_cnt = txq.drb_size_cnt →
        txq2.drb_release_rd_idx = txq.drb_wr_idx →
        (∀ j, j ≤ skb.frags.length + 1 →
          txq2.drb_base[(txq.drb_wr_idx + j) % txq.drb_size_cnt]? =
            txq1.drb_base[(txq.drb_wr_idx + j) % txq.drb_size_cnt]? ∧
          txq2.drb_skb_base[(txq.drb_wr_idx + j) % txq.drb_size_cnt]? =
            txq1.drb_skb_base[(txq.drb_wr_idx + j) % txq.drb_size_cnt]?) →
        m ≤ skb.frags.length + 1 + 1 →
        ∃ (c3 : dpmaif_ctrl) (txq3 : dpmaif_tx_queue),
          t7xx_dpmaif_release_tx_buffer c2 skb.cb_qtype m = some (m, c3) ∧
          c3.txq[skb.cb_qtype]? = some txq3 ∧
          txq3.drb_release_rd_idx = (txq.drb_wr_idx + m) % txq.drb_size_cnt ∧
          txq3.tx_budget = txq2.tx_budget + (m : Int) ∧
          dpmaif_free_count c3.log =
            dpmaif_free_count c2.log + (if m = skb.frags.length + 1 + 1 then 1 else 0) ∧
          c3.log.count (dpmaif_event.dev_kfree_skb_any skb) =
            c2.log.count (dpmaif_event.dev_kfree_skb_any skb) +
              (if m = skb.frags.length + 1 + 1 then 1 else 0)) := by
  obtain ⟨c1, txq1, hadd, hq1, hfc, heq, hl1, hl2, hmsg, hpay, -⟩ :=
    add_skb_to_ring_spec env c skb txq hq hstart hstate h1 h2 hn hwr hK hmap
  refine ⟨c1, txq1, hadd, hq1, ?_, ?_, ?_, ?_, hfc, ?_, ?_, ?_⟩
  · rw [heq]; exact drb_pos_eq_mod _ _ _ hwr (by omega)
  · rw [heq]
  · rw [heq]
  · rw [heq]
  · obtain ⟨d, s, hd, hdt, -⟩ := hmsg
    exact ⟨d, hd, hdt⟩
  · intro j hj
    obtain ⟨d, s, hd, hdt, hdc, -⟩ := hpay j hj
    refine ⟨d, ?_, hdt, ?_⟩
    · have : txq.drb_wr_idx + 1 + j = txq.drb_wr_idx + (j + 1) := by omega
      rw [this, ← drb_pos_eq_mod _ _ _ hwr (by omega)]
      exact hd
    · rw [hdc]; simp
  · intro c2 txq2 m hq2 hsz2 hrel2 hsame hm
    have hdesc : ∀ j, j ≤ skb.frags.length + 1 → ∃ d s,
        txq2.drb_base[drb_pos txq2.drb_size_cnt txq.drb_wr_idx j]? = some d ∧
        txq2.drb_skb_base[drb_pos txq2.drb_size_cnt txq.drb_wr_idx j]? = some s ∧
        (d.dtyp = DES_DTYP_PD ∧ d.cont = false ↔ j = skb.frags.length + 1) ∧
        (j = skb.frags.length + 1 → s.skb = some skb) := by
      intro j hj
      obtain ⟨e1, e2⟩ := hsame j hj
      rw [hsz2, drb_pos_eq_mod _ _ _ hwr (by omega), e1, e2]
      cases j with
      | zero =>
        obtain ⟨d, s, hd, hdt, -, hs, hss, -⟩ := hmsg
        rw [Nat.add_zero, Nat.mod_eq_of_lt hwr]
        refine ⟨d, s, hd, hs, ?_, fun h => absurd h (by omega)⟩
        constructor
        · intro h; rw [hdt] at h; exact absurd h.1 (by decide)
        · intro h; omega
      | succ j =>
        obtain ⟨d, s, hd, hdt, hdc, hs, hss, -⟩ := hpay j (by omega)
        rw [drb_pos_eq_mod _ _ _ hwr (by omega)] at hd hs
        refine ⟨d, s, hd, hs, ?_, fun _ => hss⟩
        rw [hdc]
        constructor
        · intro h
          have : j = skb.frags.length := by simpa using h.2
          omega
        · intro h
          have : j = skb.frags.length := by omega
          exact ⟨hdt, by simp [this]⟩
    obtain ⟨c3, txq3, hrun, hq3, hrel3, hbud3, -, -, -, hfc3, hcnt3⟩ :=
      release_tx_buffer_walk skb.cb_qtype txq.drb_wr_idx (skb.frags.length + 1) skb c2 txq2 m
        (by rw [hsz2]; exact hn) (by rw [hsz2]; exact hwr) (by rw [hsz2]; omega) hm hq2 hrel2 hdesc
    refine ⟨c3, txq3, hrun, hq3, ?_, hbud3, hfc3, hcnt3⟩
    rw [hrel3, hsz2]
    exact drb_pos_eq_mod _ _ _ hwr (by omega)

theorem release_loop_succ (q n todo i cur : Nat) (last : Option dpmaif_drb) (c : dpmaif_ctrl) :
    t7xx_dpmaif_release_tx_buffer_loop q n (todo + 1) i cur last c =
      match t7xx_dpmaif_release_tx_buffer_iter q n cur c with
      | none => none
      | some (cur_idx, cur_drb, c) =>
        t7xx_dpmaif_release_tx_buffer_loop q n todo (i + 1) cur_idx (some cur_drb) c := rfl

theorem release_loop_add (q n : Nat) :
    ∀ (m1 m2 i cur : Nat) (last : Option dpmaif_drb) (c : dpmaif_ctrl),
      t7xx_dpmaif_release_tx_buffer_loop q n (m1 + m2) i cur last c =
        match t7xx_dpmaif_release_tx_buffer_loop q n m1 i cur last c with
        | none => none
        | some (i', cur', last', c') => t7xx_dpmaif_release_tx_buffer_loop q n m2 i' cur' last' c' := by
  intro m1
  induction m1 with
  | zero => intro m2 i cur last c; simp [t7xx_dpmaif_release_tx_buffer_loop]
  | succ m1 ih =>
    intro m2 i cur last c
    have e : m1 + 1 + m2 = (m1 + m2) + 1 := by omega
    rw [e, release_loop_succ, release_loop_succ]
    cases h : t7xx_dpmaif_release_tx_buffer_iter q n cur c with
    | none => rfl
    | some r =>
      obtain ⟨cur1, d1, c1⟩ := r
      exact ih m2 (i + 1) cur1 (some d1) c1

theorem release_loop_stuck (q n cur : Nat) (txq : dpmaif_tx_queue) (d : dpmaif_drb)
    (s : dpmaif_drb_skb)
    (hd : txq.drb_base[cur]? = some d) (hs : txq.drb_skb_base[cur]? = some s)
    (hpd : d.dtyp = DES_DTYP_PD) (hcont : d.cont = false) (hskb : s.skb = none) :
    ∀ (m i : Nat) (last : Option dpmaif_drb) (c : dpmaif_ctrl),
      c.txq[q]? = some txq →
      ∃ (last' : Option dpmaif_drb) (c' : dpmaif_ctrl),
        t7xx_dpmaif_release_tx_buffer_loop q n m i cur last c = some (i + m, cur, last', c') ∧
        c'.txq = c.txq ∧ dpmaif_free_count c'.log = dpmaif_free_count c.log ∧
        ∀ sk, c'.log.count (dpmaif_event.dev_kfree_skb_any sk) =
          c.log.count (dpmaif_event.dev_kfree_skb_any sk) := by
  intro m
  induction m with
  | zero => intro i last c _; exact ⟨last, c, rfl, rfl, rfl, fun _ => rfl⟩
  | succ m ih =>
    intro i last c hq
    rw [release_loop_succ]
    have hiter : ∃ c1, t7xx_dpmaif_release_tx_buffer_iter q n cur c = some (cur, d, c1) ∧
        c1.txq = c.txq ∧ dpmaif_free_count c1.log = dpmaif_free_count c.log ∧
        ∀ sk, c1.log.count (dpmaif_event.dev_kfree_skb_any sk) =
          c.log.count (dpmaif_event.dev_kfree_skb_any sk) := by
      unfold t7xx_dpmaif_release_tx_buffer_iter
      simp only [hq, List.get?_eq_getElem?, hd, hs, hpd, hcont, hskb, if_true, Bool.not_false]
      by_cases hm : s.is_msg = true
      · simp [hm, dpmaif_ctrl.emit, dpmaif_free_count, List.count_singleton]
      · simp [hm, dpmaif_ctrl.emit, dpmaif_free_count, List.count_singleton]
    obtain ⟨c1, hi, ht, hf, hk⟩ := hiter
    simp only [hi]
    obtain ⟨last', c', hrun, ht', hf', hk'⟩ := ih (i + 1) (some d) c1 (by rw [ht]; exact hq)
    refine ⟨last', c', ?_, by rw [ht', ht], by rw [hf', hf], fun sk => by rw [hk', hk]⟩
    rw [hrun]
    have : i + 1 + m = i + (m + 1) := by omega
    rw [this]

theorem tx_release_overrun (env : dpmaif_env) (c : dpmaif_ctrl) (q budget : Nat)
    (txq : dpmaif_tx_queue) (skb : sk_buff) (d0 d1 d2 : dpmaif_drb) (s0 s1 s2 : dpmaif_drb_skb)
    (hq : c.txq[q]? = some txq) (hstart : txq.que_started = true)
    (hhw : (env.ul_get_ridx c.tick / DPMAIF_UL_DRB_ENTRY_WORD) % 65536 = txq.drb_rd_idx)
    (hrdlt : txq.drb_rd_idx < DPMAIF_DRB_ENTRY_SIZE)
    (hrel : txq.drb_release_rd_idx = txq.drb_rd_idx)
    (hn : txq.drb_size_cnt ≤ 32768) (hr : txq.drb_rd_idx < txq.drb_size_cnt)
    (h3 : 3 ≤ txq.drb_size_cnt) (hb : 2 ≤ budget) (hb2 : budget < 65536)
    (hd0 : txq.drb_base[drb_pos txq.drb_size_cnt txq.drb_rd_idx 0]? = some d0)
    (hs0 : txq.drb_skb_base[drb_pos txq.drb_size_cnt txq.drb_rd_idx 0]? = some s0)
    (hd1 : txq.drb_base[drb_pos txq.drb_size_cnt txq.drb_rd_idx 1]? = some d1)
    (hs1 : txq.drb_skb_base[drb_pos txq.drb_size_cnt txq.drb_rd_idx 1]? = some s1)
    (hd2 : txq.drb_base[drb_pos txq.drb_size_cnt txq.drb_rd_idx 2]? = some d2)
    (hs2 : txq.drb_skb_base[drb_pos txq.drb_size_cnt txq.drb_rd_idx 2]? = some s2)
    (hmsg : d0.dtyp ≠ DES_DTYP_PD)
    (hpd1 : d1.dtyp = DES_DTYP_PD) (hc1 : d1.cont = false) (hskb1 : s1.skb = some skb)
    (hpd2 : d2.dtyp = DES_DTYP_PD) (hc2 : d2.cont = false) (hskb2 : s2.skb = none) :
    ∃ (c' : dpmaif_ctrl) (txq' : dpmaif_tx_queue),
      t7xx_dpmaif_tx_release env c q budget = some (0, c') ∧
      c'.txq[q]? = some txq' ∧
      txq'.drb_rd_idx = txq.drb_rd_idx ∧ txq'.drb_wr_idx = txq.drb_wr_idx ∧
      txq'.drb_release_rd_idx = drb_pos txq.drb_size_cnt txq.drb_rd_idx 2 ∧
      txq'.tx_budget = txq.tx_budget + 2 ∧
      c'.log.count (dpmaif_event.dev_kfree_skb_any skb) =
        c.log.count (dpmaif_event.dev_kfree_skb_any skb) + 1 := by
  have hqlt : q < c.txq.length := (List.getElem?_eq_some_iff.1 hq).1
  -- reading the register leaves the read index where it was
  obtain ⟨c1, hupd, hq1, hlog1⟩ : ∃ c1, t7xx_dpmaif_update_drb_rd_idx env c q = some (0, c1) ∧
      c1.txq[q]? = some txq ∧ c1.log = c.log := by
    refine ⟨c.asked.set_txq q { txq with drb_rd_idx := txq.drb_rd_idx }, ?_,
      dpmaif_set_txq_get c.asked q _ hqlt, rfl⟩
    unfold t7xx_dpmaif_update_drb_rd_idx
    simp only [hq, hstart, Bool.not_true, Bool.false_eq_true, if_false, hhw]
    have : ¬ DPMAIF_DRB_ENTRY_SIZE ≤ txq.drb_rd_idx := by omega
    simp only [this, if_false, le_refl, if_true, Nat.sub_self]
  have hcnt0 : t7xx_ring_buf_rd_wr_count txq.drb_size_cnt txq.drb_release_rd_idx txq.drb_rd_idx
      dpmaif_rdwr.DPMAIF_READ = 0 := by
    simp [t7xx_ring_buf_rd_wr_count, hrel]
  have hmin : min_not_zero budget 0 = budget := by
    unfold min_not_zero; split_ifs <;> omega
  -- the first two passes release the message and the payload descriptor
  obtain ⟨last2, c2, txq2, hwalk, hq2, hrel2, hbud2, hsz2, hwr2, hrd2, hbase2, hfr2, -, -, hcnt2⟩ :=
    release_loop_walk q txq.drb_size_cnt txq.drb_rd_idx 1 skb hn hr (by omega) 2 0 0 none
      c1 txq (by omega) hq1 (by
        intro j _ hj
        have hj' : j = 0 ∨ j = 1 := by omega
        rcases hj' with h | h
        · subst h
          exact ⟨d0, s0, hd0, hs0, ⟨fun h => absurd h.1 hmsg, fun h => absurd h (by omega)⟩,
            fun h => absurd h (by omega)⟩
        · subst h
          exact ⟨d1, s1, hd1, hs1, ⟨fun _ => rfl, fun _ => ⟨hpd1, hc1⟩⟩, fun _ => hskb1⟩)
  -- every further pass stops at the third descriptor
  have hs2' : txq2.drb_skb_base[drb_pos txq.drb_size_cnt txq.drb_rd_idx 2]? = some s2 := by
    rw [hfr2 _ (by
      intro j _ hj hc
      have := drb_pos_inj _ _ 2 j hr (by omega) (by omega) hc
      omega)]
    exact hs2
  obtain ⟨last3, c3, hstuck, htxq3, -, hcnt3⟩ :=
    release_loop_stuck q txq.drb_size_cnt (drb_pos txq.drb_size_cnt txq.drb_rd_idx 2) txq2 d2 s2
      (by rw [hbase2]; exact hd2) hs2' hpd2 hc2 hskb2 (budget - 2) (0 + 2) last2 c2 hq2
  have hloop : t7xx_dpmaif_release_tx_buffer_loop q txq.drb_size_cnt budget 0
      txq.drb_release_rd_idx none c1 =
      some (budget, drb_pos txq.drb_size_cnt txq.drb_rd_idx 2, last3, c3) := by
    have e : budget = 2 + (budget - 2) := by omega
    rw [hrel]
    conv_lhs => rw [e]
    rw [release_loop_add]
    rw [drb_pos_zero _ _ hr] at hwalk
    rw [hwalk]
    simp only [Nat.zero_add] at hstuck ⊢
    rw [hstuck]
    congr 2
    omega
  have hq3 : c3.txq[q]? = some txq2 := by rw [htxq3]; exact hq2
  have hmod : budget % 65536 = budget := Nat.mod_eq_of_lt hb2
  have hb0 : budget ≠ 0 := by omega
  unfold t7xx_dpmaif_tx_release
  simp only [hupd, hq1, hcnt0, hmin, hb0, ne_eq, not_false_eq_true, if_true]
  unfold t7xx_dpmaif_release_tx_buffer
  simp only [hq1, hloop, hmod]
  have hfin : ∀ e : dpmaif_ctrl, e.txq = c3.txq →
      e.log.count (dpmaif_event.dev_kfree_skb_any skb) =
        c3.log.count (dpmaif_event.dev_kfree_skb_any skb) →
      ∃ (c' : dpmaif_ctrl) (txq' : dpmaif_tx_queue),
        some ((if budget < 0 then -EAGAIN else (0 : Int)), e) = some (0, c') ∧
        c'.txq[q]? = some txq' ∧
        txq'.drb_rd_idx = txq.drb_rd_idx ∧ txq'.drb_wr_idx = txq.drb_wr_idx ∧
        txq'.drb_release_rd_idx = drb_pos txq.drb_size_cnt txq.drb_rd_idx 2 ∧
        txq'.tx_budget = txq.tx_budget + 2 ∧
        c'.log.count (dpmaif_event.dev_kfree_skb_any skb) =
          c.log.count (dpmaif_event.dev_kfree_skb_any skb) + 1 := by
    intro e he1 he2
    refine ⟨e, txq2, by simp, by rw [he1]; exact hq3, hrd2, hwr2, ?_, ?_, ?_⟩
    · rw [hrel2]; simp
    · rw [hbud2]; norm_num
    · rw [he2, hcnt3, hcnt2, hlog1]; simp
  cases last3 with
  | none => exact hfin _ rfl rfl
  | some dl =>
    by_cases hcl : dl.cont = true
    · simp only [hcl, if_true]
      exact hfin _ rfl (by simp [dpmaif_ctrl.emit, List.count_singleton])
    · simp only [hcl, if_false]
      exact hfin _ rfl rfl

theorem get?_to_getElem? {α : Type} (l : List α) (i : Nat) (a : α) (h : l.get? i = some a) :
    l[i]? = some a := by
  rw [← List.get?_eq_getElem?]; exact h

/-- C4 (evaluation at the failing input): queue 0 has its release and read
cursors at 2 and its write cursor at 4, and the hardware read index is still
2, so the second packet has been written and not yet consumed. The call
`t7xx_dpmaif_tx_release` with budget `DPMAIF_DRB_ENTRY_SIZE`, as
`t7xx_dpmaif_tx_done` makes it, returns 0 and leaves the release cursor at 4,
ahead of the read cursor 2: the cursor ordering no longer holds and the
unconsumed packet has been freed. -/
theorem dpmaif_tx_release_overruns_read_cursor :
    (dpmaif_second_packet_txq.drb_release_rd_idx = 2 ∧ dpmaif_second_packet_txq.drb_rd_idx = 2 ∧
      dpmaif_second_packet_txq.drb_wr_idx = 4 ∧
      (dpmaif_env_ok 8).ul_get_ridx dpmaif_second_packet_pending.tick / DPMAIF_UL_DRB_ENTRY_WORD = 2) ∧
    ∃ (c' : dpmaif_ctrl) (txq' : dpmaif_tx_queue),
      t7xx_dpmaif_tx_release (dpmaif_env_ok 8) dpmaif_second_packet_pending 0
        DPMAIF_DRB_ENTRY_SIZE = some (0, c') ∧
      c'.txq[0]? = some txq' ∧
      txq'.drb_release_rd_idx = 4 ∧ txq'.drb_rd_idx = 2 ∧ txq'.drb_wr_idx = 4 ∧
      ¬ ((txq'.drb_rd_idx + 6144 - txq'.drb_release_rd_idx) % 6144 ≤
          (txq'.drb_wr_idx + 6144 - txq'.drb_release_rd_idx) % 6144) ∧
      c'.log.count (dpmaif_event.dev_kfree_skb_any { id := 2, len := 100 }) = 1 := by
  refine ⟨⟨rfl, rfl, rfl, rfl⟩, ?_⟩
  obtain ⟨c', txq', hrun, hq', h1, h2, h3, h4, h5⟩ :=
    tx_release_overrun (dpmaif_env_ok 8) dpmaif_second_packet_pending 0 DPMAIF_DRB_ENTRY_SIZE
      dpmaif_second_packet_txq { id := 2, len := 100 }
      { dtyp := DES_DTYP_MSG, cont := true, len := 100, data_addr := 0, count_l := 0,
        channel_id := 0, l4_chk := true }
      { dtyp := DES_DTYP_PD, cont := false, len := 100, data_addr := 0x3000, count_l := 0,
        channel_id := 0, l4_chk := false }
      dpmaif_zero_drb
      { skb := some { id := 2, len := 100 }, bus_addr := 0, data_len := 0, drb_idx := 2,
        is_msg := true, is_frag := false, is_last := false }
      { skb := some { id := 2, len := 100 }, bus_addr := 0x3000, data_len := 100, drb_idx := 3,
        is_msg := false, is_frag := false, is_last := true }
      dpmaif_zero_drb_skb
      rfl rfl rfl (by decide) rfl (by decide) (by decide) (by decide) (by decide) (by decide)
      (get?_to_getElem? _ _ _ rfl) (get?_to_getElem? _ _ _ rfl) (get?_to_getElem? _ _ _ rfl)
      (get?_to_getElem? _ _ _ rfl) (get?_to_getElem? _ _ _ rfl) (get?_to_getElem? _ _ _ rfl)
      (by decide) rfl rfl rfl rfl rfl rfl
  refine ⟨c', txq', hrun, hq', ?_, ?_, ?_, ?_, ?_⟩
  · rw [h3]; rfl
  · rw [h1]; rfl
  · rw [h2]; rfl
  · rw [h3, h1, h2]; decide
  · rw [h5]; rfl

theorem dpmaif_env_ok_maps (ridx k : Nat) :
    dma_mapping_error ((dpmaif_env_ok ridx).dma_map_single k) = false := by
  simp only [dma_mapping_error, dpmaif_env_ok, DMA_MAPPING_ERROR, beq_eq_false_iff_ne, ne_eq]
  omega

/-- C3 (witness): a packet with a linear part and two page fragments on the
fresh queue 0: four descriptors are written and then released, and the packet
is freed once. -/
theorem dpmaif_add_then_release_roundtrip_witness :
    ∃ (c1 : dpmaif_ctrl) (txq1 : dpmaif_tx_queue) (c3 : dpmaif_ctrl) (txq3 : dpmaif_tx_queue),
      t7xx_dpmaif_add_skb_to_ring (dpmaif_env_ok 0) dpmaif_fresh_ctrl
        { id := 5, len := 300, headlen := 100, frags := [100, 100] } = some (0, c1) ∧
      c1.txq[0]? = some txq1 ∧ txq1.drb_wr_idx = 4 ∧ txq1.tx_budget = 6140 ∧
      t7xx_dpmaif_release_tx_buffer c1 0 4 = some (4, c3) ∧
      c3.txq[0]? = some txq3 ∧ txq3.drb_release_rd_idx = 4 ∧ txq3.tx_budget = 6144 ∧
      dpmaif_free_count c3.log = dpmaif_free_count c1.log + 1 ∧
      c3.log.count (dpmaif_event.dev_kfree_skb_any
        { id := 5, len := 300, headlen := 100, frags := [100, 100] }) =
        c1.log.count (dpmaif_event.dev_kfree_skb_any
          { id := 5, len := 300, headlen := 100, frags := [100, 100] }) + 1 := by
  obtain ⟨c1, txq1, hadd, hq1, hwr, hbud, hrel, hsz, -, -, -, hrelease⟩ :=
    dpmaif_add_then_release_roundtrip (dpmaif_env_ok 0) dpmaif_fresh_ctrl
      { id := 5, len := 300, headlen := 100, frags := [100, 100] } (dpmaif_fresh_txq 0)
      rfl rfl rfl (List.length_replicate _ _) (List.length_replicate _ _) (by decide) (by decide)
      (by decide) (dpmaif_env_ok_maps 0)
  obtain ⟨c3, txq3, hrun, hq3, hrel3, hbud3, hfc3, hcnt3⟩ :=
    hrelease c1 txq1 4 hq1 hsz hrel (fun _ _ => ⟨rfl, rfl⟩) (by decide)
  refine ⟨c1, txq1, c3, txq3, hadd, hq1, ?_, ?_, hrun, hq3, ?_, ?_, ?_, ?_⟩
  · rw [hwr]; rfl
  · rw [hbud]; rfl
  · rw [hrel3]; rfl
  · rw [hbud3, hbud]; rfl
  · rw [hfc3]; rfl
  · rw [hcnt3]; rfl

theorem set_rxq_get (md : cldma_ctrl) (qno : Nat) (queue q' : cldma_queue)
    (hq : md.rxq[qno]? = some queue) : (md.set_rxq qno q').rxq[qno]? = some q' := by
  have hlt : qno < md.rxq.length := by
    rcases Nat.lt_or_ge qno md.rxq.length with h | h
    · exact h
    · rw [List.getElem?_eq_none h] at hq; cases hq
  simp [cldma_ctrl.set_rxq, hlt]

theorem set_req_get (queue : cldma_queue) (i : Nat) (r : cldma_request)
    (hi : i < queue.tr_ring.gpd_ring.length) :
    (queue.set_req i r).tr_ring.gpd_ring[i]? = some r := by
  simp [cldma_queue.set_req, hi]

theorem set_req_get_ne (queue : cldma_queue) (i j : Nat) (r : cldma_request) (h : i ≠ j) :
    (queue.set_req i r).tr_ring.gpd_ring[j]? = queue.tr_ring.gpd_ring[j]? := by
  simp [cldma_queue.set_req, List.getElem?_set_ne h]

theorem step_forward_set_req (queue : cldma_queue) (i x : Nat) (r : cldma_request) :
    t7xx_cldma_ring_step_forward (queue.set_req i r).tr_ring x =
      t7xx_cldma_ring_step_forward queue.tr_ring x := by
  simp [t7xx_cldma_ring_step_forward, cldma_queue.set_req]

theorem alloc_and_map_skb_ok (env : cldma_env) (md : cldma_ctrl) (qno x : Nat)
    (queue : cldma_queue) (req : cldma_request) (buf : sk_buff)
    (hq : md.rxq[qno]? = some queue) (hreq : queue.tr_ring.gpd_ring[x]? = some req)
    (halloc : env.dev_alloc_skb md.tick = some buf)
    (hmap : dma_mapping_error (env.dma_map_single (md.tick + 1)) = false) :
    t7xx_cldma_alloc_and_map_skb env md qno x =
      some (0, (md.asked.asked).set_rxq qno
        (queue.set_req x { req with skb := some buf,
                                    mapped_buff := env.dma_map_single (md.tick + 1) })) := by
  simp only [t7xx_cldma_alloc_and_map_skb, hq, hreq, halloc, cldma_ctrl.asked, hmap]
  simp

theorem rx_from_queue_loop_step (env : cldma_env) (qno : Nat) (budget : Int) (fuel pc : Nat)
    (count : Int) (ob : Bool) (md : cldma_ctrl) (queue : cldma_queue) (d f : Nat)
    (req : cldma_request) (skb buf : sk_buff)
    (hq : md.rxq[qno]? = some queue) (hd : queue.tr_done = some d)
    (hreq : queue.tr_ring.gpd_ring[d]? = some req) (hhwo : req.gpd.flags.hwo = false)
    (hskb : req.skb = some skb) (hf : queue.rx_refill = some f)
    (hfl : f < queue.tr_ring.gpd_ring.length)
    (hret : 0 ≤ env.recv_skb md.tick qno
      { skb with len := req.gpd.data_buff_len, headlen := req.gpd.data_buff_len })
    (halloc : env.dev_alloc_skb (md.tick + 1) = some buf)
    (hmap : dma_mapping_error (env.dma_map_single (md.tick + 2)) = false) :
    ∃ (md1 : cldma_ctrl) (queue1 : cldma_queue) (req1 : cldma_request),
      md1.rxq[qno]? = some queue1 ∧
      queue1.tr_done = some (t7xx_cldma_ring_step_forward queue.tr_ring d) ∧
      queue1.rx_refill = some (t7xx_cldma_ring_step_forward queue.tr_ring f) ∧
      queue1.tr_ring.gpd_ring[f]? = some req1 ∧
      req1.skb = some buf ∧ req1.gpd.flags = { hwo := true, ioc := true } ∧
      req1.gpd.data_buff_len = 0 ∧
      req1.gpd.data_buff_bd_ptr = env.dma_map_single (md.tick + 2) ∧
      (d ≠ f → ∃ r, queue1.tr_ring.gpd_ring[d]? = some r ∧ r.skb = none) ∧
      cldma_event.recv_skb qno
        { skb with len := req.gpd.data_buff_len, headlen := req.gpd.data_buff_len } ∈ md1.log ∧
      md1.tick = md.tick + 3 ∧
      t7xx_cldma_gpd_rx_from_queue_loop env qno budget (fuel + 1) pc count ob md =
        (if count + 1 < budget then
          t7xx_cldma_gpd_rx_from_queue_loop env qno budget fuel 0 (count + 1) ob md1
        else if env.need_resched md1.tick = false then
          t7xx_cldma_gpd_rx_from_queue_loop env qno budget fuel 0 (count + 1) ob md1.asked
        else some (0, true, md1.asked)) := by
  have hdl : d < queue.tr_ring.gpd_ring.length := by
    rcases Nat.lt_or_ge d queue.tr_ring.gpd_ring.length with h | h
    · exact h
    · rw [List.getElem?_eq_none h] at hreq; cases hreq
  have hql : qno < md.rxq.length := by
    rcases Nat.lt_or_ge qno md.rxq.length with h | h
    · exact h
    · rw [List.getElem?_eq_none h] at hq; cases hq
  obtain ⟨mdA, hA, hAt, hAr⟩ : ∃ mdA : cldma_ctrl,
      mdA = (if req.mapped_buff ≠ 0
        then md.emit (cldma_event.dma_unmap_single req.mapped_buff 0 mtk_txrx.MTK_RX) else md) ∧
      mdA.tick = md.tick ∧ mdA.rxq = md.rxq := by
    refine ⟨_, rfl, ?_, ?_⟩ <;> split_ifs <;> rfl
  obtain ⟨rf, hrf⟩ : ∃ rf, (queue.tr_ring.gpd_ring.set d
      { gpd := { req.gpd with data_buff_bd_ptr := 0 }, gpd_addr := req.gpd_addr, skb := none,
        mapped_buff := 0 })[f]? = some rf := by
    refine ⟨_, List.getElem?_eq_getElem ?_⟩
    simpa using hfl
  rw [t7xx_cldma_gpd_rx_from_queue_loop]
  simp only [hq, hd, hreq, hhwo, hskb, ← hA]
  simp only [cldma_ctrl.emit, cldma_ctrl.asked, cldma_ctrl.set_rxq, cldma_queue.set_req, hAt, hAr,
    not_lt.mpr hret, if_false, List.getElem?_set_self hql, hf, t7xx_cldma_alloc_and_map_skb,
    List.set_set, List.length_set, hrf, halloc, hmap, List.getElem?_set_self hfl,
    List.getElem?_set_self hdl]
  simp only [Bool.false_eq_true, false_or, reduceCtorEq, if_false, ne_eq, not_true_eq_false,
    List.getElem?_set_self hql, List.length_set, List.getElem?_set_self hfl, List.set_set]
  have hfl2 : ∀ x, f < (queue.tr_ring.gpd_ring.set d x).length := by
    intro x; simpa using hfl
  simp only [List.getElem?_set_self (hfl2 _), t7xx_cldma_ring_step_forward, List.length_set,
    Bool.not_eq_true']
  refine ⟨_, ?_, ?_, ?_, ?_, ?_, ?_, ?_, ?_, ?_, ?_, ?_, ?_, ?_, rfl⟩
  rotate_left 2
  · exact List.getElem?_set_self hql
  · rfl
  · rfl
  · exact List.getElem?_set_self (hfl2 _)
  · rfl
  · rfl
  · rfl
  · rfl
  · intro hne
    refine ⟨?_, ?_, ?_⟩
    rotate_left 1
    · show ((queue.tr_ring.gpd_ring.set d _).set f _)[d]? = _
      rw [List.getElem?_set_ne (fun h => hne h.symm)]
      exact List.getElem?_set_self hdl
    · rfl
  · simp
  · rfl
/-- C8 (counterexample): the device has released all eight descriptors of the
ring of receive queue 0 and the callback answers `-ENOBUFS` for the fifth
buffer. The walk returns `-ENOBUFS` after five deliveries: `tr_done` and
`rx_refill` still point at descriptor 4, which keeps its old buffer and is not
handed back to the device, and the buffers of descriptors 5 to 7 are not
delivered. -/
theorem cldma_rx_walk_stops_on_callback_error :
    ((cldma_eight_received.rxq[0]?).bind fun q => q.tr_ring.gpd_ring[4]?).map
        (fun r => (r.gpd.flags.hwo, r.skb.map fun s => s.id)) = some (false, some 0x104) ∧
    ∃ md1 : cldma_ctrl,
      t7xx_cldma_gpd_rx_from_queue 32 (cldma_env_rx 0x104 (-ENOBUFS, false))
        cldma_eight_received 0 8 false = some (-ENOBUFS, false, md1) ∧
      cldma_delivered md1 = [0x100, 0x101, 0x102, 0x103, 0x104] ∧
      (md1.rxq[0]?).map (fun q => (q.tr_done, q.rx_refill)) = some (some 4, some 4) ∧
      ((md1.rxq[0]?).bind fun q => q.tr_ring.gpd_ring[4]?).map
        (fun r => (r.gpd.flags.hwo, r.skb.map fun s => s.id)) = some (false, some 0x104) := by
  refine ⟨rfl, _, rfl, rfl, rfl, rfl⟩
/-- C8 (amended): when the hardware has released the descriptor at `tr_done`,
the registered callback answers its buffer with a result that is not negative,
and the replacement buffer is allocated and mapped, one pass of the loop of
`t7xx_cldma_gpd_rx_from_queue` hands the buffer to the callback, moves
`tr_done` past the descriptor, stores the new buffer with flags IOC and HWO at
the refill slot, moves `rx_refill` forward, and goes on with the next
descriptor (or stops with `over_budget` set once the budget is used up and a
reschedule is due). In the scenario of a ring of eight buffers, all released
by the device, where `t7xx_port_proxy_recv_skb` drops the fifth one, which it
reports as 0, all eight buffers are delivered and descriptor 4 is posted again
with a new buffer. -/
theorem cldma_rx_walk_continues_on_nonnegative_result :
    (∀ (env : cldma_env) (qno : Nat) (budget : Int) (fuel pc : Nat) (count : Int) (ob : Bool)
      (md : cldma_ctrl) (queue : cldma_queue) (d f : Nat) (req : cldma_request)
      (skb buf : sk_buff),
      md.rxq[qno]? = some queue → queue.tr_done = some d →
      queue.tr_ring.gpd_ring[d]? = some req → req.gpd.flags.hwo = false →
      req.skb = some skb → queue.rx_refill = some f → f < queue.tr_ring.gpd_ring.length →
      0 ≤ env.recv_skb md.tick qno
        { skb with len := req.gpd.data_buff_len, headlen := req.gpd.data_buff_len } →
      env.dev_alloc_skb (md.tick + 1) = some buf →
      dma_mapping_error (env.dma_map_single (md.tick + 2)) = false →
      ∃ (md1 : cldma_ctrl) (queue1 : cldma_queue) (req1 : cldma_request),
        md1.rxq[qno]? = some queue1 ∧
        queue1.tr_done = some (t7xx_cldma_ring_step_forward queue.tr_ring d) ∧
        queue1.rx_refill = some (t7xx_cldma_ring_step_forward queue.tr_ring f) ∧
        queue1.tr_ring.gpd_ring[f]? = some req1 ∧
        req1.skb = some buf ∧ req1.gpd.flags = { hwo := true, ioc := true } ∧
        req1.gpd.data_buff_len = 0 ∧
        req1.gpd.data_buff_bd_ptr = env.dma_map_single (md.tick + 2) ∧
        (d ≠ f → ∃ r, queue1.tr_ring.gpd_ring[d]? = some r ∧ r.skb = none) ∧
        cldma_event.recv_skb qno
          { skb with len := req.gpd.data_buff_len, headlen := req.gpd.data_buff_len } ∈ md1.log ∧
        md1.tick = md.tick + 3 ∧
        t7xx_cldma_gpd_rx_from_queue_loop env qno budget (fuel + 1) pc count ob md =
          (if count + 1 < budget then
            t7xx_cldma_gpd_rx_from_queue_loop env qno budget fuel 0 (count + 1) ob md1
          else if env.need_resched md1.tick = false then
            t7xx_cldma_gpd_rx_from_queue_loop env qno budget fuel 0 (count + 1) ob md1.asked
          else some (0, true, md1.asked))) ∧
    (t7xx_port_proxy_recv_skb cldma_queue_type.CLDMA_SHARED_Q
        (some { id := 0x104, len := 100 }) (-ENETDOWN, true) 0 = (0, true) ∧
     ∃ md1 : cldma_ctrl,
      t7xx_cldma_gpd_rx_from_queue 32 (cldma_env_rx 0x104 (-ENETDOWN, true))
        cldma_eight_received 0 8 false = some (0, false, md1) ∧
      cldma_delivered md1 = [0x100, 0x101, 0x102, 0x103, 0x104, 0x105, 0x106, 0x107] ∧
      (md1.rxq[0]?).map (fun q => (q.tr_done, q.rx_refill)) = some (some 0, some 0) ∧
      ((md1.rxq[0]?).bind fun q => q.tr_ring.gpd_ring[4]?).map
        (fun r => (r.gpd.flags, r.skb.map fun s => s.id)) =
          some ({ hwo := true, ioc := true }, some 0x100d)) :=
  ⟨rx_from_queue_loop_step, rfl, _, rfl, rfl, rfl, rfl⟩

/-- C8 (witness): the general part of the amended claim at the controller whose
device has released the eight buffers of receive queue 0, for the first
descriptor, with a callback that drops that buffer and reports 0. -/
theorem cldma_rx_walk_continues_on_nonnegative_result_witness :
    (0 : Int) ≤ (cldma_env_rx 0x100 (-ENETDOWN, true)).recv_skb 0 0
        { id := 0x100, len := 100, headlen := 100 } ∧
    ∃ (md1 : cldma_ctrl) (queue1 : cldma_queue) (req1 : cldma_request),
      md1.rxq[0]? = some queue1 ∧ queue1.tr_done = some 1 ∧ queue1.rx_refill = some 1 ∧
      queue1.tr_ring.gpd_ring[0]? = some req1 ∧
      req1.skb = some { id := 0x1001, len := 0 } ∧
      req1.gpd.flags = { hwo := true, ioc := true } ∧
      t7xx_cldma_gpd_rx_from_queue_loop (cldma_env_rx 0x100 (-ENETDOWN, true)) 0 16 32 0 0 false
          cldma_eight_received =
        t7xx_cldma_gpd_rx_from_queue_loop (cldma_env_rx 0x100 (-ENETDOWN, true)) 0 16 31 0 1 false
          md1 := by
  have hret : (0 : Int) ≤ (cldma_env_rx 0x100 (-ENETDOWN, true)).recv_skb 0 0
      { id := 0x100, len := 100, headlen := 100 } := by decide
  obtain ⟨md1, queue1, req1, h1, h2, h3, h4, h5, h6, -, -, -, -, -, h12⟩ :=
    cldma_rx_walk_continues_on_nonnegative_result.1 (cldma_env_rx 0x100 (-ENETDOWN, true)) 0 16 31
      0 0 false cldma_eight_received _ 0 0 _ { id := 0x100, len := 0 } { id := 0x1001, len := 0 }
      rfl rfl rfl rfl rfl rfl (by decide) hret rfl rfl
  exact ⟨hret, md1, queue1, req1, h1, h2, h3, h4, h5, h6, h12⟩
theorem same_queues_refl (a : cldma_ctrl) : cldma_same_queues a a := ⟨rfl, rfl, rfl, rfl⟩

theorem same_queues_trans {a b c : cldma_ctrl} (h1 : cldma_same_queues a b)
    (h2 : cldma_same_queues b c) : cldma_same_queues a c :=
  ⟨h2.1.trans h1.1, h2.2.1.trans h1.2.1, h2.2.2.1.trans h1.2.2.1, h2.2.2.2.trans h1.2.2.2⟩

theorem queues_active_frame (env : cldma_env) (md : cldma_ctrl) :
    (t7xx_cldma_queues_active env md).2 = md.asked.asked := by
  unfold t7xx_cldma_queues_active
  simp only []
  split_ifs <;> rfl

theorem stop_poll_frame (env : cldma_env) (n : Nat) (md : cldma_ctrl) :
    cldma_same_queues md (t7xx_cldma_stop_poll env n md).2 ∧
    (t7xx_cldma_stop_poll env n md).2.txq_active = md.txq_active ∧
    (t7xx_cldma_stop_poll env n md).2.rxq_active = md.rxq_active ∧
    (t7xx_cldma_stop_poll env n md).2.txq_started = md.txq_started := by
  induction n generalizing md with
  | zero =>
    unfold t7xx_cldma_stop_poll
    simp only []
    split_ifs
    · rw [queues_active_frame]; simp [cldma_same_queues, cldma_ctrl.asked]
    · rw [queues_active_frame, queues_active_frame]; simp [cldma_same_queues, cldma_ctrl.asked]
  | succ n ih =>
    unfold t7xx_cldma_stop_poll
    simp only []
    split_ifs
    · rw [queues_active_frame]; simp [cldma_same_queues, cldma_ctrl.asked]
    · rw [queues_active_frame, queues_active_frame]; simp [cldma_same_queues, cldma_ctrl.asked]
    · have h := ih (t7xx_cldma_queues_active env md).2.asked
      rw [queues_active_frame] at h ⊢
      exact h

theorem stop_flush_status (env : cldma_env) (tx_rx : mtk_txrx) (n : Nat) :
    ∀ (i : Nat) (md : cldma_ctrl),
      (t7xx_cldma_stop_flush env tx_rx n i md).hif_id = md.hif_id ∧
      (t7xx_cldma_stop_flush env tx_rx n i md).is_late_init = md.is_late_init ∧
      (t7xx_cldma_stop_flush env tx_rx n i md).txq_active = md.txq_active ∧
      (t7xx_cldma_stop_flush env tx_rx n i md).rxq_active = md.rxq_active ∧
      (t7xx_cldma_stop_flush env tx_rx n i md).txq_started = md.txq_started := by
  induction n with
  | zero => intro i md; exact ⟨rfl, rfl, rfl, rfl, rfl⟩
  | succ n ih =>
    intro i md
    rw [t7xx_cldma_stop_flush]
    obtain ⟨h1, h2, h3, h4, h5⟩ := ih (i + 1)
      (match env.flush_work (md.emit (cldma_event.flush_work tx_rx i)).tick tx_rx i with
        | none => (md.emit (cldma_event.flush_work tx_rx i)).asked
        | some queue =>
          if tx_rx = mtk_txrx.MTK_TX then
            (md.emit (cldma_event.flush_work tx_rx i)).asked.set_txq i queue
          else (md.emit (cldma_event.flush_work tx_rx i)).asked.set_rxq i queue)
    refine ⟨h1.trans ?_, h2.trans ?_, h3.trans ?_, h4.trans ?_, h5.trans ?_⟩ <;>
      cases env.flush_work (md.emit (cldma_event.flush_work tx_rx i)).tick tx_rx i with
      | none => rfl
      | some queue => simp only []; split_ifs <;> rfl

theorem stop_flush_frame (env : cldma_env) (hidle : cldma_no_work_pending env)
    (tx_rx : mtk_txrx) (n : Nat) :
    ∀ (i : Nat) (md : cldma_ctrl),
      cldma_same_queues md (t7xx_cldma_stop_flush env tx_rx n i md) ∧
      (t7xx_cldma_stop_flush env tx_rx n i md).txq_active = md.txq_active ∧
      (t7xx_cldma_stop_flush env tx_rx n i md).rxq_active = md.rxq_active ∧
      (t7xx_cldma_stop_flush env tx_rx n i md).txq_started = md.txq_started := by
  induction n with
  | zero => intro i md; exact ⟨⟨rfl, rfl, rfl, rfl⟩, rfl, rfl, rfl⟩
  | succ n ih =>
    intro i md
    rw [t7xx_cldma_stop_flush]
    simp only [hidle _ tx_rx i]
    exact ih (i + 1) (md.emit (cldma_event.flush_work tx_rx i)).asked

theorem stop_quiesce_status (env : cldma_env) (md : cldma_ctrl) :
    (t7xx_cldma_stop_quiesce env md).hif_id = md.hif_id ∧
    (t7xx_cldma_stop_quiesce env md).is_late_init = md.is_late_init ∧
    (t7xx_cldma_stop_quiesce env md).txq_active = 0 ∧
    (t7xx_cldma_stop_quiesce env md).rxq_active = 0 ∧
    (t7xx_cldma_stop_quiesce env md).txq_started = 0 := by
  unfold t7xx_cldma_stop_quiesce
  simp only []
  split_ifs
  · obtain ⟨a1, a2, a3, a4, a5⟩ := stop_flush_status env mtk_txrx.MTK_RX CLDMA_RXQ_NUM 0
      (t7xx_cldma_stop_flush env mtk_txrx.MTK_TX CLDMA_TXQ_NUM 0
        ((((((({ ({ ({ md with rxq_active := 0 }).emit
          (cldma_event.hw_stop_queue CLDMA_ALL_Q mtk_txrx.MTK_RX) with txq_active := 0 }).emit
          (cldma_event.hw_stop_queue CLDMA_ALL_Q mtk_txrx.MTK_TX) with txq_started := 0 }).emit
          cldma_event.disable_irq).emit (cldma_event.hw_stop mtk_txrx.MTK_RX)).emit
          (cldma_event.hw_stop mtk_txrx.MTK_TX)).emit cldma_event.hw_tx_done_all).emit
          cldma_event.hw_rx_done_all)))
    obtain ⟨b1, b2, b3, b4, b5⟩ := stop_flush_status env mtk_txrx.MTK_TX CLDMA_TXQ_NUM 0
        ((((((({ ({ ({ md with rxq_active := 0 }).emit
          (cldma_event.hw_stop_queue CLDMA_ALL_Q mtk_txrx.MTK_RX) with txq_active := 0 }).emit
          (cldma_event.hw_stop_queue CLDMA_ALL_Q mtk_txrx.MTK_TX) with txq_started := 0 }).emit
          cldma_event.disable_irq).emit (cldma_event.hw_stop mtk_txrx.MTK_RX)).emit
          (cldma_event.hw_stop mtk_txrx.MTK_TX)).emit cldma_event.hw_tx_done_all).emit
          cldma_event.hw_rx_done_all))
    refine ⟨a1.trans (b1.trans ?_), a2.trans (b2.trans ?_), a3.trans (b3.trans ?_),
      a4.trans (b4.trans ?_), a5.trans (b5.trans ?_)⟩ <;> simp [cldma_ctrl.emit]
  · simp [cldma_ctrl.emit]

theorem stop_quiesce_frame (env : cldma_env) (md : cldma_ctrl)
    (hidle : md.is_late_init = true → cldma_no_work_pending env) :
    cldma_same_queues md (t7xx_cldma_stop_quiesce env md) ∧
    (t7xx_cldma_stop_quiesce env md).txq_active = 0 ∧
    (t7xx_cldma_stop_quiesce env md).rxq_active = 0 ∧
    (t7xx_cldma_stop_quiesce env md).txq_started = 0 := by
  obtain ⟨s1, s2, s3, s4, s5⟩ := stop_quiesce_status env md
  refine ⟨⟨s1, ?_, ?_, s2⟩, s3, s4, s5⟩
  · unfold t7xx_cldma_stop_quiesce
    simp only []
    split_ifs with hl
    · have hi : cldma_no_work_pending env := hidle (by simpa [cldma_ctrl.emit] using hl)
      rw [(stop_flush_frame env hi mtk_txrx.MTK_RX CLDMA_RXQ_NUM 0 _).1.2.1,
        (stop_flush_frame env hi mtk_txrx.MTK_TX CLDMA_TXQ_NUM 0 _).1.2.1]
      rfl
    · rfl
  · unfold t7xx_cldma_stop_quiesce
    simp only []
    split_ifs with hl
    · have hi : cldma_no_work_pending env := hidle (by simpa [cldma_ctrl.emit] using hl)
      rw [(stop_flush_frame env hi mtk_txrx.MTK_RX CLDMA_RXQ_NUM 0 _).1.2.2.1,
        (stop_flush_frame env hi mtk_txrx.MTK_TX CLDMA_TXQ_NUM 0 _).1.2.2.1]
      rfl
    · rfl

/-- What `t7xx_cldma_stop` does to the status fields, whatever the work items
do: the three of them are zeroed, the identity of the controller and
`is_late_init` stay. -/
theorem stop_status (env : cldma_env) (md : cldma_ctrl) :
    (t7xx_cldma_stop env md).2.hif_id = md.hif_id ∧
    (t7xx_cldma_stop env md).2.is_late_init = md.is_late_init ∧
    (t7xx_cldma_stop env md).2.txq_active = 0 ∧
    (t7xx_cldma_stop env md).2.rxq_active = 0 ∧
    (t7xx_cldma_stop env md).2.txq_started = 0 := by
  obtain ⟨a1, a2, a3, a4, a5⟩ := stop_quiesce_status env md
  obtain ⟨b1, b2, b3, b4⟩ := stop_poll_frame env
    (CHECK_Q_STOP_TIMEOUT_US / (CHECK_Q_STOP_STEP_US / 4 + 1) + 1) (t7xx_cldma_stop_quiesce env md)
  have h1 := b1.1.trans a1
  have h2 := b1.2.2.2.trans a2
  have h3 := b2.trans a3
  have h4 := b3.trans a4
  have h5 := b4.trans a5
  unfold t7xx_cldma_stop
  simp only []
  generalize t7xx_cldma_stop_poll env _ _ = P at *
  split_ifs
  all_goals exact ⟨h1, h2, h3, h4, h5⟩

/-- What `t7xx_cldma_stop` changes when no work item is pending: the three
status fields are zeroed; the queues stay as they are. -/
theorem stop_frame (env : cldma_env) (md : cldma_ctrl)
    (hidle : md.is_late_init = true → cldma_no_work_pending env) :
    cldma_same_queues md (t7xx_cldma_stop env md).2 ∧
    (t7xx_cldma_stop env md).2.txq_active = 0 ∧
    (t7xx_cldma_stop env md).2.rxq_active = 0 ∧
    (t7xx_cldma_stop env md).2.txq_started = 0 := by
  obtain ⟨a1, a2, a3, a4⟩ := stop_quiesce_frame env md hidle
  obtain ⟨b1, b2, b3, b4⟩ := stop_poll_frame env
    (CHECK_Q_STOP_TIMEOUT_US / (CHECK_Q_STOP_STEP_US / 4 + 1) + 1) (t7xx_cldma_stop_quiesce env md)
  have h := same_queues_trans a1 b1
  have h2 := b2.trans a2
  have h3 := b3.trans a3
  have h4 := b4.trans a4
  unfold t7xx_cldma_stop
  simp only []
  generalize t7xx_cldma_stop_poll env _ _ = P at *
  split_ifs
  all_goals exact ⟨h, h2, h3, h4⟩

theorem start_addrs_frame (tx_rx : mtk_txrx) (n : Nat) :
    ∀ (i : Nat) (md : cldma_ctrl),
      (∀ j, i ≤ j → j < i + n →
        ∃ q, (if tx_rx = mtk_txrx.MTK_TX then md.txq else md.rxq)[j]? = some q ∧
          ∀ d, q.tr_done = some d → d < q.tr_ring.gpd_ring.length) →
      ∃ md1, t7xx_cldma_start_addrs tx_rx n i md = some md1 ∧ cldma_same_queues md md1 ∧
        md1.txq_active = md.txq_active ∧ md1.rxq_active = md.rxq_active ∧
        md1.txq_started = md.txq_started := by
  induction n with
  | zero => intro i md _; exact ⟨md, rfl, same_queues_refl md, rfl, rfl, rfl⟩
  | succ n ih =>
    intro i md h
    obtain ⟨q, hq, hd⟩ := h i (Nat.le_refl i) (by omega)
    rw [t7xx_cldma_start_addrs]
    simp only [hq]
    cases hdone : q.tr_done with
    | none =>
      simp only []
      exact ih (i + 1) md (fun j h1 h2 => h j (by omega) (by omega))
    | some d =>
      have hdl : d < q.tr_ring.gpd_ring.length := hd d hdone
      simp only [List.getElem?_eq_getElem hdl]
      obtain ⟨md1, h1, h2, h3, h4, h5⟩ := ih (i + 1)
        (md.emit (cldma_event.hw_set_start_addr i q.tr_ring.gpd_ring[d].gpd_addr tx_rx))
        (fun j h1 h2 => h j (by omega) (by omega))
      exact ⟨md1, h1, same_queues_trans ⟨rfl, rfl, rfl, rfl⟩ h2, h3, h4, h5⟩

theorem start_frame (md : cldma_ctrl) (h : md.is_late_init = true → cldma_tr_done_valid md) :
    ∃ md1, t7xx_cldma_start md = some md1 ∧ cldma_same_queues md md1 ∧
      (md.is_late_init = true →
        md1.txq_active = (md.txq_active ||| TXRX_STATUS_BITMASK) % 65536 ∧
        md1.rxq_active = (md.rxq_active ||| TXRX_STATUS_BITMASK) % 65536 ∧
        md1.txq_started = 0) ∧
      (md.is_late_init = false → md1 = md) := by
  unfold t7xx_cldma_start
  by_cases hlate : md.is_late_init = true
  · obtain ⟨ht, hr, hvt, hvr⟩ := h hlate
    simp only [hlate, if_true]
    obtain ⟨md1, h1, h2, h3, h4, h5⟩ := start_addrs_frame mtk_txrx.MTK_TX CLDMA_TXQ_NUM 0
      (md.emit cldma_event.enable_irq) (by
        intro j _ hj
        have hj2 : j < md.txq.length := by rw [ht]; omega
        refine ⟨md.txq[j], ?_, fun d hd => hvt _ (List.getElem_mem hj2) d hd⟩
        simp [cldma_ctrl.emit, hj2])
    obtain ⟨md2, g1, g2, g3, g4, g5⟩ := start_addrs_frame mtk_txrx.MTK_RX CLDMA_RXQ_NUM 0 md1 (by
        intro j _ hj
        have hj2 : j < md.rxq.length := by rw [hr]; omega
        refine ⟨md.rxq[j], ?_, fun d hd => hvr _ (List.getElem_mem hj2) d hd⟩
        have : md1.rxq = md.rxq := h2.2.2.1
        simp [this, hj2])
    simp only [h1, g1]
    refine ⟨_, rfl, ?_, ?_, ?_⟩
    · have := same_queues_trans (same_queues_trans (a := md) ⟨rfl, rfl, rfl, rfl⟩ h2) g2
      exact ⟨this.1, this.2.1, this.2.2.1, this.2.2.2⟩
    · intro _
      refine ⟨?_, ?_, rfl⟩
      · show (md2.txq_active ||| _) % _ = _
        rw [g3, h3]; rfl
      · show (md2.rxq_active ||| _) % _ = _
        rw [g4, h4]; rfl
    · intro hf; cases hf
  · simp only [hlate, if_false, Bool.false_eq_true]
    exact ⟨md, rfl, same_queues_refl md, fun h => h.elim, fun _ => rfl⟩

/-- C7, as amended: for every controller whose `tr_done` pointers point into
their rings, and provided that after late initialisation no work item is
queued or running when `t7xx_cldma_stop` flushes it, `t7xx_cldma_stop`
followed at once by `t7xx_cldma_start` returns and leaves the lists of
transmit and receive queues as they were: every cursor, every budget and every
ring entry with its packet pointer is unchanged. -/
theorem cldma_stop_then_start_keeps_queues (env : cldma_env) (md : cldma_ctrl)
    (h : cldma_tr_done_valid md)
    (hidle : md.is_late_init = true → cldma_no_work_pending env) :
    ∃ md2 : cldma_ctrl, t7xx_cldma_start (t7xx_cldma_stop env md).2 = some md2 ∧
      md2.txq = md.txq ∧ md2.rxq = md.rxq := by
  obtain ⟨hs, -, -, -⟩ := stop_frame env md hidle
  have hv : cldma_tr_done_valid (t7xx_cldma_stop env md).2 := by
    unfold cldma_tr_done_valid
    rw [hs.2.1, hs.2.2.1]
    exact h
  obtain ⟨md2, h1, h2, -, -⟩ := start_frame _ (fun _ => hv)
  exact ⟨md2, h1, h2.2.1.trans hs.2.1, h2.2.2.1.trans hs.2.2.1⟩

/-- C7 (witness): the claim at the controller that holds three submitted
packets on transmit queue 0, with no work item pending. -/
theorem cldma_stop_then_start_keeps_queues_witness :
    cldma_tr_done_valid (cldma_after_submits 3) ∧ cldma_no_work_pending cldma_env_ok ∧
    ∃ md2 : cldma_ctrl,
      t7xx_cldma_start (t7xx_cldma_stop cldma_env_ok (cldma_after_submits 3)).2 = some md2 ∧
      md2.txq = (cldma_after_submits 3).txq ∧ md2.rxq = (cldma_after_submits 3).rxq :=
  ⟨by decide, fun _ _ _ => rfl,
    cldma_stop_then_start_keeps_queues cldma_env_ok (cldma_after_submits 3) (by decide)
      (fun _ _ _ _ => rfl)⟩

/-- C7, counterexample: one packet has been submitted on transmit queue 0 and
sent by the hardware, and the work item `t7xx_cldma_tx_done` of that queue is
queued when `t7xx_cldma_stop` is called. `flush_work` waits for the item, whose
`t7xx_cldma_gpd_tx_collect` reclaims descriptor 0. After `t7xx_cldma_stop` and
`t7xx_cldma_start` the cursor `tr_done` of queue 0 is at 1 and not at 0, the
budget is 16 and not 15, and descriptor 0 holds no packet any more. -/
theorem cldma_stop_then_start_reclaims_with_pending_work :
    ∃ (md1 md2 : cldma_ctrl) (q0 q2 : cldma_queue) (r0 r2 : cldma_request),
      cldma_one_sent.is_late_init = true ∧ cldma_tr_done_valid cldma_one_sent ∧
      t7xx_cldma_gpd_tx_collect cldma_env_ok cldma_one_sent 0 = some (1, md1) ∧
      (∀ n, cldma_env_tx_work_pending.flush_work n mtk_txrx.MTK_TX 0 = md1.txq[0]?) ∧
      t7xx_cldma_start (t7xx_cldma_stop cldma_env_tx_work_pending cldma_one_sent).2 = some md2 ∧
      cldma_one_sent.txq[0]? = some q0 ∧ md2.txq[0]? = some q2 ∧
      q0.tr_done = some 0 ∧ q2.tr_done = some 1 ∧
      q0.budget = 15 ∧ q2.budget = 16 ∧
      q0.tr_ring.gpd_ring[0]? = some r0 ∧ r0.skb = some { id := 0, len := 64 } ∧
      q2.tr_ring.gpd_ring[0]? = some r2 ∧ r2.skb = none :=
  ⟨_, _, _, _, _, _, rfl, by decide, rfl, fun _ => rfl, rfl, rfl, rfl, rfl, rfl, rfl, rfl, rfl,
    rfl, rfl, rfl⟩

theorem same_cursors_refl (a : cldma_queue) : cldma_same_cursors a a :=
  ⟨rfl, rfl, rfl, rfl, rfl, rfl, rfl, rfl⟩

theorem same_cursors_trans {a b c : cldma_queue} (h1 : cldma_same_cursors a b)
    (h2 : cldma_same_cursors b c) : cldma_same_cursors a c :=
  ⟨h2.1.trans h1.1, h2.2.1.trans h1.2.1, h2.2.2.1.trans h1.2.2.1, h2.2.2.2.1.trans h1.2.2.2.1,
    h2.2.2.2.2.1.trans h1.2.2.2.2.1, h2.2.2.2.2.2.1.trans h1.2.2.2.2.2.1,
    h2.2.2.2.2.2.2.1.trans h1.2.2.2.2.2.2.1, h2.2.2.2.2.2.2.2.trans h1.2.2.2.2.2.2.2⟩

theorem same_cursors_set_req (q : cldma_queue) (i : Nat) (r : cldma_request) :
    cldma_same_cursors q (q.set_req i r) := by
  simp [cldma_same_cursors, cldma_queue.set_req]

/-- What a step on receive queue `qnum` may change: the status fields, the
transmit queues and the other receive queues stay, the receive queue keeps its
cursors. -/
theorem alloc_and_map_skb_frame (env : cldma_env) (md : cldma_ctrl) (qnum x : Nat)
    (rxq : cldma_queue) (hq : md.rxq[qnum]? = some rxq)
    (hx : x < rxq.tr_ring.gpd_ring.length) :
    ∃ ret md1 rxq1, t7xx_cldma_alloc_and_map_skb env md qnum x = some (ret, md1) ∧
      md1.hif_id = md.hif_id ∧ md1.txq = md.txq ∧ md1.is_late_init = md.is_late_init ∧
      md1.txq_active = md.txq_active ∧ md1.rxq_active = md.rxq_active ∧
      md1.txq_started = md.txq_started ∧
      md1.rxq = md.rxq.set qnum rxq1 ∧ cldma_same_cursors rxq rxq1 := by
  unfold t7xx_cldma_alloc_and_map_skb
  simp only [hq, List.getElem?_eq_getElem hx]
  cases env.dev_alloc_skb md.tick with
  | none =>
    exact ⟨_, _, _, rfl, rfl, rfl, rfl, rfl, rfl, rfl, rfl, same_cursors_set_req _ _ _⟩
  | some skb =>
    simp only []
    split_ifs
    · exact ⟨_, _, _, rfl, rfl, rfl, rfl, rfl, rfl, rfl, rfl, same_cursors_set_req _ _ _⟩
    · exact ⟨_, _, _, rfl, rfl, rfl, rfl, rfl, rfl, rfl, rfl, same_cursors_set_req _ _ _⟩
theorem list_set_of_getElem? {α : Type} (l : List α) (i : Nat) (a : α) (h : l[i]? = some a) :
    l.set i a = l := by
  have hi : i < l.length := by
    rcases Nat.lt_or_ge i l.length with h1 | h1
    · exact h1
    · rw [List.getElem?_eq_none h1] at h; cases h
  apply List.ext_getElem?
  intro j
  by_cases hj : i = j
  · subst hj; rw [List.getElem?_set_self hi, h]
  · rw [List.getElem?_set_ne hj]

theorem clear_rxq_refill_frame (env : cldma_env) (qnum : Nat) (n : Nat) :
    ∀ (x : Nat) (md : cldma_ctrl) (rxq : cldma_queue), md.rxq[qnum]? = some rxq →
      x + n ≤ rxq.tr_ring.gpd_ring.length →
      ∃ ret md1 rxq1, t7xx_cldma_clear_rxq_refill env qnum n x md = some (ret, md1) ∧
        md1.hif_id = md.hif_id ∧ md1.txq = md.txq ∧ md1.is_late_init = md.is_late_init ∧
        md1.txq_active = md.txq_active ∧ md1.rxq_active = md.rxq_active ∧
        md1.txq_started = md.txq_started ∧
        md1.rxq = md.rxq.set qnum rxq1 ∧ cldma_same_cursors rxq rxq1 := by
  induction n with
  | zero =>
    intro x md rxq hq _
    exact ⟨0, md, rxq, rfl, rfl, rfl, rfl, rfl, rfl, rfl,
      (list_set_of_getElem? _ _ _ hq).symm, same_cursors_refl rxq⟩
  | succ n ih =>
    intro x md rxq hq hx
    have hxl : x < rxq.tr_ring.gpd_ring.length := by omega
    rw [t7xx_cldma_clear_rxq_refill]
    simp only [hq, List.getElem?_eq_getElem hxl]
    split_ifs with hskb
    · exact ih (x + 1) md rxq hq (by omega)
    · obtain ⟨ret, md1, rxq1, h1, a1, a2, a3, a4, a5, a6, a7, a8⟩ :=
        alloc_and_map_skb_frame env md qnum x rxq hq hxl
      have hql : qnum < md.rxq.length := by
        rcases Nat.lt_or_ge qnum md.rxq.length with h | h
        · exact h
        · rw [List.getElem?_eq_none h] at hq; cases hq
      have hq1 : md1.rxq[qnum]? = some rxq1 := by
        rw [a7]; exact List.getElem?_set_self hql
      have hxl1 : x < rxq1.tr_ring.gpd_ring.length := by rw [a8.2.2.2.2.2.2.1]; exact hxl
      simp only [h1]
      split_ifs with hret
      · exact ⟨ret, md1, rxq1, rfl, a1, a2, a3, a4, a5, a6, a7, a8⟩
      · simp only [hq1, List.getElem?_eq_getElem hxl1]
        have hq2 : ∀ r, (md1.set_rxq qnum (rxq1.set_req x r)).rxq[qnum]? =
            some (rxq1.set_req x r) := fun r => set_rxq_get md1 qnum rxq1 _ hq1
        obtain ⟨ret2, md2, rxq2, h2, b1, b2, b3, b4, b5, b6, b7, b8⟩ :=
          ih (x + 1) (md1.set_rxq qnum (rxq1.set_req x
            { rxq1.tr_ring.gpd_ring[x] with
              gpd := { rxq1.tr_ring.gpd_ring[x].gpd with
                data_buff_bd_ptr := rxq1.tr_ring.gpd_ring[x].mapped_buff } })) _ (hq2 _)
            (by have := a8.2.2.2.2.2.2.1; simp [cldma_queue.set_req]; omega)
        refine ⟨ret2, md2, rxq2, h2, b1.trans a1, b2.trans a2, b3.trans a3, b4.trans a4,
          b5.trans a5, b6.trans a6, ?_,
          same_cursors_trans (same_cursors_trans a8 (same_cursors_set_req _ _ _)) b8⟩
        rw [b7]
        simp only [cldma_ctrl.set_rxq, a7, List.set_set]
theorem clear_rxq_frame (env : cldma_env) (md : cldma_ctrl) (qnum : Nat) (rxq : cldma_queue)
    (hq : md.rxq[qnum]? = some rxq) :
    ∃ ret md1 rxq1, t7xx_cldma_clear_rxq env md qnum = some (ret, md1) ∧
      md1.hif_id = md.hif_id ∧ md1.txq = md.txq ∧ md1.is_late_init = md.is_late_init ∧
      md1.txq_active = md.txq_active ∧ md1.rxq_active = md.rxq_active ∧
      md1.txq_started = md.txq_started ∧
      md1.rxq = md.rxq.set qnum rxq1 ∧ cldma_same_cursors (t7xx_cldma_queue_reset rxq) rxq1 := by
  unfold t7xx_cldma_clear_rxq
  simp only [hq]
  obtain ⟨ret, md1, rxq1, h1, a1, a2, a3, a4, a5, a6, a7, a8⟩ :=
    clear_rxq_refill_frame env qnum (t7xx_cldma_clear_rxq_queue rxq).tr_ring.gpd_ring.length 0
      (md.set_rxq qnum (t7xx_cldma_clear_rxq_queue rxq)) (t7xx_cldma_clear_rxq_queue rxq)
      (set_rxq_get md qnum rxq _ hq) (by omega)
  refine ⟨ret, md1, rxq1, h1, a1, a2, a3, a4, a5, a6, ?_, same_cursors_trans ?_ a8⟩
  · rw [a7]; simp only [cldma_ctrl.set_rxq, List.set_set]
  · simp [cldma_same_cursors, t7xx_cldma_clear_rxq_queue]

theorem clear_all_rxq_frame (env : cldma_env) (n : Nat) :
    ∀ (i : Nat) (md : cldma_ctrl), i + n ≤ md.rxq.length →
      ∃ md1, t7xx_cldma_clear_all_rxq env n i md = some md1 ∧
        md1.hif_id = md.hif_id ∧ md1.txq = md.txq ∧ md1.is_late_init = md.is_late_init ∧
        md1.txq_active = md.txq_active ∧ md1.rxq_active = md.rxq_active ∧
        md1.txq_started = md.txq_started ∧ md1.rxq.length = md.rxq.length ∧
        ∀ j q, md.rxq[j]? = some q → ∃ q1, md1.rxq[j]? = some q1 ∧
          (if i ≤ j ∧ j < i + n then cldma_same_cursors (t7xx_cldma_queue_reset q) q1
           else q1 = q) := by
  induction n with
  | zero =>
    intro i md _
    refine ⟨md, rfl, rfl, rfl, rfl, rfl, rfl, rfl, rfl, ?_⟩
    intro j q hq
    refine ⟨q, hq, ?_⟩
    rw [if_neg (by omega)]
  | succ n ih =>
    intro i md hi
    have hil : i < md.rxq.length := by omega
    obtain ⟨ret, md1, rxq1, h1, a1, a2, a3, a4, a5, a6, a7, a8⟩ :=
      clear_rxq_frame env md i md.rxq[i] (List.getElem?_eq_getElem hil)
    have hlen : md1.rxq.length = md.rxq.length := by rw [a7]; simp
    obtain ⟨md2, h2, b1, b2, b3, b4, b5, b6, b7, b8⟩ := ih (i + 1) md1 (by omega)
    rw [t7xx_cldma_clear_all_rxq]
    simp only [h1, h2]
    refine ⟨md2, rfl, b1.trans a1, b2.trans a2, b3.trans a3, b4.trans a4, b5.trans a5,
      b6.trans a6, b7.trans hlen, ?_⟩
    intro j q hq
    by_cases hj : i = j
    · subst hj
      obtain ⟨q1, hq1, hif⟩ := b8 i rxq1 (by rw [a7]; exact List.getElem?_set_self hil)
      rw [if_neg (by omega)] at hif
      subst hif
      refine ⟨q1, hq1, ?_⟩
      rw [if_pos (by omega)]
      rw [List.getElem?_eq_getElem hil] at hq
      cases hq
      exact a8
    · obtain ⟨q1, hq1, hif⟩ := b8 j q (by rw [a7, List.getElem?_set_ne hj]; exact hq)
      refine ⟨q1, hq1, ?_⟩
      by_cases hr : i + 1 ≤ j ∧ j < i + 1 + n
      · rw [if_pos hr] at hif
        rw [if_pos (by omega)]
        exact hif
      · rw [if_neg hr] at hif
        rw [if_neg (by omega)]
        exact hif

theorem clear_all_txq_frame (n : Nat) :
    ∀ (i : Nat) (md : cldma_ctrl), i + n ≤ md.txq.length →
      ∃ md1, t7xx_cldma_clear_all_txq n i md = some md1 ∧
        md1.hif_id = md.hif_id ∧ md1.rxq = md.rxq ∧ md1.is_late_init = md.is_late_init ∧
        md1.txq_active = md.txq_active ∧ md1.rxq_active = md.rxq_active ∧
        md1.txq_started = md.txq_started ∧ md1.txq.length = md.txq.length ∧
        ∀ j, md1.txq[j]? =
          if i ≤ j ∧ j < i + n then (md.txq[j]?).map t7xx_cldma_clear_txq_queue
          else md.txq[j]? := by
  induction n with
  | zero =>
    intro i md _
    refine ⟨md, rfl, rfl, rfl, rfl, rfl, rfl, rfl, rfl, ?_⟩
    intro j
    rw [if_neg (by omega)]
  | succ n ih =>
    intro i md hi
    have hil : i < md.txq.length := by omega
    obtain ⟨md2, h2, b1, b2, b3, b4, b5, b6, b7, b8⟩ := ih (i + 1)
      (({ md with log := md.log ++ (md.txq[i].tr_ring.gpd_ring.map
          (fun (req : cldma_request) => cldma_event.dev_kfree_skb_any req.skb)) } : cldma_ctrl).set_txq i
        (t7xx_cldma_clear_txq_queue md.txq[i]))
      (by simp [cldma_ctrl.set_txq]; omega)
    rw [t7xx_cldma_clear_all_txq, t7xx_cldma_clear_txq]
    simp only [List.getElem?_eq_getElem hil, h2]
    refine ⟨md2, rfl, b1, b2, b3, b4, b5, b6, ?_, ?_⟩
    · rw [b7]; simp [cldma_ctrl.set_txq]
    · intro j
      rw [b8 j]
      by_cases hj : i = j
      · subst hj
        rw [if_neg (by omega), if_pos (by omega)]
        simp [cldma_ctrl.set_txq, hil]
      · by_cases hr : i + 1 ≤ j ∧ j < i + 1 + n
        · rw [if_pos hr, if_pos (by omega)]
          simp [cldma_ctrl.set_txq, List.getElem?_set_ne hj]
        · rw [if_neg hr, if_neg (by omega)]
          simp [cldma_ctrl.set_txq, List.getElem?_set_ne hj]

theorem stop_queue_frame (md : cldma_ctrl) (qno : Nat) (tx_rx : mtk_txrx) :
    cldma_same_queues md (t7xx_cldma_stop_queue md qno tx_rx) ∧
    (t7xx_cldma_stop_queue md qno tx_rx).txq_started = md.txq_started ∧
    (t7xx_cldma_stop_queue md qno tx_rx).txq_active =
      (if tx_rx = mtk_txrx.MTK_RX then md.txq_active
       else clear_bits16 md.txq_active
        (if qno = CLDMA_ALL_Q then TXRX_STATUS_BITMASK else TXRX_STATUS_BITMASK &&& BIT qno)) ∧
    (t7xx_cldma_stop_queue md qno tx_rx).rxq_active =
      (if tx_rx = mtk_txrx.MTK_RX then clear_bits16 md.rxq_active
        (if qno = CLDMA_ALL_Q then TXRX_STATUS_BITMASK else TXRX_STATUS_BITMASK &&& BIT qno)
       else md.rxq_active) := by
  unfold t7xx_cldma_stop_queue
  simp only [cldma_ctrl.emit, cldma_same_queues]
  split_ifs <;> simp
theorem clear_bits16_mask (x : Nat) : clear_bits16 x TXRX_STATUS_BITMASK &&& TXRX_STATUS_BITMASK = 0 := by
  unfold clear_bits16 TXRX_STATUS_BITMASK
  apply Nat.eq_of_testBit_eq
  intro i
  simp only [Nat.testBit_and, Nat.testBit_xor, Nat.zero_testBit]
  by_cases hi : i < 8
  · have : Nat.testBit 255 i = true := by
      interval_cases i <;> rfl
    have h2 : Nat.testBit 65535 i = true := by
      interval_cases i <;> rfl
    simp [this, h2]
  · have : Nat.testBit 255 i = false := by
      apply Nat.testBit_lt_two_pow
      calc 255 < 2 ^ 8 := by norm_num
        _ ≤ 2 ^ i := Nat.pow_le_pow_right (by norm_num) (by omega)
    simp [this]

theorem exception_init_frame (env : cldma_env) (md : cldma_ctrl)
    (ht : md.txq.length = CLDMA_TXQ_NUM) :
    ∃ md1, t7xx_cldma_exception env md hif_ex_stage.HIF_EX_INIT = some md1 ∧
      md1.hif_id = md.hif_id ∧ md1.rxq = md.rxq ∧ md1.is_late_init = md.is_late_init ∧
      md1.rxq_active = md.rxq_active ∧
      md1.txq_active = clear_bits16 md.txq_active TXRX_STATUS_BITMASK ∧
      md1.txq = md.txq.map t7xx_cldma_clear_txq_queue := by
  obtain ⟨s1, s2, s3, s4⟩ := stop_queue_frame md CLDMA_ALL_Q mtk_txrx.MTK_TX
  obtain ⟨md1, h1, a1, a2, a3, a4, a5, a6, a7, a8⟩ := clear_all_txq_frame CLDMA_TXQ_NUM 0
    (t7xx_cldma_stop_queue md CLDMA_ALL_Q mtk_txrx.MTK_TX) (by rw [s1.2.1, ht]; omega)
  refine ⟨md1, ?_, a1.trans s1.1, a2.trans s1.2.2.1, a3.trans s1.2.2.2, ?_, ?_, ?_⟩
  · simp only [t7xx_cldma_exception, t7xx_cldma_clear_all_queue, if_true]
    exact h1
  · rw [a5, s4]; rfl
  · rw [a4, s3]; rfl
  · apply List.ext_getElem?
    intro j
    rw [a8 j, s1.2.1, List.getElem?_map]
    by_cases hj : j < CLDMA_TXQ_NUM
    · rw [if_pos ⟨Nat.zero_le j, by omega⟩]
    · rw [if_neg (by omega), List.getElem?_eq_none (by omega)]
      rfl

theorem exception_clearq_frame (env : cldma_env) (md : cldma_ctrl)
    (hr : md.rxq.length = CLDMA_RXQ_NUM) (hidle : cldma_no_work_pending env) :
    ∃ md1, t7xx_cldma_exception env md hif_ex_stage.HIF_EX_CLEARQ_DONE = some md1 ∧
      md1.hif_id = md.hif_id ∧ md1.txq = md.txq ∧ md1.is_late_init = md.is_late_init ∧
      md1.rxq_active = 0 ∧ md1.txq_active = 0 ∧ md1.rxq.length = md.rxq.length ∧
      ∀ (j : Nat) (q : cldma_queue), md.rxq[j]? = some q → ∃ q1, md1.rxq[j]? = some q1 ∧
        cldma_same_cursors (t7xx_cldma_queue_reset q) q1 := by
  obtain ⟨s1, -, -, -⟩ := stop_queue_frame md CLDMA_ALL_Q mtk_txrx.MTK_RX
  obtain ⟨p1, p2, p3, -⟩ := stop_frame env (t7xx_cldma_stop_queue md CLDMA_ALL_Q mtk_txrx.MTK_RX)
    (fun _ => hidle)
  have hsq := same_queues_trans s1 p1
  obtain ⟨mdA, hA, hAq, hA2, hA3⟩ : ∃ mdA : cldma_ctrl,
      mdA = (if (t7xx_cldma_stop env (t7xx_cldma_stop_queue md CLDMA_ALL_Q mtk_txrx.MTK_RX)).2.hif_id
          = cldma_id.ID_CLDMA1
        then (t7xx_cldma_stop env (t7xx_cldma_stop_queue md CLDMA_ALL_Q mtk_txrx.MTK_RX)).2.emit
          cldma_event.hw_reset
        else (t7xx_cldma_stop env (t7xx_cldma_stop_queue md CLDMA_ALL_Q mtk_txrx.MTK_RX)).2) ∧
      cldma_same_queues md mdA ∧ mdA.txq_active = 0 ∧ mdA.rxq_active = 0 := by
    refine ⟨_, rfl, ?_, ?_, ?_⟩ <;> split_ifs
    · exact same_queues_trans hsq ⟨rfl, rfl, rfl, rfl⟩
    · exact hsq
    · exact p2
    · exact p2
    · exact p3
    · exact p3
  obtain ⟨md1, h1, a1, a2, a3, a4, a5, a6, a7, a8⟩ := clear_all_rxq_frame env CLDMA_RXQ_NUM 0
    mdA (by rw [hAq.2.2.1, hr]; omega)
  refine ⟨md1, ?_, a1.trans hAq.1, a2.trans hAq.2.1, a3.trans hAq.2.2.2, a5.trans hA3,
    a4.trans hA2, a7.trans (by rw [hAq.2.2.1]), ?_⟩
  · simp only [t7xx_cldma_exception, t7xx_cldma_clear_all_queue, ← hA]
    rw [if_neg (by decide)]
    exact h1
  · intro j q hq
    obtain ⟨q1, hq1, hif⟩ := a8 j q (by rw [hAq.2.2.1]; exact hq)
    have hj : j < CLDMA_RXQ_NUM := by
      rcases Nat.lt_or_ge j md.rxq.length with h | h
      · omega
      · rw [List.getElem?_eq_none h] at hq; cases hq
    rw [if_pos ⟨Nat.zero_le j, by omega⟩] at hif
    exact ⟨q1, hq1, hif⟩

theorem exception_allq_frame (env : cldma_env) (md : cldma_ctrl)
    (h : md.is_late_init = true → cldma_tr_done_valid md) :
    ∃ md1, t7xx_cldma_exception env md hif_ex_stage.HIF_EX_ALLQ_RESET = some md1 ∧
      cldma_same_queues md md1 ∧
      (md.is_late_init = true →
        md1.rxq_active = (md.rxq_active ||| TXRX_STATUS_BITMASK) % 65536) ∧
      (md.is_late_init = false → md1.rxq_active = md.rxq_active) := by
  obtain ⟨md1, h1, h2, h3, h4⟩ := start_frame (md.emit cldma_event.hw_init) h
  refine ⟨md1, h1, same_queues_trans ⟨rfl, rfl, rfl, rfl⟩ h2, fun hl => (h3 hl).2.1, ?_⟩
  intro hl
  rw [h4 hl]; rfl
theorem stages_emit (md : t7xx_modem) (e : modem_event) :
    md_exception_stages (md.emit e) = md_exception_stages md ++
      (match e with
        | modem_event.md_exception stage => [stage]
        | _ => []) := by
  unfold md_exception_stages t7xx_modem.emit
  simp only [List.filterMap_append]
  cases e <;> rfl

theorem wait_loop_frame (env : modem_env) (event_id : Nat) (fuel : Nat) :
    ∀ (w : Nat) (md : t7xx_modem), w < EX_HS_TIMEOUT_MS →
      EX_HS_TIMEOUT_MS ≤ w + EX_HS_POLL_DELAY_MS * fuel →
      ∃ ret md1, t7xx_wait_hif_ex_hk_event_loop env event_id fuel w md = some (ret, md1) ∧
        md1.md_ctrl0 = md.md_ctrl0 ∧ md1.md_ctrl1 = md.md_ctrl1 ∧
        md_exception_stages md1 = md_exception_stages md := by
  induction fuel with
  | zero =>
    intro w md h1 h2
    simp only [EX_HS_TIMEOUT_MS, EX_HS_POLL_DELAY_MS] at h1 h2
    omega
  | succ fuel ih =>
    intro w md h1 h2
    rw [t7xx_wait_hif_ex_hk_event_loop]
    simp only []
    split_ifs with hbit hlt
    · exact ⟨_, _, rfl, rfl, rfl, rfl⟩
    · have hw : (w + EX_HS_POLL_DELAY_MS) % 4294967296 = w + EX_HS_POLL_DELAY_MS := by
        simp only [EX_HS_TIMEOUT_MS, EX_HS_POLL_DELAY_MS] at h1 ⊢
        omega
      rw [hw] at hlt ⊢
      obtain ⟨ret, md1, h, a1, a2, a3⟩ := ih (w + EX_HS_POLL_DELAY_MS)
        (({ md with tick := md.tick + 1 } : t7xx_modem).emit
          (modem_event.msleep EX_HS_POLL_DELAY_MS)) hlt (by
            simp only [EX_HS_TIMEOUT_MS, EX_HS_POLL_DELAY_MS] at h2 ⊢
            omega)
      exact ⟨ret, md1, h, a1, a2, by rw [a3, stages_emit]; simp [md_exception_stages]⟩
    · refine ⟨_, _, rfl, rfl, rfl, ?_⟩
      rw [stages_emit]; simp [md_exception_stages]

theorem handshake_wait_frame (env : modem_env) (md : t7xx_modem) (event_id : Nat) :
    ∃ md1, t7xx_md_exception_handshake_wait env md event_id = some md1 ∧
      md1.md_ctrl0 = md.md_ctrl0 ∧ md1.md_ctrl1 = md.md_ctrl1 ∧
      md_exception_stages md1 = md_exception_stages md := by
  obtain ⟨ret, md1, h, a1, a2, a3⟩ := wait_loop_frame env event_id
    (EX_HS_TIMEOUT_MS / EX_HS_POLL_DELAY_MS) 0 md (by decide) (by decide)
  unfold t7xx_md_exception_handshake_wait t7xx_wait_hif_ex_hk_event
  simp only [h]
  split_ifs
  · exact ⟨_, rfl, a1, a2, by rw [stages_emit]; simpa using a3⟩
  · exact ⟨_, rfl, a1, a2, a3⟩

theorem md_exception_frame (env : modem_env) (md : t7xx_modem) (stage : hif_ex_stage)
    (c0 c1 : cldma_ctrl)
    (h1 : t7xx_cldma_exception env.cldma1 md.md_ctrl1 stage = some c1)
    (h0 : t7xx_cldma_exception env.cldma0 md.md_ctrl0 stage = some c0) :
    ∃ md1, t7xx_md_exception env md stage = some md1 ∧
      md1.md_ctrl0 = c0 ∧ md1.md_ctrl1 = c1 ∧
      md_exception_stages md1 = md_exception_stages md ++ [stage] := by
  unfold t7xx_md_exception
  cases stage <;>
    simp [t7xx_modem.emit, h1, h0, md_exception_stages, List.filterMap_append]
theorem queue_reset_facts (q : cldma_queue) :
    (t7xx_cldma_queue_reset q).tr_done = some 0 ∧
    (t7xx_cldma_queue_reset q).budget = (q.tr_ring.length : Int) ∧
    (t7xx_cldma_queue_reset q).tr_ring = q.tr_ring ∧
    (t7xx_cldma_queue_reset q).dir = q.dir ∧
    (q.dir = mtk_txrx.MTK_TX → (t7xx_cldma_queue_reset q).tx_xmit = some 0) ∧
    (q.dir = mtk_txrx.MTK_RX → (t7xx_cldma_queue_reset q).rx_refill = some 0) := by
  unfold t7xx_cldma_queue_reset
  cases hdir : q.dir <;> simp [hdir]

theorem clear_txq_queue_facts (q : cldma_queue) :
    (t7xx_cldma_clear_txq_queue q).tr_done = some 0 ∧
    ((t7xx_cldma_clear_txq_queue q).dir = mtk_txrx.MTK_TX →
      (t7xx_cldma_clear_txq_queue q).tx_xmit = some 0) ∧
    (t7xx_cldma_clear_txq_queue q).budget = ((t7xx_cldma_clear_txq_queue q).tr_ring.length : Int) ∧
    (∀ req ∈ (t7xx_cldma_clear_txq_queue q).tr_ring.gpd_ring,
      req.gpd.flags.hwo = false ∧ req.skb = none) ∧
    (t7xx_cldma_clear_txq_queue q).tr_ring.gpd_ring.length = q.tr_ring.gpd_ring.length := by
  obtain ⟨h1, h2, h3, h4, h5, -⟩ := queue_reset_facts q
  unfold t7xx_cldma_clear_txq_queue
  simp only []
  refine ⟨h1, ?_, ?_, ?_, ?_⟩
  · intro hd; exact h5 (h4 ▸ hd)
  · rw [h2, h3]
  · intro req hreq
    rw [List.mem_map] at hreq
    obtain ⟨r0, -, rfl⟩ := hreq
    exact ⟨rfl, rfl⟩
  · rw [List.length_map, h3]

/-- The three stages of the exception handshake that act on a controller, run
one after the other on a controller after late initialisation, with no work
item pending when the controller is stopped. -/
theorem exception_stages_on_ctrl (env : cldma_env) (c : cldma_ctrl) (hwf : cldma_ctrl_wf c)
    (hidle : cldma_no_work_pending env) :
    ∃ c1 c3 c4,
      t7xx_cldma_exception env c hif_ex_stage.HIF_EX_INIT = some c1 ∧
      t7xx_cldma_exception env c1 hif_ex_stage.HIF_EX_CLEARQ_DONE = some c3 ∧
      t7xx_cldma_exception env c3 hif_ex_stage.HIF_EX_ALLQ_RESET = some c4 ∧
      cldma_tx_cleared c1 ∧ c1.rxq = c.rxq ∧ c1.rxq_active = c.rxq_active ∧
      cldma_rx_reset c3 ∧ c3.txq = c1.txq ∧
      c4.txq = c3.txq ∧ c4.rxq = c3.rxq ∧
      (c4.rxq_active = c3.rxq_active ∨
        c4.rxq_active = (c3.rxq_active ||| TXRX_STATUS_BITMASK) % 65536) := by
  obtain ⟨-, ht, hr, hnt, hnr⟩ := hwf
  obtain ⟨c1, h1, a1, a2, a3, a4, a5, a6⟩ := exception_init_frame env c ht
  obtain ⟨c3, h3, b1, b2, b3, b4, b5, b6, b7⟩ :=
    exception_clearq_frame env c1 (by rw [a2, hr]) hidle
  have hvalid : c3.is_late_init = true → cldma_tr_done_valid c3 := by
    intro hl
    refine ⟨by rw [b2, a6, List.length_map, ht], by rw [b6, a2, hr], ?_, ?_⟩
    · intro q hq d hd
      rw [b2, a6, List.mem_map] at hq
      obtain ⟨q0, hq0, rfl⟩ := hq
      obtain ⟨f1, -, -, -, f5⟩ := clear_txq_queue_facts q0
      rw [f1] at hd
      cases hd
      rw [f5]
      exact List.length_pos.mpr (hnt q0 hq0)
    · intro q hq d hd
      obtain ⟨j, hj, rfl⟩ := List.getElem_of_mem hq
      have hj1 : j < c1.rxq.length := by rw [← b6]; exact hj
      obtain ⟨q1, hq1, hsc⟩ := b7 j c1.rxq[j] (List.getElem?_eq_getElem hj1)
      rw [List.getElem?_eq_getElem hj] at hq1
      cases hq1
      obtain ⟨g1, -, g3, -, -, -⟩ := queue_reset_facts c1.rxq[j]
      rw [hsc.2.2.1, g1] at hd
      cases hd
      rw [hsc.2.2.2.2.2.2.1, g3]
      exact List.length_pos.mpr (hnr _ (by rw [← a2]; exact List.getElem_mem hj1))
  obtain ⟨c4, h4, d1, d2, d3⟩ := exception_allq_frame env c3 hvalid
  refine ⟨c1, c3, c4, h1, h3, h4, ⟨?_, ?_⟩, a2, a4, ⟨b4, ?_⟩, b2, d1.2.1, d1.2.2.1, ?_⟩
  · rw [a5]; exact clear_bits16_mask _
  · intro q hq
    rw [a6, List.mem_map] at hq
    obtain ⟨q0, -, rfl⟩ := hq
    obtain ⟨f1, f2, f3, f4, -⟩ := clear_txq_queue_facts q0
    exact ⟨f1, f2, f3, f4⟩
  · intro q hq
    obtain ⟨j, hj, rfl⟩ := List.getElem_of_mem hq
    have hj1 : j < c1.rxq.length := by rw [← b6]; exact hj
    obtain ⟨q1, hq1, hsc⟩ := b7 j c1.rxq[j] (List.getElem?_eq_getElem hj1)
    rw [List.getElem?_eq_getElem hj] at hq1
    cases hq1
    obtain ⟨g1, g2, g3, g4, -, g6⟩ := queue_reset_facts c1.rxq[j]
    refine ⟨by rw [hsc.2.2.1, g1], ?_, ?_⟩
    · intro hd
      rw [hsc.2.2.2.2.1]
      exact g6 (by rw [← g4, ← hsc.1]; exact hd)
    · rw [hsc.2.2.2.2.2.1, g2, hsc.2.2.2.2.2.2.2, g3]
  · cases hl : c3.is_late_init with
    | true => exact Or.inr (d2 hl)
    | false => exact Or.inl (d3 hl)
/-- The run of `t7xx_md_exception_handshake` on a modem whose controllers are
after late initialisation, with no work item pending when a controller is
stopped: every stage and every wait returns, and the states between them are
related as listed. -/
theorem handshake_run (env : modem_env) (md : t7xx_modem) (hwf : t7xx_modem_wf md)
    (hidle : modem_no_work_pending env) :
    ∃ m1 m1w m2 m2w m3 m3w m4 : t7xx_modem,
      t7xx_md_exception env md hif_ex_stage.HIF_EX_INIT = some m1 ∧
      t7xx_md_exception_handshake_wait env m1 env.D2H_INT_EXCEPTION_INIT_DONE = some m1w ∧
      t7xx_md_exception env m1w hif_ex_stage.HIF_EX_INIT_DONE = some m2 ∧
      t7xx_md_exception_handshake_wait env m2 env.D2H_INT_EXCEPTION_CLEARQ_DONE = some m2w ∧
      t7xx_md_exception env m2w hif_ex_stage.HIF_EX_CLEARQ_DONE = some m3 ∧
      t7xx_md_exception_handshake_wait env m3 env.D2H_INT_EXCEPTION_ALLQ_RESET = some m3w ∧
      t7xx_md_exception env m3w hif_ex_stage.HIF_EX_ALLQ_RESET = some m4 ∧
      t7xx_md_exception_handshake env md = some m4 ∧
      md_exception_stages m4 = md_exception_stages md ++
        [hif_ex_stage.HIF_EX_INIT, hif_ex_stage.HIF_EX_INIT_DONE,
         hif_ex_stage.HIF_EX_CLEARQ_DONE, hif_ex_stage.HIF_EX_ALLQ_RESET] ∧
      (cldma_tx_cleared m1.md_ctrl0 ∧ cldma_tx_cleared m1.md_ctrl1 ∧
        m1.md_ctrl0.rxq = md.md_ctrl0.rxq ∧ m1.md_ctrl0.rxq_active = md.md_ctrl0.rxq_active ∧
        m1.md_ctrl1.rxq = md.md_ctrl1.rxq ∧ m1.md_ctrl1.rxq_active = md.md_ctrl1.rxq_active) ∧
      (m2w.md_ctrl0 = m1.md_ctrl0 ∧ m2w.md_ctrl1 = m1.md_ctrl1) ∧
      (cldma_rx_reset m3.md_ctrl0 ∧ cldma_rx_reset m3.md_ctrl1 ∧
        m3.md_ctrl0.txq = m1.md_ctrl0.txq ∧ m3.md_ctrl1.txq = m1.md_ctrl1.txq) ∧
      (m4.md_ctrl0.rxq = m3.md_ctrl0.rxq ∧ m4.md_ctrl1.rxq = m3.md_ctrl1.rxq ∧
        m4.md_ctrl0.txq = m3.md_ctrl0.txq ∧ m4.md_ctrl1.txq = m3.md_ctrl1.txq) := by
  obtain ⟨hwf0, hwf1⟩ := hwf
  obtain ⟨a1, a3, a4, ha1, ha3, ha4, p1, p2, p3, p4, p5, p6, p7, p8⟩ :=
    exception_stages_on_ctrl env.cldma0 md.md_ctrl0 hwf0 hidle.1
  obtain ⟨b1, b3, b4, hb1, hb3, hb4, q1, q2, q3, q4, q5, q6, q7, q8⟩ :=
    exception_stages_on_ctrl env.cldma1 md.md_ctrl1 hwf1 hidle.2
  obtain ⟨m1, e1, s10, s11, s1s⟩ := md_exception_frame env md hif_ex_stage.HIF_EX_INIT a1 b1 hb1 ha1
  obtain ⟨m1w, w1, t10, t11, t1s⟩ := handshake_wait_frame env m1 env.D2H_INT_EXCEPTION_INIT_DONE
  obtain ⟨m2, e2, s20, s21, s2s⟩ := md_exception_frame env m1w hif_ex_stage.HIF_EX_INIT_DONE
    m1w.md_ctrl0 m1w.md_ctrl1 rfl rfl
  obtain ⟨m2w, w2, t20, t21, t2s⟩ := handshake_wait_frame env m2 env.D2H_INT_EXCEPTION_CLEARQ_DONE
  have hc0 : m2w.md_ctrl0 = m1.md_ctrl0 := by rw [t20, s20, t10]
  have hc1 : m2w.md_ctrl1 = m1.md_ctrl1 := by rw [t21, s21, t11]
  obtain ⟨m3, e3, s30, s31, s3s⟩ := md_exception_frame env m2w hif_ex_stage.HIF_EX_CLEARQ_DONE a3 b3
    (by rw [hc1, s11]; exact hb3) (by rw [hc0, s10]; exact ha3)
  obtain ⟨m3w, w3, t30, t31, t3s⟩ := handshake_wait_frame env m3 env.D2H_INT_EXCEPTION_ALLQ_RESET
  obtain ⟨m4, e4, s40, s41, s4s⟩ := md_exception_frame env m3w hif_ex_stage.HIF_EX_ALLQ_RESET a4 b4
    (by rw [t31, s31]; exact hb4) (by rw [t30, s30]; exact ha4)
  refine ⟨m1, m1w, m2, m2w, m3, m3w, m4, e1, w1, e2, w2, e3, w3, e4, ?_, ?_, ?_, ⟨hc0, hc1⟩, ?_, ?_⟩
  · unfold t7xx_md_exception_handshake
    simp only [e1, w1, e2, w2, e3, w3, e4]
  · rw [s4s, t3s, s3s, t2s, s2s, t1s, s1s]
    simp only [List.append_assoc, List.singleton_append, List.cons_append, List.nil_append]
  · rw [s10, s11]
    exact ⟨p1, q1, p2, p3, q2, q3⟩
  · rw [s30, s31, s10, s11]
    exact ⟨p4, q4, p5, q5⟩
  · rw [s40, s41, s30, s31]
    exact ⟨p7, q7, p6, q6⟩

theorem next_wrdx_iterate (n cur : Nat) (hcur : cur < n) :
    ∀ j, j ≤ n → Nat.iterate (t7xx_ring_buf_get_next_wrdx n) j cur = drb_pos n cur j := by
  intro j
  induction j with
  | zero => intro _; simp [drb_pos_zero n cur hcur]
  | succ j ih =>
    intro hj
    rw [Function.iterate_succ_apply', ih (by omega)]
    unfold t7xx_ring_buf_get_next_wrdx drb_pos
    split_ifs <;> omega

/-- Claim C20. For a started queue of a powered-on controller whose ring and
shadow array have `drb_size_cnt` entries (at most 32768, the driver uses 6144),
a write cursor inside the ring and a packet whose cost `send_cnt`, the number
of its fragments plus 2, is at most `drb_size_cnt`: when every mapping
succeeds `t7xx_dpmaif_add_skb_to_ring` returns 0 and sets the write cursor to
`(drb_wr_idx + send_cnt) mod drb_size_cnt`, which is inside the ring and is the
index reached from the old cursor by `send_cnt` applications of
`t7xx_ring_buf_get_next_wrdx`; each of the `send_cnt` positions
`(drb_wr_idx + j) mod drb_size_cnt` for `j < send_cnt` now holds a descriptor
of this packet (the message descriptor at `j = 0`, payload descriptors after
it), and every other position of the ring and of the shadow array is as it was
before the call. -/
theorem dpmaif_add_skb_writes_send_cnt_positions (env : dpmaif_env) (c : dpmaif_ctrl)
    (skb : sk_buff) (txq : dpmaif_tx_queue)
    (hq : c.txq[skb.cb_qtype]? = some txq) (hstart : txq.que_started = true)
    (hstate : c.state = dpmaif_state.DPMAIF_STATE_PWRON)
    (h1 : txq.drb_base.length = txq.drb_size_cnt)
    (h2 : txq.drb_skb_base.length = txq.drb_size_cnt)
    (hn : txq.drb_size_cnt ≤ 32768) (hwr : txq.drb_wr_idx < txq.drb_size_cnt)
    (hK : skb.frags.length + 2 ≤ txq.drb_size_cnt)
    (hmap : ∀ k, dma_mapping_error (env.dma_map_single k) = false) :
    ∃ (c1 : dpmaif_ctrl) (txq1 : dpmaif_tx_queue),
      t7xx_dpmaif_add_skb_to_ring env c skb = some (0, c1) ∧
      c1.txq[skb.cb_qtype]? = some txq1 ∧
      txq1.drb_size_cnt = txq.drb_size_cnt ∧
      txq1.drb_wr_idx = (txq.drb_wr_idx + (skb.frags.length + 2)) % txq.drb_size_cnt ∧
      txq1.drb_wr_idx < txq.drb_size_cnt ∧
      txq1.drb_wr_idx =
        Nat.iterate (t7xx_ring_buf_get_next_wrdx txq.drb_size_cnt) (skb.frags.length + 2)
          txq.drb_wr_idx ∧
      (∀ j, j < skb.frags.length + 2 → ∃ d s,
        txq1.drb_base[(txq.drb_wr_idx + j) % txq.drb_size_cnt]? = some d ∧
        d.dtyp = (if j = 0 then DES_DTYP_MSG else DES_DTYP_PD) ∧
        txq1.drb_skb_base[(txq.drb_wr_idx + j) % txq.drb_size_cnt]? = some s ∧
        s.skb = some skb ∧ s.is_msg = decide (j = 0)) ∧
      (∀ p, (∀ j, j < skb.frags.length + 2 → p ≠ (txq.drb_wr_idx + j) % txq.drb_size_cnt) →
        txq1.drb_base[p]? = txq.drb_base[p]? ∧ txq1.drb_skb_base[p]? = txq.drb_skb_base[p]?) := by
  obtain ⟨c1, txq1, hret, hq1, _, heq, _, _, hmsg, hpay, hrest⟩ :=
    add_skb_to_ring_spec env c skb txq hq hstart hstate h1 h2 hn hwr hK hmap
  have hwr1 : txq1.drb_wr_idx = drb_pos txq.drb_size_cnt txq.drb_wr_idx (skb.frags.length + 2) := by
    rw [heq]
  have hsz : txq1.drb_size_cnt = txq.drb_size_cnt := by rw [heq]
  refine ⟨c1, txq1, hret, hq1, hsz, ?_, ?_, ?_, ?_, ?_⟩
  · rw [hwr1, drb_pos_eq_mod _ _ _ hwr hK]
  · rw [hwr1]; exact drb_pos_lt _ _ _ hwr hK
  · rw [hwr1, next_wrdx_iterate _ _ hwr _ hK]
  · intro j hj
    rw [← drb_pos_eq_mod _ _ _ hwr (by omega)]
    rcases Nat.eq_zero_or_pos j with h0 | hpos
    · subst h0
      obtain ⟨d, s, hd, hdt, _, hs, hsk, hm⟩ := hmsg
      rw [drb_pos_zero _ _ hwr]
      exact ⟨d, s, hd, by simpa using hdt, hs, hsk, by simpa using hm⟩
    · obtain ⟨d, s, hd, hdt, _, hs, hsk, hm⟩ := hpay (j - 1) (by omega)
      have hj1 : j - 1 + 1 = j := by omega
      rw [hj1] at hd hs
      have hne : j ≠ 0 := by omega
      exact ⟨d, s, hd, by simpa [hne] using hdt, hs, hsk, by simpa [hne] using hm⟩
  · intro p hp
    apply hrest p
    intro j hj
    rw [drb_pos_eq_mod _ _ _ hwr (by omega)]
    exact hp j hj

theorem dpmaif_add_skb_writes_send_cnt_positions_witness :
    ∃ (c1 : dpmaif_ctrl) (txq1 : dpmaif_tx_queue),
      t7xx_dpmaif_add_skb_to_ring (dpmaif_env_ok 0) dpmaif_fresh_ctrl
        { id := 1, len := 100, frags := [40, 60] } = some (0, c1) ∧
      c1.txq[0]? = some txq1 ∧ txq1.drb_wr_idx = 4 := by
  obtain ⟨c1, txq1, h1, h2, _, h4, _⟩ :=
    dpmaif_add_skb_writes_send_cnt_positions (dpmaif_env_ok 0) dpmaif_fresh_ctrl
      { id := 1, len := 100, frags := [40, 60] } (dpmaif_fresh_txq 0) rfl rfl rfl
      (by simp [dpmaif_fresh_txq]) (by simp [dpmaif_fresh_txq]) (by decide) (by decide)
      (by decide) (dpmaif_env_ok_maps 0)
  exact ⟨c1, txq1, h1, h2, h4⟩

theorem announced_append (l : List dpmaif_event) (e : dpmaif_event) :
    dpmaif_announced (l ++ [e]) = dpmaif_announced l + dpmaif_announced [e] := by
  induction l with
  | nil => simp [dpmaif_announced]
  | cons x xs ih =>
    cases x <;> simp [dpmaif_announced, ih]
    omega

theorem add_skb_payloads_frame (env : dpmaif_env) (q : Nat) (skb : sk_buff) (pc : Nat) :
    ∀ (ps : List (Nat × Bool)) (wr_cnt cur : Nat) (last : Bool) (c : dpmaif_ctrl)
      (txq : dpmaif_tx_queue) (r : Int) (c' : dpmaif_ctrl),
      c.txq[q]? = some txq →
      t7xx_dpmaif_add_skb_payloads env q skb pc ps wr_cnt cur last c = some (r, c') →
      (r = 0 ∨ r = -ENOMEM) ∧
      dpmaif_announced c'.log = dpmaif_announced c.log ∧ c'.state = c.state ∧
      (∀ k, k ≠ q → c'.txq[k]? = c.txq[k]?) ∧
      ∃ txq', c'.txq[q]? = some txq' ∧
        txq' = { txq with drb_base := txq'.drb_base, drb_skb_base := txq'.drb_skb_base } := by
  intro ps
  induction ps with
  | nil =>
    intro wr_cnt cur last c txq r c' hq h
    simp only [t7xx_dpmaif_add_skb_payloads, Option.some.injEq, Prod.mk.injEq] at h
    obtain ⟨rfl, rfl⟩ := h
    exact ⟨Or.inl rfl, rfl, rfl, fun _ _ => rfl, txq, hq, rfl⟩
  | cons piece rest ih =>
    intro wr_cnt cur last c txq r c' hq h
    obtain ⟨data_len, is_frag⟩ := piece
    have hqlt : q < c.txq.length := (List.getElem?_eq_some_iff.1 hq).1
    unfold t7xx_dpmaif_add_skb_payloads at h
    simp only [] at h
    generalize (if wr_cnt = pc - 1 then true else last) = l1 at h
    split_ifs at h with hmap
    · simp only [Option.some.injEq, Prod.mk.injEq] at h
      obtain ⟨rfl, rfl⟩ := h
      refine ⟨Or.inr rfl, ?_, rfl, fun _ _ => rfl, txq, hq, rfl⟩
      simp [dpmaif_ctrl.emit, dpmaif_ctrl.asked, announced_append, dpmaif_announced]
    · have hqa : c.asked.txq[q]? = some txq := hq
      simp only [hqa] at h
      have hq1 := dpmaif_set_txq_get c.asked q
        (t7xx_record_drb_skb
          (t7xx_setup_payload_drb txq cur (env.dma_map_single c.tick) data_len l1) cur skb false
          is_frag l1 (env.dma_map_single c.tick) data_len) hqlt
      obtain ⟨hr, hann, hst, hoth, txq', hq', heq⟩ := ih _ _ _ _ _ _ _ hq1 h
      refine ⟨hr, ?_, ?_, ?_, txq', hq', ?_⟩
      · rw [hann]; rfl
      · rw [hst]; rfl
      · intro k hk
        rw [hoth k hk]
        simp [dpmaif_ctrl.set_txq, dpmaif_ctrl.asked, List.getElem?_set_ne (Ne.symm hk)]
      · rw [heq]
        unfold t7xx_record_drb_skb t7xx_setup_payload_drb
        split <;> rfl

theorem add_skb_to_ring_frame (env : dpmaif_env) (c : dpmaif_ctrl) (skb : sk_buff)
    (txq : dpmaif_tx_queue) (ret : Int) (c1 : dpmaif_ctrl)
    (hq : c.txq[skb.cb_qtype]? = some txq)
    (h : t7xx_dpmaif_add_skb_to_ring env c skb = some (ret, c1)) :
    (ret = 0 ∨ ret = -ENOMEM ∨ ret = -ENODEV) ∧
    dpmaif_announced c1.log = dpmaif_announced c.log ∧ c1.state = c.state ∧
    (∀ k, k ≠ skb.cb_qtype → c1.txq[k]? = c.txq[k]?) ∧
    ∃ txq1, c1.txq[skb.cb_qtype]? = some txq1 ∧
      txq1 = { txq with drb_base := txq1.drb_base, drb_skb_base := txq1.drb_skb_base,
                        drb_wr_idx := txq1.drb_wr_idx, tx_budget := txq1.tx_budget,
                        tx_processing := txq1.tx_processing } ∧
      (ret < 0 → txq1.tx_budget = txq.tx_budget ∧ txq1.drb_wr_idx = txq.drb_wr_idx) ∧
      (ret = 0 → txq1.tx_budget = txq.tx_budget - ((skb.frags.length + 2 : Nat) : Int)) := by
  have hqlt : skb.cb_qtype < c.txq.length := (List.getElem?_eq_some_iff.1 hq).1
  unfold t7xx_dpmaif_add_skb_to_ring at h
  simp only [hq] at h
  by_cases hdead : (!txq.que_started) = true ∨ c.state ≠ dpmaif_state.DPMAIF_STATE_PWRON
  · rw [if_pos hdead] at h
    simp only [Option.some.injEq, Prod.mk.injEq] at h
    obtain ⟨rfl, rfl⟩ := h
    refine ⟨Or.inr (Or.inr rfl), rfl, rfl, fun _ _ => rfl, txq, hq, rfl, fun _ => ⟨rfl, rfl⟩, ?_⟩
    intro h0; simp [ENODEV] at h0
  · rw [if_neg hdead] at h
    generalize hc0 : (if skb.frag_list = true then c.emit dpmaif_event.dev_warn_frag_list else c) = c0
      at h
    have hc0txq : c0.txq = c.txq := by rw [← hc0]; split_ifs <;> rfl
    have hc0st : c0.state = c.state := by rw [← hc0]; split_ifs <;> rfl
    have hc0log : dpmaif_announced c0.log = dpmaif_announced c.log := by
      rw [← hc0]; split_ifs
      · simp [dpmaif_ctrl.emit, announced_append, dpmaif_announced]
      · rfl
    generalize hwr : (if txq.drb_size_cnt ≤ (txq.drb_wr_idx + (skb.frags.length + 1 + 1)) % 65536 then
        ((txq.drb_wr_idx + (skb.frags.length + 1 + 1)) % 65536 + 65536 - txq.drb_size_cnt % 65536) % 65536
      else (txq.drb_wr_idx + (skb.frags.length + 1 + 1)) % 65536) = wr at h
    generalize htm : t7xx_record_drb_skb
      (t7xx_setup_msg_drb { txq with tx_processing := 1, drb_wr_idx := wr } txq.drb_wr_idx skb.len 0
        skb.cb_netif_idx) txq.drb_wr_idx skb true false false 0 0 = tm at h
    have htmeq : tm = { txq with drb_base := tm.drb_base, drb_skb_base := tm.drb_skb_base,
                                 tx_processing := 1, drb_wr_idx := wr } := by
      rw [← htm]
      unfold t7xx_record_drb_skb t7xx_setup_msg_drb
      split <;> rfl
    have hqm : (c0.set_txq skb.cb_qtype tm).txq[skb.cb_qtype]? = some tm :=
      dpmaif_set_txq_get c0 _ tm (by rw [hc0txq]; exact hqlt)
    cases hp : t7xx_dpmaif_add_skb_payloads env skb.cb_qtype skb (skb.frags.length + 1)
        ((skb.headlen, false) :: List.map (fun size => (size, true)) skb.frags) 0
        (t7xx_ring_buf_get_next_wrdx tm.drb_size_cnt txq.drb_wr_idx % 65536) false
        (c0.set_txq skb.cb_qtype tm) with
    | none => rw [hp] at h; simp at h
    | some res =>
      obtain ⟨r, c2⟩ := res
      rw [hp] at h
      obtain ⟨hr, hann, hst, hoth, txq2, hq2, heq2⟩ :=
        add_skb_payloads_frame env _ skb _ _ _ _ _ _ tm r c2 hqm hp
      have hq2lt : skb.cb_qtype < c2.txq.length := (List.getElem?_eq_some_iff.1 hq2).1
      simp only [hq2] at h
      have hothc : ∀ k, k ≠ skb.cb_qtype → c2.txq[k]? = c.txq[k]? := by
        intro k hk
        rw [hoth k hk]
        simp [dpmaif_ctrl.set_txq, hc0txq, List.getElem?_set_ne (Ne.symm hk)]
      split_ifs at h with hneg
      · simp only [Option.some.injEq, Prod.mk.injEq] at h
        obtain ⟨rfl, rfl⟩ := h
        have hrr : r = -ENOMEM := by
          rcases hr with h0 | h0
          · rw [h0] at hneg; simp at hneg
          · exact h0
        refine ⟨Or.inr (Or.inl hrr), ?_, ?_, ?_, _, dpmaif_set_txq_get _ _ _ hq2lt, ?_, ?_, ?_⟩
        · show dpmaif_announced c2.log = _
          rw [hann]; exact hc0log
        · show c2.state = _
          rw [hst]; exact hc0st
        · intro k hk
          simp only [dpmaif_ctrl.set_txq, List.getElem?_set_ne (Ne.symm hk)]
          exact hothc k hk
        · rw [heq2, htmeq]
        · intro _; rw [heq2, htmeq]; exact ⟨rfl, rfl⟩
        · intro h0; rw [h0] at hneg; simp at hneg
      · simp only [Option.some.injEq, Prod.mk.injEq] at h
        obtain ⟨rfl, rfl⟩ := h
        have hrr : r = 0 := by
          rcases hr with h0 | h0
          · exact h0
          · rw [h0] at hneg; simp [ENOMEM] at hneg
        refine ⟨Or.inl hrr, ?_, ?_, ?_, _, dpmaif_set_txq_get _ _ _ hq2lt, ?_, ?_, ?_⟩
        · show dpmaif_announced c2.log = _
          rw [hann]; exact hc0log
        · show c2.state = _
          rw [hst]; exact hc0st
        · intro k hk
          simp only [dpmaif_ctrl.set_txq, List.getElem?_set_ne (Ne.symm hk)]
          exact hothc k hk
        · rw [heq2, htmeq]
        · intro hlt; exact absurd hlt hneg
        · intro _; rw [heq2, htmeq]

theorem dpmaif_get?_eq (l : List α) (i : Nat) : l.get? i = l[i]? := by
  simp

theorem tx_free_drb_skb_loop_frame (q_num : Nat) :
    ∀ (n i : Nat) (c : dpmaif_ctrl) (txq : dpmaif_tx_queue),
      c.txq[q_num]? = some txq → i + n ≤ txq.drb_skb_base.length →
      ∃ (c' : dpmaif_ctrl) (txq' : dpmaif_tx_queue),
        t7xx_dpmaif_tx_free_drb_skb_loop q_num n i c = some c' ∧
        c'.txq[q_num]? = some txq' ∧
        txq' = { txq with drb_skb_base := txq'.drb_skb_base } ∧
        txq'.drb_skb_base.length = txq.drb_skb_base.length ∧
        c'.state = c.state ∧ c'.txq.length = c.txq.length ∧
        (∀ k, k ≠ q_num → c'.txq[k]? = c.txq[k]?) := by
  intro n
  induction n with
  | zero =>
    intro i c txq hq _
    exact ⟨c, txq, rfl, hq, rfl, rfl, rfl, rfl, fun _ _ => rfl⟩
  | succ n ih =>
    intro i c txq hq hlen
    have hilt : i < txq.drb_skb_base.length := by omega
    have hqlt : q_num < c.txq.length := (List.getElem?_eq_some_iff.1 hq).1
    obtain ⟨s, hs⟩ : ∃ s, txq.drb_skb_base.get? i = some s :=
      ⟨_, by rw [dpmaif_get?_eq]; exact List.getElem?_eq_getElem hilt⟩
    unfold t7xx_dpmaif_tx_free_drb_skb_loop
    simp only [hq, hs]
    cases hskb : s.skb with
    | none =>
      simp only []
      exact ih (i + 1) c txq hq (by omega)
    | some skb =>
      simp only []
      by_cases hlast : s.is_last = true
      · rw [if_pos hlast]
        -- the controller after the optional unmap and the free
        generalize hc0 : (if s.is_msg = false then
          c.emit (dpmaif_event.dma_unmap_single s.bus_addr s.data_len) else c) = c0
        have hc0txq : c0.txq = c.txq := by
          rw [← hc0]; split_ifs <;> rfl
        have hc0st : c0.state = c.state := by
          rw [← hc0]; split_ifs <;> rfl
        have hq1 : ((c0.emit (dpmaif_event.kfree_skb skb)).set_txq q_num
            { txq with drb_skb_base := txq.drb_skb_base.set i { s with skb := none } }).txq[q_num]? =
            some { txq with drb_skb_base := txq.drb_skb_base.set i { s with skb := none } } := by
          apply dpmaif_set_txq_get
          show q_num < c0.txq.length
          rw [hc0txq]; exact hqlt
        obtain ⟨c', txq', hr, hq', heq, hl, hst, hlen', hoth⟩ :=
          ih (i + 1) _ _ hq1 (by simp; omega)
        refine ⟨c', txq', hr, hq', ?_, ?_, ?_, ?_, ?_⟩
        · rw [heq]
        · rw [hl]; simp
        · rw [hst]; exact hc0st
        · rw [hlen']; simp [dpmaif_ctrl.set_txq, dpmaif_ctrl.emit, hc0txq]
        · intro k hk
          rw [hoth k hk]
          simp [dpmaif_ctrl.set_txq, dpmaif_ctrl.emit, hc0txq, List.getElem?_set_ne (Ne.symm hk)]
      · rw [if_neg hlast]
        generalize hc0 : (if s.is_msg = false then
          c.emit (dpmaif_event.dma_unmap_single s.bus_addr s.data_len) else c) = c0
        have hc0txq : c0.txq = c.txq := by
          rw [← hc0]; split_ifs <;> rfl
        have hc0st : c0.state = c.state := by
          rw [← hc0]; split_ifs <;> rfl
        have hq0 : c0.txq[q_num]? = some txq := by rw [hc0txq]; exact hq
        obtain ⟨c', txq', hr, hq', heq, hl, hst, hlen', hoth⟩ := ih (i + 1) c0 txq hq0 (by omega)
        refine ⟨c', txq', hr, hq', heq, hl, ?_, ?_, ?_⟩
        · rw [hst]; exact hc0st
        · rw [hlen', hc0txq]
        · intro k hk; rw [hoth k hk, hc0txq]

/-- What `t7xx_dpmaif_txq_flush_rel` does to a queue: the queue is stopped and
its three cursors are 0; `tx_budget` is the value it had. -/
theorem txq_flush_rel_spec (c : dpmaif_ctrl) (q_num : Nat) (txq : dpmaif_tx_queue)
    (hq : c.txq[q_num]? = some txq) (hlen : txq.drb_size_cnt ≤ txq.drb_skb_base.length) :
    ∃ (c' : dpmaif_ctrl) (txq' : dpmaif_tx_queue),
      t7xx_dpmaif_txq_flush_rel c q_num = some c' ∧
      c'.txq[q_num]? = some txq' ∧
      txq' = { txq with drb_skb_base := txq'.drb_skb_base, que_started := false,
                        drb_rd_idx := 0, drb_wr_idx := 0, drb_release_rd_idx := 0 } ∧
      txq'.drb_skb_base.length = txq.drb_skb_base.length ∧
      c'.state = c.state ∧ c'.txq.length = c.txq.length ∧
      (∀ k, k ≠ q_num → c'.txq[k]? = c.txq[k]?) := by
  have hqlt : q_num < c.txq.length := (List.getElem?_eq_some_iff.1 hq).1
  have hq1 : (((c.set_txq q_num { txq with que_started := false }).emit
      (dpmaif_event.cancel_work_sync q_num)).emit (dpmaif_event.flush_work q_num)).txq[q_num]? =
      some { txq with que_started := false } := by
    simp [dpmaif_ctrl.set_txq, dpmaif_ctrl.emit, hqlt]
  obtain ⟨c1, txq1, hr, hq1', heq, hl, hst, hlen1, hoth⟩ :=
    tx_free_drb_skb_loop_frame q_num txq.drb_size_cnt 0 _ _ hq1 (by simpa using hlen)
  have hq1lt : q_num < c1.txq.length := (List.getElem?_eq_some_iff.1 hq1').1
  refine ⟨c1.set_txq q_num { txq1 with drb_rd_idx := 0, drb_wr_idx := 0, drb_release_rd_idx := 0 },
    { txq1 with drb_rd_idx := 0, drb_wr_idx := 0, drb_release_rd_idx := 0 }, ?_, ?_, ?_, ?_, ?_, ?_, ?_⟩
  · unfold t7xx_dpmaif_txq_flush_rel t7xx_dpmaif_tx_free_drb_skb
    simp only [hq, hq1]
    rw [hr]
    simp only [hq1']
  · exact dpmaif_set_txq_get _ _ _ hq1lt
  · rw [heq]
  · simpa using hl
  · simpa [dpmaif_ctrl.set_txq] using hst
  · simp [dpmaif_ctrl.set_txq, hlen1, dpmaif_ctrl.emit]
  · intro k hk
    simp only [dpmaif_ctrl.set_txq, List.getElem?_set_ne (Ne.symm hk)]
    rw [hoth k hk]
    simp [dpmaif_ctrl.set_txq, dpmaif_ctrl.emit, List.getElem?_set_ne (Ne.symm hk)]

theorem tx_clear_loop_spec :
    ∀ (n i : Nat) (c : dpmaif_ctrl),
      (∀ k, i ≤ k → k < i + n →
        ∃ q, c.txq[k]? = some q ∧ q.drb_size_cnt ≤ q.drb_skb_base.length) →
      ∃ c' : dpmaif_ctrl,
        t7xx_dpmaif_tx_clear_loop n i c = some c' ∧ c'.state = c.state ∧
        ∀ (k : Nat) (q : dpmaif_tx_queue), c.txq[k]? = some q →
          ∃ q', c'.txq[k]? = some q' ∧ q'.tx_budget = q.tx_budget ∧
            q'.drb_size_cnt = q.drb_size_cnt ∧
            q'.drb_skb_base.length = q.drb_skb_base.length ∧
            (i ≤ k → k < i + n →
              q'.drb_wr_idx = 0 ∧ q'.drb_rd_idx = 0 ∧ q'.drb_release_rd_idx = 0 ∧
              q'.que_started = false) ∧
            (k < i → q' = q) := by
  intro n
  induction n with
  | zero =>
    intro i c _
    refine ⟨c, rfl, rfl, ?_⟩
    intro k q hk
    exact ⟨q, hk, rfl, rfl, rfl, fun h1 h2 => by omega, fun _ => rfl⟩
  | succ n ih =>
    intro i c hall
    obtain ⟨qi, hqi, hleni⟩ := hall i (le_refl _) (by omega)
    obtain ⟨c1, q1, hr, hq1, heq, hl, hst, _, hoth⟩ := txq_flush_rel_spec c i qi hqi hleni
    have hall1 : ∀ k, i + 1 ≤ k → k < i + 1 + n →
        ∃ q, c1.txq[k]? = some q ∧ q.drb_size_cnt ≤ q.drb_skb_base.length := by
      intro k h1 h2
      rw [hoth k (by omega)]
      exact hall k (by omega) (by omega)
    obtain ⟨c', hr', hst', hspec⟩ := ih (i + 1) c1 hall1
    refine ⟨c', ?_, ?_, ?_⟩
    · unfold t7xx_dpmaif_tx_clear_loop
      simp only [hr]
      exact hr'
    · rw [hst', hst]
    · intro k q hk
      by_cases hki : k = i
      · subst hki
        rw [hqi] at hk
        cases hk
        obtain ⟨q', hq', _, _, _, _, hsame⟩ := hspec k q1 hq1
        have hq'1 : q' = q1 := hsame (by omega)
        subst hq'1
        refine ⟨q', hq', ?_, ?_, ?_, ?_, ?_⟩
        · rw [heq]
        · rw [heq]
        · exact hl
        · intro _ _; rw [heq]; exact ⟨rfl, rfl, rfl, rfl⟩
        · intro h; omega
      · have hk1 : c1.txq[k]? = some q := by rw [hoth k hki]; exact hk
        obtain ⟨q', hq', hb, hs, hlq, hcur, hsame⟩ := hspec k q hk1
        refine ⟨q', hq', hb, hs, hlq, ?_, ?_⟩
        · intro h1 h2; exact hcur (by omega) (by omega)
        · intro h; exact hsame (by omega)

/-- What `t7xx_dpmaif_tx_clear` does to the five queues: each is stopped with
its three cursors at 0, and each keeps the `tx_budget` it had. -/
theorem tx_clear_spec (c : dpmaif_ctrl)
    (hall : ∀ k, k < DPMAIF_TXQ_NUM →
      ∃ q, c.txq[k]? = some q ∧ q.drb_size_cnt ≤ q.drb_skb_base.length) :
    ∃ c' : dpmaif_ctrl,
      t7xx_dpmaif_tx_clear c = some c' ∧
      ∀ (k : Nat) (q : dpmaif_tx_queue), k < DPMAIF_TXQ_NUM → c.txq[k]? = some q →
        ∃ q', c'.txq[k]? = some q' ∧ q'.tx_budget = q.tx_budget ∧
          q'.drb_size_cnt = q.drb_size_cnt ∧
          q'.drb_wr_idx = 0 ∧ q'.drb_rd_idx = 0 ∧ q'.drb_release_rd_idx = 0 := by
  obtain ⟨c', hr, _, hspec⟩ := tx_clear_loop_spec DPMAIF_TXQ_NUM 0 c
    (fun k _ h => hall k (by omega))
  refine ⟨c', hr, ?_⟩
  intro k q hk hq
  obtain ⟨q', hq', hb, hs, _, hcur, _⟩ := hspec k q hq
  obtain ⟨h1, h2, h3, _⟩ := hcur (by omega) (by omega)
  exact ⟨q', hq', hb, hs, h1, h2, h3⟩

/-- Claim C19. The claim fails on the code at `t7xx_dpmaif_tx_clear`: from the
state `t7xx_dpmaif_txq_init` leaves, one packet of two descriptors is written
to queue 0 (`tx_budget` goes from 6144 to 6142) and the queues are then
cleared. After the clear the three cursors of queue 0 are 0 and
`drb_size_cnt` is 6144, so the formula of the claim asks for a `tx_budget` of
6144, while `tx_budget` is still 6142: `t7xx_dpmaif_txq_flush_rel` resets the
cursors and leaves `tx_budget` as it was. -/
theorem dpmaif_tx_clear_leaves_tx_budget_short :
    ∃ (c1 c2 : dpmaif_ctrl) (q1 q2 : dpmaif_tx_queue),
      t7xx_dpmaif_add_skb_to_ring (dpmaif_env_ok 0) dpmaif_fresh_ctrl { id := 1, len := 100 } =
        some (0, c1) ∧
      c1.txq[0]? = some q1 ∧ q1.drb_wr_idx = 2 ∧ q1.drb_release_rd_idx = 0 ∧ q1.tx_budget = 6142 ∧
      t7xx_dpmaif_tx_clear c1 = some c2 ∧
      c2.txq[0]? = some q2 ∧
      q2.drb_wr_idx = 0 ∧ q2.drb_rd_idx = 0 ∧ q2.drb_release_rd_idx = 0 ∧
      q2.drb_size_cnt = 6144 ∧ q2.tx_budget = 6142 ∧
      q2.tx_budget ≠
        (q2.drb_size_cnt : Int) -
          (((q2.drb_wr_idx : Int) - (q2.drb_release_rd_idx : Int)) % (q2.drb_size_cnt : Int)) := by
  obtain ⟨c1, q1, hadd, hq1, -, heq, -, hl2, -, -, -⟩ :=
    add_skb_to_ring_spec (dpmaif_env_ok 0) dpmaif_fresh_ctrl { id := 1, len := 100 }
      (dpmaif_fresh_txq 0) rfl rfl rfl
      (by simp [dpmaif_fresh_txq]) (by simp [dpmaif_fresh_txq]) (by decide) (by decide)
      (by decide) (dpmaif_env_ok_maps 0)
  obtain ⟨-, -, -, hoth, -⟩ :=
    add_skb_to_ring_frame (dpmaif_env_ok 0) dpmaif_fresh_ctrl { id := 1, len := 100 }
      (dpmaif_fresh_txq 0) 0 c1 rfl hadd
  have hsz : q1.drb_size_cnt = 6144 := by rw [heq]; rfl
  have hbud : q1.tx_budget = 6142 := by rw [heq]; rfl
  have hwr : q1.drb_wr_idx = 2 := by rw [heq]; rfl
  have hrel : q1.drb_release_rd_idx = 0 := by rw [heq]; rfl
  have hall : ∀ k, k < DPMAIF_TXQ_NUM →
      ∃ q, c1.txq[k]? = some q ∧ q.drb_size_cnt ≤ q.drb_skb_base.length := by
    intro k hk
    by_cases hk0 : k = 0
    · subst hk0
      exact ⟨q1, hq1, by rw [hl2, hsz]; exact le_refl _⟩
    · have hk5 : k < 5 := hk
      refine ⟨dpmaif_fresh_txq k, ?_, by simp [dpmaif_fresh_txq]⟩
      rw [hoth k hk0]
      interval_cases k
      · exact absurd rfl hk0
      all_goals rfl
  obtain ⟨c2, hclr, hspec⟩ := tx_clear_spec c1 hall
  obtain ⟨q2, hq2, hb2, hs2, hw2, hr2, hrl2⟩ := hspec 0 q1 (by decide) hq1
  refine ⟨c1, c2, q1, q2, hadd, hq1, hwr, hrel, hbud, hclr, hq2, hw2, hr2, hrl2, ?_, ?_, ?_⟩
  · rw [hs2, hsz]
  · rw [hb2, hbud]
  · rw [hb2, hbud, hs2, hsz, hw2, hrl2]
    decide

/-- Claim C15. For a packet of at most 253 fragments offered to an existing
queue `txqt` (whose `tx_list_max_len`, an `unsigned int`, is below 2^32):
`t7xx_dpmaif_tx_send_skb` returns `-EBUSY`, calls `state_notify` with
`DMPAIF_TXQ_STATE_FULL` and leaves the pending list and `tx_submit_skb_cnt` as
they were exactly when `tx_submit_skb_cnt` has reached `tx_list_max_len`, or
`tx_skb_stat` before the call is a multiple of `DPMAIF_SKB_TX_BURST_CNT` and
the free descriptor count is below the cost `nr_frags + 2` of the packet; in
every other case it returns 0, appends the packet (with the queue and the cost
recorded in its control block) at the tail of the pending list, adds one to
`tx_submit_skb_cnt` and wakes the submission thread, without a `state_notify`
call. -/
theorem dpmaif_tx_send_skb_busy_iff_full (c : dpmaif_ctrl) (txqt : Nat) (skb : sk_buff)
    (txq : dpmaif_tx_queue) (hq : c.txq[txqt]? = some txq)
    (hfr : skb.frags.length + 2 < 256) (hmax : txq.tx_list_max_len < 2 ^ 32) :
    ((txq.tx_list_max_len ≤ txq.tx_submit_skb_cnt ∨
        (txq.tx_skb_stat % DPMAIF_SKB_TX_BURST_CNT = 0 ∧
          t7xx_ring_buf_rd_wr_count txq.drb_size_cnt txq.drb_release_rd_idx txq.drb_wr_idx
            dpmaif_rdwr.DPMAIF_WRITE < skb.frags.length + 2)) →
      ∃ (c' : dpmaif_ctrl) (txq' : dpmaif_tx_queue),
        t7xx_dpmaif_tx_send_skb c txqt skb = some (-EBUSY, c') ∧
        c'.log = c.log ++
          [dpmaif_event.state_notify dpmaif_txq_state.DMPAIF_TXQ_STATE_FULL txqt] ∧
        c'.txq[txqt]? = some txq' ∧ txq'.tx_skb_queue = txq.tx_skb_queue ∧
        txq'.tx_submit_skb_cnt = txq.tx_submit_skb_cnt) ∧
    (¬(txq.tx_list_max_len ≤ txq.tx_submit_skb_cnt ∨
        (txq.tx_skb_stat % DPMAIF_SKB_TX_BURST_CNT = 0 ∧
          t7xx_ring_buf_rd_wr_count txq.drb_size_cnt txq.drb_release_rd_idx txq.drb_wr_idx
            dpmaif_rdwr.DPMAIF_WRITE < skb.frags.length + 2)) →
      ∃ (c' : dpmaif_ctrl) (txq' : dpmaif_tx_queue),
        t7xx_dpmaif_tx_send_skb c txqt skb = some (0, c') ∧
        c'.log = c.log ++ [dpmaif_event.wake_up_tx_thread] ∧
        c'.txq[txqt]? = some txq' ∧
        txq'.tx_skb_queue = txq.tx_skb_queue ++
          [{ skb with cb_qtype := txqt % 256, cb_drb_cnt := skb.frags.length + 2 }] ∧
        txq'.tx_submit_skb_cnt = txq.tx_submit_skb_cnt + 1) := by
  have hqlt : txqt < c.txq.length := (List.getElem?_eq_some_iff.1 hq).1
  have hcost : t7xx_get_drb_cnt_per_skb skb = skb.frags.length + 2 := by
    unfold t7xx_get_drb_cnt_per_skb; exact Nat.mod_eq_of_lt hfr
  constructor
  · intro hfull
    have hcond : (if txq.tx_skb_stat % DPMAIF_SKB_TX_BURST_CNT = 0 then
          t7xx_check_tx_queue_drb_available
            { txq with tx_skb_stat := (txq.tx_skb_stat + 1) % 2 ^ 32 } (t7xx_get_drb_cnt_per_skb skb)
        else true) = false ∨ txq.tx_list_max_len ≤ txq.tx_submit_skb_cnt := by
      rcases hfull with h | ⟨h1, h2⟩
      · exact Or.inr h
      · left
        rw [if_pos h1, hcost]
        simp only [t7xx_check_tx_queue_drb_available, decide_eq_false_iff_not, not_le]
        exact h2
    refine ⟨(c.set_txq txqt { txq with tx_skb_stat := (txq.tx_skb_stat + 1) % 2 ^ 32 }).emit
        (dpmaif_event.state_notify dpmaif_txq_state.DMPAIF_TXQ_STATE_FULL txqt),
      { txq with tx_skb_stat := (txq.tx_skb_stat + 1) % 2 ^ 32 }, ?h1, ?h2, ?h3, rfl, rfl⟩
    case h1 =>
      unfold t7xx_dpmaif_tx_send_skb
      simp only [hq]
      rw [if_pos hcond]
    case h2 => rfl
    case h3 => simp [dpmaif_ctrl.emit, dpmaif_ctrl.set_txq, hqlt]
  · intro hroom
    have hcond : ¬((if txq.tx_skb_stat % DPMAIF_SKB_TX_BURST_CNT = 0 then
          t7xx_check_tx_queue_drb_available
            { txq with tx_skb_stat := (txq.tx_skb_stat + 1) % 2 ^ 32 } (t7xx_get_drb_cnt_per_skb skb)
        else true) = false ∨ txq.tx_list_max_len ≤ txq.tx_submit_skb_cnt) := by
      rintro (h | h)
      · by_cases h1 : txq.tx_skb_stat % DPMAIF_SKB_TX_BURST_CNT = 0
        · rw [if_pos h1, hcost] at h
          simp only [t7xx_check_tx_queue_drb_available, decide_eq_false_iff_not, not_le] at h
          exact hroom (Or.inr ⟨h1, h⟩)
        · rw [if_neg h1] at h
          exact absurd h (by decide)
      · exact hroom (Or.inl h)
    have hcnt : (txq.tx_submit_skb_cnt + 1) % 2 ^ 32 = txq.tx_submit_skb_cnt + 1 := by
      apply Nat.mod_eq_of_lt
      have : ¬ txq.tx_list_max_len ≤ txq.tx_submit_skb_cnt := fun h => hroom (Or.inl h)
      omega
    refine ⟨((c.set_txq txqt { txq with tx_skb_stat := (txq.tx_skb_stat + 1) % 2 ^ 32 }).set_txq txqt
        { txq with tx_skb_stat := (txq.tx_skb_stat + 1) % 2 ^ 32,
                   tx_skb_queue := txq.tx_skb_queue ++
                     [{ skb with cb_qtype := txqt % 256,
                                 cb_drb_cnt := t7xx_get_drb_cnt_per_skb skb }],
                   tx_submit_skb_cnt := (txq.tx_submit_skb_cnt + 1) % 2 ^ 32 }).emit
        dpmaif_event.wake_up_tx_thread,
      { txq with tx_skb_stat := (txq.tx_skb_stat + 1) % 2 ^ 32,
                 tx_skb_queue := txq.tx_skb_queue ++
                   [{ skb with cb_qtype := txqt % 256,
                               cb_drb_cnt := t7xx_get_drb_cnt_per_skb skb }],
                 tx_submit_skb_cnt := (txq.tx_submit_skb_cnt + 1) % 2 ^ 32 },
      ?h1, ?h2, ?h3, ?h4, hcnt⟩
    case h1 =>
      unfold t7xx_dpmaif_tx_send_skb
      simp only [hq]
      rw [if_neg hcond]
    case h2 => rfl
    case h3 => simp [dpmaif_ctrl.emit, dpmaif_ctrl.set_txq, hqlt]
    case h4 => rw [hcost]

theorem dpmaif_tx_send_skb_busy_iff_full_witness :
    ∃ (c' : dpmaif_ctrl) (txq' : dpmaif_tx_queue),
      t7xx_dpmaif_tx_send_skb dpmaif_fresh_ctrl 0 { id := 1, len := 100, frags := [40] } =
        some (0, c') ∧
      c'.log = [dpmaif_event.wake_up_tx_thread] ∧
      c'.txq[0]? = some txq' ∧
      txq'.tx_skb_queue =
        [{ id := 1, len := 100, frags := [40], cb_qtype := 0, cb_drb_cnt := 3 }] ∧
      txq'.tx_submit_skb_cnt = 1 :=
  (dpmaif_tx_send_skb_busy_iff_full dpmaif_fresh_ctrl 0 { id := 1, len := 100, frags := [40] }
    (dpmaif_fresh_txq 0) rfl (by decide) (by decide)).2 (by decide)

theorem burst_loop_spec (env : dpmaif_env) (q : Nat) :
    ∀ (i : Nat) (remain drb_cnt ret : Int) (c : dpmaif_ctrl) (txq : dpmaif_tx_queue)
      (dc' ret' : Int) (c' : dpmaif_ctrl),
      c.txq[q]? = some txq → dpmaif_pending_ok q txq → ret ≤ 0 →
      t7xx_txq_burst_send_skb_loop env q i remain drb_cnt ret c = some (dc', ret', c') →
      ∃ txq', c'.txq[q]? = some txq' ∧ dpmaif_pending_ok q txq' ∧
        dpmaif_announced c'.log = dpmaif_announced c.log ∧ c'.state = c.state ∧
        ret' ≤ 0 ∧ drb_cnt ≤ dc' ∧ dc' ≤ drb_cnt + 255 * (i : Int) ∧
        txq'.tx_budget = txq.tx_budget - (dc' - drb_cnt) := by
  intro i
  induction i with
  | zero =>
    intro remain drb_cnt ret c txq dc' ret' c' hq hok hret h
    simp only [t7xx_txq_burst_send_skb_loop, Option.some.injEq, Prod.mk.injEq] at h
    obtain ⟨rfl, rfl, rfl⟩ := h
    exact ⟨txq, hq, hok, rfl, rfl, hret, le_refl _, by simp, by simp⟩
  | succ i ih =>
    intro remain drb_cnt ret c txq dc' ret' c' hq hok hret h
    unfold t7xx_txq_burst_send_skb_loop at h
    simp only [hq] at h
    cases hpend : txq.tx_skb_queue with
    | nil =>
      simp only [hpend, Option.some.injEq, Prod.mk.injEq] at h
      obtain ⟨rfl, rfl, rfl⟩ := h
      refine ⟨txq, hq, hok, rfl, rfl, hret, le_refl _, ?_, by simp⟩
      push_cast; omega
    | cons skb rest =>
      simp only [hpend] at h
      obtain ⟨hqt, hcb, hfr⟩ := hok skb (by rw [hpend]; exact List.mem_cons_self _ _)
      by_cases hroom : remain < (skb.cb_drb_cnt : Int)
      · rw [if_pos hroom] at h
        obtain ⟨txq', h1, h2, h3, h4, h5, h6, h7, h8⟩ := ih _ _ _ _ _ _ _ _ hq hok hret h
        refine ⟨txq', h1, h2, h3, h4, h5, h6, ?_, h8⟩
        push_cast; omega
      · rw [if_neg hroom] at h
        cases hadd : t7xx_dpmaif_add_skb_to_ring env c skb with
        | none => rw [hadd] at h; simp at h
        | some res =>
          obtain ⟨r, c1⟩ := res
          rw [hadd] at h
          simp only [] at h
          have hq' : c.txq[skb.cb_qtype]? = some txq := by rw [hqt]; exact hq
          obtain ⟨hr, hann, hst, -, txq1, hq1, heq1, hfail, hsucc⟩ :=
            add_skb_to_ring_frame env c skb txq r c1 hq' hadd
          rw [hqt] at hq1
          have hq1lt : q < c1.txq.length := (List.getElem?_eq_some_iff.1 hq1).1
          have hpend1 : txq1.tx_skb_queue = txq.tx_skb_queue := by rw [heq1]
          by_cases hneg : r < 0
          · rw [if_pos hneg] at h
            simp only [Option.some.injEq, Prod.mk.injEq] at h
            obtain ⟨rfl, rfl, rfl⟩ := h
            refine ⟨txq1, hq1, ?_, ?_, hst, le_of_lt hneg, le_refl _, ?_, ?_⟩
            · intro s hs; rw [hpend1] at hs; exact hok s hs
            · simp [dpmaif_ctrl.emit, announced_append, dpmaif_announced, hann]
            · push_cast; omega
            · rw [(hfail hneg).1]; simp
          · rw [if_neg hneg] at h
            simp only [hq1] at h
            have hr0 : r = 0 := by
              rcases hr with h0 | h0 | h0
              · exact h0
              · rw [h0] at hneg; simp [ENOMEM] at hneg
              · rw [h0] at hneg; simp [ENODEV] at hneg
            have hq2 := dpmaif_set_txq_get c1 q
              { txq1 with tx_skb_queue := txq1.tx_skb_queue.tail,
                          tx_submit_skb_cnt := (txq1.tx_submit_skb_cnt + 2 ^ 32 - 1) % 2 ^ 32 } hq1lt
            have hok2 : dpmaif_pending_ok q
                { txq1 with tx_skb_queue := txq1.tx_skb_queue.tail,
                            tx_submit_skb_cnt := (txq1.tx_submit_skb_cnt + 2 ^ 32 - 1) % 2 ^ 32 } := by
              intro s hs
              apply hok s
              have : s ∈ txq1.tx_skb_queue.tail := hs
              rw [hpend1, hpend] at this
              rw [hpend]
              exact List.mem_cons_of_mem _ (by simpa using this)
            obtain ⟨txq', h1, h2, h3, h4, h5, h6, h7, h8⟩ :=
              ih _ _ _ _ _ _ _ _ hq2 hok2 (le_of_eq hr0) h
            refine ⟨txq', h1, h2, ?_, ?_, h5, ?_, ?_, ?_⟩
            · rw [h3]; exact hann
            · rw [h4]; exact hst
            · have : (0 : Int) ≤ (skb.cb_drb_cnt : Int) := Int.natCast_nonneg _
              omega
            · have : (skb.cb_drb_cnt : Int) < 256 := by rw [hcb]; exact_mod_cast hfr
              push_cast; omega
            · rw [h8]
              show txq1.tx_budget - _ = _
              rw [hsucc hr0, hcb]
              push_cast; ring

theorem burst_send_spec (env : dpmaif_env) (q : Nat) (c : dpmaif_ctrl) (txq : dpmaif_tx_queue)
    (ret : Int) (c' : dpmaif_ctrl)
    (hq : c.txq[q]? = some txq) (hok : dpmaif_pending_ok q txq)
    (h : t7xx_txq_burst_send_skb env c q = some (ret, c')) :
    ∃ txq', c'.txq[q]? = some txq' ∧ dpmaif_pending_ok q txq' ∧
      dpmaif_announced c'.log = dpmaif_announced c.log ∧ c'.state = c.state ∧
      ret ≤ 255 * 5 ∧
      (0 < ret → txq'.tx_budget = txq.tx_budget - ret) ∧
      (¬ 0 < ret → txq'.tx_budget = txq.tx_budget) := by
  unfold t7xx_txq_burst_send_skb at h
  simp only [hq] at h
  cases hl : t7xx_txq_burst_send_skb_loop env q DPMAIF_SKB_TX_BURST_CNT
      (t7xx_ring_buf_rd_wr_count txq.drb_size_cnt txq.drb_release_rd_idx txq.drb_wr_idx
        dpmaif_rdwr.DPMAIF_WRITE) 0 0 c with
  | none => rw [hl] at h; simp at h
  | some res =>
    obtain ⟨dc, r, c1⟩ := res
    rw [hl] at h
    obtain ⟨txq1, hq1, hok1, hann, hst, hr, hdc0, hdc, hbud⟩ :=
      burst_loop_spec env q _ _ _ _ _ _ _ _ _ hq hok (le_refl _) hl
    have hq1lt : q < c1.txq.length := (List.getElem?_eq_some_iff.1 hq1).1
    have hdc5 : dc ≤ 255 * 5 := by
      have : ((DPMAIF_SKB_TX_BURST_CNT : Nat) : Int) = 5 := rfl
      rw [this] at hdc; omega
    simp only [hq1] at h
    by_cases hpos : 0 < dc
    · rw [if_pos hpos] at h
      simp only [Option.some.injEq, Prod.mk.injEq] at h
      obtain ⟨rfl, rfl⟩ := h
      refine ⟨_, dpmaif_set_txq_get _ _ _ hq1lt, ?_, hann, hst, hdc5, ?_, ?_⟩
      · exact hok1
      · intro _; show txq1.tx_budget = _; rw [hbud]; simp
      · intro hn; exact absurd hpos hn
    · rw [if_neg hpos] at h
      have hdcz : dc = 0 := by omega
      by_cases hmem : r = -ENOMEM
      · rw [if_pos hmem] at h
        simp only [Option.some.injEq, Prod.mk.injEq] at h
        obtain ⟨rfl, rfl⟩ := h
        refine ⟨_, dpmaif_set_txq_get _ _ _ hq1lt, ?_, hann, hst, by omega, ?_, ?_⟩
        · exact hok1
        · intro hp; omega
        · intro _; show txq1.tx_budget = _; rw [hbud, hdcz]; simp
      · rw [if_neg hmem] at h
        simp only [Option.some.injEq, Prod.mk.injEq] at h
        obtain ⟨rfl, rfl⟩ := h
        refine ⟨txq1, hq1, hok1, hann, hst, by omega, ?_, ?_⟩
        · intro hp; omega
        · intro _; rw [hbud, hdcz]; simp

theorem u32_of_int_small (x : Int) (h0 : 0 ≤ x) (h1 : x < 2 ^ 32) : (u32_of_int x : Int) = x := by
  unfold u32_of_int
  rw [Int.emod_eq_of_lt h0 h1]
  exact Int.toNat_of_nonneg h0

theorem tx_hw_push_loop_spec (env : dpmaif_env)
    (hlock : ∀ k, env.sleep_disable_complete k = true) :
    ∀ (fuel : Nat) (first_time : Bool) (c : dpmaif_ctrl) (txq : dpmaif_tx_queue)
      (c' : dpmaif_ctrl),
      c.txq[0]? = some txq → dpmaif_pending_ok 0 txq →
      t7xx_do_tx_hw_push_loop env fuel first_time c = some c' →
      ∃ txq', c'.txq[0]? = some txq' ∧
        (dpmaif_announced c'.log : Int) =
          (dpmaif_announced c.log : Int) +
            (DPMAIF_UL_DRB_ENTRY_WORD : Int) * (txq.tx_budget - txq'.tx_budget) := by
  intro fuel
  induction fuel with
  | zero =>
    intro ft c txq c' _ _ h
    simp [t7xx_do_tx_hw_push_loop] at h
  | succ fuel ih =>
    intro ft c txq c' hq hok h
    unfold t7xx_do_tx_hw_push_loop at h
    simp only [t7xx_select_tx_queue] at h
    cases hb : t7xx_txq_burst_send_skb env c 0 with
    | none => rw [hb] at h; simp at h
    | some res =>
      obtain ⟨ret, c1⟩ := res
      rw [hb] at h
      simp only [] at h
      obtain ⟨txq1, hq1, hok1, hann, hst, hret, hpos, hnpos⟩ :=
        burst_send_spec env 0 c txq ret c1 hq hok hb
      have hlocked : (if ft = true ∧ 0 < ret then env.sleep_disable_complete c1.tick else true) = true := by
        split_ifs
        · exact hlock _
        · rfl
      rw [hlocked] at h
      simp only [Bool.true_eq_false, if_false] at h
      generalize hc2 : (if ft = true ∧ 0 < ret then c1.asked else c1) = c2 at h
      have hc2txq : c2.txq = c1.txq := by rw [← hc2]; split_ifs <;> rfl
      have hc2log : c2.log = c1.log := by rw [← hc2]; split_ifs <;> rfl
      generalize hc3 : (if 0 < ret then
          if env.ul_update_hw_drb_cnt
              (c2.emit (dpmaif_event.ul_update_hw_drb_cnt 0
                (u32_of_int (ret * (DPMAIF_UL_DRB_ENTRY_WORD : Int))))).tick < 0 then
            (c2.emit (dpmaif_event.ul_update_hw_drb_cnt 0
                (u32_of_int (ret * (DPMAIF_UL_DRB_ENTRY_WORD : Int))))).asked.emit
              (dpmaif_event.dev_err_update_drb_cnt_failed 0)
          else (c2.emit (dpmaif_event.ul_update_hw_drb_cnt 0
                (u32_of_int (ret * (DPMAIF_UL_DRB_ENTRY_WORD : Int))))).asked
        else if t7xx_check_all_txq_drb_lack c2 = true then c2.emit dpmaif_event.usleep_range
        else c2) = c3 at h
      have hc3txq : c3.txq = c1.txq := by
        rw [← hc3, ← hc2txq]; split_ifs <;> rfl
      have h4 : ((DPMAIF_UL_DRB_ENTRY_WORD : Nat) : Int) = 4 := rfl
      have hc3log : (dpmaif_announced c3.log : Int) =
          (dpmaif_announced c.log : Int) +
            (DPMAIF_UL_DRB_ENTRY_WORD : Int) * (txq.tx_budget - txq1.tx_budget) := by
        rw [← hc3]
        by_cases hp : 0 < ret
        · rw [if_pos hp, hpos hp]
          have hu := u32_of_int_small (ret * (DPMAIF_UL_DRB_ENTRY_WORD : Int))
            (by rw [h4]; omega) (by rw [h4]; omega)
          split_ifs
          · simp only [dpmaif_ctrl.emit, dpmaif_ctrl.asked, announced_append, dpmaif_announced,
              hc2log, hann]
            push_cast
            rw [hu]; ring
          · simp only [dpmaif_ctrl.emit, dpmaif_ctrl.asked, announced_append, dpmaif_announced,
              hc2log, hann]
            push_cast
            rw [hu]; ring
        · rw [if_neg hp, hnpos hp]
          split_ifs
          · simp [dpmaif_ctrl.emit, announced_append, dpmaif_announced, hc2log, hann]
          · simp [hc2log, hann]
      have hq3 : c3.txq[0]? = some txq1 := by rw [hc3txq]; exact hq1
      by_cases hempty : t7xx_tx_lists_are_all_empty c3 = true
      · rw [if_pos hempty] at h
        simp only [Option.some.injEq] at h
        subst h
        exact ⟨txq1, hq3, hc3log⟩
      · rw [if_neg hempty] at h
        split_ifs at h with hcont
        · obtain ⟨txq', hq', hlog'⟩ := ih false c3.asked txq1 c' hq3 hok1 h
          refine ⟨txq', hq', ?_⟩
          rw [hlog']
          show (dpmaif_announced c3.log : Int) + _ = _
          rw [hc3log]; ring
        · simp only [Option.some.injEq] at h
          subst h
          exact ⟨txq1, hq3, hc3log⟩

/-- Claim C16, as the code has it. For every run of `t7xx_do_tx_hw_push` that
returns, on a queue 0 whose pending packets carry the queue and their cost in
the control block as `t7xx_dpmaif_tx_send_skb` leaves them, and in which
`t7xx_pci_sleep_disable_complete` reports the lock as acquired: the sum of the
counts passed to `t7xx_dpmaif_ul_update_hw_drb_cnt` during the run is
`DPMAIF_UL_DRB_ENTRY_WORD` times the number of descriptors written to the ring
during the run. That number is the amount by which `tx_budget` went down:
`t7xx_dpmaif_add_skb_to_ring` takes the descriptors of each packet it has
written from `tx_budget`, and nothing else in the run changes it. -/
theorem dpmaif_hw_push_announces_what_it_wrote (env : dpmaif_env) (fuel : Nat)
    (c c' : dpmaif_ctrl) (txq : dpmaif_tx_queue)
    (hq : c.txq[0]? = some txq) (hok : dpmaif_pending_ok 0 txq)
    (hlock : ∀ k, env.sleep_disable_complete k = true)
    (h : t7xx_do_tx_hw_push fuel env c = some c') :
    ∃ txq', c'.txq[0]? = some txq' ∧
      (dpmaif_announced c'.log : Int) =
        (dpmaif_announced c.log : Int) +
          (DPMAIF_UL_DRB_ENTRY_WORD : Int) * (txq.tx_budget - txq'.tx_budget) :=
  tx_hw_push_loop_spec env hlock fuel true { c with txq_select_times := 0 } txq c' hq hok h

theorem dpmaif_hw_push_announces_what_it_wrote_witness :
    ∃ (c' : dpmaif_ctrl) (txq' : dpmaif_tx_queue),
      t7xx_do_tx_hw_push 1 (dpmaif_env_ok 0) dpmaif_one_pending = some c' ∧
      c'.txq[0]? = some txq' ∧
      (dpmaif_announced c'.log : Int) =
        (dpmaif_announced dpmaif_one_pending.log : Int) +
          (DPMAIF_UL_DRB_ENTRY_WORD : Int) * (dpmaif_one_pending_txq.tx_budget - txq'.tx_budget) := by
  obtain ⟨c', hc'⟩ : ∃ c', t7xx_do_tx_hw_push 1 (dpmaif_env_ok 0) dpmaif_one_pending = some c' :=
    ⟨_, rfl⟩
  obtain ⟨txq', h1, h2⟩ :=
    dpmaif_hw_push_announces_what_it_wrote (dpmaif_env_ok 0) 1 dpmaif_one_pending c'
      dpmaif_one_pending_txq rfl (by decide) (fun _ => rfl) hc'
  exact ⟨c', txq', hc', h1, h2⟩

/-- Claim C16, counterexample. One packet of two descriptors is pending on
queue 0 of a fresh controller and the wait for the sleep lock times out
(`t7xx_pci_sleep_disable_complete` returns false). The first burst of
`t7xx_do_tx_hw_push` writes the two descriptors to positions 0 and 1 of the
ring, moves the write cursor to 2 and takes 2 from `tx_budget`; the function
then returns without a call of `t7xx_dpmaif_ul_update_hw_drb_cnt`, so the sum
of the announced counts is 0 and not 8. -/
theorem dpmaif_hw_push_returns_before_announcing :
    ∃ (c' : dpmaif_ctrl) (txq' : dpmaif_tx_queue),
      t7xx_do_tx_hw_push 1 dpmaif_env_locked dpmaif_one_pending = some c' ∧
      c'.txq[0]? = some txq' ∧
      dpmaif_one_pending_txq.drb_wr_idx = 0 ∧ dpmaif_one_pending_txq.tx_budget = 6144 ∧
      txq'.drb_wr_idx = 2 ∧ txq'.tx_budget = 6142 ∧ txq'.tx_skb_queue = [] ∧
      ((txq'.drb_base.get? 0).map (fun d => d.dtyp)) = some DES_DTYP_MSG ∧
      ((txq'.drb_base.get? 1).map (fun d => d.dtyp)) = some DES_DTYP_PD ∧
      ((txq'.drb_skb_base.get? 1).map (fun s => s.skb.map (fun p => p.id))) = some (some 1) ∧
      dpmaif_announced c'.log = 0 ∧
      dpmaif_announced c'.log ≠ DPMAIF_UL_DRB_ENTRY_WORD * 2 :=
  ⟨_, _, rfl, rfl, rfl, rfl, rfl, rfl, rfl, rfl, rfl, rfl, rfl, by decide⟩

theorem mod_succ_step (a N : Nat) (hN : 0 < N) :
    (if a % N + 1 = N then 0 else a % N + 1) = (a + 1) % N := by
  have hlt : a % N < N := Nat.mod_lt _ hN
  rw [← Nat.mod_add_mod a N 1]
  split_ifs with h
  · rw [h, Nat.mod_self]
  · rw [Nat.mod_eq_of_lt (show a % N + 1 < N by omega)]

theorem mod_add_ne (a c N : Nat) (h0 : 0 < c) (hc : c < N) : (a + c) % N ≠ a % N := by
  intro h
  have h1 : a + c ≡ a + 0 [MOD N] := h
  have h2 : c ≡ 0 [MOD N] := Nat.ModEq.add_left_cancel' a h1
  have h3 : N ∣ c := (Nat.modEq_zero_iff_dvd).1 h2
  have := Nat.le_of_dvd h0 h3
  omega

theorem tx_collect_loop_spec (env : cldma_env) (qno : Nat)
    (hstop : ∀ t, env.kthread_should_stop t = false) (d0 N : Nat) (hd0 : d0 < N) :
    ∀ (m j0 count : Nat) (md : cldma_ctrl) (queue : cldma_queue),
      md.txq[qno]? = some queue → queue.tr_ring.gpd_ring.length = N → j0 + m = N →
      queue.tr_done = some ((d0 + j0) % N) →
      (∀ j, j < j0 → ∃ r, queue.tr_ring.gpd_ring[(d0 + j) % N]? = some r ∧ r.skb = none) →
      ∃ (k : Nat) (md' : cldma_ctrl) (queue' : cldma_queue) (evs : List cldma_event),
        k ≤ m ∧
        t7xx_cldma_gpd_tx_collect_loop env qno (m + 1) count md = some (count + k, md') ∧
        md'.txq[qno]? = some queue' ∧
        queue'.tr_done = some ((d0 + j0 + k) % N) ∧ queue'.budget = queue.budget + (k : Int) ∧
        queue'.tx_xmit = queue.tx_xmit ∧
        queue'.tr_ring.gpd_ring.length = N ∧
        (∀ j, j < k → ∃ r, queue.tr_ring.gpd_ring[(d0 + j0 + j) % N]? = some r ∧
          r.gpd.flags.hwo = false ∧ r.skb ≠ none ∧
          queue'.tr_ring.gpd_ring[(d0 + j0 + j) % N]? = some { r with skb := none }) ∧
        (j0 + k < N → ∃ r, queue.tr_ring.gpd_ring[(d0 + j0 + k) % N]? = some r ∧
          (r.gpd.flags.hwo = true ∨ r.skb = none)) ∧
        (∀ p, (∀ j, j < k → p ≠ (d0 + j0 + j) % N) →
          queue'.tr_ring.gpd_ring[p]? = queue.tr_ring.gpd_ring[p]?) ∧
        (∀ i, i ≠ qno → md'.txq[i]? = md.txq[i]?) ∧ md'.rxq = md.rxq ∧
        md'.log = md.log ++ evs ∧ evs.length = 2 * k ∧
        (∀ e ∈ evs, ∀ n, e ≠ cldma_event.wake_up_nr n) := by
  have hN : 0 < N := by omega
  intro m
  induction m with
  | zero =>
    intro j0 count md queue hq hlen hj0 hdone hclr
    have hj0N : j0 = N := by omega
    obtain ⟨r, hr, hrs⟩ := hclr 0 (by omega)
    rw [Nat.add_zero] at hr
    have hpos : (d0 + j0) % N = d0 % N := by
      rw [hj0N, Nat.add_mod_right]
    refine ⟨0, md.asked, queue, [], le_refl _, ?_, hq, hdone, by simp, rfl, hlen, ?_, ?_, ?_, ?_,
      rfl, ?_, rfl, ?_⟩
    · unfold t7xx_cldma_gpd_tx_collect_loop
      simp only [hstop, Bool.false_eq_true, if_false]
      have hqa : md.asked.txq[qno]? = some queue := hq
      simp only [hqa, hdone, hpos, hr, hrs, or_true, if_true, Nat.add_zero]
    · intro j hj; omega
    · intro h; omega
    · intro p _; rfl
    · intro i _; rfl
    · simp [cldma_ctrl.asked]
    · intro e he; simp at he
  | succ m ih =>
    intro j0 count md queue hq hlen hj0 hdone hclr
    have hqlt : qno < md.txq.length := (List.getElem?_eq_some_iff.1 hq).1
    have hplt : (d0 + j0) % N < queue.tr_ring.gpd_ring.length := by
      rw [hlen]; exact Nat.mod_lt _ hN
    obtain ⟨r, hr⟩ : ∃ r, queue.tr_ring.gpd_ring[(d0 + j0) % N]? = some r :=
      ⟨_, List.getElem?_eq_getElem hplt⟩
    have hqa : md.asked.txq[qno]? = some queue := hq
    by_cases hdn : r.gpd.flags.hwo = true ∨ r.skb = none
    · refine ⟨0, md.asked, queue, [], Nat.zero_le _, ?_, hq, hdone, by simp, rfl, hlen, ?_, ?_, ?_,
        ?_, rfl, ?_, rfl, ?_⟩
      · unfold t7xx_cldma_gpd_tx_collect_loop
        simp only [hstop, Bool.false_eq_true, if_false]
        simp only [hqa, hdone, hr]
        rw [if_pos hdn]; rfl
      · intro j hj; omega
      · intro _; exact ⟨r, by simpa using hr, hdn⟩
      · intro p _; rfl
      · intro i _; rfl
      · simp [cldma_ctrl.asked]
      · intro e he; simp at he
    · have hhwo : r.gpd.flags.hwo = false := by
        cases h : r.gpd.flags.hwo
        · rfl
        · exact absurd (Or.inl h) hdn
      have hskb : r.skb ≠ none := fun h => hdn (Or.inr h)
      -- the queue and the controller after the reclaim of this descriptor
      let p := (d0 + j0) % N
      let queue1 : cldma_queue :=
        { ({ queue with budget := queue.budget + 1 } : cldma_queue).set_req p { r with skb := none } with
          tr_done := some (t7xx_cldma_ring_step_forward
            (({ queue with budget := queue.budget + 1 } : cldma_queue).set_req p
              { r with skb := none }).tr_ring p) }
      let md1 : cldma_ctrl :=
        ((md.asked.set_txq qno queue1).emit
          (cldma_event.dma_unmap_single r.mapped_buff r.gpd.data_buff_len mtk_txrx.MTK_TX)).emit
          (cldma_event.dev_kfree_skb_any r.skb)
      have hstep : t7xx_cldma_gpd_tx_collect_loop env qno (m + 1 + 1) count md =
          t7xx_cldma_gpd_tx_collect_loop env qno (m + 1) (count + 1) md1 := by
        conv_lhs => unfold t7xx_cldma_gpd_tx_collect_loop
        simp only [hstop, Bool.false_eq_true, if_false]
        simp only [hqa, hdone, hr]
        rw [if_neg hdn]
        rfl
      have hring1 : queue1.tr_ring.gpd_ring = queue.tr_ring.gpd_ring.set p { r with skb := none } := rfl
      have hlen1 : queue1.tr_ring.gpd_ring.length = N := by
        rw [hring1, List.length_set]; exact hlen
      have hq1 : md1.txq[qno]? = some queue1 := by
        simp [md1, cldma_ctrl.emit, cldma_ctrl.set_txq, cldma_ctrl.asked, hqlt]
      have hdone1 : queue1.tr_done = some ((d0 + (j0 + 1)) % N) := by
        show some (t7xx_cldma_ring_step_forward _ p) = _
        unfold t7xx_cldma_ring_step_forward
        rw [show (({ queue with budget := queue.budget + 1 } : cldma_queue).set_req p
              { r with skb := none }).tr_ring.gpd_ring.length = N from hlen1]
        rw [show d0 + (j0 + 1) = d0 + j0 + 1 by omega, ← mod_succ_step (d0 + j0) N hN]
      have hp1 : queue1.tr_ring.gpd_ring[p]? = some { r with skb := none } := by
        rw [hring1]; exact List.getElem?_set_self hplt
      have hne1 : ∀ q, q ≠ p → queue1.tr_ring.gpd_ring[q]? = queue.tr_ring.gpd_ring[q]? := by
        intro q hqp; rw [hring1]; exact List.getElem?_set_ne (Ne.symm hqp)
      have hclr1 : ∀ j, j < j0 + 1 →
          ∃ r', queue1.tr_ring.gpd_ring[(d0 + j) % N]? = some r' ∧ r'.skb = none := by
        intro j hj
        by_cases hjp : (d0 + j) % N = p
        · rw [hjp]; exact ⟨_, hp1, rfl⟩
        · rw [hne1 _ hjp]
          rcases Nat.lt_or_ge j j0 with hlt | hge
          · exact hclr j hlt
          · have : j = j0 := by omega
            subst this; exact absurd rfl hjp
      obtain ⟨k1, md', queue', evs1, hk1, hrun, hq', hdone', hbud', hxmit', hlen', hrunp, hstopp, hrest, hothq, hrxq,
          hlog, hevl, hevw⟩ :=
        ih (j0 + 1) (count + 1) md1 queue1 hq1 hlen1 (by omega) hdone1 hclr1
      have hrun_ne : ∀ j, j < k1 → (d0 + (j0 + 1) + j) % N ≠ p := by
        intro j hj hjp
        obtain ⟨r', hr', _, hs', _⟩ := hrunp j hj
        rw [hjp, hp1] at hr'
        cases hr'
        exact hs' rfl
      refine ⟨k1 + 1, md', queue',
        [cldma_event.dma_unmap_single r.mapped_buff r.gpd.data_buff_len mtk_txrx.MTK_TX,
         cldma_event.dev_kfree_skb_any r.skb] ++ evs1, by omega, ?_, hq', ?_, ?_, hxmit', hlen',
        ?_, ?_, ?_, ?_, ?_, ?_, ?_, ?_⟩
      · rw [hstep, hrun]
        simp only [Option.some.injEq, Prod.mk.injEq, and_true]; omega
      · rw [hdone']
        have e1 : (d0 + (j0 + 1) + k1) % N = (d0 + j0 + (k1 + 1)) % N := by
          congr 1; omega
        rw [e1]
      · rw [hbud']
        show queue.budget + 1 + (k1 : Int) = _
        push_cast; ring
      · intro j hj
        rcases Nat.eq_zero_or_pos j with h0 | hpos
        · subst h0
          refine ⟨r, by simpa using hr, hhwo, hskb, ?_⟩
          have := hrest p (fun j hj => (hrun_ne j hj).symm)
          rw [Nat.add_zero, this, hp1]
        · obtain ⟨r', hr', hh', hs', hn'⟩ := hrunp (j - 1) (by omega)
          have epos : (d0 + (j0 + 1) + (j - 1)) % N = (d0 + j0 + j) % N := by
            congr 1; omega
          rw [epos] at hr' hn'
          have hnp : (d0 + j0 + j) % N ≠ p := by
            rw [← epos]; exact hrun_ne (j - 1) (by omega)
          rw [hne1 _ hnp] at hr'
          exact ⟨r', hr', hh', hs', hn'⟩
      · intro hlt
        obtain ⟨r', hr', hcond⟩ := hstopp (by omega)
        have epos : (d0 + (j0 + 1) + k1) % N = (d0 + j0 + (k1 + 1)) % N := by
          congr 1; omega
        rw [epos] at hr'
        have hnp : (d0 + j0 + (k1 + 1)) % N ≠ p := mod_add_ne (d0 + j0) (k1 + 1) N (by omega) (by omega)
        rw [hne1 _ hnp] at hr'
        exact ⟨r', hr', hcond⟩
      · intro q hq0
        have hqp : q ≠ p := by
          have := hq0 0 (by omega)
          simpa using this
        rw [hrest q, hne1 q hqp]
        intro j hj
        have := hq0 (j + 1) (by omega)
        have epos : (d0 + (j0 + 1) + j) % N = (d0 + j0 + (j + 1)) % N := by
          congr 1; omega
        rw [epos]; exact this
      · intro i hi
        rw [hothq i hi]
        simp [md1, cldma_ctrl.emit, cldma_ctrl.set_txq, cldma_ctrl.asked, List.getElem?_set_ne (Ne.symm hi)]
      · rw [hrxq]; rfl
      · rw [hlog]
        simp [md1, cldma_ctrl.emit, cldma_ctrl.set_txq, cldma_ctrl.asked]
      · simp [hevl]; omega
      · intro e he n
        simp only [List.cons_append, List.nil_append, List.mem_cons] at he
        rcases he with rfl | rfl | he
        · simp
        · simp
        · exact hevw e he n

/-- C18: `t7xx_cldma_gpd_tx_collect` is called from the work item
`t7xx_cldma_tx_done` only, which runs on a worker of the kernel, where
`kthread_should_stop` reports false. There, on a transmit queue whose
`tr_done` is at position `d` of a ring of `N` requests, it returns a number
`k ≤ N` such that: the `k` descriptors at the positions `d`, `d + 1`, ...
(mod `N`) had the ownership bit clear and held a packet, and now hold none;
when `k < N` the descriptor after them is still owned by the hardware or holds
no packet; every other ring entry is as it was; `tr_done` has moved `k` steps
and `budget` has grown by `k`; the other queues are untouched; and the calls
made are two per descriptor (unmap and free), followed, when `k` is not 0, by
one `wake_up_nr` for `k` waiters. -/
theorem cldma_tx_collect_reclaims_done_run (env : cldma_env) (md : cldma_ctrl) (qno : Nat)
    (queue : cldma_queue) (d : Nat)
    (hq : md.txq[qno]? = some queue) (hd : queue.tr_done = some d)
    (hdN : d < queue.tr_ring.gpd_ring.length)
    (hstop : ∀ t, env.kthread_should_stop t = false) :
    ∃ (k : Nat) (md' : cldma_ctrl) (queue' : cldma_queue) (evs : List cldma_event),
      t7xx_cldma_gpd_tx_collect env md qno = some (k, md') ∧
      k ≤ queue.tr_ring.gpd_ring.length ∧
      (∀ j, j < k → ∃ r,
        queue.tr_ring.gpd_ring[(d + j) % queue.tr_ring.gpd_ring.length]? = some r ∧
        r.gpd.flags.hwo = false ∧ r.skb ≠ none ∧
        queue'.tr_ring.gpd_ring[(d + j) % queue.tr_ring.gpd_ring.length]? =
          some { r with skb := none }) ∧
      (k < queue.tr_ring.gpd_ring.length → ∃ r,
        queue.tr_ring.gpd_ring[(d + k) % queue.tr_ring.gpd_ring.length]? = some r ∧
        (r.gpd.flags.hwo = true ∨ r.skb = none)) ∧
      (∀ p, (∀ j, j < k → p ≠ (d + j) % queue.tr_ring.gpd_ring.length) →
        queue'.tr_ring.gpd_ring[p]? = queue.tr_ring.gpd_ring[p]?) ∧
      md'.txq[qno]? = some queue' ∧
      queue'.tr_done = some ((d + k) % queue.tr_ring.gpd_ring.length) ∧
      queue'.budget = queue.budget + (k : Int) ∧ queue'.tx_xmit = queue.tx_xmit ∧
      queue'.tr_ring.gpd_ring.length = queue.tr_ring.gpd_ring.length ∧
      (∀ i, i ≠ qno → md'.txq[i]? = md.txq[i]?) ∧ md'.rxq = md.rxq ∧
      md'.log = md.log ++ evs ++ (if k = 0 then [] else [cldma_event.wake_up_nr k]) ∧
      evs.length = 2 * k ∧ (∀ e ∈ evs, ∀ n, e ≠ cldma_event.wake_up_nr n) := by
  have hd0 : (d + 0) % queue.tr_ring.gpd_ring.length = d := by
    rw [Nat.add_zero]; exact Nat.mod_eq_of_lt hdN
  obtain ⟨k, md1, queue', evs, hk, hrun, hq', hdone', hbud', hxmit', hlen', hrunp, hstopp, hrest,
      hothq, hrxq, hlog, hevl, hevw⟩ :=
    tx_collect_loop_spec env qno hstop d queue.tr_ring.gpd_ring.length hdN
      queue.tr_ring.gpd_ring.length 0 0 md queue hq rfl (by omega) (by rw [hd0]; exact hd)
      (fun j hj => by omega)
  rw [Nat.zero_add] at hrun
  simp only [Nat.add_zero] at hdone' hrunp hstopp hrest
  by_cases hk0 : k = 0
  · refine ⟨k, md1, queue', evs, ?_, hk, hrunp, ?_, hrest, hq', hdone', hbud', hxmit', hlen',
      hothq, hrxq, ?_, hevl, hevw⟩
    · unfold t7xx_cldma_gpd_tx_collect
      simp only [hq, hrun]
      rw [if_neg (by simpa using hk0)]
    · intro h; exact hstopp (by omega)
    · rw [if_pos hk0, List.append_nil]; exact hlog
  · refine ⟨k, md1.emit (cldma_event.wake_up_nr k), queue', evs, ?_, hk, hrunp, ?_, hrest, hq',
      hdone', hbud', hxmit', hlen', hothq, hrxq, ?_, hevl, hevw⟩
    · unfold t7xx_cldma_gpd_tx_collect
      simp only [hq, hrun]
      rw [if_pos hk0]
    · intro h; exact hstopp (by omega)
    · rw [if_neg hk0]
      show md1.log ++ _ = _
      rw [hlog]

/-- C18 (witness): the claim at the controller whose transmit queue 0 holds
one packet that the hardware has sent. -/
theorem cldma_tx_collect_reclaims_done_run_witness :
    ∃ (k : Nat) (md' : cldma_ctrl) (queue' : cldma_queue),
      t7xx_cldma_gpd_tx_collect cldma_env_ok cldma_one_sent 0 = some (k, md') ∧
      md'.txq[0]? = some queue' ∧ queue'.tr_done = some ((0 + k) % 16) ∧
      queue'.budget = 15 + (k : Int) := by
  obtain ⟨k, md', queue', _, h1, _, _, _, _, h2, h3, h4, _⟩ :=
    cldma_tx_collect_reclaims_done_run cldma_env_ok cldma_one_sent 0
      cldma_one_sent_txq 0 (by decide) (by decide) (by decide) (fun _ => rfl)
  exact ⟨k, md', queue', h1, h2, h3, h4⟩

theorem set_next_ptr_length (L : List cldma_request) (a : Nat) :
    (cldma_set_next_ptr_of_last L a).length = L.length := by
  unfold cldma_set_next_ptr_of_last
  split <;> simp

theorem set_next_ptr_lt (L : List cldma_request) (a j : Nat) (h : j + 1 < L.length) :
    (cldma_set_next_ptr_of_last L a)[j]? = L[j]? := by
  unfold cldma_set_next_ptr_of_last
  split
  · rfl
  · exact List.getElem?_set_ne (by omega)

theorem set_next_ptr_last (L : List cldma_request) (a : Nat) (h : 0 < L.length) :
    ∃ r, L[L.length - 1]? = some r ∧
      (cldma_set_next_ptr_of_last L a)[L.length - 1]? =
        some { r with gpd := { r.gpd with next_gpd_ptr := a } } := by
  have hl : L.getLast? = L[L.length - 1]? := List.getLast?_eq_getElem? L
  obtain ⟨r, hr⟩ : ∃ r, L[L.length - 1]? = some r := ⟨_, List.getElem?_eq_getElem (by omega)⟩
  refine ⟨r, hr, ?_⟩
  unfold cldma_set_next_ptr_of_last
  rw [hl, hr]
  exact List.getElem?_set_self (by omega)

theorem ring_link_append (Q : cldma_request → Prop)
    (hQ : ∀ r a, Q r → Q { r with gpd := { r.gpd with next_gpd_ptr := a } })
    (L : List cldma_request) (item : cldma_request)
    (hall : ∀ (j : Nat) (r : cldma_request), L[j]? = some r → Q r)
    (hlink : ∀ (j : Nat) (r r' : cldma_request), L[j]? = some r → L[j + 1]? = some r' →
      r.gpd.next_gpd_ptr = r'.gpd_addr)
    (hitem : Q item) :
    (∀ (j : Nat) (r : cldma_request),
      (cldma_set_next_ptr_of_last L item.gpd_addr ++ [item])[j]? = some r → Q r) ∧
    (∀ (j : Nat) (r r' : cldma_request),
      (cldma_set_next_ptr_of_last L item.gpd_addr ++ [item])[j]? = some r →
      (cldma_set_next_ptr_of_last L item.gpd_addr ++ [item])[j + 1]? = some r' →
      r.gpd.next_gpd_ptr = r'.gpd_addr) ∧
    ((cldma_set_next_ptr_of_last L item.gpd_addr ++ [item])[0]?.map (fun r => r.gpd_addr)) =
      ((L ++ [item])[0]?.map (fun r => r.gpd_addr)) := by
  have hlen := set_next_ptr_length L item.gpd_addr
  have hget : ∀ j : Nat, (cldma_set_next_ptr_of_last L item.gpd_addr ++ [item])[j]? =
      if j + 1 < L.length then L[j]?
      else if j + 1 = L.length then
        (L[j]?).map (fun r => { r with gpd := { r.gpd with next_gpd_ptr := item.gpd_addr } })
      else if j = L.length then some item else none := by
    intro j
    split_ifs with h1 h2 h3
    · rw [List.getElem?_append_left (by rw [hlen]; omega)]
      exact set_next_ptr_lt L _ j h1
    · rw [List.getElem?_append_left (by rw [hlen]; omega)]
      obtain ⟨r, hr, hs⟩ := set_next_ptr_last L item.gpd_addr (by omega)
      have hj : j = L.length - 1 := by omega
      rw [hj, hs, hr]; rfl
    · rw [List.getElem?_append_right (by rw [hlen]; omega), hlen, h3]; simp
    · rw [List.getElem?_append_right (by rw [hlen]; omega), hlen]
      have : j - L.length ≠ 0 := by omega
      rw [List.getElem?_eq_none]
      simp; omega
  refine ⟨?_, ?_, ?_⟩
  · intro j r hr
    rw [hget j] at hr
    split_ifs at hr with h1 h2 h3
    · exact hall j r hr
    · obtain ⟨r0, hr0, rfl⟩ := Option.map_eq_some'.1 hr
      exact hQ _ _ (hall j r0 hr0)
    · cases hr; exact hitem
  · intro j r r' hr hr'
    rw [hget j] at hr
    rw [hget (j + 1)] at hr'
    split_ifs at hr with h1 h2 h3
    · split_ifs at hr' with g1 g2
      · exact hlink j r r' hr hr'
      · obtain ⟨r0, hr0, rfl⟩ := Option.map_eq_some'.1 hr'
        exact hlink j r r0 hr hr0
      · omega
    · obtain ⟨r0, hr0, rfl⟩ := Option.map_eq_some'.1 hr
      split_ifs at hr' with g1 g2
      · omega
      · omega
      · cases hr'; rfl
    · split_ifs at hr' with g1 g2
      · omega
      · omega
  · rw [hget 0]
    rcases Nat.lt_trichotomy L.length 1 with h | h | h
    · have h0 : L = [] := List.length_eq_zero.1 (by omega)
      subst h0; simp
    · have h1 : ¬ (0 + 1 < L.length) := by omega
      rw [if_neg h1, if_pos (by omega), List.getElem?_append_left (by omega)]
      cases L[0]? <;> rfl
    · rw [if_pos (by omega), List.getElem?_append_left (by omega)]

theorem ring_link_close (Q : cldma_request → Prop)
    (hQ : ∀ r a, Q r → Q { r with gpd := { r.gpd with next_gpd_ptr := a } })
    (L : List cldma_request) (a : Nat) (hpos : 0 < L.length)
    (hall : ∀ (j : Nat) (r : cldma_request), L[j]? = some r → Q r)
    (hlink : ∀ (j : Nat) (r r' : cldma_request), L[j]? = some r → L[j + 1]? = some r' →
      r.gpd.next_gpd_ptr = r'.gpd_addr)
    (hfirst : (L[0]?).map (fun r => r.gpd_addr) = some a) :
    (cldma_set_next_ptr_of_last L a).length = L.length ∧
    ∀ j, j < L.length → ∃ r r',
      (cldma_set_next_ptr_of_last L a)[j]? = some r ∧ Q r ∧
      (cldma_set_next_ptr_of_last L a)[(j + 1) % L.length]? = some r' ∧
      r.gpd.next_gpd_ptr = r'.gpd_addr := by
  have hlen := set_next_ptr_length L a
  obtain ⟨rl, hrl, hsl⟩ := set_next_ptr_last L a hpos
  obtain ⟨r0, hr0, ha⟩ := Option.map_eq_some'.1 hfirst
  -- the address of the first descriptor is not changed by the last link
  have hfirst' : ∃ r0', (cldma_set_next_ptr_of_last L a)[0]? = some r0' ∧ r0'.gpd_addr = a := by
    rcases Nat.lt_or_ge 1 L.length with h | h
    · exact ⟨r0, by rw [set_next_ptr_lt L a 0 (by omega)]; exact hr0, ha⟩
    · have h1 : L.length - 1 = 0 := by omega
      rw [h1] at hrl hsl
      rw [hr0] at hrl
      cases hrl
      exact ⟨_, hsl, ha⟩
  refine ⟨hlen, ?_⟩
  intro j hj
  rcases Nat.lt_or_ge (j + 1) L.length with h | h
  · obtain ⟨r, hr⟩ : ∃ r, L[j]? = some r := ⟨_, List.getElem?_eq_getElem hj⟩
    obtain ⟨r', hr'⟩ : ∃ r', L[j + 1]? = some r' := ⟨_, List.getElem?_eq_getElem h⟩
    rw [Nat.mod_eq_of_lt h, set_next_ptr_lt L a j h]
    rcases Nat.lt_or_ge (j + 2) L.length with h2 | h2
    · exact ⟨r, r', hr, hall j r hr, by rw [set_next_ptr_lt L a (j + 1) h2]; exact hr',
        hlink j r r' hr hr'⟩
    · have h3 : L.length - 1 = j + 1 := by omega
      rw [h3] at hrl hsl
      have e : r' = rl := by rw [hr'] at hrl; exact Option.some.inj hrl
      rw [← e] at hsl
      exact ⟨r, _, hr, hall j r hr, hsl, hlink j r r' hr hr'⟩
  · have h1 : j = L.length - 1 := by omega
    have h2 : (j + 1) % L.length = 0 := by
      rw [h1, Nat.sub_add_cancel hpos, Nat.mod_self]
    obtain ⟨r0', hr0', ha'⟩ := hfirst'
    rw [h2, h1]
    exact ⟨_, r0', hsl, hQ _ _ (hall _ rl hrl), hr0', by rw [ha']⟩

theorem rx_request_ready_next (ps : Nat) (r : cldma_request) (a : Nat)
    (h : cldma_rx_request_ready ps r) :
    cldma_rx_request_ready ps { r with gpd := { r.gpd with next_gpd_ptr := a } } := h

theorem tx_request_ready_next (r : cldma_request) (a : Nat) (h : cldma_tx_request_ready r) :
    cldma_tx_request_ready { r with gpd := { r.gpd with next_gpd_ptr := a } } := h

theorem alloc_and_map_skb_req_ok (env : cldma_env) (md : cldma_ctrl) (req : cldma_request)
    (item : cldma_request) (md' : cldma_ctrl)
    (h : t7xx_cldma_alloc_and_map_skb_req env md req = (0, item, md')) :
    item.skb ≠ none ∧ dma_mapping_error item.mapped_buff = false ∧ item.gpd = req.gpd ∧
    item.gpd_addr = req.gpd_addr := by
  unfold t7xx_cldma_alloc_and_map_skb_req at h
  simp only [] at h
  cases hs : env.dev_alloc_skb md.tick with
  | none => rw [hs] at h; simp [ENOMEM] at h
  | some skb =>
    rw [hs] at h
    simp only [] at h
    by_cases hm : dma_mapping_error (env.dma_map_single md.asked.tick) = true
    · rw [if_pos hm] at h; simp [ENOMEM] at h
    · rw [if_neg hm] at h
      simp only [Prod.mk.injEq, true_and] at h
      obtain ⟨rfl, -⟩ := h
      exact ⟨by simp, by simpa using hm, rfl, rfl⟩

theorem alloc_rx_request_some (env : cldma_env) (md : cldma_ctrl) (ps : Nat)
    (item : cldma_request) (md' : cldma_ctrl)
    (h : t7xx_alloc_rx_request env md ps = (some item, md')) :
    item.skb ≠ none ∧ dma_mapping_error item.mapped_buff = false ∧
    ∃ a, item.gpd = (cldma_zero_request a).gpd := by
  unfold t7xx_alloc_rx_request at h
  simp only [] at h
  by_cases h1 : env.kzalloc md.tick = false
  · rw [if_pos h1] at h; cases h
  · rw [if_neg h1] at h
    cases hp : env.dma_pool_zalloc md.asked.tick with
    | none => rw [hp] at h; cases h
    | some gpd_addr =>
      rw [hp] at h
      simp only [] at h
      rcases hres : t7xx_cldma_alloc_and_map_skb_req env md.asked.asked (cldma_zero_request gpd_addr)
        with ⟨val, item', md2⟩
      rw [hres] at h
      simp only [] at h
      by_cases hv : val ≠ 0
      · rw [if_pos hv] at h; cases h
      · rw [if_neg hv] at h
        simp only [Prod.mk.injEq, Option.some.injEq] at h
        obtain ⟨rfl, -⟩ := h
        have hv0 : val = 0 := by simpa using hv
        subst hv0
        obtain ⟨e1, e2, e3, -⟩ := alloc_and_map_skb_req_ok env _ _ _ _ hres
        exact ⟨e1, e2, gpd_addr, e3⟩

theorem alloc_tx_request_some (env : cldma_env) (md : cldma_ctrl)
    (item : cldma_request) (md' : cldma_ctrl)
    (h : t7xx_alloc_tx_request env md = (some item, md')) :
    ∃ a, item = cldma_zero_request a := by
  unfold t7xx_alloc_tx_request at h
  simp only [] at h
  split_ifs at h with h1
  · cases h
  · split at h
    · cases h
    · rename_i gpd_addr _
      simp only [Prod.mk.injEq, Option.some.injEq] at h
      exact ⟨gpd_addr, h.1.symm⟩

theorem rx_ring_init_loop_ret (env : cldma_env) :
    ∀ (n i : Nat) (first : Option Nat) (ring : cldma_ring) (md : cldma_ctrl) (ret : Int)
      (first' : Option Nat) (ring' : cldma_ring) (md' : cldma_ctrl),
      t7xx_cldma_rx_ring_init_loop env n i first ring md = (some ret, first', ring', md') →
      ret = -ENOMEM := by
  intro n
  induction n with
  | zero => intro i first ring md ret first' ring' md' h; simp [t7xx_cldma_rx_ring_init_loop] at h
  | succ n ih =>
    intro i first ring md ret first' ring' md' h
    unfold t7xx_cldma_rx_ring_init_loop at h
    rcases ha : t7xx_alloc_rx_request env md ring.pkt_size with ⟨oitem, md1⟩
    rw [ha] at h
    cases oitem with
    | none =>
      simp only [Prod.mk.injEq, Option.some.injEq] at h
      exact h.1.symm
    | some item => exact ih _ _ _ _ _ _ _ _ h

theorem tx_ring_init_loop_ret (env : cldma_env) :
    ∀ (n : Nat) (first : Option Nat) (ring : cldma_ring) (md : cldma_ctrl) (ret : Int)
      (first' : Option Nat) (ring' : cldma_ring) (md' : cldma_ctrl),
      t7xx_cldma_tx_ring_init_loop env n first ring md = (some ret, first', ring', md') →
      ret = -ENOMEM := by
  intro n
  induction n with
  | zero => intro first ring md ret first' ring' md' h; simp [t7xx_cldma_tx_ring_init_loop] at h
  | succ n ih =>
    intro first ring md ret first' ring' md' h
    unfold t7xx_cldma_tx_ring_init_loop at h
    rcases ha : t7xx_alloc_tx_request env md with ⟨oitem, md1⟩
    rw [ha] at h
    cases oitem with
    | none =>
      simp only [Prod.mk.injEq, Option.some.injEq] at h
      exact h.1.symm
    | some item => exact ih _ _ _ _ _ _ _ h

theorem first_of_append (L : List cldma_request) (item : cldma_request) (first : Option Nat)
    (hfirst : first = (L[0]?).map (fun r => r.gpd_addr)) :
    ((L ++ [item])[0]?).map (fun r => r.gpd_addr) =
      (if first = none then some item.gpd_addr else first) := by
  cases L with
  | nil => subst hfirst; simp
  | cons x xs => subst hfirst; simp

theorem tx_first_link (L : List cldma_request) (first : Option Nat) (a : Nat)
    (hfirst : first = (L[0]?).map (fun r => r.gpd_addr)) :
    (if first = none then L else cldma_set_next_ptr_of_last L a) =
      cldma_set_next_ptr_of_last L a := by
  subst hfirst
  cases L with
  | nil => simp [cldma_set_next_ptr_of_last]
  | cons x xs => simp

theorem rx_ring_init_loop_spec (env : cldma_env) :
    ∀ (n i : Nat) (first : Option Nat) (ring : cldma_ring) (md : cldma_ctrl)
      (first' : Option Nat) (ring' : cldma_ring) (md' : cldma_ctrl),
      ring.gpd_ring.length = i →
      (∀ (j : Nat) (r : cldma_request), ring.gpd_ring[j]? = some r →
        cldma_rx_request_ready ring.pkt_size r) →
      (∀ (j : Nat) (r r' : cldma_request), ring.gpd_ring[j]? = some r →
        ring.gpd_ring[j + 1]? = some r' → r.gpd.next_gpd_ptr = r'.gpd_addr) →
      first = (ring.gpd_ring[0]?).map (fun r => r.gpd_addr) →
      t7xx_cldma_rx_ring_init_loop env n i first ring md = (none, first', ring', md') →
      ring'.gpd_ring.length = i + n ∧
      (∀ (j : Nat) (r : cldma_request), ring'.gpd_ring[j]? = some r →
        cldma_rx_request_ready ring.pkt_size r) ∧
      (∀ (j : Nat) (r r' : cldma_request), ring'.gpd_ring[j]? = some r →
        ring'.gpd_ring[j + 1]? = some r' → r.gpd.next_gpd_ptr = r'.gpd_addr) ∧
      first' = (ring'.gpd_ring[0]?).map (fun r => r.gpd_addr) := by
  intro n
  induction n with
  | zero =>
    intro i first ring md first' ring' md' hlen hall hlink hfirst h
    simp only [t7xx_cldma_rx_ring_init_loop, Prod.mk.injEq, true_and] at h
    obtain ⟨rfl, rfl, -⟩ := h
    exact ⟨by omega, hall, hlink, hfirst⟩
  | succ n ih =>
    intro i first ring md first' ring' md' hlen hall hlink hfirst h
    unfold t7xx_cldma_rx_ring_init_loop at h
    rcases ha : t7xx_alloc_rx_request env md ring.pkt_size with ⟨oitem, md1⟩
    rw [ha] at h
    cases oitem with
    | none => simp at h
    | some item =>
      simp only [] at h
      obtain ⟨hskb, hmap, a, hgpd⟩ := alloc_rx_request_some env md ring.pkt_size item md1 ha
      -- the request as the loop body completes it
      generalize hit : ({ item with gpd := { item.gpd with
        data_buff_bd_ptr := item.mapped_buff, data_allow_len := ring.pkt_size % 65536,
        flags := { hwo := true, ioc := true } } } : cldma_request) = item1 at h
      have haddr : item1.gpd_addr = item.gpd_addr := by rw [← hit]
      have hready : cldma_rx_request_ready ring.pkt_size item1 := by
        rw [← hit]; exact ⟨hskb, hmap, rfl, rfl, rfl⟩
      have hL : (if i ≠ 0 then cldma_set_next_ptr_of_last ring.gpd_ring item.gpd_addr
          else ring.gpd_ring) = cldma_set_next_ptr_of_last ring.gpd_ring item1.gpd_addr := by
        rw [haddr]
        split_ifs with h0
        · rfl
        · have : ring.gpd_ring = [] := List.length_eq_zero.1 (by omega)
          rw [this]; rfl
      rw [hL] at h
      obtain ⟨q1, q2, q3⟩ := ring_link_append (cldma_rx_request_ready ring.pkt_size)
        (rx_request_ready_next ring.pkt_size) ring.gpd_ring item1 hall hlink hready
      have hf : (if i ≠ 0 then first else some item.gpd_addr) =
          ((cldma_set_next_ptr_of_last ring.gpd_ring item1.gpd_addr ++ [item1])[0]?).map
            (fun r => r.gpd_addr) := by
        rw [q3, first_of_append ring.gpd_ring item1 first hfirst, haddr]
        by_cases h0 : i = 0
        · have hnil : ring.gpd_ring = [] := List.length_eq_zero.1 (by omega)
          have hfn : first = none := by rw [hfirst, hnil]; simp
          simp [h0, hfn]
        · have hne : ring.gpd_ring ≠ [] := by
            intro he; rw [he] at hlen; simp at hlen; omega
          obtain ⟨x, xs, hx⟩ := List.exists_cons_of_ne_nil hne
          have hfs : first = some x.gpd_addr := by rw [hfirst, hx]; simp
          simp [h0, hfs]
      obtain ⟨r1, r2, r3, r4⟩ := ih (i + 1) _ _ md1 first' ring' md'
        (by simp [set_next_ptr_length, hlen]) q1 q2 hf h
      exact ⟨by omega, r2, r3, r4⟩

theorem tx_ring_init_loop_spec (env : cldma_env) :
    ∀ (n : Nat) (first : Option Nat) (ring : cldma_ring) (md : cldma_ctrl)
      (first' : Option Nat) (ring' : cldma_ring) (md' : cldma_ctrl),
      (∀ (j : Nat) (r : cldma_request), ring.gpd_ring[j]? = some r → cldma_tx_request_ready r) →
      (∀ (j : Nat) (r r' : cldma_request), ring.gpd_ring[j]? = some r →
        ring.gpd_ring[j + 1]? = some r' → r.gpd.next_gpd_ptr = r'.gpd_addr) →
      first = (ring.gpd_ring[0]?).map (fun r => r.gpd_addr) →
      t7xx_cldma_tx_ring_init_loop env n first ring md = (none, first', ring', md') →
      ring'.gpd_ring.length = ring.gpd_ring.length + n ∧
      (∀ (j : Nat) (r : cldma_request), ring'.gpd_ring[j]? = some r → cldma_tx_request_ready r) ∧
      (∀ (j : Nat) (r r' : cldma_request), ring'.gpd_ring[j]? = some r →
        ring'.gpd_ring[j + 1]? = some r' → r.gpd.next_gpd_ptr = r'.gpd_addr) ∧
      first' = (ring'.gpd_ring[0]?).map (fun r => r.gpd_addr) := by
  intro n
  induction n with
  | zero =>
    intro first ring md first' ring' md' hall hlink hfirst h
    simp only [t7xx_cldma_tx_ring_init_loop, Prod.mk.injEq, true_and] at h
    obtain ⟨rfl, rfl, -⟩ := h
    exact ⟨by omega, hall, hlink, hfirst⟩
  | succ n ih =>
    intro first ring md first' ring' md' hall hlink hfirst h
    unfold t7xx_cldma_tx_ring_init_loop at h
    rcases ha : t7xx_alloc_tx_request env md with ⟨oitem, md1⟩
    rw [ha] at h
    cases oitem with
    | none => simp at h
    | some item =>
      simp only [] at h
      obtain ⟨a, hz⟩ := alloc_tx_request_some env md item md1 ha
      generalize hit : ({ item with gpd := { item.gpd with
        flags := { hwo := false, ioc := true } } } : cldma_request) = item1 at h
      have haddr : item1.gpd_addr = item.gpd_addr := by rw [← hit]
      have hready : cldma_tx_request_ready item1 := by
        rw [← hit, hz]; exact ⟨rfl, rfl, rfl, rfl⟩
      have hL : (if first = none then ring.gpd_ring
          else cldma_set_next_ptr_of_last ring.gpd_ring item.gpd_addr) =
          cldma_set_next_ptr_of_last ring.gpd_ring item1.gpd_addr := by
        rw [haddr]
        exact tx_first_link ring.gpd_ring first item.gpd_addr hfirst
      rw [hL] at h
      obtain ⟨q1, q2, q3⟩ := ring_link_append cldma_tx_request_ready
        tx_request_ready_next ring.gpd_ring item1 hall hlink hready
      have hf : (if first = none then some item.gpd_addr else first) =
          ((cldma_set_next_ptr_of_last ring.gpd_ring item1.gpd_addr ++ [item1])[0]?).map
            (fun r => r.gpd_addr) := by
        rw [q3, first_of_append ring.gpd_ring item1 first hfirst, haddr]
      obtain ⟨r1, r2, r3, r4⟩ := ih _ _ md1 first' ring' md' q1 q2 hf h
      refine ⟨?_, r2, r3, r4⟩
      rw [r1]; simp [set_next_ptr_length]; omega

theorem ring_init_close (Q : cldma_request → Prop)
    (hQ : ∀ r a, Q r → Q { r with gpd := { r.gpd with next_gpd_ptr := a } })
    (N : Nat) (first : Option Nat) (ring1 ring' : cldma_ring)
    (hlen : ring1.gpd_ring.length = N)
    (hall : ∀ (j : Nat) (r : cldma_request), ring1.gpd_ring[j]? = some r → Q r)
    (hlink : ∀ (j : Nat) (r r' : cldma_request), ring1.gpd_ring[j]? = some r →
      ring1.gpd_ring[j + 1]? = some r' → r.gpd.next_gpd_ptr = r'.gpd_addr)
    (hfirst : first = (ring1.gpd_ring[0]?).map (fun r => r.gpd_addr))
    (hring : ring' = (if first = none then ring1
      else { ring1 with gpd_ring := cldma_set_next_ptr_of_last ring1.gpd_ring (first.getD 0) })) :
    ring'.gpd_ring.length = N ∧
    ∀ j, j < N → ∃ r r',
      ring'.gpd_ring[j]? = some r ∧ Q r ∧ ring'.gpd_ring[(j + 1) % N]? = some r' ∧
      r.gpd.next_gpd_ptr = r'.gpd_addr := by
  cases hf : first with
  | none =>
    rw [hf] at hfirst hring
    have hnil : ring1.gpd_ring = [] := by
      cases hr : ring1.gpd_ring with
      | nil => rfl
      | cons x xs => rw [hr] at hfirst; simp at hfirst
    have hN : N = 0 := by rw [← hlen, hnil]; rfl
    simp only [if_true] at hring
    subst hring
    exact ⟨hlen, fun j hj => by omega⟩
  | some a =>
    rw [hf] at hfirst hring
    have hpos : 0 < ring1.gpd_ring.length := by
      cases hr : ring1.gpd_ring with
      | nil => rw [hr] at hfirst; simp at hfirst
      | cons x xs => simp
    obtain ⟨h1, h2⟩ := ring_link_close Q hQ ring1.gpd_ring a hpos hall hlink hfirst.symm
    have hring' : ring'.gpd_ring = cldma_set_next_ptr_of_last ring1.gpd_ring a := by
      rw [hring]; simp
    rw [hring']
    refine ⟨by rw [h1, hlen], ?_⟩
    intro j hj
    rw [← hlen]
    exact h2 j (by omega)

/-- Claim C17. On a ring that holds no request yet and has length `N`: when
`t7xx_cldma_rx_ring_init` returns 0 the ring holds exactly `N` requests, each
with a packet buffer attached and mapped, a descriptor that points to the
mapping and carries the flags IOC and HWO; when `t7xx_cldma_tx_ring_init`
returns 0 the ring holds exactly `N` requests, each with flags IOC only, no
packet buffer and no mapping. In both rings the next pointer of each
descriptor is the bus address of the descriptor of the following request, and
that of the last descriptor the address of the first. -/
theorem cldma_ring_init_builds_linked_ring (env : cldma_env) (md : cldma_ctrl)
    (ring : cldma_ring) (hempty : ring.gpd_ring = []) :
    (∀ (ring' : cldma_ring) (md' : cldma_ctrl),
      t7xx_cldma_rx_ring_init env md ring = (0, ring', md') →
      ring'.gpd_ring.length = ring.length ∧
      ∀ j, j < ring.length → ∃ r r',
        ring'.gpd_ring[j]? = some r ∧ cldma_rx_request_ready ring.pkt_size r ∧
        ring'.gpd_ring[(j + 1) % ring.length]? = some r' ∧
        r.gpd.next_gpd_ptr = r'.gpd_addr) ∧
    (∀ (ring' : cldma_ring) (md' : cldma_ctrl),
      t7xx_cldma_tx_ring_init env md ring = (0, ring', md') →
      ring'.gpd_ring.length = ring.length ∧
      ∀ j, j < ring.length → ∃ r r',
        ring'.gpd_ring[j]? = some r ∧ cldma_tx_request_ready r ∧
        ring'.gpd_ring[(j + 1) % ring.length]? = some r' ∧
        r.gpd.next_gpd_ptr = r'.gpd_addr) := by
  have hall0 : ∀ (Q : cldma_request → Prop) (j : Nat) (r : cldma_request),
      ring.gpd_ring[j]? = some r → Q r := by
    intro Q j r h; rw [hempty] at h; simp at h
  have hlink0 : ∀ (j : Nat) (r r' : cldma_request), ring.gpd_ring[j]? = some r →
      ring.gpd_ring[j + 1]? = some r' → r.gpd.next_gpd_ptr = r'.gpd_addr := by
    intro j r r' h; rw [hempty] at h; simp at h
  have hfirst0 : (none : Option Nat) = (ring.gpd_ring[0]?).map (fun r => r.gpd_addr) := by
    rw [hempty]; rfl
  constructor
  · intro ring' md' h
    unfold t7xx_cldma_rx_ring_init at h
    rcases hl : t7xx_cldma_rx_ring_init_loop env ring.length 0 none ring md with
      ⟨oret, first', ring1, md1⟩
    rw [hl] at h
    cases oret with
    | some ret =>
      have hret := rx_ring_init_loop_ret env _ _ _ _ _ _ _ _ _ hl
      simp only [Prod.mk.injEq] at h
      rw [hret] at h
      simp [ENOMEM] at h
    | none =>
      obtain ⟨s1, s2, s3, s4⟩ := rx_ring_init_loop_spec env ring.length 0 none ring md first'
        ring1 md1 (by rw [hempty]; rfl) (hall0 _) hlink0 hfirst0 hl
      apply ring_init_close (cldma_rx_request_ready ring.pkt_size)
        (rx_request_ready_next ring.pkt_size) ring.length first' ring1 ring' (by omega) s2 s3 s4
      cases first' with
      | none => simp only [Prod.mk.injEq] at h; simp [h.2.1]
      | some a => simp only [Prod.mk.injEq] at h; simp [← h.2.1]
  · intro ring' md' h
    unfold t7xx_cldma_tx_ring_init at h
    rcases hl : t7xx_cldma_tx_ring_init_loop env ring.length none ring md with
      ⟨oret, first', ring1, md1⟩
    rw [hl] at h
    cases oret with
    | some ret =>
      have hret := tx_ring_init_loop_ret env _ _ _ _ _ _ _ _ hl
      simp only [Prod.mk.injEq] at h
      rw [hret] at h
      simp [ENOMEM] at h
    | none =>
      obtain ⟨s1, s2, s3, s4⟩ := tx_ring_init_loop_spec env ring.length none ring md first'
        ring1 md1 (hall0 _) hlink0 hfirst0 hl
      apply ring_init_close cldma_tx_request_ready tx_request_ready_next ring.length first' ring1
        ring' (by rw [s1, hempty]; simp) s2 s3 s4
      cases first' with
      | none => simp only [Prod.mk.injEq] at h; simp [h.2.1]
      | some a => simp only [Prod.mk.injEq] at h; simp [← h.2.1]

theorem cldma_ring_init_builds_linked_ring_witness :
    (t7xx_cldma_rx_ring_init cldma_env_ok cldma_fresh_ctrl
        (cldma_empty_ring MAX_RX_BUDGET 3584)).1 = 0 ∧
    (t7xx_cldma_rx_ring_init cldma_env_ok cldma_fresh_ctrl
        (cldma_empty_ring MAX_RX_BUDGET 3584)).2.1.gpd_ring.length = MAX_RX_BUDGET ∧
    (t7xx_cldma_tx_ring_init cldma_env_ok cldma_fresh_ctrl
        (cldma_empty_ring MAX_TX_BUDGET 0)).1 = 0 ∧
    (t7xx_cldma_tx_ring_init cldma_env_ok cldma_fresh_ctrl
        (cldma_empty_ring MAX_TX_BUDGET 0)).2.1.gpd_ring.length = MAX_TX_BUDGET :=
  ⟨rfl,
   ((cldma_ring_init_builds_linked_ring cldma_env_ok cldma_fresh_ctrl
      (cldma_empty_ring MAX_RX_BUDGET 3584) rfl).1 _ _ rfl).1,
   rfl,
   ((cldma_ring_init_builds_linked_ring cldma_env_ok cldma_fresh_ctrl
      (cldma_empty_ring MAX_TX_BUDGET 0) rfl).2 _ _ rfl).1⟩

theorem atomic_wrap_id (x : Int) (h0 : -2 ^ 31 ≤ x) (h1 : x < 2 ^ 31) : atomic_wrap x = x := by
  unfold atomic_wrap
  rw [Int.emod_eq_of_lt (by omega) (by omega)]
  omega

theorem or_mask_and_mask (v d : Nat) : (v ||| d) &&& d = d := by
  apply Nat.eq_of_testBit_eq
  intro i
  simp only [Nat.testBit_and, Nat.testBit_or]
  cases Nat.testBit v i <;> cases Nat.testBit d i <;> rfl

theorem and_not_mask_and_mask (v d : Nat) (hd : d < 2 ^ 32) :
    (v &&& (0xFFFFFFFF ^^^ d)) &&& d = 0 := by
  apply Nat.eq_of_testBit_eq
  intro i
  have hM : (0xFFFFFFFF : Nat) = 2 ^ 32 - 1 := by norm_num
  simp only [Nat.testBit_and, Nat.testBit_xor, Nat.zero_testBit, hM, Nat.testBit_two_pow_sub_one]
  by_cases hi : i < 32
  · simp [hi]
  · have : Nat.testBit d i = false := by
      apply Nat.testBit_lt_two_pow
      calc d < 2 ^ 32 := hd
        _ ≤ 2 ^ i := Nat.pow_le_pow_right (by norm_num) (by omega)
    simp [this]

theorem pci_disable_sleep_resumed (env : pci_env) (dev : t7xx_pci_dev)
    (hpm : dev.md_pm_state = t7xx_pm_state.MTK_PM_RESUMED)
    (hlo : -2 ^ 31 < dev.sleep_disable_count) (hhi : dev.sleep_disable_count < 2 ^ 31 - 1) :
    t7xx_pci_disable_sleep env dev =
      if dev.sleep_disable_count = 0 then
        { dev with
          sleep_disable_count := 1,
          misc_ctrl := dev.misc_ctrl % 2 ^ 32 ||| env.PCIE_MISC_MAC_SLEEP_DIS % 2 ^ 32,
          tick := dev.tick + 1,
          log := dev.log ++
            [pci_event.reinit_completion_sleep_lock_acquire,
             pci_event.iowrite32_misc_ctrl
               (dev.misc_ctrl % 2 ^ 32 ||| env.PCIE_MISC_MAC_SLEEP_DIS % 2 ^ 32),
             if env.resource_status dev.tick % 2 ^ 32 &&& env.PCIE_RESOURCE_STATUS_MSK % 2 ^ 32 ≠ 0
             then pci_event.complete_all_sleep_lock_acquire
             else pci_event.h2d_swint_trigger h2d_channel.H2D_CH_DS_LOCK] }
      else { dev with sleep_disable_count := dev.sleep_disable_count + 1 } := by
  have hpmv : ¬ dev.md_pm_state.val < t7xx_pm_state.MTK_PM_RESUMED.val := by
    rw [hpm]; exact lt_irrefl _
  have hinc : atomic_wrap (dev.sleep_disable_count + 1) = dev.sleep_disable_count + 1 :=
    atomic_wrap_id _ (by omega) (by omega)
  unfold t7xx_pci_disable_sleep
  rw [if_neg hpmv]
  simp only [hinc]
  by_cases h0 : dev.sleep_disable_count = 0
  · have h1 : dev.sleep_disable_count + 1 = 1 := by omega
    rw [if_pos h0, if_pos h1]
    unfold t7xx_dev_set_sleep_capability
    simp only [t7xx_pci_dev.emit, Bool.false_eq_true, if_false, h1, List.append_assoc,
      List.singleton_append]
    split_ifs <;> rfl
  · have h1 : ¬ dev.sleep_disable_count + 1 = 1 := by omega
    rw [if_neg h0, if_neg h1]

theorem pci_enable_sleep_resumed (env : pci_env) (dev : t7xx_pci_dev)
    (hpm : dev.md_pm_state = t7xx_pm_state.MTK_PM_RESUMED)
    (hlo : -2 ^ 31 < dev.sleep_disable_count) (hhi : dev.sleep_disable_count < 2 ^ 31 - 1) :
    t7xx_pci_enable_sleep env dev =
      if dev.sleep_disable_count = 1 then
        { dev with
          sleep_disable_count := 0,
          misc_ctrl :=
            dev.misc_ctrl % 2 ^ 32 &&& (0xFFFFFFFF ^^^ env.PCIE_MISC_MAC_SLEEP_DIS % 2 ^ 32),
          log := dev.log ++
            [pci_event.iowrite32_misc_ctrl
              (dev.misc_ctrl % 2 ^ 32 &&&
                (0xFFFFFFFF ^^^ env.PCIE_MISC_MAC_SLEEP_DIS % 2 ^ 32))] }
      else { dev with sleep_disable_count := dev.sleep_disable_count - 1 } := by
  have hpmv : ¬ dev.md_pm_state.val < t7xx_pm_state.MTK_PM_RESUMED.val := by
    rw [hpm]; exact lt_irrefl _
  have hdec : atomic_wrap (dev.sleep_disable_count - 1) = dev.sleep_disable_count - 1 :=
    atomic_wrap_id _ (by omega) (by omega)
  unfold t7xx_pci_enable_sleep
  rw [if_neg hpmv]
  simp only [hdec]
  by_cases h1 : dev.sleep_disable_count = 1
  · have h0 : dev.sleep_disable_count - 1 = 0 := by omega
    rw [if_pos h1, if_pos h0]
    unfold t7xx_dev_set_sleep_capability
    simp only [t7xx_pci_dev.emit, if_true, h0]
  · have h0 : ¬ dev.sleep_disable_count - 1 = 0 := by omega
    rw [if_neg h1, if_neg h0]

/-- Claim C13, as the code has it. With the PM state at RESUMED and a count
that does not leave the range of the counter: `t7xx_pci_disable_sleep` adds
one to `sleep_disable_count`; when the count goes from 0 to 1 it sets the bit
`PCIE_MISC_MAC_SLEEP_DIS` of the register and then reads the resource status:
the deep-sleep-lock request `H2D_CH_DS_LOCK` is raised when the masked status
is 0, and otherwise the waiters are released at once and no request is sent;
on every other transition the register and the log of calls are untouched.
`t7xx_pci_enable_sleep` takes one from the count; when the count goes from 1
to 0 it clears the bit again, sends nothing else, and on every other
transition the register and the log of calls are untouched. -/
theorem pci_sleep_lock_acts_on_first_and_last_reference (env : pci_env) (dev : t7xx_pci_dev)
    (hpm : dev.md_pm_state = t7xx_pm_state.MTK_PM_RESUMED)
    (hmask : env.PCIE_MISC_MAC_SLEEP_DIS < 2 ^ 32)
    (hlo : -2 ^ 31 < dev.sleep_disable_count) (hhi : dev.sleep_disable_count < 2 ^ 31 - 1) :
    (t7xx_pci_disable_sleep env dev).sleep_disable_count = dev.sleep_disable_count + 1 ∧
    (dev.sleep_disable_count = 0 →
      (t7xx_pci_disable_sleep env dev).misc_ctrl =
        dev.misc_ctrl % 2 ^ 32 ||| env.PCIE_MISC_MAC_SLEEP_DIS ∧
      (t7xx_pci_disable_sleep env dev).misc_ctrl &&& env.PCIE_MISC_MAC_SLEEP_DIS =
        env.PCIE_MISC_MAC_SLEEP_DIS ∧
      (t7xx_pci_disable_sleep env dev).log = dev.log ++
        [pci_event.reinit_completion_sleep_lock_acquire,
         pci_event.iowrite32_misc_ctrl (dev.misc_ctrl % 2 ^ 32 ||| env.PCIE_MISC_MAC_SLEEP_DIS),
         if env.resource_status dev.tick % 2 ^ 32 &&& env.PCIE_RESOURCE_STATUS_MSK % 2 ^ 32 ≠ 0
         then pci_event.complete_all_sleep_lock_acquire
         else pci_event.h2d_swint_trigger h2d_channel.H2D_CH_DS_LOCK]) ∧
    (dev.sleep_disable_count ≠ 0 →
      (t7xx_pci_disable_sleep env dev).misc_ctrl = dev.misc_ctrl ∧
      (t7xx_pci_disable_sleep env dev).log = dev.log) ∧
    (t7xx_pci_enable_sleep env dev).sleep_disable_count = dev.sleep_disable_count - 1 ∧
    (dev.sleep_disable_count = 1 →
      (t7xx_pci_enable_sleep env dev).misc_ctrl =
        dev.misc_ctrl % 2 ^ 32 &&& (0xFFFFFFFF ^^^ env.PCIE_MISC_MAC_SLEEP_DIS) ∧
      (t7xx_pci_enable_sleep env dev).misc_ctrl &&& env.PCIE_MISC_MAC_SLEEP_DIS = 0 ∧
      (t7xx_pci_enable_sleep env dev).log = dev.log ++
        [pci_event.iowrite32_misc_ctrl
          (dev.misc_ctrl % 2 ^ 32 &&& (0xFFFFFFFF ^^^ env.PCIE_MISC_MAC_SLEEP_DIS))]) ∧
    (dev.sleep_disable_count ≠ 1 →
      (t7xx_pci_enable_sleep env dev).misc_ctrl = dev.misc_ctrl ∧
      (t7xx_pci_enable_sleep env dev).log = dev.log) := by
  have hmod : env.PCIE_MISC_MAC_SLEEP_DIS % 2 ^ 32 = env.PCIE_MISC_MAC_SLEEP_DIS :=
    Nat.mod_eq_of_lt hmask
  rw [pci_disable_sleep_resumed env dev hpm hlo hhi, pci_enable_sleep_resumed env dev hpm hlo hhi,
    hmod]
  refine ⟨?_, ?_, ?_, ?_, ?_, ?_⟩
  · by_cases h0 : dev.sleep_disable_count = 0
    · rw [if_pos h0]
      show (1 : Int) = _
      omega
    · rw [if_neg h0]
  · intro h0
    rw [if_pos h0]
    exact ⟨rfl, or_mask_and_mask _ _, rfl⟩
  · intro h0
    rw [if_neg h0]
    exact ⟨rfl, rfl⟩
  · by_cases h1 : dev.sleep_disable_count = 1
    · rw [if_pos h1]
      show (0 : Int) = _
      omega
    · rw [if_neg h1]
  · intro h1
    rw [if_pos h1]
    exact ⟨rfl, and_not_mask_and_mask _ _ hmask, rfl⟩
  · intro h1
    rw [if_neg h1]
    exact ⟨rfl, rfl⟩

theorem pci_sleep_lock_acts_on_first_and_last_reference_witness :
    (t7xx_pci_disable_sleep (pci_env_status 0) t7xx_pci_dev_resumed).sleep_disable_count = 1 ∧
    (t7xx_pci_disable_sleep (pci_env_status 0) t7xx_pci_dev_resumed).misc_ctrl = 0x80 ∧
    (t7xx_pci_disable_sleep (pci_env_status 0) t7xx_pci_dev_resumed).log =
      [pci_event.reinit_completion_sleep_lock_acquire, pci_event.iowrite32_misc_ctrl 0x80,
       pci_event.h2d_swint_trigger h2d_channel.H2D_CH_DS_LOCK] :=
  have h := pci_sleep_lock_acts_on_first_and_last_reference (pci_env_status 0)
    t7xx_pci_dev_resumed rfl (by decide) (by decide) (by decide)
  ⟨h.1, (h.2.1 rfl).1, (h.2.1 rfl).2.2⟩

/-- Claim C13, counterexample. The count goes from 0 to 1 in the RESUMED state
while the register `PCIE_RESOURCE_STATUS` reads with all bits of the mask set.
`t7xx_pci_disable_sleep` sets the sleep-disable bit and then completes
`sleep_lock_acquire` at once; the request `H2D_CH_DS_LOCK` is not raised. -/
theorem pci_disable_sleep_skips_lock_request_when_resource_is_held :
    t7xx_pci_dev_resumed.sleep_disable_count = 0 ∧
    (t7xx_pci_disable_sleep (pci_env_status 0x1f) t7xx_pci_dev_resumed).sleep_disable_count = 1 ∧
    (t7xx_pci_disable_sleep (pci_env_status 0x1f) t7xx_pci_dev_resumed).log =
      [pci_event.reinit_completion_sleep_lock_acquire, pci_event.iowrite32_misc_ctrl 0x80,
       pci_event.complete_all_sleep_lock_acquire] ∧
    pci_event.h2d_swint_trigger h2d_channel.H2D_CH_DS_LOCK ∉
      (t7xx_pci_disable_sleep (pci_env_status 0x1f) t7xx_pci_dev_resumed).log := by
  decide

theorem pci_disable_sleep_count (env : pci_env) (dev : t7xx_pci_dev) :
    (t7xx_pci_disable_sleep env dev).sleep_disable_count =
      atomic_wrap (dev.sleep_disable_count + 1) := by
  unfold t7xx_pci_disable_sleep t7xx_dev_set_sleep_capability
  simp only [t7xx_pci_dev.emit]
  split_ifs <;> rfl

theorem pci_enable_sleep_count (env : pci_env) (dev : t7xx_pci_dev) :
    (t7xx_pci_enable_sleep env dev).sleep_disable_count =
      atomic_wrap (dev.sleep_disable_count - 1) := by
  unfold t7xx_pci_enable_sleep t7xx_dev_set_sleep_capability
  simp only [t7xx_pci_dev.emit]
  split_ifs <;> rfl

theorem pci_sleep_calls_count (env : pci_env) :
    ∀ (calls : List pci_sleep_call) (dev : t7xx_pci_dev),
      -2 ^ 31 ≤ dev.sleep_disable_count - (calls.length : Int) →
      dev.sleep_disable_count + (calls.length : Int) < 2 ^ 31 →
      (t7xx_pci_sleep_calls env calls dev).sleep_disable_count =
        dev.sleep_disable_count + (pci_disable_calls calls : Int) - (pci_enable_calls calls : Int) := by
  intro calls
  induction calls with
  | nil => intro dev _ _; simp [t7xx_pci_sleep_calls, pci_disable_calls, pci_enable_calls]
  | cons c rest ih =>
    intro dev hlo hhi
    simp only [List.length_cons, Nat.cast_add, Nat.cast_one] at hlo hhi
    cases c with
    | disable_sleep pm =>
      have hc := pci_disable_sleep_count env { dev with md_pm_state := pm }
      have hw : atomic_wrap (dev.sleep_disable_count + 1) = dev.sleep_disable_count + 1 :=
        atomic_wrap_id _ (by omega) (by omega)
      rw [show ({ dev with md_pm_state := pm } : t7xx_pci_dev).sleep_disable_count =
        dev.sleep_disable_count from rfl, hw] at hc
      unfold t7xx_pci_sleep_calls
      rw [ih _ (by rw [hc]; omega) (by rw [hc]; omega), hc]
      simp only [pci_disable_calls, pci_enable_calls, List.filter_cons, List.length_cons]
      simp
      ring
    | enable_sleep pm =>
      have hc := pci_enable_sleep_count env { dev with md_pm_state := pm }
      have hw : atomic_wrap (dev.sleep_disable_count - 1) = dev.sleep_disable_count - 1 :=
        atomic_wrap_id _ (by omega) (by omega)
      rw [show ({ dev with md_pm_state := pm } : t7xx_pci_dev).sleep_disable_count =
        dev.sleep_disable_count from rfl, hw] at hc
      unfold t7xx_pci_sleep_calls
      rw [ih _ (by rw [hc]; omega) (by rw [hc]; omega), hc]
      simp only [pci_disable_calls, pci_enable_calls, List.filter_cons, List.length_cons]
      simp
      ring

/-- Claim C14, as the code has it. The reference count is a plain signed
counter without saturation: for every sequence of fewer than 2^31 calls of
`t7xx_pci_disable_sleep` and `t7xx_pci_enable_sleep` that starts from count
0, in whatever PM state each call is made, `sleep_disable_count` ends as the
number of `disable_sleep` calls minus the number of `enable_sleep` calls. It
is therefore negative exactly when more calls enabled than disabled, and
`t7xx_pci_enable_sleep` called at count 0 leaves the count at -1. -/
theorem pci_sleep_count_is_disables_minus_enables (env : pci_env) (dev : t7xx_pci_dev)
    (calls : List pci_sleep_call)
    (hzero : dev.sleep_disable_count = 0) (hlen : calls.length < 2 ^ 31) :
    (t7xx_pci_sleep_calls env calls dev).sleep_disable_count =
      (pci_disable_calls calls : Int) - (pci_enable_calls calls : Int) ∧
    ((t7xx_pci_sleep_calls env calls dev).sleep_disable_count < 0 ↔
      pci_disable_calls calls < pci_enable_calls calls) := by
  have h := pci_sleep_calls_count env calls dev (by rw [hzero]; omega) (by rw [hzero]; omega)
  rw [hzero, zero_add] at h
  refine ⟨h, ?_⟩
  rw [h]
  omega

theorem pci_sleep_count_is_disables_minus_enables_witness :
    (t7xx_pci_sleep_calls (pci_env_status 0)
      [pci_sleep_call.disable_sleep t7xx_pm_state.MTK_PM_RESUMED,
       pci_sleep_call.enable_sleep t7xx_pm_state.MTK_PM_RESUMED,
       pci_sleep_call.enable_sleep t7xx_pm_state.MTK_PM_INIT]
      t7xx_pci_dev_resumed).sleep_disable_count = -1 :=
  (pci_sleep_count_is_disables_minus_enables (pci_env_status 0) t7xx_pci_dev_resumed
    [pci_sleep_call.disable_sleep t7xx_pm_state.MTK_PM_RESUMED,
     pci_sleep_call.enable_sleep t7xx_pm_state.MTK_PM_RESUMED,
     pci_sleep_call.enable_sleep t7xx_pm_state.MTK_PM_INIT] rfl (by decide)).1

/-- Claim C14, counterexample. `t7xx_pci_enable_sleep` is called while
`sleep_disable_count` is 0. In each of the four PM states the count becomes
-1; it does not stay at 0. -/
theorem pci_enable_sleep_at_zero_goes_negative :
    t7xx_pci_dev_resumed.sleep_disable_count = 0 ∧
    (t7xx_pci_enable_sleep (pci_env_status 0)
      { t7xx_pci_dev_resumed with md_pm_state := t7xx_pm_state.MTK_PM_EXCEPTION }).sleep_disable_count
        = -1 ∧
    (t7xx_pci_enable_sleep (pci_env_status 0)
      { t7xx_pci_dev_resumed with md_pm_state := t7xx_pm_state.MTK_PM_INIT }).sleep_disable_count
        = -1 ∧
    (t7xx_pci_enable_sleep (pci_env_status 0)
      { t7xx_pci_dev_resumed with md_pm_state := t7xx_pm_state.MTK_PM_SUSPENDED }).sleep_disable_count
        = -1 ∧
    (t7xx_pci_enable_sleep (pci_env_status 0)
      { t7xx_pci_dev_resumed with md_pm_state := t7xx_pm_state.MTK_PM_RESUMED }).sleep_disable_count
        = -1 := by
  decide

theorem clear_bits32_and_self (x e : Nat) (he : e < 2 ^ 32) : clear_bits32 x e &&& e = 0 := by
  unfold clear_bits32
  rw [Nat.mod_eq_of_lt he]
  exact and_not_mask_and_mask x e he

theorem clear_bits32_and_other (x p e : Nat) (hp : p < 2 ^ 32) (he : e < 2 ^ 32)
    (hdisj : p &&& e = 0) : clear_bits32 x p &&& e = x &&& e := by
  unfold clear_bits32
  rw [Nat.mod_eq_of_lt hp]
  apply Nat.eq_of_testBit_eq
  intro i
  have hM : (0xFFFFFFFF : Nat) = 2 ^ 32 - 1 := by norm_num
  have hpe : (Nat.testBit p i && Nat.testBit e i) = false := by
    rw [← Nat.testBit_and, hdisj, Nat.zero_testBit]
  simp only [Nat.testBit_and, Nat.testBit_xor, hM, Nat.testBit_two_pow_sub_one]
  by_cases hi : i < 32
  · cases hx : Nat.testBit x i <;> cases hpb : Nat.testBit p i <;> cases heb : Nat.testBit e i <;>
      simp_all
  · have : Nat.testBit e i = false := by
      apply Nat.testBit_lt_two_pow
      calc e < 2 ^ 32 := he
        _ ≤ 2 ^ i := Nat.pow_le_pow_right (by norm_num) (by omega)
    simp [this]

theorem isr_port_enum_spec (env : md_core_env) (ctl : t7xx_fsm_ctl) (md : t7xx_modem_core)
    (hP : env.D2H_INT_PORT_ENUM < 2 ^ 32) (hE : env.D2H_INT_EXCEPTION_INIT < 2 ^ 32)
    (hdisj : env.D2H_INT_PORT_ENUM &&& env.D2H_INT_EXCEPTION_INIT = 0) :
    (t7xx_pci_mhccif_isr_port_enum env ctl md).exp_id &&& env.D2H_INT_EXCEPTION_INIT =
      md.exp_id &&& env.D2H_INT_EXCEPTION_INIT ∧
    ((t7xx_pci_mhccif_isr_port_enum env ctl md).log = md.log ∨
      (t7xx_pci_mhccif_isr_port_enum env ctl md).log =
        md.log ++ [md_core_event.fsm_recv_md_intr t7xx_md_irq_type.MD_IRQ_PORT_ENUM]) := by
  unfold t7xx_pci_mhccif_isr_port_enum
  by_cases h1 : md.exp_id &&& env.D2H_INT_PORT_ENUM % 2 ^ 32 ≠ 0
  · rw [if_pos h1]
    simp only []
    by_cases h2 : ctl.curr_state = t7xx_fsm_state.FSM_STATE_INIT ∨
        ctl.curr_state = t7xx_fsm_state.FSM_STATE_PRE_START ∨
        ctl.curr_state = t7xx_fsm_state.FSM_STATE_STOPPED
    · rw [if_pos h2]
      exact ⟨clear_bits32_and_other _ _ _ hP hE hdisj, Or.inr rfl⟩
    · rw [if_neg h2]
      exact ⟨clear_bits32_and_other _ _ _ hP hE hdisj, Or.inl rfl⟩
  · rw [if_neg h1]
    exact ⟨rfl, Or.inl rfl⟩

/-- Claim C12, as the code has it. When `t7xx_pci_mhccif_isr` finds the bit
`D2H_INT_EXCEPTION_INIT` set in `md->exp_id` after it has added the interrupt
status (the mask being a 32-bit value that shares no bit with
`D2H_INT_PORT_ENUM`), it returns 0 and: in the modem states invalid,
waiting-for-handshake-1, waiting-for-handshake-2 and ready it hands
`MD_IRQ_CCIF_EX` to the state machine as its last call and clears the bit in
`md->exp_id`; in every other modem state (gated, exception, reset,
waiting-to-stop, stopped) it hands no `MD_IRQ_CCIF_EX` to the state machine
and the bit stays set in `md->exp_id`. The only other call it may make is the
one for the port-enumeration interrupt. -/
theorem mhccif_isr_forwards_exception_in_four_states (env : md_core_env) (md : t7xx_modem_core)
    (ctl : t7xx_fsm_ctl) (hctl : md.fsm_ctl = some ctl)
    (hP : env.D2H_INT_PORT_ENUM < 2 ^ 32) (hE : env.D2H_INT_EXCEPTION_INIT < 2 ^ 32)
    (hdisj : env.D2H_INT_PORT_ENUM &&& env.D2H_INT_EXCEPTION_INIT = 0)
    (hobs : (md.exp_id ||| t7xx_get_interrupt_status env md) &&& env.D2H_INT_EXCEPTION_INIT ≠ 0) :
    (t7xx_pci_mhccif_isr env md).1 = 0 ∧
    ∃ evs : List md_core_event,
      (evs = [] ∨ evs = [md_core_event.fsm_recv_md_intr t7xx_md_irq_type.MD_IRQ_PORT_ENUM]) ∧
      ((ctl.md_state = md_state.MD_STATE_INVALID ∨
          ctl.md_state = md_state.MD_STATE_WAITING_FOR_HS1 ∨
          ctl.md_state = md_state.MD_STATE_WAITING_FOR_HS2 ∨
          ctl.md_state = md_state.MD_STATE_READY) →
        (t7xx_pci_mhccif_isr env md).2.log =
          md.log ++ evs ++ [md_core_event.fsm_recv_md_intr t7xx_md_irq_type.MD_IRQ_CCIF_EX] ∧
        (t7xx_pci_mhccif_isr env md).2.exp_id &&& env.D2H_INT_EXCEPTION_INIT = 0) ∧
      (¬(ctl.md_state = md_state.MD_STATE_INVALID ∨
          ctl.md_state = md_state.MD_STATE_WAITING_FOR_HS1 ∨
          ctl.md_state = md_state.MD_STATE_WAITING_FOR_HS2 ∨
          ctl.md_state = md_state.MD_STATE_READY) →
        (t7xx_pci_mhccif_isr env md).2.log = md.log ++ evs ∧
        (t7xx_pci_mhccif_isr env md).2.exp_id &&& env.D2H_INT_EXCEPTION_INIT =
          (md.exp_id ||| t7xx_get_interrupt_status env md) &&& env.D2H_INT_EXCEPTION_INIT) := by
  have hEm : env.D2H_INT_EXCEPTION_INIT % 2 ^ 32 = env.D2H_INT_EXCEPTION_INIT :=
    Nat.mod_eq_of_lt hE
  obtain ⟨hbit, hlog⟩ := isr_port_enum_spec env ctl
    { md.asked with exp_id := md.asked.exp_id ||| t7xx_get_interrupt_status env md } hP hE hdisj
  generalize hpd : t7xx_pci_mhccif_isr_port_enum env ctl
    { md.asked with exp_id := md.asked.exp_id ||| t7xx_get_interrupt_status env md } = pd
    at hbit hlog
  have hisr : t7xx_pci_mhccif_isr env md = (0, t7xx_pci_mhccif_isr_exception env ctl pd) := by
    unfold t7xx_pci_mhccif_isr
    rw [hctl]
    simp only []
    rw [hpd]
  have hset : pd.exp_id &&& env.D2H_INT_EXCEPTION_INIT % 2 ^ 32 ≠ 0 := by
    rw [hEm, hbit]; exact hobs
  rw [hisr]
  refine ⟨rfl, ?_⟩
  have hex : ∃ evs : List md_core_event,
      (evs = [] ∨ evs = [md_core_event.fsm_recv_md_intr t7xx_md_irq_type.MD_IRQ_PORT_ENUM]) ∧
      pd.log = md.log ++ evs := by
    rcases hlog with h | h
    · exact ⟨[], Or.inl rfl, by rw [h]; simp [t7xx_modem_core.asked]⟩
    · exact ⟨_, Or.inr rfl, by rw [h]; simp [t7xx_modem_core.asked]⟩
  obtain ⟨evs, hevs, hpdlog⟩ := hex
  refine ⟨evs, hevs, ?_, ?_⟩
  · intro hst
    unfold t7xx_pci_mhccif_isr_exception
    rw [if_pos hset, if_pos hst]
    refine ⟨?_, ?_⟩
    · show pd.log ++ _ = _
      rw [hpdlog]
    · exact clear_bits32_and_self _ _ hE
  · intro hst
    unfold t7xx_pci_mhccif_isr_exception
    rw [if_pos hset, if_neg hst]
    exact ⟨hpdlog, hbit⟩

theorem mhccif_isr_forwards_exception_in_four_states_witness :
    (t7xx_pci_mhccif_isr (md_core_env_of 2 []) (t7xx_modem_core_in md_state.MD_STATE_READY)).1 = 0 :=
  (mhccif_isr_forwards_exception_in_four_states (md_core_env_of 2 [])
    (t7xx_modem_core_in md_state.MD_STATE_READY)
    { curr_state := t7xx_fsm_state.FSM_STATE_OTHER, md_state := md_state.MD_STATE_READY,
      exp_flg := false, event_queue := [] }
    rfl (by decide) (by decide) (by decide) (by decide)).1

/-- Claim C12, counterexample. The modem is in the gated state and the status
register shows the exception-init interrupt. `t7xx_pci_mhccif_isr` returns 0,
makes no call to the state machine, and the bit is still set in `md->exp_id`
afterwards. -/
theorem mhccif_isr_keeps_exception_bit_when_gated :
    (t7xx_pci_mhccif_isr (md_core_env_of 2 []) (t7xx_modem_core_in md_state.MD_STATE_GATED)).1 = 0 ∧
    (t7xx_pci_mhccif_isr (md_core_env_of 2 []) (t7xx_modem_core_in md_state.MD_STATE_GATED)).2.log
      = [] ∧
    (t7xx_pci_mhccif_isr (md_core_env_of 2 []) (t7xx_modem_core_in md_state.MD_STATE_GATED)).2.exp_id
      &&& (md_core_env_of 2 []).D2H_INT_EXCEPTION_INIT = 2 := by
  decide

/-- Claim C11. The claim fails on the code: the HS2 event carries a feature
query whose head pattern is 0 and not "ICCC", followed by a runtime-feature
entry for feature 0, which the host must have supported.
`t7xx_core_hk_handler` first runs `t7xx_parse_host_rt_data`, which reads the
entry at offset 72 and calls `t7xx_port_proxy_node_control` on the port
message at offset 80; only then does `t7xx_prepare_device_rt_data` compare the
patterns, report the invalid pattern and return `-EINVAL`. No HS3 message is
sent and the core is not marked ready, but the entry has been interpreted and
acted on before the payload was rejected. -/
theorem core_hk_handler_acts_on_entry_before_pattern_check :
    ∃ md' : t7xx_modem_core,
      t7xx_core_hk_handler 2 (md_core_env_of 0 [hs2_event 0])
        (t7xx_modem_core_in md_state.MD_STATE_WAITING_FOR_HS2)
        t7xx_fsm_event_state.FSM_EVENT_MD_HS2 t7xx_fsm_event_state.FSM_EVENT_MD_HS2_EXIT = some md' ∧
      le32_at (hs2_event 0).data 0 = 0 ∧
      md'.log.drop 1 =
        [md_core_event.rt_feature_read 0 72,
         md_core_event.port_proxy_node_control 80,
         md_core_event.dev_err_invalid_feature_pattern 0 MD_FEATURE_QUERY_ID,
         md_core_event.dev_err_device_parse_failed (-EINVAL),
         md_core_event.kfree_event] ∧
      md'.core_md.ready = false :=
  ⟨_, rfl, by decide, by decide, by decide⟩

theorem queues_active_tick (env : cldma_env) (md md1 : cldma_ctrl) (h : md.tick = md1.tick) :
    (t7xx_cldma_queues_active env md).1 = (t7xx_cldma_queues_active env md1).1 := by
  unfold t7xx_cldma_queues_active
  simp only [cldma_ctrl.asked, h]
  split_ifs <;> rfl

theorem stop_poll_tick (env : cldma_env) (n : Nat) :
    ∀ (md md1 : cldma_ctrl), md.tick = md1.tick →
      (t7xx_cldma_stop_poll env n md).1 = (t7xx_cldma_stop_poll env n md1).1 ∧
      (t7xx_cldma_stop_poll env n md).2.log = md.log := by
  induction n with
  | zero =>
    intro md md1 h
    unfold t7xx_cldma_stop_poll
    simp only []
    rw [queues_active_tick env md md1 h, queues_active_frame, queues_active_frame]
    have h2 : md.asked.asked.tick = md1.asked.asked.tick := by simp [cldma_ctrl.asked, h]
    split_ifs
    · exact ⟨rfl, rfl⟩
    · rw [queues_active_frame]
      exact ⟨queues_active_tick env _ _ h2, rfl⟩
  | succ n ih =>
    intro md md1 h
    unfold t7xx_cldma_stop_poll
    simp only []
    rw [queues_active_tick env md md1 h, queues_active_frame, queues_active_frame]
    have h2 : md.asked.asked.tick = md1.asked.asked.tick := by simp [cldma_ctrl.asked, h]
    have h3 : md.asked.asked.asked.tick = md1.asked.asked.asked.tick := by
      simp [cldma_ctrl.asked, h]
    rw [h2]
    split_ifs
    · exact ⟨rfl, rfl⟩
    · rw [queues_active_frame]
      exact ⟨queues_active_tick env _ _ h3, rfl⟩
    · exact ih _ _ h3

theorem stop_quiesce_early (env : cldma_env) (md : cldma_ctrl) (h : md.is_late_init = false) :
    (t7xx_cldma_stop_quiesce env md).log = md.log ++ cldma_stop_calls ∧
    (t7xx_cldma_stop_quiesce env md).tick = md.tick := by
  unfold t7xx_cldma_stop_quiesce
  simp [cldma_ctrl.emit, h, cldma_stop_calls]

theorem stop_early (env : cldma_env) (md : cldma_ctrl) (h : md.is_late_init = false) :
    (t7xx_cldma_stop env md).1 = (if (t7xx_cldma_stop_poll env
        (CHECK_Q_STOP_TIMEOUT_US / (CHECK_Q_STOP_STEP_US / 4 + 1) + 1) md).1 = false
      then 0 else -ETIMEDOUT) ∧
    (t7xx_cldma_stop env md).2.log = md.log ++ cldma_stop_calls ++
      (if (t7xx_cldma_stop env md).1 = 0 then [] else [cldma_event.dev_err_could_not_stop]) := by
  obtain ⟨hl, ht⟩ := stop_quiesce_early env md h
  obtain ⟨hp1, hp2⟩ := stop_poll_tick env
    (CHECK_Q_STOP_TIMEOUT_US / (CHECK_Q_STOP_STEP_US / 4 + 1) + 1) (t7xx_cldma_stop_quiesce env md)
    md ht
  unfold t7xx_cldma_stop
  simp only []
  rw [← hp1]
  rw [hl] at hp2
  generalize t7xx_cldma_stop_poll env
    (CHECK_Q_STOP_TIMEOUT_US / (CHECK_Q_STOP_STEP_US / 4 + 1) + 1)
    (t7xx_cldma_stop_quiesce env md) = P at hp2 ⊢
  obtain ⟨b, m⟩ := P
  cases b
  · simp only [Bool.not_false, if_true, ne_eq, not_true, if_false]
    simpa using hp2
  · have hne : (-ETIMEDOUT : Int) ≠ 0 := by decide
    simp only [Bool.not_true, Bool.false_eq_true, if_false, ne_eq, hne, not_false_eq_true, if_true]
    have hp3 : m.log = md.log ++ cldma_stop_calls := hp2
    simp [cldma_ctrl.emit, hp3]

theorem add_skb_payloads_fails (env : dpmaif_env) (q : Nat) (skb : sk_buff) (pc : Nat) :
    ∀ (ps : List (Nat × Bool)) (wr_cnt cur : Nat) (last : Bool) (c : dpmaif_ctrl)
      (txq : dpmaif_tx_queue),
      c.txq[q]? = some txq →
      (∃ j, j < ps.length ∧ dma_mapping_error (env.dma_map_single (c.tick + j)) = true) →
      ∃ c1, t7xx_dpmaif_add_skb_payloads env q skb pc ps wr_cnt cur last c = some (-ENOMEM, c1) ∧
        c1.log = c.log ++ [dpmaif_event.dev_err_dma_mapping_fail] := by
  intro ps
  induction ps with
  | nil =>
    intro wr_cnt cur last c txq _ hj
    obtain ⟨j, hj, _⟩ := hj
    simp at hj
  | cons piece rest ih =>
    intro wr_cnt cur last c txq hq hj
    obtain ⟨data_len, is_frag⟩ := piece
    have hqlt : q < c.txq.length := (List.getElem?_eq_some_iff.1 hq).1
    unfold t7xx_dpmaif_add_skb_payloads
    simp only []
    generalize (if wr_cnt = pc - 1 then true else last) = l1
    by_cases hmap : dma_mapping_error (env.dma_map_single c.tick) = true
    · rw [if_pos hmap]
      exact ⟨_, rfl, rfl⟩
    · rw [if_neg hmap]
      have hqa : c.asked.txq[q]? = some txq := hq
      simp only [hqa]
      obtain ⟨j, hjl, hjm⟩ := hj
      have hj0 : j ≠ 0 := by
        intro h0
        rw [h0, Nat.add_zero] at hjm
        exact hmap hjm
      obtain ⟨k, rfl⟩ := Nat.exists_eq_succ_of_ne_zero hj0
      have hq1 := dpmaif_set_txq_get c.asked q
        (t7xx_record_drb_skb
          (t7xx_setup_payload_drb txq cur (env.dma_map_single c.tick) data_len l1) cur skb false
          is_frag l1 (env.dma_map_single c.tick) data_len) hqlt
      obtain ⟨c1, h1, h2⟩ := ih (wr_cnt + 1) _ l1 _ _ hq1
        ⟨k, by simpa using hjl, by
          have : (c.asked.set_txq q (t7xx_record_drb_skb
              (t7xx_setup_payload_drb txq cur (env.dma_map_single c.tick) data_len l1) cur skb
              false is_frag l1 (env.dma_map_single c.tick) data_len)).tick + k =
              c.tick + (k + 1) := by
            show c.tick + 1 + k = c.tick + (k + 1)
            omega
          rw [this]; exact hjm⟩
      exact ⟨c1, h1, h2⟩

theorem add_skb_to_ring_fails (env : dpmaif_env) (c : dpmaif_ctrl) (skb : sk_buff)
    (txq : dpmaif_tx_queue)
    (hq : c.txq[skb.cb_qtype]? = some txq) (hstart : txq.que_started = true)
    (hstate : c.state = dpmaif_state.DPMAIF_STATE_PWRON)
    (hfail : ∃ j, j ≤ skb.frags.length ∧
      dma_mapping_error (env.dma_map_single (c.tick + j)) = true) :
    ∃ (c1 : dpmaif_ctrl) (txq1 : dpmaif_tx_queue),
      t7xx_dpmaif_add_skb_to_ring env c skb = some (-ENOMEM, c1) ∧
      c1.txq[skb.cb_qtype]? = some txq1 ∧
      txq1.drb_wr_idx = txq.drb_wr_idx ∧ txq1.tx_budget = txq.tx_budget ∧
      txq1.tx_skb_queue = txq.tx_skb_queue ∧ txq1.tx_submit_skb_cnt = txq.tx_submit_skb_cnt ∧
      txq1.drb_release_rd_idx = txq.drb_release_rd_idx ∧ txq1.drb_size_cnt = txq.drb_size_cnt ∧
      txq1.drb_lack = txq.drb_lack ∧
      c1.log = c.log ++ (if skb.frag_list then [dpmaif_event.dev_warn_frag_list] else []) ++
        [dpmaif_event.dev_err_dma_mapping_fail] := by
  have hqlt : skb.cb_qtype < c.txq.length := (List.getElem?_eq_some_iff.1 hq).1
  have hex : ∃ c1, t7xx_dpmaif_add_skb_to_ring env c skb = some (-ENOMEM, c1) ∧
      c1.log = c.log ++ (if skb.frag_list then [dpmaif_event.dev_warn_frag_list] else []) ++
        [dpmaif_event.dev_err_dma_mapping_fail] := by
    unfold t7xx_dpmaif_add_skb_to_ring
    simp only [hq]
    have hdead : ¬ ((!txq.que_started) = true ∨ c.state ≠ dpmaif_state.DPMAIF_STATE_PWRON) := by
      simp [hstart, hstate]
    rw [if_neg hdead]
    generalize hc0 : (if skb.frag_list = true then c.emit dpmaif_event.dev_warn_frag_list else c) = c0
    have hc0txq : c0.txq = c.txq := by rw [← hc0]; split_ifs <;> rfl
    have hc0tick : c0.tick = c.tick := by rw [← hc0]; split_ifs <;> rfl
    have hc0log : c0.log =
        c.log ++ (if skb.frag_list then [dpmaif_event.dev_warn_frag_list] else []) := by
      rw [← hc0]; split_ifs <;> simp [dpmaif_ctrl.emit]
    generalize (if txq.drb_size_cnt ≤ (txq.drb_wr_idx + (skb.frags.length + 1 + 1)) % 65536 then
        ((txq.drb_wr_idx + (skb.frags.length + 1 + 1)) % 65536 + 65536 - txq.drb_size_cnt % 65536) % 65536
      else (txq.drb_wr_idx + (skb.frags.length + 1 + 1)) % 65536) = wr
    generalize t7xx_record_drb_skb
      (t7xx_setup_msg_drb { txq with tx_processing := 1, drb_wr_idx := wr } txq.drb_wr_idx skb.len 0
        skb.cb_netif_idx) txq.drb_wr_idx skb true false false 0 0 = tm
    have hqm : (c0.set_txq skb.cb_qtype tm).txq[skb.cb_qtype]? = some tm :=
      dpmaif_set_txq_get c0 _ tm (by rw [hc0txq]; exact hqlt)
    obtain ⟨j, hj, hjm⟩ := hfail
    obtain ⟨c2, hp, hlog2⟩ := add_skb_payloads_fails env skb.cb_qtype skb (skb.frags.length + 1)
      ((skb.headlen, false) :: List.map (fun size => (size, true)) skb.frags) 0
      (t7xx_ring_buf_get_next_wrdx tm.drb_size_cnt txq.drb_wr_idx % 65536) false
      (c0.set_txq skb.cb_qtype tm) tm hqm
      ⟨j, by simp; omega, by
        have : (c0.set_txq skb.cb_qtype tm).tick = c.tick := hc0tick
        rw [this]; exact hjm⟩
    obtain ⟨-, -, -, -, txq2, hq2, -⟩ :=
      add_skb_payloads_frame env _ skb _ _ _ _ _ _ tm _ c2 hqm hp
    rw [hp]
    simp only [hq2]
    have hneg : (-ENOMEM : Int) < 0 := by decide
    rw [if_pos hneg]
    refine ⟨_, rfl, ?_⟩
    show c2.log = _
    rw [hlog2]
    show c0.log ++ _ = _
    rw [hc0log]
  obtain ⟨c1, hrun, hlog⟩ := hex
  obtain ⟨-, -, -, -, txq1, hq1, heq, hneg, -⟩ := add_skb_to_ring_frame env c skb txq _ c1 hq hrun
  obtain ⟨hb, hw⟩ := hneg (by decide)
  refine ⟨c1, txq1, hrun, hq1, hw, hb, ?_, ?_, ?_, ?_, ?_, hlog⟩ <;> rw [heq]

/-- C22: let a packet be at the head of the pending list of its started queue,
with the block powered on and room for its descriptors in the ring, and let the
DMA mapping of one of its payload pieces fail. Then
`t7xx_dpmaif_add_skb_to_ring` returns `-ENOMEM` with `drb_wr_idx` and
`tx_budget` as before the call, and `t7xx_txq_burst_send_skb` returns
`-ENOMEM` with the pending list, `tx_submit_skb_cnt`, `drb_wr_idx` and
`tx_budget` as before, `drb_lack` set and no packet freed: the packet stays at
the head of the list, where the next burst takes it up again. -/
theorem dpmaif_mapping_failure_keeps_packet_pending (env : dpmaif_env) (c : dpmaif_ctrl)
    (skb : sk_buff) (rest : List sk_buff) (txq : dpmaif_tx_queue)
    (hq : c.txq[skb.cb_qtype]? = some txq) (hstart : txq.que_started = true)
    (hstate : c.state = dpmaif_state.DPMAIF_STATE_PWRON)
    (hfail : ∃ j, j ≤ skb.frags.length ∧
      dma_mapping_error (env.dma_map_single (c.tick + j)) = true)
    (hhead : txq.tx_skb_queue = skb :: rest)
    (hroom : skb.cb_drb_cnt ≤ t7xx_ring_buf_rd_wr_count txq.drb_size_cnt txq.drb_release_rd_idx
      txq.drb_wr_idx dpmaif_rdwr.DPMAIF_WRITE) :
    (∃ (c1 : dpmaif_ctrl) (txq1 : dpmaif_tx_queue),
      t7xx_dpmaif_add_skb_to_ring env c skb = some (-ENOMEM, c1) ∧
      c1.txq[skb.cb_qtype]? = some txq1 ∧
      txq1.drb_wr_idx = txq.drb_wr_idx ∧ txq1.tx_budget = txq.tx_budget) ∧
    (∃ (c2 : dpmaif_ctrl) (txq2 : dpmaif_tx_queue),
      t7xx_txq_burst_send_skb env c skb.cb_qtype = some (-ENOMEM, c2) ∧
      c2.txq[skb.cb_qtype]? = some txq2 ∧
      txq2.tx_skb_queue = skb :: rest ∧ txq2.tx_submit_skb_cnt = txq.tx_submit_skb_cnt ∧
      txq2.drb_wr_idx = txq.drb_wr_idx ∧ txq2.tx_budget = txq.tx_budget ∧
      txq2.drb_lack = true ∧
      dpmaif_free_count c2.log = dpmaif_free_count c.log) := by
  obtain ⟨c1, txq1, hrun, hq1, hw, hb, hl, hs, hrel, hsz, hlack, hlog⟩ :=
    add_skb_to_ring_fails env c skb txq hq hstart hstate hfail
  have hq1lt : skb.cb_qtype < c1.txq.length := (List.getElem?_eq_some_iff.1 hq1).1
  refine ⟨⟨c1, txq1, hrun, hq1, hw, hb⟩, ?_⟩
  have hloop : t7xx_txq_burst_send_skb_loop env skb.cb_qtype DPMAIF_SKB_TX_BURST_CNT
      (t7xx_ring_buf_rd_wr_count txq.drb_size_cnt txq.drb_release_rd_idx txq.drb_wr_idx
        dpmaif_rdwr.DPMAIF_WRITE) 0 0 c =
      some (0, -ENOMEM, c1.emit (dpmaif_event.dev_err_add_skb_failed (-ENOMEM))) := by
    show t7xx_txq_burst_send_skb_loop env skb.cb_qtype (4 + 1) _ 0 0 c = _
    rw [t7xx_txq_burst_send_skb_loop]
    simp only [hq, hhead]
    have hr : ¬ ((t7xx_ring_buf_rd_wr_count txq.drb_size_cnt txq.drb_release_rd_idx
        txq.drb_wr_idx dpmaif_rdwr.DPMAIF_WRITE : Nat) : Int) < (skb.cb_drb_cnt : Int) := by
      omega
    rw [if_neg hr, hrun]
    simp only []
    rw [if_pos (by decide)]
  have hqe : (c1.emit (dpmaif_event.dev_err_add_skb_failed (-ENOMEM))).txq[skb.cb_qtype]? =
      some txq1 := hq1
  refine ⟨(c1.emit (dpmaif_event.dev_err_add_skb_failed (-ENOMEM))).set_txq skb.cb_qtype
    { txq1 with drb_lack := true }, { txq1 with drb_lack := true }, ?_,
    dpmaif_set_txq_get _ _ _ hq1lt, ?_, hs, hw, hb, rfl, ?_⟩
  · unfold t7xx_txq_burst_send_skb
    simp only [hq]
    rw [hloop]
    simp only [hqe]
    rw [if_neg (by decide)]
    exact if_pos trivial
  · show txq1.tx_skb_queue = _
    rw [hl, hhead]
  · show dpmaif_free_count (c1.log ++ [dpmaif_event.dev_err_add_skb_failed (-ENOMEM)]) = _
    rw [hlog, free_count_append, free_count_append, free_count_append]
    have h1 : dpmaif_free_count (if skb.frag_list then [dpmaif_event.dev_warn_frag_list] else [])
        = 0 := by
      split_ifs <;> rfl
    rw [h1]
    rfl

/-- Instance of C22: the packet `dpmaif_two_piece_skb` is pending on the fresh
queue 0 and the mapping of its page fragment fails. -/
theorem dpmaif_mapping_failure_keeps_packet_pending_witness :
    ∃ (c2 : dpmaif_ctrl) (txq2 : dpmaif_tx_queue),
      t7xx_txq_burst_send_skb dpmaif_env_second_map_fails dpmaif_two_piece_pending
        dpmaif_two_piece_skb.cb_qtype = some (-ENOMEM, c2) ∧
      c2.txq[dpmaif_two_piece_skb.cb_qtype]? = some txq2 ∧
      txq2.tx_skb_queue = dpmaif_two_piece_skb :: [] ∧
      txq2.tx_submit_skb_cnt =
        ({ dpmaif_fresh_txq 0 with tx_skb_queue := [dpmaif_two_piece_skb],
                                   tx_submit_skb_cnt := 1 } : dpmaif_tx_queue).tx_submit_skb_cnt ∧
      txq2.drb_wr_idx =
        ({ dpmaif_fresh_txq 0 with tx_skb_queue := [dpmaif_two_piece_skb],
                                   tx_submit_skb_cnt := 1 } : dpmaif_tx_queue).drb_wr_idx ∧
      txq2.tx_budget =
        ({ dpmaif_fresh_txq 0 with tx_skb_queue := [dpmaif_two_piece_skb],
                                   tx_submit_skb_cnt := 1 } : dpmaif_tx_queue).tx_budget ∧
      txq2.drb_lack = true ∧
      dpmaif_free_count c2.log = dpmaif_free_count dpmaif_two_piece_pending.log :=
  (dpmaif_mapping_failure_keeps_packet_pending dpmaif_env_second_map_fails
    dpmaif_two_piece_pending dpmaif_two_piece_skb []
    { dpmaif_fresh_txq 0 with tx_skb_queue := [dpmaif_two_piece_skb], tx_submit_skb_cnt := 1 }
    rfl rfl rfl ⟨1, by decide, by decide⟩ rfl (by decide)).2

/-- C23 (evaluation at the failing input): a packet with sequence number 9 on
channel `0x100A` reaches a port without `PORT_F_RX_ALLOW_DROP` whose last
sequence number is 5, and `recv_skb` fails with `-ENOBUFS`. The call returns
`-ENOBUFS`, the `bool` behind `drop_skb_on_err` is still false, so the packet
is neither stored nor dropped, and yet `seq_nums[MTK_RX]` of the port is 9
afterwards: the test `!ret || drop_skb_on_err` looks at the pointer, which is
never null, and not at the value it points to. -/
theorem port_dispatch_updates_seq_num_when_packet_is_kept :
    ∃ (port_prox1 : port_proxy) (port1 : t7xx_port),
      port_fixture.seq_nums_rx = 5 ∧
      port_fixture.flags &&& port_env_full.PORT_F_RX_ALLOW_DROP = 0 ∧
      t7xx_port_proxy_dispatch_recv_skb port_env_full port_proxy_fixture cldma_id.ID_CLDMA1
        (9 * 2 ^ 16 + 0x100A) { id := 1, len := 64 } (some false) =
          some (-ENOBUFS, some false, port_prox1) ∧
      port_prox1.rx_ch_ports[10]? = some [port1] ∧
      port1.seq_nums_rx = 9 ∧
      port_prox1.log = [port_event.recv_skb 0x100A { id := 1, len := 64 }] :=
  ⟨_, _, rfl, rfl, rfl, rfl, rfl, rfl⟩

theorem mdp_set_orientation_rotation (mask : Nat) (out : img_output) (r : Int)
    (hflip vflip : Bool) :
    (mdp_set_orientation mask out r hflip vflip).rotation =
      Int.tmod (if vflip then s32_wrap (r + 180) else r) 360 := by
  unfold mdp_set_orientation
  simp only []
  split_ifs <;> rfl

/-- C24: for every rotation `r` of 0, 90, 180 or 270 degrees, every pair of
flips, every flag mask and every output image, `mdp_set_orientation` sets
`rotation` to `(r + 180) % 360` when `vflip` is set and to `r % 360` otherwise,
a value among 0, 90, 180 and 270; every bit of `flags` that belongs to
`IMG_CTRL_FLAG_HFLIP` is set if and only if exactly one of `hflip` and `vflip`
is true, and every other bit of `flags` is as before; with both flips set the
result is a rotation by `(r + 180) % 360` with no flag bit set. -/
theorem mdp_set_orientation_folds_vflip_into_rotation
    (mask : Nat) (out : img_output) (r : Int) (hflip vflip : Bool)
    (hr : r = 0 ∨ r = 90 ∨ r = 180 ∨ r = 270) :
    (mdp_set_orientation mask out r hflip vflip).rotation =
        (if vflip then r + 180 else r) % 360 ∧
    ((mdp_set_orientation mask out r hflip vflip).rotation = 0 ∨
      (mdp_set_orientation mask out r hflip vflip).rotation = 90 ∨
      (mdp_set_orientation mask out r hflip vflip).rotation = 180 ∨
      (mdp_set_orientation mask out r hflip vflip).rotation = 270) ∧
    (∀ i : Nat, (mdp_set_orientation mask out r hflip vflip).flags.testBit i =
      if mask.testBit i then (hflip != vflip) else out.flags.testBit i) ∧
    (hflip = true → vflip = true →
      (mdp_set_orientation mask out r hflip vflip).rotation = (r + 180) % 360 ∧
      (mdp_set_orientation mask out r hflip vflip).flags &&& mask = 0) := by
  have hrot : (mdp_set_orientation mask out r hflip vflip).rotation =
      (if vflip then r + 180 else r) % 360 := by
    rw [mdp_set_orientation_rotation]
    rcases hr with h | h | h | h <;> subst h <;> cases vflip <;> decide
  have hbits : ∀ i : Nat, (mdp_set_orientation mask out r hflip vflip).flags.testBit i =
      if mask.testBit i then (hflip != vflip) else out.flags.testBit i := by
    intro i
    cases hflip <;> cases vflip <;>
      simp [mdp_set_orientation, Nat.testBit_or, Nat.testBit_xor, Nat.testBit_and] <;>
      cases mask.testBit i <;> cases out.flags.testBit i <;> rfl
  refine ⟨hrot, ?_, hbits, ?_⟩
  · rw [hrot]
    rcases hr with h | h | h | h <;> subst h <;> cases vflip <;> decide
  · intro h1 h2
    subst h1 h2
    refine ⟨hrot, ?_⟩
    apply Nat.eq_of_testBit_eq
    intro i
    rw [Nat.testBit_and, hbits i]
    cases mask.testBit i <;> simp

/-- Instance of C24: a rotation by 90 degrees with a vertical flip gives a
rotation by 270 degrees. -/
theorem mdp_set_orientation_folds_vflip_into_rotation_witness :
    ((90 : Int) = 0 ∨ (90 : Int) = 90 ∨ (90 : Int) = 180 ∨ (90 : Int) = 270) ∧
    (mdp_set_orientation 1 { rotation := 0, flags := 6 } 90 false true).rotation =
      (if true then (90 : Int) + 180 else 90) % 360 :=
  ⟨by decide, (mdp_set_orientation_folds_vflip_into_rotation 1 { rotation := 0, flags := 6 } 90
    false true (by decide)).1⟩

/-- C25 (evaluation at the failing input): the state reached from the reset
queue 0 by one `t7xx_cldma_send_skb` whose DMA mapping fails has `budget = 15`
and no ring entry that holds a packet, on a ring of 16 entries: the budget was
taken before the mapping was tried and is not given back. -/
theorem cldma_budget_leaks_on_mapping_failure :
    ∃ (md1 : cldma_ctrl) (q1 : cldma_queue),
      t7xx_cldma_send_skb 1 cldma_env_dma_fail cldma_fresh_ctrl 0 { id := 7, len := 64 } false =
        some (0, md1) ∧
      cldma_txq_reachable 0 md1 ∧
      md1.txq[0]? = some q1 ∧
      q1.budget = 15 ∧ cldma_ring_held q1 = 0 ∧ q1.tr_ring.gpd_ring.length = 16 ∧
      q1.budget + (cldma_ring_held q1 : Int) ≠ (q1.tr_ring.gpd_ring.length : Int) := by
  refine ⟨_, _, rfl, ?_, rfl, rfl, rfl, rfl, by decide⟩
  exact cldma_txq_reachable.submit 1 cldma_env_dma_fail cldma_fresh_ctrl 0 { id := 7, len := 64 }
    false 0 _ fresh_ctrl_reachable rfl

/-- C26 (evaluation at the failing input): when
`t7xx_pci_sleep_disable_complete` reports false, a non-blocking
`t7xx_cldma_send_skb` on the empty queue 0 returns `-EBUSY` although the packet
has been placed in the ring before the test: descriptor 0, empty before the
call, holds the packet and belongs to the hardware, `budget` has gone from 16
to 15 and `tx_xmit` from descriptor 0 to descriptor 1. -/
theorem cldma_send_skb_nonzero_return_with_packet_in_ring :
    ∃ (md1 : cldma_ctrl) (q0 q1 : cldma_queue) (r0 r1 : cldma_request),
      t7xx_cldma_send_skb 1 cldma_env_no_sleep_lock cldma_fresh_ctrl 0 { id := 7, len := 64 } false =
        some (-EBUSY, md1) ∧
      -EBUSY ≠ 0 ∧
      cldma_fresh_ctrl.txq[0]? = some q0 ∧ md1.txq[0]? = some q1 ∧
      q0.budget = 16 ∧ q1.budget = 15 ∧
      q0.tx_xmit = some 0 ∧ q1.tx_xmit = some 1 ∧
      q0.tr_ring.gpd_ring[0]? = some r0 ∧ r0.skb = none ∧ r0.gpd.flags.hwo = false ∧
      q1.tr_ring.gpd_ring[0]? = some r1 ∧ r1.skb = some { id := 7, len := 64 } ∧
      r1.gpd.flags.hwo = true :=
  ⟨_, _, _, _, _, rfl, by decide, rfl, rfl, rfl, rfl, rfl, rfl, rfl, rfl, rfl, rfl, rfl, rfl⟩

theorem release_loop_general (q n wr : Nat) (hn : n ≤ 32768) (hwr : wr < n) :
    ∀ (m j0 i : Nat) (last : Option dpmaif_drb) (c : dpmaif_ctrl) (txq : dpmaif_tx_queue),
      j0 + m ≤ n →
      c.txq[q]? = some txq →
      (∀ j, j0 ≤ j → j < j0 + m → ∃ d s,
        txq.drb_base[drb_pos n wr j]? = some d ∧ txq.drb_skb_base[drb_pos n wr j]? = some s ∧
        (d.dtyp = DES_DTYP_PD → d.cont = false → s.skb ≠ none)) →
      ∃ (last1 : Option dpmaif_drb) (c1 : dpmaif_ctrl) (txq1 : dpmaif_tx_queue),
        t7xx_dpmaif_release_tx_buffer_loop q n m i (drb_pos n wr j0) last c =
          some (i + m, drb_pos n wr (j0 + m), last1, c1) ∧
        c1.txq[q]? = some txq1 ∧
        txq1.drb_release_rd_idx = (if m = 0 then txq.drb_release_rd_idx else drb_pos n wr (j0 + m)) ∧
        txq1.tx_budget = txq.tx_budget + (m : Int) ∧
        txq1.drb_size_cnt = txq.drb_size_cnt ∧ txq1.drb_wr_idx = txq.drb_wr_idx ∧
        txq1.drb_rd_idx = txq.drb_rd_idx ∧ txq1.drb_base = txq.drb_base := by
  intro m
  induction m with
  | zero =>
    intro j0 i last c txq _ hq _
    exact ⟨last, c, txq, rfl, hq, rfl, by simp, rfl, rfl, rfl, rfl⟩
  | succ m ih =>
    intro j0 i last c txq hjm hq hdesc
    obtain ⟨d, s, hd, hs, hskb⟩ := hdesc j0 (le_refl _) (by omega)
    have hnext : t7xx_ring_buf_get_next_wrdx n (drb_pos n wr j0) % 65536 = drb_pos n wr (j0 + 1) :=
      next_wrdx_pos n wr j0 hwr (by omega) hn
    obtain ⟨c1, txq1, hiter, hq1, hrel1, hbud1, hsz1, hwr1, hrd1, hbase1, hskb1, -, -⟩ :=
      release_iter_spec q n (drb_pos n wr j0) c txq d s (s.skb.getD { id := 0, len := 0 }) hq hd hs
        (fun h1 h2 => by
          cases hsk : s.skb with
          | none => exact absurd hsk (hskb h1 h2)
          | some sk => rfl)
    rw [hnext] at hiter hrel1
    obtain ⟨last1, c2, txq2, hrun, hq2, hrel, hbud, hsz, hwri, hrdi, hbase⟩ :=
      ih (j0 + 1) (i + 1) (some d) c1 txq1 (by omega) hq1 (by
        intro j hj1 hj2
        obtain ⟨d2, s2, hd2, hs2, hskb2⟩ := hdesc j (by omega) (by omega)
        refine ⟨d2, s2, by rw [hbase1]; exact hd2, ?_, hskb2⟩
        rcases hskb1 with h | h
        · rw [h]; exact hs2
        · rw [h, List.getElem?_set_ne]
          · exact hs2
          · intro hc
            have := drb_pos_inj n wr j0 j hwr (by omega) (by omega) hc
            omega)
    refine ⟨last1, c2, txq2, ?_, hq2, ?_, ?_, by rw [hsz, hsz1], by rw [hwri, hwr1],
      by rw [hrdi, hrd1], by rw [hbase, hbase1]⟩
    · unfold t7xx_dpmaif_release_tx_buffer_loop
      simp only [hiter]
      rw [hrun]
      have e1 : i + 1 + m = i + (m + 1) := by omega
      have e2 : j0 + 1 + m = j0 + (m + 1) := by omega
      rw [e1, e2]
    · rw [hrel]
      simp only [Nat.succ_ne_zero, if_false]
      split_ifs with h0
      · subst h0; rw [hrel1]
      · congr 1; omega
    · rw [hbud, hbud1]; push_cast; ring

/-- C27, as amended: let `release_cnt` be at most the ring size, and let every
payload descriptor among the `release_cnt` positions from the release cursor on
that ends a packet (`cont` clear) have a packet recorded in its shadow entry.
Then `t7xx_dpmaif_release_tx_buffer` returns `release_cnt`, has moved
`drb_release_rd_idx` forward by `release_cnt` positions in ring order and has
raised `tx_budget` by `release_cnt`. -/
theorem dpmaif_release_count_is_cursor_advance (c : dpmaif_ctrl) (q release_cnt : Nat)
    (txq : dpmaif_tx_queue)
    (hq : c.txq[q]? = some txq)
    (hn : txq.drb_size_cnt ≤ 32768)
    (hrel : txq.drb_release_rd_idx < txq.drb_size_cnt)
    (hcnt : release_cnt ≤ txq.drb_size_cnt)
    (hdesc : ∀ j, j < release_cnt → ∃ d s,
      txq.drb_base[drb_pos txq.drb_size_cnt txq.drb_release_rd_idx j]? = some d ∧
      txq.drb_skb_base[drb_pos txq.drb_size_cnt txq.drb_release_rd_idx j]? = some s ∧
      (d.dtyp = DES_DTYP_PD → d.cont = false → s.skb ≠ none)) :
    ∃ (c1 : dpmaif_ctrl) (txq1 : dpmaif_tx_queue),
      t7xx_dpmaif_release_tx_buffer c q release_cnt = some (release_cnt, c1) ∧
      c1.txq[q]? = some txq1 ∧
      txq1.drb_release_rd_idx = (txq.drb_release_rd_idx + release_cnt) % txq.drb_size_cnt ∧
      txq1.tx_budget = txq.tx_budget + (release_cnt : Int) := by
  obtain ⟨last1, c1, txq1, hrun, hq1, hrel1, hbud, -, -, -, -⟩ :=
    release_loop_general q txq.drb_size_cnt txq.drb_release_rd_idx hn hrel release_cnt 0 0 none c txq
      (by omega) hq (fun j _ hj => hdesc j (by omega))
  rw [drb_pos_zero _ _ hrel] at hrun
  simp only [Nat.zero_add] at hrun hrel1
  have hmod : release_cnt % 65536 = release_cnt := Nat.mod_eq_of_lt (by omega)
  have hpos : txq1.drb_release_rd_idx =
      (txq.drb_release_rd_idx + release_cnt) % txq.drb_size_cnt := by
    rw [hrel1, ← drb_pos_eq_mod _ _ _ hrel hcnt]
    split_ifs with h0
    · subst h0; rw [drb_pos_zero _ _ hrel]
    · rfl
  unfold t7xx_dpmaif_release_tx_buffer
  simp only [hq, hrun, hmod]
  cases last1 with
  | none => exact ⟨_, txq1, rfl, hq1, hpos, hbud⟩
  | some d =>
    by_cases hc : d.cont = true
    · simp only [hc, if_true]
      exact ⟨_, txq1, rfl, hq1, hpos, hbud⟩
    · simp only [hc]
      exact ⟨_, txq1, rfl, hq1, hpos, hbud⟩

/-- Instance of C27 on `dpmaif_small_ring`: the two descriptors of its packet
are released. -/
theorem dpmaif_release_count_is_cursor_advance_witness :
    ∃ (c1 : dpmaif_ctrl) (txq1 : dpmaif_tx_queue),
      t7xx_dpmaif_release_tx_buffer dpmaif_small_ring 0 2 = some (2, c1) ∧
      c1.txq[0]? = some txq1 ∧
      txq1.drb_release_rd_idx =
        (dpmaif_small_txq.drb_release_rd_idx + 2) % dpmaif_small_txq.drb_size_cnt ∧
      txq1.tx_budget = dpmaif_small_txq.tx_budget + ((2 : Nat) : Int) :=
  dpmaif_release_count_is_cursor_advance dpmaif_small_ring 0 2 dpmaif_small_txq
    rfl (by decide) (by decide) (by decide)
    (fun j hj => by
      have hj2 : j = 0 ∨ j = 1 := by omega
      rcases hj2 with h | h <;> subst h
      · exact ⟨_, _, rfl, rfl, by decide⟩
      · exact ⟨_, _, rfl, rfl, by decide⟩)

/-- C27, counterexample: the release cursor of a ring of four descriptors
stands on a payload descriptor that ends a packet and has no packet recorded.
`t7xx_dpmaif_release_tx_buffer` with `release_cnt = 3` reports the descriptor
on each of its three passes and returns 3, while `drb_release_rd_idx` is still
0 and `tx_budget` is still 1. -/
theorem dpmaif_release_counts_passes_over_null_skb :
    ∃ (c1 : dpmaif_ctrl) (txq0 txq1 : dpmaif_tx_queue) (d : dpmaif_drb) (s : dpmaif_drb_skb),
      dpmaif_null_skb_ring.txq[0]? = some txq0 ∧
      txq0.drb_base[0]? = some d ∧ d.dtyp = DES_DTYP_PD ∧ d.cont = false ∧
      txq0.drb_skb_base[0]? = some s ∧ s.skb = none ∧
      t7xx_dpmaif_release_tx_buffer dpmaif_null_skb_ring 0 3 = some (3, c1) ∧
      c1.txq[0]? = some txq1 ∧
      txq1.drb_release_rd_idx = txq0.drb_release_rd_idx ∧
      txq1.tx_budget = txq0.tx_budget ∧
      c1.log = [dpmaif_event.dma_unmap_single 0 0, dpmaif_event.dev_err_invalid_skb 0,
                dpmaif_event.dma_unmap_single 0 0, dpmaif_event.dev_err_invalid_skb 0,
                dpmaif_event.dma_unmap_single 0 0, dpmaif_event.dev_err_invalid_skb 0] :=
  ⟨_, _, _, _, _, rfl, rfl, rfl, rfl, rfl, rfl, rfl, rfl, rfl, rfl, rfl⟩

/-- C28 (evaluation at the failing input): with the hardware read-index
register at `h = 0x40000`, so that `h / 4 = 65536` is far beyond the ring size
6144, `t7xx_dpmaif_update_drb_rd_idx` on the started queue 0 with `drb_rd_idx =
5` does not return 0: the index is first cut to the 16 bits of the `unsigned
short new_hw_rd_idx`, which gives 0, the range check passes, `drb_rd_idx` is
set to 0 and the call returns `6144 - 5 + 0 = 6139`, without the
out-of-range report. -/
theorem dpmaif_update_drb_rd_idx_accepts_index_beyond_16_bits :
    DPMAIF_DRB_ENTRY_SIZE ≤ 0x40000 / DPMAIF_UL_DRB_ENTRY_WORD ∧
    ∃ (c1 : dpmaif_ctrl) (txq0 txq1 : dpmaif_tx_queue),
      (dpmaif_cursors_at 5).txq[0]? = some txq0 ∧ txq0.que_started = true ∧
      txq0.drb_rd_idx = 5 ∧
      t7xx_dpmaif_update_drb_rd_idx (dpmaif_env_ok 0x40000) (dpmaif_cursors_at 5) 0 =
        some (6139, c1) ∧
      c1.txq[0]? = some txq1 ∧ txq1.drb_rd_idx = 0 ∧ c1.log = [] :=
  ⟨by decide, _, _, _, rfl, rfl, rfl, rfl, rfl, rfl, rfl⟩

/-- C29 (evaluation at the failing input): with a payload of 73 bytes and
`data_length = 73`, `t7xx_parse_host_rt_data` looks at the runtime-feature
entry at offset 72, whose header of `sizeof_mtk_runtime_feature = 8` bytes ends
at offset 80, beyond `data_length`: the loop tests `offset < data_length` only.
The `support_info` byte at offset 73 and the `data_len` word at offsets 76 to
79 are read outside the payload, and the call ends with `-EINVAL`. -/
theorem parse_host_rt_data_reads_entry_header_past_data_length :
    hs2_short_payload.length = 73 ∧
    (t7xx_parse_host_rt_data (t7xx_modem_core_in md_state.MD_STATE_WAITING_FOR_HS2).core_md
        (t7xx_modem_core_in md_state.MD_STATE_WAITING_FOR_HS2) hs2_short_payload 73).2.log =
      [md_core_event.rt_feature_read 0 72] ∧
    (t7xx_parse_host_rt_data (t7xx_modem_core_in md_state.MD_STATE_WAITING_FOR_HS2).core_md
        (t7xx_modem_core_in md_state.MD_STATE_WAITING_FOR_HS2) hs2_short_payload 73).1 = -EINVAL ∧
    ¬ ((72 : Int) + (sizeof_mtk_runtime_feature : Int) ≤ 73) := by
  refine ⟨by decide, by decide, by decide, by decide⟩

theorem prepare_device_rt_data_loop_spec (data : List Nat) :
    ∀ (n i : Nat) (rt_data : List Nat) (packet_size : Nat),
      (t7xx_prepare_device_rt_data_loop data n i rt_data packet_size).2 =
          packet_size + sizeof_mtk_runtime_feature * n ∧
      (t7xx_prepare_device_rt_data_loop data n i rt_data packet_size).1.length =
          rt_data.length + sizeof_mtk_runtime_feature *
            ((List.range' i n).filter (fun (j : Nat) =>
              decide (byte_at data (4 + (j : Int)) &&& FEATURE_MSK ≠
                MTK_FEATURE_MUST_BE_SUPPORTED))).length := by
  intro n
  induction n with
  | zero => intro i rt_data packet_size; simp [t7xx_prepare_device_rt_data_loop]
  | succ n ih =>
    intro i rt_data packet_size
    unfold t7xx_prepare_device_rt_data_loop
    simp only []
    obtain ⟨h1, h2⟩ := ih (i + 1)
      (if (if byte_at data (4 + (i : Int)) &&& FEATURE_MSK = MTK_FEATURE_DOES_NOT_EXIST ∨
              byte_at data (4 + (i : Int)) &&& FEATURE_MSK = MTK_FEATURE_MUST_BE_SUPPORTED
            then byte_at data (4 + (i : Int)) else 0) &&& FEATURE_MSK ≠
            MTK_FEATURE_MUST_BE_SUPPORTED
        then rt_data ++ [i % 256,
          (if byte_at data (4 + (i : Int)) &&& FEATURE_MSK = MTK_FEATURE_DOES_NOT_EXIST ∨
              byte_at data (4 + (i : Int)) &&& FEATURE_MSK = MTK_FEATURE_MUST_BE_SUPPORTED
            then byte_at data (4 + (i : Int)) else 0), 0, 0, 0, 0, 0, 0]
        else rt_data)
      (packet_size + sizeof_mtk_runtime_feature)
    refine ⟨?_, ?_⟩
    · rw [h1]; simp only [sizeof_mtk_runtime_feature]; omega
    · rw [h2, List.range'_succ, List.filter_cons]
      generalize byte_at data (4 + (i : Int)) = f
      by_cases hm : f &&& FEATURE_MSK = MTK_FEATURE_MUST_BE_SUPPORTED
      · have hs : (if f &&& FEATURE_MSK = MTK_FEATURE_DOES_NOT_EXIST ∨
            f &&& FEATURE_MSK = MTK_FEATURE_MUST_BE_SUPPORTED then f else 0) = f :=
          if_pos (Or.inr hm)
        rw [hs, if_neg (not_not.2 hm)]
        have hd : decide (f &&& FEATURE_MSK ≠ MTK_FEATURE_MUST_BE_SUPPORTED) = false := by
          simp [hm]
        rw [hd]
        rfl
      · have hs : (if f &&& FEATURE_MSK = MTK_FEATURE_DOES_NOT_EXIST ∨
            f &&& FEATURE_MSK = MTK_FEATURE_MUST_BE_SUPPORTED then f else 0) &&& FEATURE_MSK ≠
            MTK_FEATURE_MUST_BE_SUPPORTED := by
          by_cases h0 : f &&& FEATURE_MSK = MTK_FEATURE_DOES_NOT_EXIST
          · rw [if_pos (Or.inl h0)]; exact hm
          · rw [if_neg (by tauto)]; decide
        rw [if_pos hs]
        have hd : decide (f &&& FEATURE_MSK ≠ MTK_FEATURE_MUST_BE_SUPPORTED) = true := by
          simp [hm]
        rw [hd]
        simp only [List.length_append, List.length_cons, List.length_nil, if_true,
          sizeof_mtk_runtime_feature]
        omega

theorem prepare_device_rt_data_spec
    (env : md_core_env) (md : t7xx_modem_core) (data : List Nat) (data_length : Int)
    (halloc : env.dev_alloc_skb md.tick = true)
    (hhead : le32_at data 0 = MD_FEATURE_QUERY_ID)
    (htail : le32_at data (4 + (FEATURE_COUNT : Int)) = MD_FEATURE_QUERY_ID) :
    ∃ (md1 : t7xx_modem_core) (msg : t7xx_ctrl_msg),
      t7xx_prepare_device_rt_data env md data data_length = (0, md1) ∧
      md1.log = md.log ++ [md_core_event.port_proxy_send_skb msg] ∧
      msg.ctrl_msg_id = CTL_ID_HS3_MSG ∧
      msg.data_length = sizeof_mtk_runtime_feature * FEATURE_COUNT ∧
      msg.packet_len =
        sizeof_mtk_runtime_feature * FEATURE_COUNT + sizeof_ctrl_msg_header + sizeof_ccci_header ∧
      msg.body.length = sizeof_mtk_runtime_feature *
        ((List.range FEATURE_COUNT).filter (fun (j : Nat) =>
          decide (byte_at data (4 + (j : Int)) &&& FEATURE_MSK ≠
            MTK_FEATURE_MUST_BE_SUPPORTED))).length := by
  obtain ⟨h1, h2⟩ := prepare_device_rt_data_loop_spec data FEATURE_COUNT 0 [] 0
  refine ⟨md.asked.emit (md_core_event.port_proxy_send_skb ⟨CTL_ID_HS3_MSG,
      (t7xx_prepare_device_rt_data_loop data FEATURE_COUNT 0 [] 0).2 % 2 ^ 32,
      ((t7xx_prepare_device_rt_data_loop data FEATURE_COUNT 0 [] 0).2 + sizeof_ctrl_msg_header +
        sizeof_ccci_header) % 2 ^ 32,
      (t7xx_prepare_device_rt_data_loop data FEATURE_COUNT 0 [] 0).1⟩),
    ⟨CTL_ID_HS3_MSG,
      (t7xx_prepare_device_rt_data_loop data FEATURE_COUNT 0 [] 0).2 % 2 ^ 32,
      ((t7xx_prepare_device_rt_data_loop data FEATURE_COUNT 0 [] 0).2 + sizeof_ctrl_msg_header +
        sizeof_ccci_header) % 2 ^ 32,
      (t7xx_prepare_device_rt_data_loop data FEATURE_COUNT 0 [] 0).1⟩, ?_, rfl, rfl, ?_, ?_, ?_⟩
  · unfold t7xx_prepare_device_rt_data
    simp only [halloc, hhead, htail]
    simp
  · show (t7xx_prepare_device_rt_data_loop data FEATURE_COUNT 0 [] 0).2 % 2 ^ 32 = _
    rw [h1]; decide
  · show ((t7xx_prepare_device_rt_data_loop data FEATURE_COUNT 0 [] 0).2 + sizeof_ctrl_msg_header +
      sizeof_ccci_header) % 2 ^ 32 = _
    rw [h1]; decide
  · show (t7xx_prepare_device_rt_data_loop data FEATURE_COUNT 0 [] 0).1.length = _
    rw [h2, List.range_eq_range']
    simp

/-- C30 (evaluation at the failing input): for the valid feature query
`hs2_payload MD_FEATURE_QUERY_ID`, in which feature 0 is marked
`MTK_FEATURE_MUST_BE_SUPPORTED`, `t7xx_prepare_device_rt_data` copies the
entries of the other 63 feature ids (504 bytes) into the body of the HS3
message but declares `data_length = 512` and `packet_len = 512 + 12 + 16 =
540`: `packet_size` grows on every pass of the loop, copied or not. -/
theorem prepare_device_rt_data_declares_more_than_it_wrote :
    ∃ (md1 : t7xx_modem_core) (msg : t7xx_ctrl_msg),
      t7xx_prepare_device_rt_data (md_core_env_of 0 [])
        (t7xx_modem_core_in md_state.MD_STATE_WAITING_FOR_HS2)
        (hs2_payload MD_FEATURE_QUERY_ID) 92 = (0, md1) ∧
      md1.log = [md_core_event.port_proxy_send_skb msg] ∧
      msg.ctrl_msg_id = CTL_ID_HS3_MSG ∧
      msg.data_length = 512 ∧
      msg.packet_len = 540 ∧
      msg.body.length = sizeof_mtk_runtime_feature * 63 ∧
      msg.data_length ≠ msg.body.length := by
  obtain ⟨md1, msg, hrun, hlog, hid, hdl, hpl, hbody⟩ :=
    prepare_device_rt_data_spec (md_core_env_of 0 [])
      (t7xx_modem_core_in md_state.MD_STATE_WAITING_FOR_HS2) (hs2_payload MD_FEATURE_QUERY_ID) 92
      rfl (by decide) (by decide)
  have hcount : ((List.range FEATURE_COUNT).filter (fun (j : Nat) =>
      decide (byte_at (hs2_payload MD_FEATURE_QUERY_ID) (4 + (j : Int)) &&& FEATURE_MSK ≠
        MTK_FEATURE_MUST_BE_SUPPORTED))).length = 63 := by decide
  rw [hcount] at hbody
  have hdl2 : msg.data_length = 512 := hdl
  have hb2 : msg.body.length = 504 := hbody
  exact ⟨md1, msg, hrun, hlog, hid, hdl, hpl, hbody, by omega⟩
end T7xx
